import Mathlib

/-!
# UVAtlasTool mesh buffer: a shallow embedding of `Mesh.cpp`

The C++ class `Mesh` (UVAtlasTool/Mesh.h, Mesh.cpp) is embedded as a record of
optional arrays with explicit state passing: every member function becomes a
function from the mesh before the call to the returned `HRESULT` and the mesh
after the call.

Conventions of the embedding
* `std::unique_ptr<T[]>` is `Option (List T)`; the null pointer is `none`.
* `size_t` and `uint64_t` are 64 bits wide; the products `n * 3` that the
  source computes in those types are taken modulo `2 ^ 64` (`mul3`).
* `uint32_t` and `uint16_t` values are natural numbers.
* `float` is an arbitrary type `F`; the mesh only stores and copies the values
  handled here.
* `new (std::nothrow)` may return null: `Env.oom k` tells whether the `k`-th
  allocation expression of the running member function (counted in source
  order, from 0) fails.  Freshly allocated arrays hold `default`.
* The DirectXMesh and UVAtlas library routines called by `Mesh` are fields of
  `Env`.
-/

namespace UVAtlas

/-! ## Result codes -/

/-- The Windows `HRESULT`: a signed 32-bit status, negative on failure. -/
abbrev HRESULT := Int

/-- Value of `S_OK` in winerror.h. -/
def S_OK : HRESULT := 0

/-- Value of `E_INVALIDARG` (0x80070057). -/
def E_INVALIDARG : HRESULT := -2147024809

/-- Value of `E_OUTOFMEMORY` (0x8007000E). -/
def E_OUTOFMEMORY : HRESULT := -2147024882

/-- Value of `E_UNEXPECTED` (0x8000FFFF). -/
def E_UNEXPECTED : HRESULT := -2147418113

/-- Value of `E_FAIL` (0x80004005). -/
def E_FAIL : HRESULT := -2147467259

/-- Value of `HRESULT_FROM_WIN32(ERROR_ARITHMETIC_OVERFLOW)` (0x80070216). -/
def ERROR_ARITHMETIC_OVERFLOW : HRESULT := -2147024362

/-- The `FAILED(hr)` test of winerror.h. -/
def FAILED (hr : HRESULT) : Bool := decide (hr < 0)

/-! ## Machine constants -/

/-- Largest `uint32_t`; also `uint32_t(-1)`, the "no vertex / no face" sentinel. -/
def UINT32_MAX : Nat := 4294967295

/-- Largest `uint16_t`; also `uint16_t(-1)`, the 16-bit sentinel. -/
def UINT16_MAX : Nat := 65535

/-- Number of values of a 64-bit `size_t` / `uint64_t`. -/
def SIZE_MOD : Nat := 18446744073709551616

/-- The unsigned 64-bit product `n * 3` (both `uint64_t(n) * 3` and the `size_t`
product `n * 3`). -/
def mul3 (n : Nat) : Nat := (n * 3) % SIZE_MOD

/-! ## Arrays -/

/-- The array read `p[j]`; reading past the end of the modelled array gives `default`. -/
def rd {α : Type} [Inhabited α] (p : List α) (j : Nat) : α := p.getD j default

/-- The first `n` elements behind a pointer. -/
def readN {α : Type} [Inhabited α] (p : List α) (n : Nat) : List α :=
  (List.range n).map (rd p)

/-- A fresh array `new T[n]`. -/
def alloc {α : Type} [Inhabited α] (n : Nat) : List α := List.replicate n default

/-- The call `memcpy(dst, src, sizeof(T) * n)`. -/
def memcpy {α : Type} [Inhabited α] (dst src : List α) (n : Nat) : List α :=
  readN src n ++ dst.drop n

/-- The DirectXMath vector of two floats. -/
structure XMFLOAT2 (F : Type) where
  x : F
  y : F
deriving DecidableEq, Repr, Inhabited

/-- The DirectXMath vector of three floats. -/
structure XMFLOAT3 (F : Type) where
  x : F
  y : F
  z : F
deriving DecidableEq, Repr, Inhabited

/-- The DirectXMath vector of four floats. -/
structure XMFLOAT4 (F : Type) where
  x : F
  y : F
  z : F
  w : F
deriving DecidableEq, Repr, Inhabited

/-! ## The mesh -/

/-- The data members of class `Mesh` (Mesh.h). -/
structure Mesh (F : Type) where
  mnFaces : Nat
  mnVerts : Nat
  mIndices : Option (List Nat)
  mAttributes : Option (List Nat)
  mAdjacency : Option (List Nat)
  mPositions : Option (List (XMFLOAT3 F))
  mNormals : Option (List (XMFLOAT3 F))
  mTangents : Option (List (XMFLOAT4 F))
  mBiTangents : Option (List (XMFLOAT3 F))
  mTexCoords : Option (List (XMFLOAT2 F))
  mColors : Option (List (XMFLOAT4 F))
  mBlendIndices : Option (List (XMFLOAT4 F))
  mBlendWeights : Option (List (XMFLOAT4 F))
deriving DecidableEq, Repr

/-- The constructor `Mesh() noexcept : mnFaces(0), mnVerts(0) {}`. -/
def Mesh.empty (F : Type) : Mesh F :=
  { mnFaces := 0, mnVerts := 0, mIndices := none, mAttributes := none, mAdjacency := none,
    mPositions := none, mNormals := none, mTangents := none, mBiTangents := none,
    mTexCoords := none, mColors := none, mBlendIndices := none, mBlendWeights := none }

/-! ## Collaborators -/

/-- What `DirectX::Clean` leaves behind: its status, the index buffer and adjacency it was
given (both updated in place) and the list of vertices to duplicate. -/
structure CleanResult where
  hr : HRESULT
  indices : List Nat
  adjacency : List Nat
  dups : List Nat

/-- What `DirectX::AttributeSort` leaves behind: its status, the attribute array it was
given (updated in place) and the face remap it wrote. -/
structure SortResult where
  hr : HRESULT
  attributes : List Nat
  faceRemap : List Nat

/-- What `DirectX::ReorderIBAndAdjacency` leaves behind: its status and the index buffer and
adjacency it was given (both updated in place). -/
structure ReorderResult where
  hr : HRESULT
  indices : List Nat
  adjacency : List Nat

/-- The vertex-stream semantic names used by the tool. -/
inductive Semantic where
  | POSITION | SV_Position | NORMAL | TANGENT | BINORMAL | TEXCOORD | COLOR | BLENDINDICES
  | BLENDWEIGHT
deriving DecidableEq, Repr

/-- What a `DirectX::VBReader` answers (semantic index 0 throughout). -/
structure VBReader (F : Type) where
  /-- Whether `reader.GetElement11(name, 0)` is non-null. -/
  GetElement11 : Semantic → Bool
  /-- The call `reader.Read(buffer, name, 0, count)` on an `XMFLOAT2` buffer: the status and
  the content of the buffer after the call. -/
  Read2 : Semantic → Nat → HRESULT × List (XMFLOAT2 F)
  /-- The same call on an `XMFLOAT3` buffer. -/
  Read3 : Semantic → Nat → HRESULT × List (XMFLOAT3 F)
  /-- The same call on an `XMFLOAT4` buffer. -/
  Read4 : Semantic → Nat → HRESULT × List (XMFLOAT4 F)

/-- The record `PlyReader::Vertex` (MeshPLY.cpp). -/
structure PlyVertex (F : Type) where
  position : XMFLOAT3 F
  normal : XMFLOAT3 F
  textureCoordinate : XMFLOAT2 F
deriving DecidableEq, Repr, Inhabited

/-- The members of `D3D11_INPUT_ELEMENT_DESC` that the layouts of `LoadFromPLY` vary. -/
structure InputElement where
  SemanticName : Semantic
  AlignedByteOffset : Nat
deriving DecidableEq, Repr

/-- What `VBReader::Initialize` followed by `VBReader::AddStream` leave behind: the two
statuses and the reader. -/
structure ReaderSetup (F : Type) where
  hrInit : HRESULT
  hrAdd : HRESULT
  reader : VBReader F

/-- What `DirectX::ComputeTangentFrame` leaves behind: its status and the content of the
tangent and bitangent buffers. -/
structure TangentResult (F : Type) where
  hr : HRESULT
  tangents : List (XMFLOAT4 F)
  bitangents : List (XMFLOAT3 F)

/-- The environment of a member-function call: the allocator and the library routines. -/
structure Env where
  /-- Whether allocation expression number `k` of the running call returns null. -/
  oom : Nat → Bool
  /-- The call `DirectX::Clean(indices, nFaces, nVerts, adjacency, attributes, dups, breakBowties)`. -/
  Clean : List Nat → Nat → Nat → Option (List Nat) → Option (List Nat) → Bool → CleanResult
  /-- The call `AttributeSort(nFaces, attributes, faceRemap)`. -/
  AttributeSort : Nat → List Nat → SortResult
  /-- The call `ReorderIB(indices, nFaces, faceRemap)`. -/
  ReorderIB : List Nat → Nat → List Nat → HRESULT × List Nat
  /-- The call `ReorderIBAndAdjacency(indices, nFaces, adjacency, faceRemap)`. -/
  ReorderIBAndAdjacency : List Nat → Nat → List Nat → List Nat → ReorderResult
  /-- The call `UVAtlasApplyRemap(vbin, stride, nVerts, nNewVerts, vertexRemap, vbout)`;
  the last argument is the content of `vbout` before the call. -/
  UVAtlasApplyRemap : {α : Type} → [Inhabited α] →
    List α → Nat → Nat → Nat → List Nat → List α → HRESULT × List α
  /-- The call `GenerateAdjacencyAndPointReps(indices, nFaces, positions, nVerts, epsilon,
  nullptr, adjacency)`; the last argument is the content of `adjacency` before the call, the
  result is the status and its content after the call. -/
  GenerateAdjacencyAndPointReps : {F : Type} → [Inhabited F] →
    List Nat → Nat → List (XMFLOAT3 F) → Nat → F → List Nat → HRESULT × List Nat
  /-- The call `DirectX::ComputeNormals(indices, nFaces, positions, nVerts, flags, normals)`;
  the last argument is the content of `normals` before the call. -/
  ComputeNormals : {F : Type} → [Inhabited F] →
    List Nat → Nat → List (XMFLOAT3 F) → Nat → Nat → List (XMFLOAT3 F) →
      HRESULT × List (XMFLOAT3 F)
  /-- The calls `DirectX::ComputeTangentFrame(indices, nFaces, positions, normals, texcoords,
  nVerts, tangents)` and `(..., tangents, bitangents)`; the flag tells which of the two. -/
  ComputeTangentFrame : {F : Type} → [Inhabited F] →
    List Nat → Nat → List (XMFLOAT3 F) → List (XMFLOAT3 F) → List (XMFLOAT2 F) → Nat → Bool →
      TangentResult F
  /-- The calls `vbr.Initialize(layout, nDecl)` and `vbr.AddStream(vertices, count, 0,
  sizeof(Vertex))` of `LoadFromPLY`. -/
  MakeVBReader : {F : Type} → [Inhabited F] →
    List InputElement → List (PlyVertex F) → ReaderSetup F

/-! ## Index data -/

/-- Loop body of `SetIndexData` (16-bit): `uint16_t(-1)` becomes `uint32_t(-1)`. -/
def widen16 (index : Nat) : Nat := if index = UINT16_MAX then UINT32_MAX else index

/-- The member `Mesh::SetIndexData(size_t, const uint16_t*, uint32_t*)`. -/
def SetIndexData16 {F : Type} (E : Env) (m : Mesh F) (nFaces : Nat)
    (indices : Option (List Nat)) (attributes : Option (List Nat)) : HRESULT × Mesh F :=
  match indices with
  | none => (E_INVALIDARG, m)
  | some indices =>
    if nFaces = 0 then (E_INVALIDARG, m)
    else if mul3 nFaces ≥ UINT32_MAX then (ERROR_ARITHMETIC_OVERFLOW, m)
    else
      let m1 := { m with mnFaces := 0, mIndices := none, mAttributes := none }
      if E.oom 0 then (E_OUTOFMEMORY, m1)
      else
        let ib := (List.range (mul3 nFaces)).map (fun j => widen16 (rd indices j))
        match attributes with
        | none => (S_OK, { m1 with mIndices := some ib, mAttributes := none, mnFaces := nFaces })
        | some attributes =>
          if E.oom 1 then (E_OUTOFMEMORY, m1)
          else
            (S_OK, { m1 with mIndices := some ib, mAttributes := some (readN attributes nFaces),
                             mnFaces := nFaces })

/-- The member `Mesh::SetIndexData(size_t, const uint32_t*, uint32_t*)`. -/
def SetIndexData32 {F : Type} (E : Env) (m : Mesh F) (nFaces : Nat)
    (indices : Option (List Nat)) (attributes : Option (List Nat)) : HRESULT × Mesh F :=
  match indices with
  | none => (E_INVALIDARG, m)
  | some indices =>
    if nFaces = 0 then (E_INVALIDARG, m)
    else if mul3 nFaces ≥ UINT32_MAX then (ERROR_ARITHMETIC_OVERFLOW, m)
    else
      let m1 := { m with mnFaces := 0, mIndices := none, mAttributes := none }
      if E.oom 0 then (E_OUTOFMEMORY, m1)
      else
        let ib := readN indices (mul3 nFaces)
        match attributes with
        | none => (S_OK, { m1 with mIndices := some ib, mAttributes := none, mnFaces := nFaces })
        | some attributes =>
          if E.oom 1 then (E_OUTOFMEMORY, m1)
          else
            (S_OK, { m1 with mIndices := some ib, mAttributes := some (readN attributes nFaces),
                             mnFaces := nFaces })

/-- The member `Mesh::UpdateFaces`. -/
def UpdateFaces {F : Type} (m : Mesh F) (nFaces : Nat) (indices : Option (List Nat)) :
    HRESULT × Mesh F :=
  match indices with
  | none => (E_INVALIDARG, m)
  | some indices =>
    if nFaces = 0 then (E_INVALIDARG, m)
    else
      match m.mIndices with
      | none => (E_UNEXPECTED, m)
      | some ib =>
        if m.mnFaces = 0 then (E_UNEXPECTED, m)
        else if m.mnFaces ≠ nFaces then (E_FAIL, m)
        else if mul3 nFaces ≥ UINT32_MAX then (ERROR_ARITHMETIC_OVERFLOW, m)
        else (S_OK, { m with mIndices := some (memcpy ib indices (mul3 nFaces)) })

/-! ## Index-buffer width -/

/-- The loop test of `Is16BitIndexBuffer`: the index is neither the sentinel nor small. -/
def tooWide (index : Nat) : Bool := index != UINT32_MAX && decide (index ≥ UINT16_MAX)

/-- The member `Mesh::Is16BitIndexBuffer`. -/
def Is16BitIndexBuffer {F : Type} (m : Mesh F) : Bool :=
  match m.mIndices with
  | none => false
  | some ib =>
    if m.mnFaces = 0 then false
    else if mul3 m.mnFaces ≥ UINT32_MAX then false
    else (List.range (mul3 m.mnFaces)).all (fun j => !tooWide (rd ib j))

/-- Loop body of `GetIndexBuffer16`: the 16-bit value stored for one index, or `none` where
the loop resets the buffer and returns. -/
def narrow16 (index : Nat) : Option Nat :=
  if index = UINT32_MAX then some UINT16_MAX
  else if index ≥ UINT16_MAX then none
  else some (index % 65536)

/-- The loop of `GetIndexBuffer16` over the indices still to convert. -/
def narrowLoop : List Nat → Option (List Nat)
  | [] => some []
  | index :: rest =>
    match narrow16 index with
    | none => none
    | some v =>
      match narrowLoop rest with
      | none => none
      | some vs => some (v :: vs)

/-- The member `Mesh::GetIndexBuffer16`; the mesh is `const` and is not returned. -/
def GetIndexBuffer16 {F : Type} (E : Env) (m : Mesh F) : Option (List Nat) :=
  match m.mIndices with
  | none => none
  | some ib =>
    if m.mnFaces = 0 then none
    else if mul3 m.mnFaces ≥ UINT32_MAX then none
    else if E.oom 0 then none
    else narrowLoop (readN ib (mul3 m.mnFaces))

/-! ## Clean -/

/-- One allocation block of `Clean`: when the member array is present, a new array of
`nNewVerts` entries is allocated and the first `nVerts` entries are copied into it. -/
def growCopy {α : Type} [Inhabited α] (E : Env) (site : Nat) (src : Option (List α))
    (nVerts nNewVerts : Nat) : Except HRESULT (Option (List α)) :=
  match src with
  | none => .ok none
  | some s =>
    if E.oom site then .error E_OUTOFMEMORY
    else .ok (some (memcpy (alloc nNewVerts) s nVerts))

/-- The duplication loop of `Clean` on one array: `dst[j] = src[*it]` while `it` runs over
`dups` and `j < nNewVerts`. -/
def dupLoop {α : Type} [Inhabited α] (src : List α) :
    List Nat → Nat → Nat → List α → List α
  | [], _, _, dst => dst
  | it :: rest, j, nNewVerts, dst =>
    if j < nNewVerts then dupLoop src rest (j + 1) nNewVerts (dst.set j (rd src it)) else dst

/-- The duplication loop on an array that may be absent (`if (norms) norms[j] = mNormals[*it]`). -/
def dupOptional {α : Type} [Inhabited α] (src dst : Option (List α)) (dups : List Nat)
    (j nNewVerts : Nat) : Option (List α) :=
  match src, dst with
  | some s, some d => some (dupLoop s dups j nNewVerts d)
  | _, _ => dst

/-- The allocation blocks and the duplication loop of `Clean`, up to the final swaps:
`m` is the mesh before the call, `m1` the mesh after the external cleaner ran. -/
def cleanGrow {F : Type} [Inhabited F] (E : Env) (m m1 : Mesh F) (dups : List Nat) :
    Except HRESULT (Mesh F) := do
  let nNewVerts := m.mnVerts + dups.length
  let pos ← growCopy E 0 m.mPositions m.mnVerts nNewVerts
  let norms ← growCopy E 1 m.mNormals m.mnVerts nNewVerts
  let tans1 ← growCopy E 2 m.mTangents m.mnVerts nNewVerts
  let tans2 ← growCopy E 3 m.mBiTangents m.mnVerts nNewVerts
  let texcoord ← growCopy E 4 m.mTexCoords m.mnVerts nNewVerts
  let colors ← growCopy E 5 m.mColors m.mnVerts nNewVerts
  let blendIndices ← growCopy E 6 m.mBlendIndices m.mnVerts nNewVerts
  let blendWeights ← growCopy E 7 m.mBlendWeights m.mnVerts nNewVerts
  pure { m1 with
    mPositions := dupOptional m.mPositions pos dups m.mnVerts nNewVerts,
    mNormals := dupOptional m.mNormals norms dups m.mnVerts nNewVerts,
    mTangents := dupOptional m.mTangents tans1 dups m.mnVerts nNewVerts,
    mBiTangents := dupOptional m.mBiTangents tans2 dups m.mnVerts nNewVerts,
    mTexCoords := dupOptional m.mTexCoords texcoord dups m.mnVerts nNewVerts,
    mColors := dupOptional m.mColors colors dups m.mnVerts nNewVerts,
    mBlendIndices := dupOptional m.mBlendIndices blendIndices dups m.mnVerts nNewVerts,
    mBlendWeights := dupOptional m.mBlendWeights blendWeights dups m.mnVerts nNewVerts,
    mnVerts := nNewVerts }

/-- The member `Mesh::Clean`. -/
def Clean {F : Type} [Inhabited F] (E : Env) (m : Mesh F) (breakBowties : Bool) :
    HRESULT × Mesh F :=
  match m.mIndices, m.mPositions with
  | some ib, some _ =>
    if m.mnFaces = 0 ∨ m.mnVerts = 0 then (E_UNEXPECTED, m)
    else
      let r := E.Clean ib m.mnFaces m.mnVerts m.mAdjacency m.mAttributes breakBowties
      let m1 := { m with mIndices := some r.indices,
                         mAdjacency := m.mAdjacency.map (fun _ => r.adjacency) }
      if FAILED r.hr then (r.hr, m1)
      else if r.dups.isEmpty then (S_OK, m1)
      else
        match cleanGrow E m m1 r.dups with
        | .error hr => (hr, m1)
        | .ok m2 => (S_OK, m2)
  | _, _ => (E_UNEXPECTED, m)

/-! ## UpdateAttributes -/

/-- The first block of `UpdateAttributes`: the content of `mAttributes` once the input has
been copied, into a new array when the member was absent and over the old one otherwise. -/
def storeAttributes (E : Env) (old : Option (List Nat)) (attributes : List Nat)
    (nFaces : Nat) : Except HRESULT (List Nat) :=
  match old with
  | none => if E.oom 0 then .error E_OUTOFMEMORY else .ok (readN attributes nFaces)
  | some old => .ok (memcpy old attributes nFaces)

/-- The member `Mesh::UpdateAttributes`. -/
def UpdateAttributes {F : Type} (E : Env) (m : Mesh F) (nFaces : Nat)
    (attributes : Option (List Nat)) : HRESULT × Mesh F :=
  match attributes with
  | none => (E_INVALIDARG, m)
  | some attributes =>
    if nFaces = 0 then (E_INVALIDARG, m)
    else
      match m.mIndices, m.mPositions with
      | some ib, some _ =>
        if m.mnFaces = 0 ∨ m.mnVerts = 0 then (E_UNEXPECTED, m)
        else if m.mnFaces ≠ nFaces then (E_FAIL, m)
        else
          match storeAttributes E m.mAttributes attributes nFaces with
          | .error hr => (hr, m)
          | .ok attr =>
            let m1 := { m with mAttributes := some attr }
            if E.oom 1 then (E_OUTOFMEMORY, m1)
            else
              let s := E.AttributeSort m.mnFaces attr
              let m2 := { m1 with mAttributes := some s.attributes }
              if FAILED s.hr then (s.hr, m2)
              else
                match m.mAdjacency with
                | some adj =>
                  let r := E.ReorderIBAndAdjacency ib m.mnFaces adj s.faceRemap
                  let m3 := { m2 with mIndices := some r.indices, mAdjacency := some r.adjacency }
                  if FAILED r.hr then (r.hr, m3) else (S_OK, m3)
                | none =>
                  let r := E.ReorderIB ib m.mnFaces s.faceRemap
                  let m3 := { m2 with mIndices := some r.2 }
                  if FAILED r.1 then (r.1, m3) else (S_OK, m3)
      | _, _ => (E_UNEXPECTED, m)

/-! ## VertexRemap -/

/-- One block of `VertexRemap`: when the member array is present, a new array of `nNewVerts`
entries is allocated and filled by `UVAtlasApplyRemap`. -/
def remapCopy {α : Type} [Inhabited α] (E : Env) (site : Nat) (src : Option (List α))
    (stride nVerts nNewVerts : Nat) (remap : List Nat) : Except HRESULT (Option (List α)) :=
  match src with
  | none => .ok none
  | some s =>
    if E.oom site then .error E_OUTOFMEMORY
    else
      let r := E.UVAtlasApplyRemap s stride nVerts nNewVerts remap (alloc nNewVerts)
      if FAILED r.1 then .error r.1 else .ok (some r.2)

/-- The allocation and remap blocks of `VertexRemap`, up to the final swaps. -/
def remapAll {F : Type} [Inhabited F] (E : Env) (m : Mesh F) (remap : List Nat)
    (nNewVerts : Nat) : Except HRESULT (Mesh F) := do
  let pos ← remapCopy E 0 m.mPositions 12 m.mnVerts nNewVerts remap
  let norms ← remapCopy E 1 m.mNormals 12 m.mnVerts nNewVerts remap
  let tans1 ← remapCopy E 2 m.mTangents 16 m.mnVerts nNewVerts remap
  let tans2 ← remapCopy E 3 m.mBiTangents 12 m.mnVerts nNewVerts remap
  let texcoord ← remapCopy E 4 m.mTexCoords 8 m.mnVerts nNewVerts remap
  let colors ← remapCopy E 5 m.mColors 16 m.mnVerts nNewVerts remap
  let blendIndices ← remapCopy E 6 m.mBlendIndices 16 m.mnVerts nNewVerts remap
  let blendWeights ← remapCopy E 7 m.mBlendWeights 16 m.mnVerts nNewVerts remap
  pure { m with
    mPositions := pos, mNormals := norms, mTangents := tans1, mBiTangents := tans2,
    mTexCoords := texcoord, mColors := colors, mBlendIndices := blendIndices,
    mBlendWeights := blendWeights, mnVerts := nNewVerts }

/-- The member `Mesh::VertexRemap`. -/
def VertexRemap {F : Type} [Inhabited F] (E : Env) (m : Mesh F) (remap : Option (List Nat))
    (nNewVerts : Nat) : HRESULT × Mesh F :=
  match remap with
  | none => (E_INVALIDARG, m)
  | some remap =>
    if nNewVerts = 0 then (E_INVALIDARG, m)
    else
      match m.mPositions with
      | none => (E_UNEXPECTED, m)
      | some _ =>
        if m.mnVerts = 0 then (E_UNEXPECTED, m)
        else if nNewVerts < m.mnVerts then (E_FAIL, m)
        else
          match remapAll E m remap nNewVerts with
          | .error hr => (hr, m)
          | .ok m2 => (S_OK, m2)

/-! ## Clear, vertex data and the generators -/

/-- The member `Mesh::Clear`. -/
def Clear {F : Type} (_m : Mesh F) : Mesh F := Mesh.empty F

/-- One stream of `SetVertexData`: when the reader declares the stream, an array of `nVerts`
entries is allocated and filled by `reader.Read`; `result` is what that call answers. -/
def readStream {α : Type} [Inhabited α] (E : Env) (site : Nat) (declared : Bool)
    (result : HRESULT × List α) (nVerts : Nat) : Except HRESULT (Option (List α)) :=
  if declared then
    if E.oom site then .error E_OUTOFMEMORY
    else if FAILED result.1 then .error result.1
    else .ok (some (readN result.2 nVerts))
  else .ok none

/-- The streams of `SetVertexData`, up to the final swaps; `m0` is the mesh with its vertex
data released. -/
def loadStreams {F : Type} [Inhabited F] (E : Env) (m0 : Mesh F) (reader : VBReader F)
    (nVerts : Nat) : Except HRESULT (Mesh F) := do
  let pos ← readStream E 0 true (reader.Read3 .SV_Position nVerts) nVerts
  let norms ← readStream E 1 (reader.GetElement11 .NORMAL) (reader.Read3 .NORMAL nVerts) nVerts
  let tans1 ← readStream E 2 (reader.GetElement11 .TANGENT) (reader.Read4 .TANGENT nVerts) nVerts
  let tans2 ← readStream E 3 (reader.GetElement11 .BINORMAL) (reader.Read3 .BINORMAL nVerts)
    nVerts
  let texcoord ← readStream E 4 (reader.GetElement11 .TEXCOORD) (reader.Read2 .TEXCOORD nVerts)
    nVerts
  let colors ← readStream E 5 (reader.GetElement11 .COLOR) (reader.Read4 .COLOR nVerts) nVerts
  let blendIndices ← readStream E 6 (reader.GetElement11 .BLENDINDICES)
    (reader.Read4 .BLENDINDICES nVerts) nVerts
  let blendWeights ← readStream E 7 (reader.GetElement11 .BLENDWEIGHT)
    (reader.Read4 .BLENDWEIGHT nVerts) nVerts
  pure { m0 with
    mPositions := pos, mNormals := norms, mTangents := tans1, mBiTangents := tans2,
    mTexCoords := texcoord, mColors := colors, mBlendIndices := blendIndices,
    mBlendWeights := blendWeights, mnVerts := nVerts }

/-- The member `Mesh::SetVertexData`. -/
def SetVertexData {F : Type} [Inhabited F] (E : Env) (m : Mesh F) (reader : VBReader F)
    (nVerts : Nat) : HRESULT × Mesh F :=
  if nVerts = 0 then (E_INVALIDARG, m)
  else
    let m0 := { m with
      mnVerts := 0, mPositions := none, mNormals := none, mTangents := none,
      mBiTangents := none, mTexCoords := none, mColors := none, mBlendIndices := none,
      mBlendWeights := none }
    match loadStreams E m0 reader nVerts with
    | .error hr => (hr, m0)
    | .ok m2 => (S_OK, m2)

/-- The member `Mesh::GenerateAdjacency`. -/
def GenerateAdjacency {F : Type} [Inhabited F] (E : Env) (m : Mesh F) (epsilon : F) :
    HRESULT × Mesh F :=
  match m.mIndices, m.mPositions with
  | some ib, some pos =>
    if m.mnFaces = 0 ∨ m.mnVerts = 0 then (E_UNEXPECTED, m)
    else if mul3 m.mnFaces ≥ UINT32_MAX then (ERROR_ARITHMETIC_OVERFLOW, m)
    else if E.oom 0 then (E_OUTOFMEMORY, { m with mAdjacency := none })
    else
      let r := E.GenerateAdjacencyAndPointReps ib m.mnFaces pos m.mnVerts epsilon
        (alloc (mul3 m.mnFaces))
      (r.1, { m with mAdjacency := some (readN r.2 (mul3 m.mnFaces)) })
  | _, _ => (E_UNEXPECTED, m)

/-- The member `Mesh::ComputeNormals`. -/
def ComputeNormals {F : Type} [Inhabited F] (E : Env) (m : Mesh F) (flags : Nat) :
    HRESULT × Mesh F :=
  match m.mIndices, m.mPositions with
  | some ib, some pos =>
    if m.mnFaces = 0 ∨ m.mnVerts = 0 then (E_UNEXPECTED, m)
    else if E.oom 0 then (E_OUTOFMEMORY, { m with mNormals := none })
    else
      let r := E.ComputeNormals ib m.mnFaces pos m.mnVerts flags (alloc m.mnVerts)
      (r.1, { m with mNormals := some (readN r.2 m.mnVerts) })
  | _, _ => (E_UNEXPECTED, m)

/-- The member `Mesh::ComputeTangentFrame`. -/
def ComputeTangentFrame {F : Type} [Inhabited F] (E : Env) (m : Mesh F) (bitangents : Bool) :
    HRESULT × Mesh F :=
  match m.mIndices, m.mPositions, m.mNormals, m.mTexCoords with
  | some ib, some pos, some norms, some tex =>
    if m.mnFaces = 0 ∨ m.mnVerts = 0 then (E_UNEXPECTED, m)
    else
      let m0 := { m with mTangents := none, mBiTangents := none }
      if E.oom 0 then (E_OUTOFMEMORY, m0)
      else if bitangents then
        if E.oom 1 then (E_OUTOFMEMORY, m0)
        else
          let r := E.ComputeTangentFrame ib m.mnFaces pos norms tex m.mnVerts true
          if FAILED r.hr then (r.hr, m0)
          else (S_OK, { m0 with mTangents := some (readN r.tangents m.mnVerts),
                                mBiTangents := some (readN r.bitangents m.mnVerts) })
      else
        let r := E.ComputeTangentFrame ib m.mnFaces pos norms tex m.mnVerts false
        if FAILED r.hr then (r.hr, m0)
        else (S_OK, { m0 with mTangents := some (readN r.tangents m.mnVerts),
                              mBiTangents := none })
  | _, _, _, _ => (E_UNEXPECTED, m)

/-- The member `Mesh::UpdateUVs`. -/
def UpdateUVs {F : Type} [Inhabited F] (E : Env) (m : Mesh F) (nVerts : Nat)
    (uvs : Option (List (XMFLOAT2 F))) : HRESULT × Mesh F :=
  match uvs with
  | none => (E_INVALIDARG, m)
  | some uvs =>
    if nVerts = 0 then (E_INVALIDARG, m)
    else
      match m.mPositions with
      | none => (E_UNEXPECTED, m)
      | some _ =>
        if m.mnVerts = 0 then (E_UNEXPECTED, m)
        else if nVerts ≠ m.mnVerts then (E_FAIL, m)
        else
          match m.mTexCoords with
          | none =>
            if E.oom 0 then (E_OUTOFMEMORY, m)
            else (S_OK, { m with mTexCoords := some (memcpy (alloc m.mnVerts) uvs m.mnVerts) })
          | some old => (S_OK, { m with mTexCoords := some (memcpy old uvs m.mnVerts) })

/-! ## Simple transforms -/

/-- The loop of `ReverseWinding`: the first and last index of each of the next `count`
triangles are swapped. -/
def swapLoop : Nat → List Nat → List Nat
  | 0, l => l
  | n + 1, a :: b :: c :: rest => c :: b :: a :: swapLoop n rest
  | _ + 1, l => l

/-- The member `Mesh::ReverseWinding`. -/
def ReverseWinding {F : Type} (m : Mesh F) : HRESULT × Mesh F :=
  match m.mIndices with
  | none => (E_UNEXPECTED, m)
  | some ib =>
    if m.mnFaces = 0 then (E_UNEXPECTED, m)
    else (S_OK, { m with mIndices := some (swapLoop m.mnFaces ib) })

/-- A loop `for (j = 0; j < n; ++j, ++ptr) *ptr = f(*ptr)` over an array. -/
def mapFirst {α : Type} (n : Nat) (f : α → α) (l : List α) : List α :=
  (l.take n).map f ++ l.drop n

/-- The member `Mesh::InvertUTexCoord`. -/
def InvertUTexCoord {F : Type} [One F] [Sub F] (m : Mesh F) : HRESULT × Mesh F :=
  match m.mTexCoords with
  | none => (E_UNEXPECTED, m)
  | some tex =>
    (S_OK, { m with mTexCoords := some (mapFirst m.mnVerts (fun t => { t with x := 1 - t.x }) tex) })

/-- The member `Mesh::InvertVTexCoord`. -/
def InvertVTexCoord {F : Type} [One F] [Sub F] (m : Mesh F) : HRESULT × Mesh F :=
  match m.mTexCoords with
  | none => (E_UNEXPECTED, m)
  | some tex =>
    (S_OK, { m with mTexCoords := some (mapFirst m.mnVerts (fun t => { t with y := 1 - t.y }) tex) })

/-- The member `Mesh::ReverseHandedness`. -/
def ReverseHandedness {F : Type} [Neg F] (m : Mesh F) : HRESULT × Mesh F :=
  match m.mPositions with
  | none => (E_UNEXPECTED, m)
  | some pos =>
    (S_OK, { m with
      mPositions := some (mapFirst m.mnVerts (fun p => { p with z := -p.z }) pos),
      mNormals := m.mNormals.map (mapFirst m.mnVerts (fun p => { p with z := -p.z })) })

/-- The first loop of `VisualizeUVs`: position `j` becomes `(u_j, v_j, 0)` while `j` is below
the count; the pointers advance together. -/
def uvLoop {F : Type} [Zero F] : Nat → List (XMFLOAT2 F) → List (XMFLOAT3 F) → List (XMFLOAT3 F)
  | 0, _, pos => pos
  | n + 1, t :: ts, _ :: ps => { x := t.x, y := t.y, z := 0 } :: uvLoop n ts ps
  | _ + 1, _, pos => pos

/-- The DirectXMath constant `g_XMIdentityR2 = { 0, 0, 1, 0 }` as stored by `XMStoreFloat3`. -/
def g_XMIdentityR2 {F : Type} [Zero F] [One F] : XMFLOAT3 F := { x := 0, y := 0, z := 1 }

/-- The member `Mesh::VisualizeUVs`. -/
def VisualizeUVs {F : Type} [Zero F] [One F] (m : Mesh F) : HRESULT × Mesh F :=
  match m.mPositions, m.mTexCoords with
  | some pos, some tex =>
    if m.mnVerts = 0 then (E_UNEXPECTED, m)
    else
      (S_OK, { m with
        mPositions := some (uvLoop m.mnVerts tex pos),
        mNormals := m.mNormals.map (mapFirst m.mnVerts (fun _ => g_XMIdentityR2)) })
  | _, _ => (E_UNEXPECTED, m)

/-! ## Text and streams (MeshPLY.cpp) -/

/-- Value of `HRESULT_FROM_WIN32(ERROR_FILE_NOT_FOUND)` (0x80070002). -/
def ERROR_FILE_NOT_FOUND : HRESULT := -2147024894

/-- The line-feed character. -/
def LF : Char := Char.ofNat 10

/-- The space character. -/
def SP : Char := Char.ofNat 32

/-- The test `std::isspace` in the "C" locale: space, tab, line feed, vertical tab, form feed,
carriage return. -/
def isspace (c : Char) : Bool := c.toNat == 32 || (9 ≤ c.toNat && c.toNat ≤ 13)

/-- A `std::ifstream` opened in binary mode: the bytes not yet read and whether `good()`
holds. -/
structure IStream where
  rest : List Char
  good : Bool
deriving DecidableEq, Repr

/-- The characters up to the next line feed, and the characters after it when there is one. -/
def takeLine : List Char → List Char × Option (List Char)
  | [] => ([], none)
  | c :: cs =>
    if c = LF then ([], some cs)
    else ((c :: (takeLine cs).1), (takeLine cs).2)

/-- The call `std::getline(stream, line)`: the stream and the content of `line` afterwards.
On a stream that is not good the call only sets the fail bit and `line` keeps its content;
reaching the end of the input sets the end-of-file bit. -/
def getline (s : IStream) (line : List Char) : IStream × List Char :=
  if s.good then
    match (takeLine s.rest).2 with
    | some rest => ({ rest := rest, good := true }, (takeLine s.rest).1)
    | none => ({ rest := [], good := false }, (takeLine s.rest).1)
  else (s, line)

/-- The call `boost::algorithm::split(str_vec, line, is_any_of(" "))`: the pieces between
single spaces, empty pieces included; the result is never empty. -/
def splitSpaces : List Char → List (List Char)
  | [] => [[]]
  | c :: cs =>
    if c = SP then [] :: splitSpaces cs
    else
      match splitSpaces cs with
      | t :: ts => (c :: t) :: ts
      | [] => [[c]]

/-- The call `boost::trim_copy(str)`. -/
def trim (s : List Char) : List Char :=
  ((s.dropWhile isspace).reverse.dropWhile isspace).reverse

/-- The value of a decimal digit character. -/
def digitVal (c : Char) : Option Nat :=
  if 48 ≤ c.toNat ∧ c.toNat ≤ 57 then some (c.toNat - 48) else none

/-- The values of the leading decimal digits of a text. -/
def takeDigits : List Char → List Nat
  | [] => []
  | c :: cs =>
    match digitVal c with
    | some d => d :: takeDigits cs
    | none => []

/-- The call `std::stoi(str)`: leading white space is skipped, an optional sign and the
leading decimal digits are read and what follows is ignored; `none` stands for the exceptions
`std::invalid_argument` (no digit) and `std::out_of_range` (value outside `int`). -/
def stoi (s : List Char) : Option Int :=
  let body : Bool × List Char :=
    match s.dropWhile isspace with
    | c :: r => if c.toNat = 45 then (true, r) else if c.toNat = 43 then (false, r)
                else (false, c :: r)
    | [] => (false, [])
  let digits := takeDigits body.2
  if digits = [] then none
  else
    let magnitude : Nat := digits.foldl (fun acc d => 10 * acc + d) 0
    let v : Int := if body.1 then -(magnitude : Int) else (magnitude : Int)
    if v < -2147483648 ∨ 2147483647 < v then none else some v

/-- The conversion `(size_t)value` of an `int`. -/
def toSizeT (v : Int) : Nat := (v % (SIZE_MOD : Int)).toNat

/-- The conversion `(index_t)value` of an `int` for `index_t = uint32_t`. -/
def toUInt32 (v : Int) : Nat := (v % 4294967296).toNat

/-- Whether `std::vector::resize(count)` throws `std::length_error`: a count of `2 ^ 63` or
more exceeds `max_size()`.  (The counts `LoadFromPLY` can produce are below `3 * 2 ^ 31` or
above `2 ^ 64 - 3 * 2 ^ 31`; running out of memory inside the vector is not modelled.) -/
def resizeThrows (count : Nat) : Bool := decide (9223372036854775808 ≤ count)

/-- The data members of `PlyReader` that `LoadFromPLY` consults. -/
structure PlyReader (F : Type) where
  vertices : List (PlyVertex F)
  indices : List Nat
  attributes : List Nat
  hasNormals : Bool
  hasTexcoords : Bool
deriving DecidableEq, Repr

/-- The member `PlyReader::Clear`. -/
def PlyReader.cleared (F : Type) : PlyReader F :=
  { vertices := [], indices := [], attributes := [], hasNormals := false,
    hasTexcoords := false }

/-- The encoding declared by the format line: `none` where `Load` returns `E_FAIL`, otherwise
the pair `(is_ascii, is_little_endian)`. -/
def formatOf (line : List Char) : Option (Bool × Bool) :=
  match splitSpaces line with
  | _ :: second :: _ =>
    if second = "binary_little_endian".data then some (false, true)
    else if second = "binary_big_endian".data then some (false, false)
    else some (true, true)
  | _ => none

/-- One header directive, already split and trimmed, applied to the reader; `none` where
`Load` returns `E_FAIL` (the element count is not a number, or `resize` throws). -/
def applyDirective {F : Type} [Inhabited F] (r : PlyReader F) (tokens : List (List Char)) :
    Option (PlyReader F) :=
  if tokens.head? = some "element".data then
    match tokens with
    | _ :: kind :: count :: _ =>
      if kind = "vertex".data then
        match stoi count with
        | none => none
        | some v =>
          if resizeThrows (toSizeT v) then none
          else some { r with vertices := (List.range (toSizeT v)).map (rd r.vertices) }
      else if kind = "face".data then
        match stoi count with
        | none => none
        | some v =>
          if resizeThrows ((toSizeT v * 3) % SIZE_MOD) then none
          else some { r with indices :=
            (List.range ((toSizeT v * 3) % SIZE_MOD)).map (fun j => r.indices.getD j 0) }
      else some r
    | _ => some r
  else if tokens.head? = some "property".data then
    if tokens.getLast? = some "nz".data then some { r with hasNormals := true }
    else if tokens.getLast? = some "v".data then some { r with hasTexcoords := true }
    else some r
  else some r

/-- The header loop `while (InFile.good())` of `Load`; every pass reads one line, so the
number of passes is bounded by the number of bytes left plus one, which is the `fuel` the
caller gives.  The result is the stream, the content of `line` and the reader after the loop,
or `none` where `Load` returns `E_FAIL`. -/
def headerLoop {F : Type} [Inhabited F] :
    Nat → IStream → List Char → PlyReader F → Option (IStream × List Char × PlyReader F)
  | 0, s, line, r => some (s, line, r)
  | fuel + 1, s, line, r =>
    if s.good then
      let tokens := (splitSpaces (getline s line).2).map trim
      if tokens.head? = some "end_header".data then some ((getline s line).1, (getline s line).2, r)
      else
        match applyDirective r tokens with
        | none => none
        | some r2 => headerLoop fuel (getline s line).1 (getline s line).2 r2
    else some (s, line, r)

/-- Three consecutive floats of a token list, parsed by `std::stof`. -/
def parse3 {F : Type} (stof : List Char → Option F) (tokens : List (List Char)) (i : Nat) :
    Option (XMFLOAT3 F) :=
  match stof (tokens.getD i []), stof (tokens.getD (i + 1) []), stof (tokens.getD (i + 2) []) with
  | some x, some y, some z => some { x := x, y := y, z := z }
  | _, _, _ => none

/-- Two consecutive floats of a token list, parsed by `std::stof`. -/
def parse2 {F : Type} (stof : List Char → Option F) (tokens : List (List Char)) (i : Nat) :
    Option (XMFLOAT2 F) :=
  match stof (tokens.getD i []), stof (tokens.getD (i + 1) []) with
  | some x, some y => some { x := x, y := y }
  | _, _ => none

/-- The body of the ascii vertex loop after the line has been split: `none` where `Load`
returns `E_FAIL` (too few tokens, or `std::stof` throws). -/
def parseVertex {F : Type} [Inhabited F] (stof : List Char → Option F)
    (hasNormals hasTexcoords : Bool) (old : PlyVertex F) (tokens : List (List Char)) :
    Option (PlyVertex F) :=
  if tokens.length < 3 + (if hasNormals then 3 else 0) + (if hasTexcoords then 2 else 0) then none
  else
    match parse3 stof tokens 0 with
    | none => none
    | some p =>
      match (if hasNormals then (parse3 stof tokens 3).map some else some none) with
      | none => none
      | some n =>
        match (if hasTexcoords then
            (parse2 stof tokens (if hasNormals then 6 else 3)).map some else some none) with
        | none => none
        | some t =>
          some { position := p, normal := n.getD old.normal,
                 textureCoordinate := t.getD old.textureCoordinate }

/-- The ascii vertex loop of `Load` over the vertices still to read. -/
def asciiVertices {F : Type} [Inhabited F] (stof : List Char → Option F)
    (hasNormals hasTexcoords : Bool) :
    List (PlyVertex F) → IStream → List Char → Option (IStream × List Char × List (PlyVertex F))
  | [], s, line => some (s, line, [])
  | old :: more, s, line =>
    match parseVertex stof hasNormals hasTexcoords old (splitSpaces (getline s line).2) with
    | none => none
    | some v =>
      match asciiVertices stof hasNormals hasTexcoords more (getline s line).1
          (getline s line).2 with
      | none => none
      | some (s2, line2, vs) => some (s2, line2, v :: vs)

/-- The call `InFile.read(buffer, count)` on a zero-filled buffer: the stream afterwards and
the buffer content.  Nothing is read from a stream that is not good; reading past the end
sets the end-of-file bit. -/
def readBytes (s : IStream) (count : Nat) : IStream × List Nat :=
  if s.good then
    ({ rest := s.rest.drop count, good := decide (count ≤ s.rest.length) },
      (List.range count).map (fun j => ((s.rest.get? j).map Char.toNat).getD 0))
  else (s, List.replicate count 0)

/-- The float stored at float index `k` of a byte buffer (`floatOfBytes` reinterprets four
bytes as a `float`). -/
def bufferFloat {F : Type} (floatOfBytes : List Nat → F) (buffer : List Nat) (k : Nat) : F :=
  floatOfBytes ((List.range 4).map (fun b => buffer.getD (4 * k + b) 0))

/-- The binary vertex loop of `Load`: vertex `i` is decoded from the floats at
`vertex_data_size * i` of the buffer. -/
def binaryVertices {F : Type} (floatOfBytes : List Nat → F) (hasNormals hasTexcoords : Bool)
    (olds : List (PlyVertex F)) (buffer : List Nat) : List (PlyVertex F) :=
  let size := 3 + (if hasNormals then 3 else 0) + (if hasTexcoords then 2 else 0)
  (List.range olds.length).zipWith (fun i old =>
    let f := fun k => bufferFloat floatOfBytes buffer (size * i + k)
    let t := if hasNormals then 6 else 3
    { position := { x := f 0, y := f 1, z := f 2 },
      normal := if hasNormals then { x := f 3, y := f 4, z := f 5 } else old.normal,
      textureCoordinate :=
        if hasTexcoords then { x := f t, y := f (t + 1) } else old.textureCoordinate }) olds

/-- The three indices of one face in the order `Load` stores them. -/
def windFace (ccw : Bool) (a b c : Nat) : List Nat := if ccw then [a, b, c] else [c, b, a]

/-- The body of the ascii face loop after the line has been split: `none` where `Load`
returns `E_FAIL`. -/
def parseFace (ccw : Bool) (tokens : List (List Char)) : Option (List Nat) :=
  match stoi (tokens.getD 0 []) with
  | none => none
  | some k =>
    if toSizeT k ≠ 3 ∨ tokens.length < 4 then none
    else
      match stoi (tokens.getD 1 []), stoi (tokens.getD 2 []), stoi (tokens.getD 3 []) with
      | some a, some b, some c => some (windFace ccw (toUInt32 a) (toUInt32 b) (toUInt32 c))
      | _, _, _ => none

/-- The little-endian value of four bytes, as `(index_t)index` of the `int` read. -/
def leUInt32 (bytes : List Nat) : Nat :=
  bytes.getD 0 0 + 256 * bytes.getD 1 0 + 65536 * bytes.getD 2 0 + 16777216 * bytes.getD 3 0

/-- The face loop of `Load` over the faces still to read; the result is the index buffer. -/
def readFaces (isAscii ccw : Bool) : Nat → IStream → List Char → Option (List Nat)
  | 0, _, _ => some []
  | n + 1, s, line =>
    if isAscii then
      match parseFace ccw (splitSpaces (getline s line).2) with
      | none => none
      | some face =>
        match readFaces isAscii ccw n (getline s line).1 (getline s line).2 with
        | none => none
        | some more => some (face ++ more)
    else
      let r0 := readBytes s 1
      if r0.2.getD 0 0 ≠ 3 then none
      else
        let r1 := readBytes r0.1 4
        let r2 := readBytes r1.1 4
        let r3 := readBytes r2.1 4
        match readFaces isAscii ccw n r3.1 line with
        | none => none
        | some more => some (windFace ccw (leUInt32 r1.2) (leUInt32 r2.2) (leUInt32 r3.2) ++ more)

/-- The member `PlyReader::Load`.  The file is `none` when it cannot be opened; `stof` is
`std::stof` (`none` where it throws) and `floatOfBytes` reinterprets four bytes as a `float`.
The result is the reader after a successful load; on failure only the status is kept.  The
material list, the name and the bounding box that `Load` also fills are left out. -/
def PlyReader.Load {F : Type} [Inhabited F] (stof : List Char → Option F)
    (floatOfBytes : List Nat → F) (file : Option (List Char)) (ccw : Bool) :
    Except HRESULT (PlyReader F) :=
  match file with
  | none => .error ERROR_FILE_NOT_FOUND
  | some bytes =>
    let s0 : IStream := { rest := bytes, good := true }
    let l1 := getline s0 []
    if l1.2 ≠ "ply".data then .error E_FAIL
    else
      let l2 := getline l1.1 l1.2
      match formatOf l2.2 with
      | none => .error E_FAIL
      | some (isAscii, isLittleEndian) =>
        if !isAscii && !isLittleEndian then .error E_FAIL
        else
          match headerLoop (l2.1.rest.length + 1) l2.1 l2.2 (PlyReader.cleared F) with
          | none => .error E_FAIL
          | some (s3, line3, r) =>
            if r.vertices.isEmpty then .error E_FAIL
            else
              let loaded : Option (IStream × List Char × List (PlyVertex F)) :=
                if isAscii then asciiVertices stof r.hasNormals r.hasTexcoords r.vertices s3 line3
                else
                  let size := 3 + (if r.hasNormals then 3 else 0)
                    + (if r.hasTexcoords then 2 else 0)
                  let rb := readBytes s3 (4 * size * r.vertices.length)
                  some (rb.1, line3,
                    binaryVertices floatOfBytes r.hasNormals r.hasTexcoords r.vertices rb.2)
              match loaded with
              | none => .error E_FAIL
              | some (s4, line4, vertices) =>
                match readFaces isAscii ccw (r.indices.length / 3) s4 line4 with
                | none => .error E_FAIL
                | some faces =>
                  .ok { r with vertices := vertices,
                               indices := faces ++ r.indices.drop (3 * (r.indices.length / 3)) }

/-- The layout `LoadFromPLY` gives to the reader: `s_vboLayout` cut to `nDecl` elements, or
`s_vboLayoutAlt`. -/
def plyLayout (hasNormals hasTexcoords : Bool) : List InputElement :=
  if !hasNormals && !hasTexcoords then [⟨.POSITION, 0⟩]
  else if hasNormals && !hasTexcoords then [⟨.POSITION, 0⟩, ⟨.NORMAL, 12⟩]
  else if !hasNormals && hasTexcoords then [⟨.POSITION, 0⟩, ⟨.TEXCOORD, 24⟩]
  else [⟨.POSITION, 0⟩, ⟨.NORMAL, 12⟩, ⟨.TEXCOORD, 24⟩]

/-- The function `LoadFromPLY`: the status and the content of `inMesh` afterwards.  `E` is the
environment of the function itself (its allocation of the `Mesh`, the reader set-up), `Ei` and
`Ev` those of its calls of `SetIndexData` and `SetVertexData`; `inMesh` is what the caller's
pointer held.  The material list is left out. -/
def LoadFromPLY {F : Type} [Inhabited F] (E Ei Ev : Env) (stof : List Char → Option F)
    (floatOfBytes : List Nat → F) (file : Option (List Char)) (inMesh : Option (Mesh F))
    (ccw : Bool) : HRESULT × Option (Mesh F) :=
  match PlyReader.Load stof floatOfBytes file ccw with
  | .error hr => (hr, inMesh)
  | .ok plyReader =>
    if E.oom 0 then (E_OUTOFMEMORY, none)
    else if plyReader.indices.isEmpty || plyReader.vertices.isEmpty then
      (E_FAIL, some (Mesh.empty F))
    else
      let r1 := SetIndexData32 Ei (Mesh.empty F) (plyReader.indices.length / 3)
        (some plyReader.indices)
        (if plyReader.attributes.isEmpty then none else some plyReader.attributes)
      if FAILED r1.1 then (r1.1, some r1.2)
      else
        let setup := E.MakeVBReader (plyLayout plyReader.hasNormals plyReader.hasTexcoords)
          plyReader.vertices
        if FAILED setup.hrInit then (setup.hrInit, some r1.2)
        else if FAILED setup.hrAdd then (setup.hrAdd, some r1.2)
        else
          let r2 := SetVertexData Ev r1.2 setup.reader plyReader.vertices.length
          if FAILED r2.1 then (r2.1, some r2.2) else (S_OK, some r2.2)

/-- The text `out << value` writes for an unsigned integer. -/
def decimal (n : Nat) : List Char := Nat.toDigits 10 n

/-- One vertex line of `ExportToPLY`. -/
def vertexLine {F : Type} [Inhabited F] (fmt : F → List Char) (m : Mesh F) (i : Nat) :
    List Char :=
  let p := rd (m.mPositions.getD []) i
  fmt p.x ++ [SP] ++ fmt p.y ++ [SP] ++ fmt p.z ++ [SP]
    ++ (match m.mNormals with
        | some ns => fmt (rd ns i).x ++ [SP] ++ fmt (rd ns i).y ++ [SP] ++ fmt (rd ns i).z ++ [SP]
        | none => [])
    ++ (match m.mTexCoords with
        | some ts => fmt (rd ts i).x ++ [SP] ++ fmt (rd ts i).y
        | none => [])
    ++ [LF]

/-- One face line of `ExportToPLY`. -/
def faceLine (ib : List Nat) (i : Nat) : List Char :=
  decimal 3 ++ [SP] ++ decimal (rd ib (3 * i)) ++ [SP] ++ decimal (rd ib (3 * i + 1)) ++ [SP]
    ++ decimal (rd ib (3 * i + 2)) ++ [LF]

/-- The member `Mesh::ExportToPLY`: the status and, when the file was written, its content.
`named` tells whether `szFileName` is non-null, `opened` whether the output stream is good
after opening, `written` whether it is still good after the last write; `fmt` is the text
`out << value` writes for a `float`.  The content is the sequence of characters handed to the
stream, with `\n` as the line feed; a stream that rewrites line ends is not modelled. -/
def ExportToPLY {F : Type} [Inhabited F] (fmt : F → List Char) (named opened written : Bool)
    (m : Mesh F) : HRESULT × Option (List Char) :=
  if !named then (E_INVALIDARG, none)
  else
    match m.mIndices, m.mPositions with
    | some ib, some _ =>
      if m.mnFaces = 0 ∨ m.mnVerts = 0 then (E_UNEXPECTED, none)
      else if !opened then (E_FAIL, none)
      else if !written then (E_FAIL, none)
      else
        (S_OK, some (
          "ply".data ++ [LF] ++ "format ascii 1.0".data ++ [LF]
          ++ "element vertex ".data ++ decimal m.mnVerts ++ [LF]
          ++ "property float x".data ++ [LF] ++ "property float y".data ++ [LF]
          ++ "property float z".data ++ [LF]
          ++ (if m.mNormals.isSome then
                "property float nx".data ++ [LF] ++ "property float ny".data ++ [LF]
                ++ "property float nz".data ++ [LF]
              else [])
          ++ (if m.mTexCoords.isSome then
                "property float u".data ++ [LF] ++ "property float v".data ++ [LF]
              else [])
          ++ "element face ".data ++ decimal m.mnFaces ++ [LF]
          ++ "property list uchar int vertex_indices".data ++ [LF]
          ++ "end_header".data ++ [LF]
          ++ ((List.range m.mnVerts).map (vertexLine fmt m)).flatten
          ++ ((List.range m.mnFaces).map (faceLine ib)).flatten))
    | _, _ => (E_UNEXPECTED, none)

/-! ## Library routines as the specification describes them

`AttributeSort`, `ReorderIB` and `ReorderIBAndAdjacency` belong to DirectXMesh and
`UVAtlasApplyRemap` to the UVAtlas library; their bodies are not part of the tool. -/

/-- Modelled from the spec: the body of `UVAtlasApplyRemap` is missing.  Section 4.6:
"remapTable[oldIndex] = newIndex for every old vertex"; "for each old vertex, copy its value
to every new slot the remap maps it to"; destination slots that no old vertex maps to keep
whatever the output array held. -/
def UVAtlasApplyRemap {α : Type} [Inhabited α] (vbin : List α) (_stride nVerts _nNewVerts : Nat)
    (vertexRemap : List Nat) (vbout : List α) : HRESULT × List α :=
  (S_OK, (List.range nVerts).foldl (fun out i => out.set (rd vertexRemap i) (rd vbin i)) vbout)

/-- Sort key of `AttributeSort`: faces are compared by attribute id only. -/
def attrLE (a b : Nat × Nat) : Prop := a.1 ≤ b.1

instance attrLE.decidable : DecidableRel attrLE :=
  fun a b => inferInstanceAs (Decidable (a.1 ≤ b.1))

/-- The (attribute, face) pairs of the first `nFaces` faces, in face order. -/
def facePairs (nFaces : Nat) (attributes : List Nat) : List (Nat × Nat) :=
  (List.range nFaces).map (fun j => (rd attributes j, j))

/-- Order by attribute with ties broken by face id. -/
def lexLT (p q : Nat × Nat) : Prop := p.1 < q.1 ∨ (p.1 = q.1 ∧ p.2 < q.2)

/-- Modelled from the spec: the body of `AttributeSort` is missing.  Section 4.5: "compute a
face permutation that is a stable sort keyed by attribute value (ties broken by original face
order)"; P4: afterwards "faces are grouped into contiguous runs by attribute id".  The pairs
(attribute, face) are sorted stably by attribute; the sorted attributes are written back over
the first `nFaces` entries and `faceRemap[j]` is the original id of the face now at position
`j`. -/
def AttributeSort (nFaces : Nat) (attributes : List Nat) : SortResult :=
  let sorted := (facePairs nFaces attributes).insertionSort attrLE
  { hr := S_OK,
    attributes := sorted.map Prod.fst ++ attributes.drop nFaces,
    faceRemap := sorted.map Prod.snd }

/-- Three entries per face, face `j` of the result taken from face `faceRemap[j]` of `buf`. -/
def reorderFaces (buf : List Nat) (nFaces : Nat) (faceRemap : List Nat) : List Nat :=
  (List.range (3 * nFaces)).map (fun k => rd buf (3 * rd faceRemap (k / 3) + k % 3))

/-- Modelled from the spec: the body of `ReorderIB` is missing.  Section 4.5: "reorder
`indices` ... according to that permutation". -/
def ReorderIB (indices : List Nat) (nFaces : Nat) (faceRemap : List Nat) : HRESULT × List Nat :=
  (S_OK, reorderFaces indices nFaces faceRemap ++ indices.drop (3 * nFaces))

/-- New id of the face that had id `oldFace` before the reorder. -/
def newFaceId (faceRemap : List Nat) (oldFace : Nat) : Nat := faceRemap.indexOf oldFace

/-- Modelled from the spec: the body of `ReorderIBAndAdjacency` is missing.  Section 4.5:
"reorder `indices` (and `adjacency`, rewriting cross-references to the new face ids, if
present) according to that permutation"; the sentinel stays the sentinel. -/
def ReorderIBAndAdjacency (indices : List Nat) (nFaces : Nat) (adjacency faceRemap : List Nat) :
    ReorderResult :=
  { hr := S_OK,
    indices := reorderFaces indices nFaces faceRemap ++ indices.drop (3 * nFaces),
    adjacency := (reorderFaces adjacency nFaces faceRemap).map
        (fun a => if a = UINT32_MAX then UINT32_MAX else newFaceId faceRemap a)
      ++ adjacency.drop (3 * nFaces) }

/-- Value of `HRESULT_FROM_WIN32(ERROR_INVALID_NAME)` (0x8007007B). -/
def ERROR_INVALID_NAME : HRESULT := -2147024773

/-- The float members of a vertex record in memory order: component `k` sits at byte offset
`4 * k`. -/
def PlyVertex.floats {F : Type} (v : PlyVertex F) : List F :=
  [v.position.x, v.position.y, v.position.z, v.normal.x, v.normal.y, v.normal.z,
   v.textureCoordinate.x, v.textureCoordinate.y]

/-- Two semantic names select the same stream: they are equal, or they are `POSITION` and
`SV_Position`. -/
def Semantic.same (a b : Semantic) : Bool :=
  a == b || (a == .POSITION && b == .SV_Position) || (a == .SV_Position && b == .POSITION)

/-- The layout element a semantic name selects, if the layout declares one. -/
def findElement (layout : List InputElement) (name : Semantic) : Option InputElement :=
  layout.find? (fun e => Semantic.same e.SemanticName name)

/-- Component `k` (counted from the element's offset) of vertex `j` of the stream. -/
def streamFloat {F : Type} [Inhabited F] (verts : List (PlyVertex F)) (e : InputElement)
    (j k : Nat) : F :=
  rd (rd verts j).floats (e.AlignedByteOffset / 4 + k)

/-- Modelled from the spec: the class `VBReader` (DirectXMesh) is missing.  Section 4.2: "a
keyed external attribute source.  Each optional stream is included iff the source declares it
present"; a read of a stream that is not declared fails with the source's own error.  The
reader is keyed by the layout given to `Initialize`; a declared stream yields, for each vertex
of the stream given to `AddStream`, the floats found at the element's byte offset. -/
def VBReader.ofStream {F : Type} [Inhabited F] (layout : List InputElement)
    (verts : List (PlyVertex F)) : VBReader F :=
  { GetElement11 := fun name => (findElement layout name).isSome,
    Read2 := fun name count =>
      match findElement layout name with
      | none => (ERROR_INVALID_NAME, [])
      | some e => (S_OK, (List.range count).map (fun j =>
          { x := streamFloat verts e j 0, y := streamFloat verts e j 1 })),
    Read3 := fun name count =>
      match findElement layout name with
      | none => (ERROR_INVALID_NAME, [])
      | some e => (S_OK, (List.range count).map (fun j =>
          { x := streamFloat verts e j 0, y := streamFloat verts e j 1,
            z := streamFloat verts e j 2 })),
    Read4 := fun name count =>
      match findElement layout name with
      | none => (ERROR_INVALID_NAME, [])
      | some e => (S_OK, (List.range count).map (fun j =>
          { x := streamFloat verts e j 0, y := streamFloat verts e j 1,
            z := streamFloat verts e j 2, w := streamFloat verts e j 3 })) }

/-- Modelled from the spec: `VBReader::Initialize` and `VBReader::AddStream` are missing;
both succeed and give the reader `VBReader.ofStream`. -/
def MakeVBReader {F : Type} [Inhabited F] (layout : List InputElement)
    (verts : List (PlyVertex F)) : ReaderSetup F :=
  { hrInit := S_OK, hrAdd := S_OK, reader := VBReader.ofStream layout verts }

/-- The directed edge `e` of face `f`. -/
def faceEdge (ib : List Nat) (f e : Nat) : Nat × Nat :=
  (rd ib (3 * f + e), rd ib (3 * f + (e + 1) % 3))

/-- Two directed edges join the same two vertices. -/
def sameEdge (a b : Nat × Nat) : Bool := (a.1 == b.2 && a.2 == b.1) || (a.1 == b.1 && a.2 == b.2)

/-- The first face other than `f` that has the edge `e` of face `f`, or the sentinel. -/
def adjacentFace (ib : List Nat) (nFaces f e : Nat) : Nat :=
  match (List.range nFaces).find? (fun g =>
      g != f && (List.range 3).any (fun k => sameEdge (faceEdge ib f e) (faceEdge ib g k))) with
  | some g => g
  | none => UINT32_MAX

/-- Modelled from the spec: the body of `GenerateAdjacencyAndPointReps` is missing.  Sections
3 and 6: `adjacency[3*faceCount]`, "one per face edge, denoting the face sharing that edge (or
sentinel if boundary/unknown)".  Edges are matched by vertex id; positions and epsilon are not
consulted. -/
def GenerateAdjacencyAndPointReps {F : Type} [Inhabited F] (indices : List Nat) (nFaces : Nat)
    (_positions : List (XMFLOAT3 F)) (_nVerts : Nat) (_epsilon : F) (_adjacency : List Nat) :
    HRESULT × List Nat :=
  (S_OK, (List.range (3 * nFaces)).map (fun k => adjacentFace indices nFaces (k / 3) (k % 3)))

/-- A normal generator that reports success and leaves the buffer as it was allocated; the
arithmetic of `DirectX::ComputeNormals` is outside this development. -/
def idleNormals {F : Type} [Inhabited F] (_indices : List Nat) (_nFaces : Nat)
    (_positions : List (XMFLOAT3 F)) (_nVerts _flags : Nat) (normals : List (XMFLOAT3 F)) :
    HRESULT × List (XMFLOAT3 F) :=
  (S_OK, normals)

/-- A tangent-frame generator that reports success and leaves the buffers as they were
allocated; the arithmetic of `DirectX::ComputeTangentFrame` is outside this development. -/
def idleTangentFrame {F : Type} [Inhabited F] (_indices : List Nat) (_nFaces : Nat)
    (_positions _normals : List (XMFLOAT3 F)) (_texcoords : List (XMFLOAT2 F)) (nVerts : Nat)
    (_bitangents : Bool) : TangentResult F :=
  { hr := S_OK, tangents := alloc nVerts, bitangents := alloc nVerts }

/-- An external cleaner that reports success and asks for the given duplicates, leaving the
index buffer and adjacency as they are. -/
def cleanerWith (dups : List Nat) (ib : List Nat) (_nFaces _nVerts : Nat)
    (adjacency _attributes : Option (List Nat)) (_breakBowties : Bool) : CleanResult :=
  { hr := S_OK, indices := ib, adjacency := adjacency.getD [], dups := dups }

/-- The environment in which every allocation succeeds, the library routines behave as the
specification describes them, the external cleaner finds nothing to duplicate and the normal
and tangent generators are idle. -/
def Env.ideal : Env :=
  { oom := fun _ => false,
    Clean := cleanerWith [],
    AttributeSort := UVAtlas.AttributeSort,
    ReorderIB := UVAtlas.ReorderIB,
    ReorderIBAndAdjacency := UVAtlas.ReorderIBAndAdjacency,
    UVAtlasApplyRemap := UVAtlas.UVAtlasApplyRemap,
    GenerateAdjacencyAndPointReps := UVAtlas.GenerateAdjacencyAndPointReps,
    ComputeNormals := idleNormals,
    ComputeTangentFrame := idleTangentFrame,
    MakeVBReader := UVAtlas.MakeVBReader }

/-! ## Invariants and statement vocabulary -/

/-- An optional array is absent or has exactly `n` entries. -/
def lengthIs {α : Type} (a : Option (List α)) (n : Nat) : Prop :=
  ∀ l, a = some l → l.length = n

/-- Invariant I1: every per-vertex array that is present has exactly `mnVerts` entries. -/
def Mesh.I1 {F : Type} (m : Mesh F) : Prop :=
  lengthIs m.mPositions m.mnVerts ∧ lengthIs m.mNormals m.mnVerts ∧
  lengthIs m.mTangents m.mnVerts ∧ lengthIs m.mBiTangents m.mnVerts ∧
  lengthIs m.mTexCoords m.mnVerts ∧ lengthIs m.mColors m.mnVerts ∧
  lengthIs m.mBlendIndices m.mnVerts ∧ lengthIs m.mBlendWeights m.mnVerts

/-- Entry `j` of the array `new` is a copy of entry `i` of the array `old`: if `old` is
present then so is `new`, `old` has an entry `i`, and `new` holds the same value at `j`. -/
def CopiedEntry {α : Type} (old new : Option (List α)) (i j : Nat) : Prop :=
  ∀ o, old = some o → ∃ n v, new = some n ∧ o[i]? = some v ∧ n[j]? = some v

/-- The array `new` keeps the array `old` as its first `k` entries: an absent array stays
absent, a present array stays present and its first `k` entries are the old array. -/
def KeptPrefix {α : Type} (old new : Option (List α)) (k : Nat) : Prop :=
  (old = none → new = none) ∧ ∀ o, old = some o → ∃ n, new = some n ∧ n.take k = o

/-- The vertex data of `after` is the vertex data of `before`: same `mnVerts`, same eight
per-vertex arrays. -/
def SameVerts {F : Type} (before after : Mesh F) : Prop :=
  after.mnVerts = before.mnVerts ∧ after.mPositions = before.mPositions ∧
  after.mNormals = before.mNormals ∧ after.mTangents = before.mTangents ∧
  after.mBiTangents = before.mBiTangents ∧ after.mTexCoords = before.mTexCoords ∧
  after.mColors = before.mColors ∧ after.mBlendIndices = before.mBlendIndices ∧
  after.mBlendWeights = before.mBlendWeights

/-- Invariant I3: the attribute array, if present, has `mnFaces` entries and the adjacency,
if present, has `3 * mnFaces` entries. -/
def Mesh.I3 {F : Type} (m : Mesh F) : Prop :=
  lengthIs m.mAttributes m.mnFaces ∧ lengthIs m.mAdjacency (3 * m.mnFaces)

/-- Invariant I2, for a mesh with both topology and vertex data loaded: every index that is
not the sentinel is below `mnVerts`. -/
def Mesh.I2 {F : Type} (m : Mesh F) : Prop :=
  ∀ ib pos, m.mIndices = some ib → m.mPositions = some pos →
    ∀ x ∈ ib, x ≠ UINT32_MAX → x < m.mnVerts

/-- The library routine `UVAtlasApplyRemap` writes into the output buffer it is given and
does not change its size. -/
def Env.remapKeepsSize (E : Env) : Prop :=
  ∀ (α : Type) [Inhabited α] (vbin : List α) (stride nVerts nNewVerts : Nat)
    (remap : List Nat) (vbout : List α),
    (E.UVAtlasApplyRemap vbin stride nVerts nNewVerts remap vbout).2.length = vbout.length

/-- A call of a mutating member function of `Mesh`, with its arguments. -/
inductive Op (F : Type) where
  | setIndexData16 (nFaces : Nat) (indices attributes : Option (List Nat))
  | setIndexData32 (nFaces : Nat) (indices attributes : Option (List Nat))
  | setVertexData (reader : VBReader F) (nVerts : Nat)
  | clean (breakBowties : Bool)
  | generateAdjacency (epsilon : F)
  | computeNormals (flags : Nat)
  | computeTangentFrame (bitangents : Bool)
  | updateFaces (nFaces : Nat) (indices : Option (List Nat))
  | updateAttributes (nFaces : Nat) (attributes : Option (List Nat))
  | updateUVs (nVerts : Nat) (uvs : Option (List (XMFLOAT2 F)))
  | vertexRemap (remap : Option (List Nat)) (nNewVerts : Nat)
  | reverseWinding
  | invertUTexCoord
  | invertVTexCoord
  | reverseHandedness
  | visualizeUVs
  | clear

/-- The status and the mesh after one call. -/
def step {F : Type} [Inhabited F] [Zero F] [One F] [Neg F] [Sub F] (E : Env) (op : Op F)
    (m : Mesh F) : HRESULT × Mesh F :=
  match op with
  | .setIndexData16 nFaces indices attributes => SetIndexData16 E m nFaces indices attributes
  | .setIndexData32 nFaces indices attributes => SetIndexData32 E m nFaces indices attributes
  | .setVertexData reader nVerts => SetVertexData E m reader nVerts
  | .clean breakBowties => Clean E m breakBowties
  | .generateAdjacency epsilon => GenerateAdjacency E m epsilon
  | .computeNormals flags => ComputeNormals E m flags
  | .computeTangentFrame bitangents => ComputeTangentFrame E m bitangents
  | .updateFaces nFaces indices => UpdateFaces m nFaces indices
  | .updateAttributes nFaces attributes => UpdateAttributes E m nFaces attributes
  | .updateUVs nVerts uvs => UpdateUVs E m nVerts uvs
  | .vertexRemap remap nNewVerts => VertexRemap E m remap nNewVerts
  | .reverseWinding => ReverseWinding m
  | .invertUTexCoord => InvertUTexCoord m
  | .invertVTexCoord => InvertVTexCoord m
  | .reverseHandedness => ReverseHandedness m
  | .visualizeUVs => VisualizeUVs m
  | .clear => (S_OK, Clear m)

/-- The meshes reachable from the empty mesh by successful calls, each in an environment of
its own. -/
inductive Reachable {F : Type} [Inhabited F] [Zero F] [One F] [Neg F] [Sub F] :
    Mesh F → Prop where
  | empty : Reachable (Mesh.empty F)
  | call (E : Env) (op : Op F) (m : Mesh F) :
      Reachable m → FAILED (step E op m).1 = false → Reachable (step E op m).2

/-- The environment in which every allocation fails; the library routines are as in
`Env.ideal`. -/
def Env.exhausted : Env := { Env.ideal with oom := fun _ => true }

/-- A square made of two triangles, with positions and texture coordinates. -/
def sampleQuad : Mesh Int :=
  { Mesh.empty Int with
    mnFaces := 2, mnVerts := 4, mIndices := some [0, 1, 2, 0, 2, 3],
    mPositions := some [⟨0, 0, 0⟩, ⟨1, 0, 0⟩, ⟨1, 1, 0⟩, ⟨0, 1, 0⟩],
    mTexCoords := some [⟨0, 0⟩, ⟨1, 0⟩, ⟨1, 1⟩, ⟨0, 1⟩] }

/-- The four vertex records of the sample square. -/
def sampleVertices : List (PlyVertex Int) :=
  [⟨⟨0, 0, 0⟩, ⟨0, 0, 0⟩, ⟨0, 0⟩⟩, ⟨⟨1, 0, 0⟩, ⟨0, 0, 0⟩, ⟨1, 0⟩⟩,
   ⟨⟨1, 1, 0⟩, ⟨0, 0, 0⟩, ⟨1, 1⟩⟩, ⟨⟨0, 1, 0⟩, ⟨0, 0, 0⟩, ⟨0, 1⟩⟩]

/-- A reader over the sample square that declares positions and texture coordinates. -/
def sampleReader : VBReader Int :=
  VBReader.ofStream [⟨.POSITION, 0⟩, ⟨.TEXCOORD, 24⟩] sampleVertices

/-- The mesh obtained from the empty mesh by loading the two faces and four vertices of the
sample square, generating adjacency, and then loading a single triangle as new index data. -/
def reloadedMesh : Mesh Int :=
  (step Env.ideal (.setIndexData32 1 (some [0, 1, 2]) none)
    (step Env.ideal (.generateAdjacency 0)
      (step Env.ideal (.setVertexData sampleReader 4)
        (step Env.ideal (.setIndexData32 2 (some [0, 1, 2, 0, 2, 3]) none)
          (Mesh.empty Int)).2).2).2).2

/-- A fan of three triangles around vertex 0, with adjacency and no attributes. -/
def sampleFan : Mesh Int :=
  { Mesh.empty Int with
    mnFaces := 3, mnVerts := 5, mIndices := some [0, 1, 2, 0, 2, 3, 0, 3, 4],
    mAdjacency := some [4294967295, 4294967295, 1, 0, 4294967295, 2, 1, 4294967295, 4294967295],
    mPositions := some [⟨0, 0, 0⟩, ⟨2, 0, 0⟩, ⟨2, 1, 0⟩, ⟨1, 2, 0⟩, ⟨0, 2, 0⟩] }

/-- An environment whose `ReorderIB` reports `E_OUTOFMEMORY` and leaves the index buffer as
it is; everything else is as in `Env.ideal`. -/
def Env.reorderFails : Env :=
  { Env.ideal with ReorderIB := fun indices _ _ => (E_OUTOFMEMORY, indices) }

/-- An environment whose `AttributeSort` reports `E_FAIL` and leaves the attribute array as
it is; everything else is as in `Env.ideal`. -/
def Env.sortFails : Env :=
  { Env.ideal with
    AttributeSort := fun _ attributes => { hr := E_FAIL, attributes := attributes, faceRemap := [] } }

/-- Every entry of an index array that is not the sentinel is below `n`. -/
def InRange (ib : List Nat) (n : Nat) : Prop := ∀ x ∈ ib, x ≠ UINT32_MAX → x < n

/-- The external cleaner and the two reorder routines keep an index buffer in range when they
succeed: the cleaner's indices are below the vertex count plus the number of duplicates it
asks for, and a reordered buffer stays below the same bound. -/
def Env.keepsIndexRange (E : Env) : Prop :=
  (∀ ib nFaces nVerts adjacency attributes breakBowties, InRange ib nVerts →
    FAILED (E.Clean ib nFaces nVerts adjacency attributes breakBowties).hr = false →
    InRange (E.Clean ib nFaces nVerts adjacency attributes breakBowties).indices
      (nVerts + (E.Clean ib nFaces nVerts adjacency attributes breakBowties).dups.length)) ∧
  (∀ ib nFaces faceRemap n, 0 < n → InRange ib n →
    FAILED (E.ReorderIB ib nFaces faceRemap).1 = false →
    InRange (E.ReorderIB ib nFaces faceRemap).2 n) ∧
  (∀ ib nFaces adjacency faceRemap n, 0 < n → InRange ib n →
    FAILED (E.ReorderIBAndAdjacency ib nFaces adjacency faceRemap).hr = false →
    InRange (E.ReorderIBAndAdjacency ib nFaces adjacency faceRemap).indices n)

/-- What the caller owes for I2 when it loads data into the mesh `m`: index data given to
`SetIndexData` or `UpdateFaces` while vertex data is loaded is in range for `mnVerts`, and
`SetVertexData` is given a vertex count for which the loaded indices are in range.  The other
operations take no index data and no vertex count from the caller. -/
def Op.loadsInRange {F : Type} (op : Op F) (m : Mesh F) : Prop :=
  match op with
  | .setIndexData16 nFaces (some indices) _ =>
    m.mPositions.isSome →
      InRange ((List.range (mul3 nFaces)).map (fun j => widen16 (rd indices j))) m.mnVerts
  | .setIndexData32 nFaces (some indices) _ =>
    m.mPositions.isSome → InRange (readN indices (mul3 nFaces)) m.mnVerts
  | .updateFaces nFaces (some indices) =>
    m.mPositions.isSome → InRange (readN indices (mul3 nFaces)) m.mnVerts
  | .setVertexData _ nVerts => ∀ ib, m.mIndices = some ib → InRange ib nVerts
  | _ => True

/-- The code `hr` is a failure that `UVAtlasApplyRemap` reports for the array `src`, which is
present. -/
def RemapFailure {α : Type} [Inhabited α] (E : Env) (src : Option (List α))
    (stride nVerts nNewVerts : Nat) (remap : List Nat) (hr : HRESULT) : Prop :=
  ∃ s, src = some s ∧
    (E.UVAtlasApplyRemap s stride nVerts nNewVerts remap (alloc nNewVerts)).1 = hr ∧
    FAILED hr = true

/-- The code `hr` is a failure of the remap application for one of the eight per-vertex
arrays of `m`, with the strides `VertexRemap` passes. -/
def RemapFails {F : Type} [Inhabited F] (E : Env) (m : Mesh F) (remap : List Nat)
    (nNewVerts : Nat) (hr : HRESULT) : Prop :=
  RemapFailure E m.mPositions 12 m.mnVerts nNewVerts remap hr ∨
  RemapFailure E m.mNormals 12 m.mnVerts nNewVerts remap hr ∨
  RemapFailure E m.mTangents 16 m.mnVerts nNewVerts remap hr ∨
  RemapFailure E m.mBiTangents 12 m.mnVerts nNewVerts remap hr ∨
  RemapFailure E m.mTexCoords 8 m.mnVerts nNewVerts remap hr ∨
  RemapFailure E m.mColors 16 m.mnVerts nNewVerts remap hr ∨
  RemapFailure E m.mBlendIndices 16 m.mnVerts nNewVerts remap hr ∨
  RemapFailure E m.mBlendWeights 16 m.mnVerts nNewVerts remap hr

/-- An environment whose `UVAtlasApplyRemap` reports `E_INVALIDARG` for arrays of stride 8
(the texture coordinates) and behaves as in `Env.ideal` otherwise. -/
def Env.remapFailsOnTexCoords : Env :=
  { Env.ideal with
    UVAtlasApplyRemap := fun vbin stride nVerts nNewVerts remap vbout =>
      if stride = 8 then (E_INVALIDARG, vbout)
      else UVAtlas.UVAtlasApplyRemap vbin stride nVerts nNewVerts remap vbout }

/-- The code `hr` is a failure that `reader.Read` reports for a stream the reader declares;
`result` is what the call answers. -/
def ReadFailure {α : Type} (declared : Bool) (result : HRESULT × List α) (hr : HRESULT) :
    Prop :=
  declared = true ∧ result.1 = hr ∧ FAILED hr = true

/-- The code `hr` is a failure of `reader.Read` for the position stream or for one of the
optional streams the reader declares. -/
def ReadFails {F : Type} (reader : VBReader F) (nVerts : Nat) (hr : HRESULT) : Prop :=
  ReadFailure true (reader.Read3 .SV_Position nVerts) hr ∨
  ReadFailure (reader.GetElement11 .NORMAL) (reader.Read3 .NORMAL nVerts) hr ∨
  ReadFailure (reader.GetElement11 .TANGENT) (reader.Read4 .TANGENT nVerts) hr ∨
  ReadFailure (reader.GetElement11 .BINORMAL) (reader.Read3 .BINORMAL nVerts) hr ∨
  ReadFailure (reader.GetElement11 .TEXCOORD) (reader.Read2 .TEXCOORD nVerts) hr ∨
  ReadFailure (reader.GetElement11 .COLOR) (reader.Read4 .COLOR nVerts) hr ∨
  ReadFailure (reader.GetElement11 .BLENDINDICES) (reader.Read4 .BLENDINDICES nVerts) hr ∨
  ReadFailure (reader.GetElement11 .BLENDWEIGHT) (reader.Read4 .BLENDWEIGHT nVerts) hr

/-- The position stream and every optional stream the reader declares can be read. -/
def Readable {F : Type} (reader : VBReader F) (nVerts : Nat) : Prop :=
  FAILED (reader.Read3 .SV_Position nVerts).1 = false ∧
  (reader.GetElement11 .NORMAL = true → FAILED (reader.Read3 .NORMAL nVerts).1 = false) ∧
  (reader.GetElement11 .TANGENT = true → FAILED (reader.Read4 .TANGENT nVerts).1 = false) ∧
  (reader.GetElement11 .BINORMAL = true → FAILED (reader.Read3 .BINORMAL nVerts).1 = false) ∧
  (reader.GetElement11 .TEXCOORD = true → FAILED (reader.Read2 .TEXCOORD nVerts).1 = false) ∧
  (reader.GetElement11 .COLOR = true → FAILED (reader.Read4 .COLOR nVerts).1 = false) ∧
  (reader.GetElement11 .BLENDINDICES = true →
    FAILED (reader.Read4 .BLENDINDICES nVerts).1 = false) ∧
  (reader.GetElement11 .BLENDWEIGHT = true →
    FAILED (reader.Read4 .BLENDWEIGHT nVerts).1 = false)

/-- The mesh with its vertex data released, as the first block of `SetVertexData` leaves
it. -/
def releasedVerts {F : Type} (m : Mesh F) : Mesh F :=
  { m with
    mnVerts := 0, mPositions := none, mNormals := none, mTangents := none,
    mBiTangents := none, mTexCoords := none, mColors := none, mBlendIndices := none,
    mBlendWeights := none }

/-- A stream that `SetVertexData` stores: present, with the `nVerts` entries read, when the
reader declares it, and absent otherwise. -/
def loadedStream {α : Type} [Inhabited α] (declared : Bool) (result : HRESULT × List α)
    (nVerts : Nat) : Option (List α) :=
  if declared then some (readN result.2 nVerts) else none

/-- A reader over the sample square that declares a normal stream it cannot read: the read
answers `ERROR_INVALID_NAME`. -/
def brokenReader : VBReader Int :=
  { sampleReader with
    GetElement11 := fun name => name == .NORMAL || sampleReader.GetElement11 name }

/-! ## Sample files -/

/-- The text of a file given line by line; every line is ended by a line feed. -/
def plyText : List (List Char) → List Char
  | [] => []
  | l :: ls => l ++ LF :: plyText ls

/-- The header of the example file: four vertices with `x`, `y`, `z` only, two faces. -/
def squareHeader : List (List Char) :=
  ["ply".data, "format ascii 1.0".data, "element vertex 4".data, "property float x".data,
   "property float y".data, "property float z".data, "element face 2".data,
   "property list uchar int vertex_indices".data, "end_header".data]

/-- A vertex line with three fields separated by single spaces. -/
def vertexText (a b c : List Char) : List Char := a ++ SP :: (b ++ SP :: c)

/-- A field of a vertex line: it holds no space and no line feed, and `std::stof` reads the
value `x` from it. -/
def FieldOf {F : Type} (stof : List Char → Option F) (t : List Char) (x : F) : Prop :=
  SP ∉ t ∧ LF ∉ t ∧ stof t = some x

/-- A vertex line of a file without normals and texture coordinates: three fields separated
by single spaces, from which `std::stof` reads the position `p`. -/
def VertexLine {F : Type} (stof : List Char → Option F) (l : List Char) (p : XMFLOAT3 F) :
    Prop :=
  ∃ a b c, l = vertexText a b c ∧ FieldOf stof a p.x ∧ FieldOf stof b p.y ∧ FieldOf stof c p.z

/-- The example file: the header `squareHeader`, four vertex lines and the faces `0 1 2` and
`0 2 3`. -/
def squareFile (l0 l1 l2 l3 : List Char) : List Char :=
  plyText (squareHeader ++ [l0, l1, l2, l3, "3 0 1 2".data, "3 0 2 3".data])

/-- The reader as the header of the example file leaves it. -/
def squareReader (F : Type) [Inhabited F] : PlyReader F :=
  { vertices := [default, default, default, default], indices := [0, 0, 0, 0, 0, 0],
    attributes := [], hasNormals := false, hasTexcoords := false }

/-- The mesh with the two faces of the example file over the positions `p0 .. p3`. -/
def squareMesh {F : Type} (p0 p1 p2 p3 : XMFLOAT3 F) : Mesh F :=
  { Mesh.empty F with
    mnFaces := 2, mnVerts := 4, mIndices := some [0, 1, 2, 0, 2, 3],
    mPositions := some [p0, p1, p2, p3] }

/-- A sample of `out << value` for `float` on integer values: the decimal digits, after a
minus sign for a negative value. -/
def sampleFmt (z : Int) : List Char :=
  if z < 0 then Char.ofNat 45 :: decimal z.natAbs else decimal z.toNat

/-- A triangle followed by an unused face (three sentinel indices), with positions, normals
and texture coordinates. -/
def holedMesh : Mesh Int :=
  { Mesh.empty Int with
    mnFaces := 2, mnVerts := 3,
    mIndices := some [0, 1, 2, 4294967295, 4294967295, 4294967295],
    mPositions := some [⟨0, 0, 0⟩, ⟨1, 0, 0⟩, ⟨0, 1, 0⟩],
    mNormals := some [⟨0, 0, 1⟩, ⟨0, 0, 1⟩, ⟨0, 0, 1⟩],
    mTexCoords := some [⟨0, 0⟩, ⟨1, 0⟩, ⟨0, 1⟩] }

/-- The file `ExportToPLY` writes for `holedMesh`. -/
def holedText : List Char :=
  plyText ["ply".data, "format ascii 1.0".data, "element vertex 3".data,
    "property float x".data, "property float y".data, "property float z".data,
    "property float nx".data, "property float ny".data, "property float nz".data,
    "property float u".data, "property float v".data, "element face 2".data,
    "property list uchar int vertex_indices".data, "end_header".data,
    "0 0 0 0 0 1 0 0".data, "1 0 0 0 0 1 1 0".data, "0 1 0 0 0 1 0 1".data,
    "3 0 1 2".data, "3 4294967295 4294967295 4294967295".data]

/-- The sample square after `UpdateFaces` has stored a face that names a fifth vertex, as the
atlas step does before `VertexRemap` grows the vertex arrays. -/
def strayMesh : Mesh Int :=
  (step Env.ideal (.updateFaces 2 (some [0, 1, 2, 0, 2, 4])) sampleQuad).2

/-- The example file with the last face changed to `0 2 7`. -/
def strayFile : List Char :=
  plyText (squareHeader ++ ["0 0 0".data, "1 0 0".data, "1 1 0".data, "0 1 0".data,
    "3 0 1 2".data, "3 0 2 7".data])

/-- The mesh `LoadFromPLY` builds from `strayFile`. -/
def strayLoaded : Mesh Int :=
  { Mesh.empty Int with
    mnFaces := 2, mnVerts := 4, mIndices := some [0, 1, 2, 0, 2, 7],
    mPositions := some [⟨0, 0, 0⟩, ⟨1, 0, 0⟩, ⟨1, 1, 0⟩, ⟨0, 1, 0⟩] }

/-! ## Vocabulary and samples for the PLY reader and writer -/

/-- The first line of a file, as `std::getline` reads it from the freshly opened stream. -/
def firstLine (bytes : List Char) : List Char :=
  (getline { rest := bytes, good := true } []).2

/-- The second line of a file (the format line), as the second `std::getline` of `Load`
leaves it in `line`. -/
def formatLine (bytes : List Char) : List Char :=
  (getline (getline { rest := bytes, good := true } []).1
    (getline { rest := bytes, good := true } []).2).2

/-- The example file with the encoding token `utf8` on its format line. -/
def oddFormatFile : List Char :=
  plyText (["ply".data, "format utf8 1.0".data] ++ squareHeader.drop 2 ++
    ["0 0 0".data, "1 0 0".data, "1 1 0".data, "0 1 0".data, "3 0 1 2".data, "3 0 2 3".data])

/-- The part of `PlyReader::Load` up to the test `vertices.empty()` after the header loop:
the magic line, the format line and the header directives.  The result holds `is_ascii`, the
stream, the content of `line` and the reader at that point. -/
def PlyReader.readHeader (F : Type) [Inhabited F] (file : Option (List Char)) :
    Except HRESULT (Bool × IStream × List Char × PlyReader F) :=
  match file with
  | none => .error ERROR_FILE_NOT_FOUND
  | some bytes =>
    let s0 : IStream := { rest := bytes, good := true }
    let l1 := getline s0 []
    if l1.2 ≠ "ply".data then .error E_FAIL
    else
      let l2 := getline l1.1 l1.2
      match formatOf l2.2 with
      | none => .error E_FAIL
      | some (isAscii, isLittleEndian) =>
        if !isAscii && !isLittleEndian then .error E_FAIL
        else
          match headerLoop (l2.1.rest.length + 1) l2.1 l2.2 (PlyReader.cleared F) with
          | none => .error E_FAIL
          | some (s3, line3, r) =>
            if r.vertices.isEmpty then .error E_FAIL else .ok (isAscii, s3, line3, r)

/-- The vertex section of `PlyReader::Load`, started in the state the header left: the ascii
loop, or the single binary read followed by the decoding loop. -/
def PlyReader.readVertices {F : Type} [Inhabited F] (stof : List Char → Option F)
    (floatOfBytes : List Nat → F) (isAscii : Bool) (s3 : IStream) (line3 : List Char)
    (r : PlyReader F) : Option (IStream × List Char × List (PlyVertex F)) :=
  if isAscii then asciiVertices stof r.hasNormals r.hasTexcoords r.vertices s3 line3
  else
    let size := 3 + (if r.hasNormals then 3 else 0) + (if r.hasTexcoords then 2 else 0)
    let rb := readBytes s3 (4 * size * r.vertices.length)
    some (rb.1, line3, binaryVertices floatOfBytes r.hasNormals r.hasTexcoords r.vertices rb.2)

/-- The vertex-count prefix of the face record the face loop of `Load` reads next: the first
token of the line as `(size_t)std::stoi` reads it (`none` where it throws), or the count byte
of a binary record. -/
def facePrefix (isAscii : Bool) (s : IStream) (line : List Char) : Option Nat :=
  if isAscii then (stoi ((splitSpaces (getline s line).2).getD 0 [])).map toSizeT
  else some ((readBytes s 1).2.getD 0 0)

/-- The stream and the content of `line` once the face loop has read one record. -/
def afterFace (isAscii : Bool) (s : IStream) (line : List Char) : IStream × List Char :=
  if isAscii then getline s line
  else ((readBytes (readBytes (readBytes (readBytes s 1).1 4).1 4).1 4).1, line)

/-- The stream and the content of `line` when the face loop reaches record `k`. -/
def faceState (isAscii : Bool) : Nat → IStream → List Char → IStream × List Char
  | 0, s, line => (s, line)
  | k + 1, s, line =>
    faceState isAscii k (afterFace isAscii s line).1 (afterFace isAscii s line).2

/-- What `PlyReader::Load` does after the header, from the state the header left. -/
def PlyReader.readBody {F : Type} [Inhabited F] (stof : List Char → Option F)
    (floatOfBytes : List Nat → F) (ccw : Bool) (isAscii : Bool) (s3 : IStream)
    (line3 : List Char) (r : PlyReader F) : Except HRESULT (PlyReader F) :=
  match PlyReader.readVertices stof floatOfBytes isAscii s3 line3 r with
  | none => .error E_FAIL
  | some (s4, line4, vertices) =>
    match readFaces isAscii ccw (r.indices.length / 3) s4 line4 with
    | none => .error E_FAIL
    | some faces =>
      .ok { r with vertices := vertices,
                   indices := faces ++ r.indices.drop (3 * (r.indices.length / 3)) }

/-- The example file with the second face given as a quadrilateral. -/
def quadFaceFile : List Char :=
  plyText (squareHeader ++ ["0 0 0".data, "1 0 0".data, "1 1 0".data, "0 1 0".data,
    "3 0 1 2".data, "4 0 2 3 1".data])

/-- The stream after the header of `quadFaceFile`. -/
def quadFaceBody : IStream :=
  ⟨plyText ["0 0 0".data, "1 0 0".data, "1 1 0".data, "0 1 0".data, "3 0 1 2".data,
    "4 0 2 3 1".data], true⟩

/-- The stream after the vertex records of `quadFaceFile`. -/
def quadFaceTail : IStream := ⟨plyText ["3 0 1 2".data, "4 0 2 3 1".data], true⟩

/-- The vertices of the example file. -/
def squareVertices : List (PlyVertex Int) :=
  [⟨⟨0, 0, 0⟩, default, default⟩, ⟨⟨1, 0, 0⟩, default, default⟩,
   ⟨⟨1, 1, 0⟩, default, default⟩, ⟨⟨0, 1, 0⟩, default, default⟩]

/-- The tokens the header loop of `Load` works on: the line split at single spaces, every
piece trimmed. -/
def headerTokens (l : List Char) : List (List Char) := (splitSpaces l).map trim

/-- The header loop of `Load` over complete lines none of which ends the header: the
directives are applied in order; `none` where `Load` returns `E_FAIL`. -/
def applyLines {F : Type} [Inhabited F] (r : PlyReader F) :
    List (List Char) → Option (PlyReader F)
  | [] => some r
  | l :: ls =>
    match applyDirective r (headerTokens l) with
    | none => none
    | some r2 => applyLines r2 ls

/-- Spec side: the count token `N` of a token list that reads `element <kind> N`. -/
def countToken (kind : List Char) (tokens : List (List Char)) : Option (List Char) :=
  match tokens with
  | head :: k :: count :: _ => if head = "element".data ∧ k = kind then some count else none
  | _ => none

/-- Spec side: the count token `N` of a line that reads `element <kind> N`. -/
def declaredCount (kind : List Char) (l : List Char) : Option (List Char) :=
  countToken kind (headerTokens l)

/-- Spec side: the count token of the last declaration `element <kind> N` among the lines. -/
def lastDeclared (kind : List Char) : List (List Char) → Option (List Char)
  | [] => none
  | l :: ls =>
    match lastDeclared kind ls with
    | some c => some c
    | none => declaredCount kind l

/-- Spec side: the line is a `property` line that ends in the token `name`. -/
def propertyEndsIn (name : List Char) (l : List Char) : Bool :=
  decide ((headerTokens l).head? = some "property".data) &&
    decide ((headerTokens l).getLast? = some name)

/-- A line of the header before the end marker: it holds no line feed and its first token is
not `end_header`. -/
def HeaderLine (l : List Char) : Prop :=
  LF ∉ l ∧ (headerTokens l).head? ≠ some "end_header".data

instance HeaderLine.decidable : DecidablePred HeaderLine := fun l => by
  unfold HeaderLine
  infer_instance

/-- The line that ends the header: it holds no line feed and its first token is
`end_header`. -/
def EndLine (l : List Char) : Prop :=
  LF ∉ l ∧ (headerTokens l).head? = some "end_header".data

instance EndLine.decidable : DecidablePred EndLine := fun l => by
  unfold EndLine
  infer_instance

/-- A line whose first token is none of `end_header`, `comment`, `element`, `property`. -/
def Unrecognised (l : List Char) : Prop :=
  LF ∉ l ∧ (headerTokens l).head? ≠ some "end_header".data ∧
  (headerTokens l).head? ≠ some "comment".data ∧
  (headerTokens l).head? ≠ some "element".data ∧
  (headerTokens l).head? ≠ some "property".data

instance Unrecognised.decidable : DecidablePred Unrecognised := fun l => by
  unfold Unrecognised
  infer_instance

/-- Spec side: what the header lines `hs` declare about the reader: the vertex count and the
face count are the values `std::stoi` reads from the count tokens of the last
`element vertex N` and `element face N` lines (zero without such a line), normals are parsed
iff some `property` line ends in `nz` and texture coordinates iff some `property` line ends
in `v`. -/
def Declares {F : Type} (hs : List (List Char)) (r : PlyReader F) : Prop :=
  (∀ c, lastDeclared "vertex".data hs = some c →
    ∃ v, stoi c = some v ∧ 0 ≤ v ∧ (r.vertices.length : Int) = v) ∧
  (lastDeclared "vertex".data hs = none → r.vertices.length = 0) ∧
  (∀ c, lastDeclared "face".data hs = some c →
    ∃ v, stoi c = some v ∧ 0 ≤ v ∧ ((r.indices.length / 3 : Nat) : Int) = v ∧
      r.indices.length % 3 = 0) ∧
  (lastDeclared "face".data hs = none → r.indices.length = 0) ∧
  (r.hasNormals = true ↔ ∃ l ∈ hs, propertyEndsIn "nz".data l = true) ∧
  (r.hasTexcoords = true ↔ ∃ l ∈ hs, propertyEndsIn "v".data l = true)

/-- A header with a comment, a vertex count that a later line replaces, a normal declaration
and a line the reader does not know. -/
def sampleHeader : List (List Char) :=
  ["comment sample".data, "element vertex 9".data, "element vertex 3".data,
   "property float x".data, "property float y".data, "property float z".data,
   "property float nx".data, "property float ny".data, "property float nz".data,
   "element face 1".data, "property list uchar int vertex_indices".data]

/-- The body that goes with `sampleHeader`. -/
def sampleBody : List Char :=
  plyText ["0 0 0 0 0 1".data, "1 0 0 0 0 1".data, "0 1 0 0 0 1".data, "3 0 1 2".data]

/-- The reader after the header `sampleHeader`. -/
def sampleHeaderReader : PlyReader Int :=
  { vertices := [default, default, default], indices := [0, 0, 0], attributes := [],
    hasNormals := true, hasTexcoords := false }

/-- The header lines `ExportToPLY` writes between the format line and `end_header`. -/
def exportHeader {F : Type} (m : Mesh F) : List (List Char) :=
  ["element vertex ".data ++ decimal m.mnVerts, "property float x".data,
    "property float y".data, "property float z".data]
  ++ (if m.mNormals.isSome then
        ["property float nx".data, "property float ny".data, "property float nz".data]
      else [])
  ++ (if m.mTexCoords.isSome then ["property float u".data, "property float v".data] else [])
  ++ ["element face ".data ++ decimal m.mnFaces,
    "property list uchar int vertex_indices".data]

/-- The vertex lines and the face lines `ExportToPLY` writes after the header. -/
def exportBody {F : Type} [Inhabited F] (fmt : F → List Char) (m : Mesh F) (ib : List Nat) :
    List Char :=
  ((List.range m.mnVerts).map (vertexLine fmt m)).flatten
    ++ ((List.range m.mnFaces).map (faceLine ib)).flatten

/-- A triangle with positions and normals and no texture coordinates. -/
def ridgeMesh : Mesh Int :=
  { Mesh.empty Int with
    mnFaces := 1, mnVerts := 3, mIndices := some [0, 1, 2],
    mPositions := some [⟨0, 0, 0⟩, ⟨1, 0, 0⟩, ⟨0, 1, 0⟩],
    mNormals := some [⟨0, 0, 1⟩, ⟨0, 0, 1⟩, ⟨0, 0, 1⟩] }

/-- The triangle `ridgeMesh` followed by an unused face. -/
def gapMesh : Mesh Int :=
  { ridgeMesh with
    mnFaces := 2, mIndices := some [0, 1, 2, 4294967295, 4294967295, 4294967295] }

/-! ## Lemmas on the array primitives -/

theorem mul3_eq_of_lt {n : Nat} (h : 3 * n < SIZE_MOD) : mul3 n = 3 * n := by
  unfold mul3
  rw [Nat.mod_eq_of_lt (by omega)]
  omega

theorem rd_eq_getElem {α : Type} [Inhabited α] (p : List α) (j : Nat) (h : j < p.length) :
    rd p j = p[j] := by
  simp [rd, List.getD, List.getElem?_eq_getElem h]

theorem length_readN {α : Type} [Inhabited α] (p : List α) (n : Nat) :
    (readN p n).length = n := by
  simp [readN]

theorem readN_eq_self {α : Type} [Inhabited α] (p : List α) (n : Nat) (h : p.length = n) :
    readN p n = p := by
  apply List.ext_getElem
  · simp [readN, h]
  · intro j h1 h2
    simp [readN] at h1 ⊢
    exact rd_eq_getElem p j (by omega)

theorem narrowLoop_eq_none {l : List Nat} (h : ∃ x ∈ l, x ≠ UINT32_MAX ∧ UINT16_MAX ≤ x) :
    narrowLoop l = none := by
  induction l with
  | nil => simp at h
  | cons a t ih =>
    obtain ⟨x, hx, hne, hge⟩ := h
    rcases List.mem_cons.mp hx with rfl | hx
    · simp [narrowLoop, narrow16, hne, hge]
    · have := ih ⟨x, hx, hne, hge⟩
      simp only [narrowLoop, this]
      cases narrow16 a <;> rfl

theorem narrowLoop_eq_some {l : List Nat} (h : ∀ x ∈ l, x ≠ UINT32_MAX → x < UINT16_MAX) :
    narrowLoop l = some (l.map (fun x => if x = UINT32_MAX then UINT16_MAX else x)) := by
  induction l with
  | nil => rfl
  | cons a t ih =>
    have ht := ih (fun x hx => h x (List.mem_cons_of_mem _ hx))
    have ha := h a (List.mem_cons_self _ _)
    simp only [narrowLoop, ht, List.map_cons]
    by_cases hs : a = UINT32_MAX
    · simp [narrow16, hs]
    · have := ha hs
      have h2 : ¬ a ≥ UINT16_MAX := by omega
      have h3 : a % 65536 = a := Nat.mod_eq_of_lt (by unfold UINT16_MAX at this; omega)
      simp [narrow16, hs, h2, h3]

/-! ## SetIndexData -/

theorem SetIndexData16_ok {F : Type} (E : Env) (m : Mesh F) (nFaces : Nat)
    (indices : List Nat) (attributes : Option (List Nat))
    (hpos : 0 < nFaces) (hrange : 3 * nFaces < UINT32_MAX)
    (halloc : ∀ k, E.oom k = false) :
    SetIndexData16 E m nFaces (some indices) attributes =
      (S_OK, { m with
        mnFaces := nFaces,
        mIndices := some ((List.range (3 * nFaces)).map (fun j => widen16 (rd indices j))),
        mAttributes := attributes.map (fun a => readN a nFaces) }) := by
  have h3 : mul3 nFaces = 3 * nFaces := mul3_eq_of_lt (by unfold UINT32_MAX at hrange; unfold SIZE_MOD; omega)
  have hn : nFaces ≠ 0 := by omega
  have hg : ¬ (3 * nFaces ≥ UINT32_MAX) := by omega
  cases attributes <;> simp [SetIndexData16, hn, h3, hg, halloc]

/-- C5 (as amended).  For every `nFaces > 0` with `3 * nFaces < 0xFFFFFFFF` and every index
array of length `3 * nFaces`, when the allocations succeed the 16-bit `SetIndexData` returns
`S_OK`, sets `mnFaces = nFaces`, and stores at each position `j` the value `0xFFFFFFFF` when
the input value is `0xFFFF` and the input value itself otherwise. -/
theorem SetIndexData16_widens {F : Type} (E : Env) (m : Mesh F) (nFaces : Nat)
    (indices : List Nat) (attributes : Option (List Nat))
    (hpos : 0 < nFaces) (hrange : 3 * nFaces < UINT32_MAX)
    (hlen : indices.length = 3 * nFaces) (halloc : ∀ k, E.oom k = false) :
    (SetIndexData16 E m nFaces (some indices) attributes).1 = S_OK ∧
    (SetIndexData16 E m nFaces (some indices) attributes).2.mnFaces = nFaces ∧
    ∃ ib, (SetIndexData16 E m nFaces (some indices) attributes).2.mIndices = some ib ∧
      ib.length = 3 * nFaces ∧
      ∀ j, j < 3 * nFaces →
        ib[j]? = (indices[j]?).map (fun v => if v = 65535 then 4294967295 else v) := by
  rw [SetIndexData16_ok E m nFaces indices attributes hpos hrange halloc]
  refine ⟨rfl, rfl, _, rfl, by simp, ?_⟩
  intro j hj
  have hj2 : j < indices.length := by omega
  simp [hj, List.getElem?_eq_getElem hj2, rd_eq_getElem indices j hj2, widen16, UINT16_MAX,
    UINT32_MAX]

theorem SetIndexData16_widens_witness :
    (SetIndexData16 Env.ideal (Mesh.empty Int) 1 (some [7, 65535, 65534]) none).1 = S_OK ∧
    (SetIndexData16 Env.ideal (Mesh.empty Int) 1 (some [7, 65535, 65534]) none).2.mnFaces = 1 ∧
    ∃ ib, (SetIndexData16 Env.ideal (Mesh.empty Int) 1 (some [7, 65535, 65534]) none).2.mIndices
        = some ib ∧
      ib.length = 3 * 1 ∧
      ∀ j, j < 3 * 1 →
        ib[j]? = (([7, 65535, 65534] : List Nat)[j]?).map
          (fun v => if v = 65535 then 4294967295 else v) :=
  SetIndexData16_widens Env.ideal (Mesh.empty Int) 1 [7, 65535, 65534] none
    (by decide) (by decide) (by decide) (fun _ => rfl)

/-- C5 (counterexample).  With `nFaces = 1431655766` and an index array of `3 * nFaces`
zeros the 16-bit `SetIndexData` does not succeed: it returns the overflow error. -/
theorem SetIndexData16_rejects_large_face_count :
    0 < 1431655766 ∧
    (List.replicate (3 * 1431655766) 0).length = 3 * 1431655766 ∧
    (∀ x ∈ List.replicate (3 * 1431655766) 0, x ≤ 65535) ∧
    (SetIndexData16 Env.ideal (Mesh.empty Int) 1431655766
      (some (List.replicate (3 * 1431655766) 0)) none).1 = ERROR_ARITHMETIC_OVERFLOW ∧
    ERROR_ARITHMETIC_OVERFLOW ≠ S_OK := by
  refine ⟨by decide, List.length_replicate _ _, ?_, by decide, by decide⟩
  intro x hx
  rw [List.eq_of_mem_replicate hx]
  decide

theorem SetIndexData_overflow {F : Type} (E : Env) (m : Mesh F) (nFaces : Nat)
    (indices : List Nat) (attributes : Option (List Nat))
    (hlo : UINT32_MAX ≤ 3 * nFaces) (hhi : 3 * nFaces < SIZE_MOD) :
    SetIndexData16 E m nFaces (some indices) attributes = (ERROR_ARITHMETIC_OVERFLOW, m) ∧
    SetIndexData32 E m nFaces (some indices) attributes = (ERROR_ARITHMETIC_OVERFLOW, m) := by
  have h3 : mul3 nFaces = 3 * nFaces := mul3_eq_of_lt hhi
  have hn : nFaces ≠ 0 := by unfold UINT32_MAX at hlo; omega
  constructor <;> simp [SetIndexData16, SetIndexData32, hn, h3, hlo]

/-- C6 (failing input).  For `nFaces = 6148914691236517206` the product `3 * nFaces` exceeds
the 32-bit maximum, yet both `SetIndexData` overloads return `S_OK`: the 64-bit product wraps
to 2, the guard does not fire, two indices are stored and `mnFaces` is set to `nFaces`. -/
theorem SetIndexData_overflow_guard_wraps :
    UINT32_MAX < 3 * 6148914691236517206 ∧
    6148914691236517206 < SIZE_MOD ∧
    mul3 6148914691236517206 = 2 ∧
    SetIndexData16 Env.ideal (Mesh.empty Int) 6148914691236517206 (some [0, 1]) none =
      (S_OK, { Mesh.empty Int with mnFaces := 6148914691236517206, mIndices := some [0, 1] }) ∧
    SetIndexData32 Env.ideal (Mesh.empty Int) 6148914691236517206 (some [0, 1]) none =
      (S_OK, { Mesh.empty Int with mnFaces := 6148914691236517206, mIndices := some [0, 1] }) := by
  refine ⟨by decide, by decide, by decide, by decide, by decide⟩

/-- C7 (as amended).  For every `faceCount` with `3 * faceCount` greater than the 32-bit
maximum (and below `2 ^ 64`) and every index stream, `UpdateFaces` fails and leaves the mesh
unchanged: with `E_UNEXPECTED` when the mesh has no topology, with `E_FAIL` when `faceCount`
differs from the mesh's face count, and with the overflow error otherwise. -/
theorem UpdateFaces_large_face_count {F : Type} (m : Mesh F) (nFaces : Nat) (indices : List Nat)
    (hlo : UINT32_MAX < 3 * nFaces) (hhi : 3 * nFaces < SIZE_MOD) :
    (UpdateFaces m nFaces (some indices)).2 = m ∧
    (UpdateFaces m nFaces (some indices)).1 =
      (if m.mIndices.isNone ∨ m.mnFaces = 0 then E_UNEXPECTED
       else if m.mnFaces ≠ nFaces then E_FAIL
       else ERROR_ARITHMETIC_OVERFLOW) := by
  have h3 : mul3 nFaces = 3 * nFaces := mul3_eq_of_lt hhi
  have hn : nFaces ≠ 0 := by unfold UINT32_MAX at hlo; omega
  have hg : UINT32_MAX ≤ 3 * nFaces := by omega
  unfold UpdateFaces
  cases hI : m.mIndices with
  | none => simp [hn]
  | some ib =>
    by_cases h0 : m.mnFaces = 0
    · simp [hn, h0]
    · by_cases h1 : m.mnFaces = nFaces
      · simp [hn, h0, h1, h3, hg]
      · simp [hn, h0, h1]

theorem UpdateFaces_large_face_count_witness :
    (UpdateFaces { sampleQuad with mnFaces := 1431655766 } 1431655766 (some [0])).2 =
      { sampleQuad with mnFaces := 1431655766 } ∧
    (UpdateFaces { sampleQuad with mnFaces := 1431655766 } 1431655766 (some [0])).1 =
      (if ({ sampleQuad with mnFaces := 1431655766 } : Mesh Int).mIndices.isNone ∨
          ({ sampleQuad with mnFaces := 1431655766 } : Mesh Int).mnFaces = 0 then E_UNEXPECTED
       else if ({ sampleQuad with mnFaces := 1431655766 } : Mesh Int).mnFaces ≠ 1431655766
         then E_FAIL
       else ERROR_ARITHMETIC_OVERFLOW) :=
  UpdateFaces_large_face_count { sampleQuad with mnFaces := 1431655766 } 1431655766 [0]
    (by decide) (by decide)

/-- C7 (counterexample).  On the empty mesh and on a two-face mesh, `UpdateFaces` called with
`faceCount = 1431655766` and a non-empty stream does not return the overflow error: it
returns `E_UNEXPECTED` and `E_FAIL` respectively. -/
theorem UpdateFaces_large_face_count_not_overflow :
    UINT32_MAX < 3 * 1431655766 ∧
    UpdateFaces (Mesh.empty Int) 1431655766 (some [0]) = (E_UNEXPECTED, Mesh.empty Int) ∧
    UpdateFaces sampleQuad 1431655766 (some [0]) = (E_FAIL, sampleQuad) ∧
    E_UNEXPECTED ≠ ERROR_ARITHMETIC_OVERFLOW ∧ E_FAIL ≠ ERROR_ARITHMETIC_OVERFLOW := by
  refine ⟨by decide, by decide, by decide, by decide, by decide⟩

/-- C8 (as amended).  When either `SetIndexData` overload fails, then either it returned
`E_INVALIDARG` or the overflow error and the mesh is exactly as before the call, or it
returned `E_OUTOFMEMORY` and `mnFaces` is 0 and `mIndices` and `mAttributes` are absent, the
other members being as before. -/
theorem SetIndexData_failure_state {F : Type} (E : Env) (m : Mesh F) (nFaces : Nat)
    (indices attributes : Option (List Nat)) :
    (FAILED (SetIndexData16 E m nFaces indices attributes).1 = true →
      (((SetIndexData16 E m nFaces indices attributes).1 = E_INVALIDARG ∨
        (SetIndexData16 E m nFaces indices attributes).1 = ERROR_ARITHMETIC_OVERFLOW) ∧
        (SetIndexData16 E m nFaces indices attributes).2 = m) ∨
      ((SetIndexData16 E m nFaces indices attributes).1 = E_OUTOFMEMORY ∧
        (SetIndexData16 E m nFaces indices attributes).2 =
          { m with mnFaces := 0, mIndices := none, mAttributes := none })) ∧
    (FAILED (SetIndexData32 E m nFaces indices attributes).1 = true →
      (((SetIndexData32 E m nFaces indices attributes).1 = E_INVALIDARG ∨
        (SetIndexData32 E m nFaces indices attributes).1 = ERROR_ARITHMETIC_OVERFLOW) ∧
        (SetIndexData32 E m nFaces indices attributes).2 = m) ∨
      ((SetIndexData32 E m nFaces indices attributes).1 = E_OUTOFMEMORY ∧
        (SetIndexData32 E m nFaces indices attributes).2 =
          { m with mnFaces := 0, mIndices := none, mAttributes := none })) := by
  constructor
  · unfold SetIndexData16
    cases indices with
    | none => simp
    | some ib =>
      by_cases hn : nFaces = 0
      · simp [hn]
      · by_cases hg : mul3 nFaces ≥ UINT32_MAX
        · simp [hn, hg]
        · by_cases h0 : E.oom 0 = true
          · simp [hn, hg, h0]
          · cases attributes with
            | none => simp [hn, hg, h0, FAILED, S_OK]
            | some a =>
              by_cases h1 : E.oom 1 = true
              · simp [hn, hg, h0, h1]
              · simp [hn, hg, h0, h1, FAILED, S_OK]
  · unfold SetIndexData32
    cases indices with
    | none => simp
    | some ib =>
      by_cases hn : nFaces = 0
      · simp [hn]
      · by_cases hg : mul3 nFaces ≥ UINT32_MAX
        · simp [hn, hg]
        · by_cases h0 : E.oom 0 = true
          · simp [hn, hg, h0]
          · cases attributes with
            | none => simp [hn, hg, h0, FAILED, S_OK]
            | some a =>
              by_cases h1 : E.oom 1 = true
              · simp [hn, hg, h0, h1]
              · simp [hn, hg, h0, h1, FAILED, S_OK]

/-- C8 (counterexample).  On a loaded two-face mesh both `SetIndexData` overloads fail for
`nFaces = 0`, for an absent stream and for `nFaces = 1431655766`, and the mesh keeps its two
faces and its index buffer. -/
theorem SetIndexData_failure_keeps_topology :
    SetIndexData16 Env.ideal sampleQuad 0 (some [0, 1, 2]) none = (E_INVALIDARG, sampleQuad) ∧
    SetIndexData32 Env.ideal sampleQuad 0 (some [0, 1, 2]) none = (E_INVALIDARG, sampleQuad) ∧
    SetIndexData16 Env.ideal sampleQuad 1 none none = (E_INVALIDARG, sampleQuad) ∧
    SetIndexData32 Env.ideal sampleQuad 1 none none = (E_INVALIDARG, sampleQuad) ∧
    SetIndexData16 Env.ideal sampleQuad 1431655766 (some [0, 1, 2]) none =
      (ERROR_ARITHMETIC_OVERFLOW, sampleQuad) ∧
    SetIndexData32 Env.ideal sampleQuad 1431655766 (some [0, 1, 2]) none =
      (ERROR_ARITHMETIC_OVERFLOW, sampleQuad) ∧
    FAILED E_INVALIDARG = true ∧ FAILED ERROR_ARITHMETIC_OVERFLOW = true ∧
    sampleQuad.mnFaces = 2 ∧ sampleQuad.mIndices = some [0, 1, 2, 0, 2, 3] := by
  refine ⟨by decide, by decide, by decide, by decide, by decide, by decide, by decide,
    by decide, by decide, by decide⟩

theorem SetIndexData_failure_state_witness :
    ((SetIndexData16 Env.exhausted sampleQuad 1 (some [0, 1, 2]) none).1 = E_INVALIDARG ∨
        (SetIndexData16 Env.exhausted sampleQuad 1 (some [0, 1, 2]) none).1
          = ERROR_ARITHMETIC_OVERFLOW) ∧
        (SetIndexData16 Env.exhausted sampleQuad 1 (some [0, 1, 2]) none).2 = sampleQuad ∨
      (SetIndexData16 Env.exhausted sampleQuad 1 (some [0, 1, 2]) none).1 = E_OUTOFMEMORY ∧
        (SetIndexData16 Env.exhausted sampleQuad 1 (some [0, 1, 2]) none).2 =
          { sampleQuad with mnFaces := 0, mIndices := none, mAttributes := none } :=
  (SetIndexData_failure_state Env.exhausted sampleQuad 1 (some [0, 1, 2]) none).1 (by decide)

/-! ## Index-buffer width -/

theorem all_range_rd {ib : List Nat} {n : Nat} (h : ib.length = n) (p : Nat → Bool) :
    (List.range n).all (fun j => p (rd ib j)) = ib.all p := by
  have : (List.range n).all (fun j => p (rd ib j)) = (readN ib n).all p := by
    simp [readN, List.all_map, Function.comp_def]
  rw [this, readN_eq_self ib n h]

/-- C9 (as amended).  For every mesh state whose index buffer, when present, has
`3 * mnFaces < 0xFFFFFFFF` entries, `Is16BitIndexBuffer` returns true if and only if topology
is loaded (index buffer present, `mnFaces > 0`) and every index that is not the sentinel
`0xFFFFFFFF` is strictly less than `0xFFFF`; with no topology loaded it returns false. -/
theorem Is16BitIndexBuffer_iff {F : Type} (m : Mesh F)
    (hwf : ∀ ib, m.mIndices = some ib → ib.length = 3 * m.mnFaces ∧ 3 * m.mnFaces < UINT32_MAX) :
    Is16BitIndexBuffer m = true ↔
      ∃ ib, m.mIndices = some ib ∧ 0 < m.mnFaces ∧
        ∀ x ∈ ib, x ≠ 4294967295 → x < 65535 := by
  unfold Is16BitIndexBuffer
  cases hI : m.mIndices with
  | none => simp
  | some ib =>
    obtain ⟨hlen, hrange⟩ := hwf ib hI
    have h3 : mul3 m.mnFaces = 3 * m.mnFaces :=
      mul3_eq_of_lt (by unfold UINT32_MAX at hrange; unfold SIZE_MOD; omega)
    by_cases h0 : m.mnFaces = 0
    · simp [h0]
    · have hg : ¬ (3 * m.mnFaces ≥ UINT32_MAX) := by omega
      have hpos : 0 < m.mnFaces := by omega
      simp only [h0, h3, hg, if_false, Option.some.injEq, exists_eq_left', hpos, true_and]
      rw [all_range_rd hlen (fun x => !tooWide x)]
      simp only [List.all_eq_true, tooWide, UINT32_MAX, UINT16_MAX]
      constructor
      · intro h x hx hne
        have := h x hx
        simp [hne] at this
        exact this
      · intro h x hx
        by_cases hne : x = 4294967295
        · simp [hne]
        · have := h x hx hne
          simp [hne, this]

theorem Is16BitIndexBuffer_iff_witness :
    Is16BitIndexBuffer sampleQuad = true ↔
      ∃ ib, sampleQuad.mIndices = some ib ∧ 0 < sampleQuad.mnFaces ∧
        ∀ x ∈ ib, x ≠ 4294967295 → x < 65535 :=
  Is16BitIndexBuffer_iff sampleQuad (by
    intro ib h
    have : ib = [0, 1, 2, 0, 2, 3] := by
      have h2 : sampleQuad.mIndices = some [0, 1, 2, 0, 2, 3] := rfl
      rw [h2] at h
      exact (Option.some.inj h).symm
    subst this
    decide)

/-- C9 (counterexample).  The mesh with no topology loaded has no index at all, so every
index of its buffer that is not the sentinel is below `0xFFFF`; yet `Is16BitIndexBuffer`
returns false on it. -/
theorem Is16BitIndexBuffer_false_on_empty_mesh :
    (∀ ib, (Mesh.empty Int).mIndices = some ib → ∀ x ∈ ib, x ≠ 4294967295 → x < 65535) ∧
    Is16BitIndexBuffer (Mesh.empty Int) = false := by
  refine ⟨?_, by decide⟩
  intro ib h
  simp [Mesh.empty] at h

/-- C10 (as amended).  For every mesh with topology loaded (index buffer of `3 * mnFaces`
entries, `0 < mnFaces`, `3 * mnFaces < 0xFFFFFFFF`), `GetIndexBuffer16` returns none if some
index other than the sentinel is at least `0xFFFF`; otherwise, provided the allocation of the
16-bit buffer succeeds, it returns a buffer of exactly `3 * mnFaces` values whose entry `j` is
`0xFFFF` where the 32-bit index is `0xFFFFFFFF` and the same number as the 32-bit index
elsewhere.  The mesh is an argument only and is not changed. -/
theorem GetIndexBuffer16_spec {F : Type} (E : Env) (m : Mesh F) (ib : List Nat)
    (hI : m.mIndices = some ib) (hpos : 0 < m.mnFaces) (hlen : ib.length = 3 * m.mnFaces)
    (hrange : 3 * m.mnFaces < UINT32_MAX) :
    ((∃ x ∈ ib, x ≠ 4294967295 ∧ 65535 ≤ x) → GetIndexBuffer16 E m = none) ∧
    ((∀ x ∈ ib, x ≠ 4294967295 → x < 65535) → E.oom 0 = false →
      ∃ b, GetIndexBuffer16 E m = some b ∧ b.length = 3 * m.mnFaces ∧
        ∀ j, j < 3 * m.mnFaces →
          b[j]? = (ib[j]?).map (fun v => if v = 4294967295 then 65535 else v)) := by
  have h3 : mul3 m.mnFaces = 3 * m.mnFaces :=
    mul3_eq_of_lt (by unfold UINT32_MAX at hrange; unfold SIZE_MOD; omega)
  have h0 : m.mnFaces ≠ 0 := by omega
  have hg : ¬ (3 * m.mnFaces ≥ UINT32_MAX) := by omega
  have hread : readN ib (3 * m.mnFaces) = ib := readN_eq_self ib _ hlen
  constructor
  · intro hex
    by_cases ho : E.oom 0 = true
    · simp [GetIndexBuffer16, hI, h0, h3, hg, ho]
    · simp only [GetIndexBuffer16, hI, h0, h3, hg, ho, hread, if_false]
      exact narrowLoop_eq_none hex
  · intro hall ho
    refine ⟨ib.map (fun x => if x = UINT32_MAX then UINT16_MAX else x), ?_, by simp [hlen], ?_⟩
    · simp only [GetIndexBuffer16, hI, h0, h3, hg, ho, hread, if_false]
      exact narrowLoop_eq_some hall
    · intro j _
      simp [UINT32_MAX, UINT16_MAX]

theorem GetIndexBuffer16_spec_witness :
    ((∃ x ∈ [0, 1, 2, 0, 2, 3], x ≠ 4294967295 ∧ 65535 ≤ x) →
      GetIndexBuffer16 Env.ideal sampleQuad = none) ∧
    ((∀ x ∈ [0, 1, 2, 0, 2, 3], x ≠ 4294967295 → x < 65535) → Env.ideal.oom 0 = false →
      ∃ b, GetIndexBuffer16 Env.ideal sampleQuad = some b ∧ b.length = 3 * sampleQuad.mnFaces ∧
        ∀ j, j < 3 * sampleQuad.mnFaces →
          b[j]? = (([0, 1, 2, 0, 2, 3] : List Nat)[j]?).map
            (fun v => if v = 4294967295 then 65535 else v)) :=
  GetIndexBuffer16_spec Env.ideal sampleQuad [0, 1, 2, 0, 2, 3] rfl (by decide) (by decide)
    (by decide)

/-- C10 (counterexample).  The two-face mesh has topology loaded and every index below
`0xFFFF`, but when the allocation of the 16-bit buffer fails `GetIndexBuffer16` returns none,
not a buffer. -/
theorem GetIndexBuffer16_none_when_allocation_fails :
    sampleQuad.mIndices = some [0, 1, 2, 0, 2, 3] ∧ sampleQuad.mnFaces = 2 ∧
    (∀ x ∈ [0, 1, 2, 0, 2, 3], x ≠ 4294967295 → x < 65535) ∧
    GetIndexBuffer16 Env.exhausted sampleQuad = none := by
  refine ⟨rfl, rfl, by decide, by decide⟩

/-! ## Clean -/

theorem memcpy_alloc {α : Type} [Inhabited α] (s : List α) (k n : Nat) (h : s.length = k) :
    memcpy (alloc n) s k = s ++ List.replicate (n - k) default := by
  simp [memcpy, alloc, readN_eq_self s k h]

theorem dupLoop_append {α : Type} [Inhabited α] (src : List α) (dups : List Nat) :
    ∀ (pre rest : List α) (j n : Nat), pre.length = j → rest.length = dups.length →
      n = j + dups.length →
      dupLoop src dups j n (pre ++ rest) = pre ++ dups.map (rd src) := by
  induction dups with
  | nil =>
    intro pre rest j n _ hr _
    have : rest = [] := List.length_eq_zero.mp (by simpa using hr)
    simp [dupLoop, this]
  | cons it ds ih =>
    intro pre rest j n hp hr hn
    cases rest with
    | nil => simp at hr
    | cons r rs =>
      have hj : j < n := by simp at hn; omega
      have hset : (pre ++ r :: rs).set j (rd src it) = (pre ++ [rd src it]) ++ rs := by
        rw [List.set_append]
        simp [hp]
      simp only [dupLoop, hj, if_true, hset]
      rw [ih (pre ++ [rd src it]) rs (j + 1) n (by simp [hp]) (by simpa using hr)
        (by simp at hn; omega)]
      simp

theorem dupLoop_grown {α : Type} [Inhabited α] (s : List α) (dups : List Nat) (k : Nat)
    (h : s.length = k) :
    dupLoop s dups k (k + dups.length) (memcpy (alloc (k + dups.length)) s k) =
      s ++ dups.map (rd s) := by
  rw [memcpy_alloc s k _ h]
  exact dupLoop_append s dups s _ k _ h (by simp) rfl

theorem except_bind_ok {ε α β : Type} (x : Except ε α) (f : α → Except ε β) (b : β) :
    (x >>= f) = Except.ok b ↔ ∃ a, x = Except.ok a ∧ f a = Except.ok b := by
  cases x <;> simp [bind, Except.bind]

theorem except_bind_error {ε α β : Type} (x : Except ε α) (f : α → Except ε β) (e : ε) :
    (x >>= f) = Except.error e ↔
      x = Except.error e ∨ ∃ a, x = Except.ok a ∧ f a = Except.error e := by
  cases x <;> simp [bind, Except.bind]

theorem growCopy_ok {α : Type} [Inhabited α] {E : Env} {site : Nat} {src : Option (List α)}
    {k n : Nat} {x : Option (List α)} (h : growCopy E site src k n = Except.ok x) :
    x = src.map (fun s => memcpy (alloc n) s k) := by
  unfold growCopy at h
  cases src with
  | none => simpa using h.symm
  | some s =>
    by_cases ho : E.oom site = true
    · simp [ho] at h
    · simpa [ho] using h.symm

theorem growCopy_error {α : Type} [Inhabited α] {E : Env} {site : Nat} {src : Option (List α)}
    {k n : Nat} {e : HRESULT} (h : growCopy E site src k n = Except.error e) :
    e = E_OUTOFMEMORY := by
  unfold growCopy at h
  cases src with
  | none => simp at h
  | some s =>
    by_cases ho : E.oom site = true
    · simpa [ho] using h.symm
    · simp [ho] at h

theorem dupOptional_grown {α : Type} [Inhabited α] (src : Option (List α)) (dups : List Nat)
    (k : Nat) (h : lengthIs src k) :
    dupOptional src (src.map (fun s => memcpy (alloc (k + dups.length)) s k)) dups k
        (k + dups.length) =
      src.map (fun s => s ++ dups.map (rd s)) := by
  cases src with
  | none => rfl
  | some s => simp [dupOptional, dupLoop_grown s dups k (h s rfl)]

theorem cleanGrow_ok {F : Type} [Inhabited F] {E : Env} {m m1 m2 : Mesh F} {dups : List Nat}
    (hI1 : m.I1) (h : cleanGrow E m m1 dups = Except.ok m2) :
    m2 = { m1 with
      mPositions := m.mPositions.map (fun s => s ++ dups.map (rd s)),
      mNormals := m.mNormals.map (fun s => s ++ dups.map (rd s)),
      mTangents := m.mTangents.map (fun s => s ++ dups.map (rd s)),
      mBiTangents := m.mBiTangents.map (fun s => s ++ dups.map (rd s)),
      mTexCoords := m.mTexCoords.map (fun s => s ++ dups.map (rd s)),
      mColors := m.mColors.map (fun s => s ++ dups.map (rd s)),
      mBlendIndices := m.mBlendIndices.map (fun s => s ++ dups.map (rd s)),
      mBlendWeights := m.mBlendWeights.map (fun s => s ++ dups.map (rd s)),
      mnVerts := m.mnVerts + dups.length } := by
  obtain ⟨h1, h2, h3, h4, h5, h6, h7, h8⟩ := hI1
  simp only [cleanGrow, except_bind_ok] at h
  obtain ⟨a1, e1, a2, e2, a3, e3, a4, e4, a5, e5, a6, e6, a7, e7, a8, e8, hm⟩ := h
  rw [growCopy_ok e1, growCopy_ok e2, growCopy_ok e3, growCopy_ok e4, growCopy_ok e5,
    growCopy_ok e6, growCopy_ok e7, growCopy_ok e8] at hm
  simp only [dupOptional_grown _ _ _ h1, dupOptional_grown _ _ _ h2, dupOptional_grown _ _ _ h3,
    dupOptional_grown _ _ _ h4, dupOptional_grown _ _ _ h5, dupOptional_grown _ _ _ h6,
    dupOptional_grown _ _ _ h7, dupOptional_grown _ _ _ h8, pure, Except.pure,
    Except.ok.injEq] at hm
  exact hm.symm

theorem cleanGrow_error {F : Type} [Inhabited F] {E : Env} {m m1 : Mesh F} {dups : List Nat}
    {e : HRESULT} (h : cleanGrow E m m1 dups = Except.error e) : e = E_OUTOFMEMORY := by
  simp only [cleanGrow, except_bind_error, except_bind_ok, pure, Except.pure] at h
  rcases h with h | ⟨_, _, h⟩
  · exact growCopy_error h
  rcases h with h | ⟨_, _, h⟩
  · exact growCopy_error h
  rcases h with h | ⟨_, _, h⟩
  · exact growCopy_error h
  rcases h with h | ⟨_, _, h⟩
  · exact growCopy_error h
  rcases h with h | ⟨_, _, h⟩
  · exact growCopy_error h
  rcases h with h | ⟨_, _, h⟩
  · exact growCopy_error h
  rcases h with h | ⟨_, _, h⟩
  · exact growCopy_error h
  rcases h with h | ⟨_, _, h⟩
  · exact growCopy_error h
  · simp at h

/-- The mesh a successful `Clean` with a non-empty duplicate list leaves behind. -/
theorem Clean_ok_form {F : Type} [Inhabited F] (E : Env) (m : Mesh F) (breakBowties : Bool)
    (ib : List Nat) (hI1 : m.I1) (hib : m.mIndices = some ib)
    (hsucc : FAILED (Clean E m breakBowties).1 = false)
    (hne : (E.Clean ib m.mnFaces m.mnVerts m.mAdjacency m.mAttributes breakBowties).dups ≠ []) :
    (Clean E m breakBowties).2 =
      { m with
        mIndices := some
          (E.Clean ib m.mnFaces m.mnVerts m.mAdjacency m.mAttributes breakBowties).indices,
        mAdjacency := m.mAdjacency.map (fun _ =>
          (E.Clean ib m.mnFaces m.mnVerts m.mAdjacency m.mAttributes breakBowties).adjacency),
        mPositions := m.mPositions.map (fun s => s ++
          (E.Clean ib m.mnFaces m.mnVerts m.mAdjacency m.mAttributes breakBowties).dups.map
            (rd s)),
        mNormals := m.mNormals.map (fun s => s ++
          (E.Clean ib m.mnFaces m.mnVerts m.mAdjacency m.mAttributes breakBowties).dups.map
            (rd s)),
        mTangents := m.mTangents.map (fun s => s ++
          (E.Clean ib m.mnFaces m.mnVerts m.mAdjacency m.mAttributes breakBowties).dups.map
            (rd s)),
        mBiTangents := m.mBiTangents.map (fun s => s ++
          (E.Clean ib m.mnFaces m.mnVerts m.mAdjacency m.mAttributes breakBowties).dups.map
            (rd s)),
        mTexCoords := m.mTexCoords.map (fun s => s ++
          (E.Clean ib m.mnFaces m.mnVerts m.mAdjacency m.mAttributes breakBowties).dups.map
            (rd s)),
        mColors := m.mColors.map (fun s => s ++
          (E.Clean ib m.mnFaces m.mnVerts m.mAdjacency m.mAttributes breakBowties).dups.map
            (rd s)),
        mBlendIndices := m.mBlendIndices.map (fun s => s ++
          (E.Clean ib m.mnFaces m.mnVerts m.mAdjacency m.mAttributes breakBowties).dups.map
            (rd s)),
        mBlendWeights := m.mBlendWeights.map (fun s => s ++
          (E.Clean ib m.mnFaces m.mnVerts m.mAdjacency m.mAttributes breakBowties).dups.map
            (rd s)),
        mnVerts := m.mnVerts +
          (E.Clean ib m.mnFaces m.mnVerts m.mAdjacency m.mAttributes breakBowties).dups.length } := by
  generalize hr : E.Clean ib m.mnFaces m.mnVerts m.mAdjacency m.mAttributes breakBowties = r
    at hne ⊢
  unfold Clean at hsucc ⊢
  rw [hib] at hsucc ⊢
  cases hP : m.mPositions with
  | none => simp [hP, FAILED, E_UNEXPECTED] at hsucc
  | some pos =>
    simp only [hP, hr] at hsucc ⊢
    by_cases hg : m.mnFaces = 0 ∨ m.mnVerts = 0
    · simp [hg, FAILED, E_UNEXPECTED] at hsucc
    · simp only [hg, if_false] at hsucc ⊢
      by_cases hf : FAILED r.hr = true
      · simp [hf] at hsucc
      · have hemp : r.dups.isEmpty = false := by
          cases hd : r.dups with
          | nil => exact absurd hd hne
          | cons _ _ => rfl
        simp only [hf, hemp, if_false, Bool.false_eq_true] at hsucc ⊢
        generalize hb : cleanGrow E m _ r.dups = b at hsucc ⊢
        cases b with
        | error e =>
          have := cleanGrow_error hb
          simp [this, FAILED, E_OUTOFMEMORY] at hsucc
        | ok m2 =>
          have := cleanGrow_ok hI1 hb
          simp only [this, hP]

theorem copiedEntry_append {α : Type} [Inhabited α] (old : Option (List α)) (dups : List Nat)
    (n k : Nat) (hlen : lengthIs old n) (hk : k < dups.length) (hi : dups[k] < n) :
    CopiedEntry old (old.map (fun s => s ++ dups.map (rd s))) dups[k] (n + k) := by
  intro o ho
  subst ho
  have hl : o.length = n := hlen o rfl
  have hi2 : dups[k] < o.length := by omega
  refine ⟨_, o[dups[k]], rfl, List.getElem?_eq_getElem hi2, ?_⟩
  rw [List.getElem?_append_right (by omega)]
  have : n + k - o.length = k := by omega
  rw [this, List.getElem?_map, List.getElem?_eq_getElem hk]
  simp [rd_eq_getElem o _ hi2]

/-- C1.  Let the mesh satisfy I1 and let the external cleaner return the duplicate list
`dups` of length `L >= 1`, every entry below the old vertex count.  If `Clean` succeeds, then
`mnVerts` becomes `oldCount + L` and, for every `k < L` and every per-vertex array that was
present (position, normal, tangent, bitangent, texcoord, color, blend indices, blend
weights), the array is still present and its entry `oldCount + k` equals the entry `dups[k]`
the array had before the call. -/
theorem Clean_duplication_correspondence {F : Type} [Inhabited F] (E : Env) (m : Mesh F)
    (breakBowties : Bool) (ib dups : List Nat) (hI1 : m.I1) (hib : m.mIndices = some ib)
    (hdups : (E.Clean ib m.mnFaces m.mnVerts m.mAdjacency m.mAttributes breakBowties).dups
      = dups)
    (hL : 1 ≤ dups.length) (hlt : ∀ d ∈ dups, d < m.mnVerts)
    (hsucc : FAILED (Clean E m breakBowties).1 = false) :
    (Clean E m breakBowties).2.mnVerts = m.mnVerts + dups.length ∧
    ∀ k (hk : k < dups.length),
      CopiedEntry m.mPositions (Clean E m breakBowties).2.mPositions dups[k] (m.mnVerts + k) ∧
      CopiedEntry m.mNormals (Clean E m breakBowties).2.mNormals dups[k] (m.mnVerts + k) ∧
      CopiedEntry m.mTangents (Clean E m breakBowties).2.mTangents dups[k] (m.mnVerts + k) ∧
      CopiedEntry m.mBiTangents (Clean E m breakBowties).2.mBiTangents dups[k]
        (m.mnVerts + k) ∧
      CopiedEntry m.mTexCoords (Clean E m breakBowties).2.mTexCoords dups[k] (m.mnVerts + k) ∧
      CopiedEntry m.mColors (Clean E m breakBowties).2.mColors dups[k] (m.mnVerts + k) ∧
      CopiedEntry m.mBlendIndices (Clean E m breakBowties).2.mBlendIndices dups[k]
        (m.mnVerts + k) ∧
      CopiedEntry m.mBlendWeights (Clean E m breakBowties).2.mBlendWeights dups[k]
        (m.mnVerts + k) := by
  have hne : (E.Clean ib m.mnFaces m.mnVerts m.mAdjacency m.mAttributes breakBowties).dups
      ≠ [] := by
    rw [hdups]
    intro h
    rw [h] at hL
    simp at hL
  rw [Clean_ok_form E m breakBowties ib hI1 hib hsucc hne, hdups]
  obtain ⟨h1, h2, h3, h4, h5, h6, h7, h8⟩ := hI1
  refine ⟨rfl, ?_⟩
  intro k hk
  have hi : dups[k] < m.mnVerts := hlt _ (List.getElem_mem _)
  exact ⟨copiedEntry_append _ dups _ k h1 hk hi, copiedEntry_append _ dups _ k h2 hk hi,
    copiedEntry_append _ dups _ k h3 hk hi, copiedEntry_append _ dups _ k h4 hk hi,
    copiedEntry_append _ dups _ k h5 hk hi, copiedEntry_append _ dups _ k h6 hk hi,
    copiedEntry_append _ dups _ k h7 hk hi, copiedEntry_append _ dups _ k h8 hk hi⟩

theorem sampleQuad_I1 : sampleQuad.I1 := by
  simp [Mesh.I1, lengthIs, sampleQuad, Mesh.empty]

theorem Clean_duplication_correspondence_witness :
    (Clean { Env.ideal with Clean := cleanerWith [2, 0] } sampleQuad true).2.mnVerts
      = sampleQuad.mnVerts + [2, 0].length ∧
    ∀ k (hk : k < [2, 0].length),
      CopiedEntry sampleQuad.mPositions
        (Clean { Env.ideal with Clean := cleanerWith [2, 0] } sampleQuad true).2.mPositions
        ([2, 0][k]) (sampleQuad.mnVerts + k) ∧
      CopiedEntry sampleQuad.mNormals
        (Clean { Env.ideal with Clean := cleanerWith [2, 0] } sampleQuad true).2.mNormals
        ([2, 0][k]) (sampleQuad.mnVerts + k) ∧
      CopiedEntry sampleQuad.mTangents
        (Clean { Env.ideal with Clean := cleanerWith [2, 0] } sampleQuad true).2.mTangents
        ([2, 0][k]) (sampleQuad.mnVerts + k) ∧
      CopiedEntry sampleQuad.mBiTangents
        (Clean { Env.ideal with Clean := cleanerWith [2, 0] } sampleQuad true).2.mBiTangents
        ([2, 0][k]) (sampleQuad.mnVerts + k) ∧
      CopiedEntry sampleQuad.mTexCoords
        (Clean { Env.ideal with Clean := cleanerWith [2, 0] } sampleQuad true).2.mTexCoords
        ([2, 0][k]) (sampleQuad.mnVerts + k) ∧
      CopiedEntry sampleQuad.mColors
        (Clean { Env.ideal with Clean := cleanerWith [2, 0] } sampleQuad true).2.mColors
        ([2, 0][k]) (sampleQuad.mnVerts + k) ∧
      CopiedEntry sampleQuad.mBlendIndices
        (Clean { Env.ideal with Clean := cleanerWith [2, 0] } sampleQuad true).2.mBlendIndices
        ([2, 0][k]) (sampleQuad.mnVerts + k) ∧
      CopiedEntry sampleQuad.mBlendWeights
        (Clean { Env.ideal with Clean := cleanerWith [2, 0] } sampleQuad true).2.mBlendWeights
        ([2, 0][k]) (sampleQuad.mnVerts + k) :=
  Clean_duplication_correspondence { Env.ideal with Clean := cleanerWith [2, 0] } sampleQuad
    true [0, 1, 2, 0, 2, 3] [2, 0] sampleQuad_I1 rfl rfl (by decide) (by decide) (by decide)

/-! ## VertexRemap -/

theorem scatter_length {α : Type} [Inhabited α] (vbin : List α) (remap : List Nat) (n : Nat)
    (vbout : List α) :
    ((List.range n).foldl (fun out i => out.set (rd remap i) (rd vbin i)) vbout).length
      = vbout.length := by
  induction n with
  | zero => simp
  | succ n ih => simp [List.range_succ, List.foldl_append, ih]

theorem scatter_getElem {α : Type} [Inhabited α] (vbin : List α) (remap : List Nat)
    (vbout : List α) (n : Nat)
    (hrange : ∀ i, i < n → rd remap i < vbout.length)
    (hinj : ∀ i i2, i < n → i2 < n → rd remap i = rd remap i2 → i = i2)
    (i : Nat) (hi : i < n) :
    ((List.range n).foldl (fun out i => out.set (rd remap i) (rd vbin i)) vbout)[rd remap i]?
      = some (rd vbin i) := by
  induction n with
  | zero => omega
  | succ n ih =>
    simp only [List.range_succ, List.foldl_append, List.foldl_cons, List.foldl_nil]
    by_cases hin : i = n
    · subst hin
      rw [List.getElem?_set_self]
      rw [scatter_length]
      exact hrange i (by omega)
    · have hlt : i < n := by omega
      have hne : rd remap n ≠ rd remap i := by
        intro h
        have := hinj n i (by omega) (by omega) h
        omega
      rw [List.getElem?_set_ne hne]
      exact ih (fun i h => hrange i (by omega))
        (fun a b ha hb h => hinj a b (by omega) (by omega) h) hlt

theorem remapCopy_ideal {α : Type} [Inhabited α] (E : Env) (site : Nat) (src : Option (List α))
    (stride nVerts nNewVerts : Nat) (remap : List Nat)
    (hlib : @E.UVAtlasApplyRemap = @UVAtlas.UVAtlasApplyRemap)
    (halloc : ∀ k, E.oom k = false) :
    remapCopy E site src stride nVerts nNewVerts remap =
      Except.ok (src.map (fun s =>
        (UVAtlasApplyRemap s stride nVerts nNewVerts remap (alloc nNewVerts)).2)) := by
  cases src with
  | none => rfl
  | some s => simp [remapCopy, halloc, hlib, UVAtlasApplyRemap, FAILED, S_OK]

theorem copiedEntry_scatter {α : Type} [Inhabited α] (old : Option (List α))
    (stride n n2 : Nat) (remap : List Nat) (hlen : lengthIs old n)
    (hrl : remap.length = n)
    (hrange : ∀ i (h : i < remap.length), remap[i] < n2)
    (hinj : ∀ i i2 (h : i < remap.length) (h2 : i2 < remap.length),
      remap[i] = remap[i2] → i = i2)
    (i : Nat) (hi : i < remap.length) :
    CopiedEntry old
      (old.map (fun s => (UVAtlasApplyRemap s stride n n2 remap (alloc n2)).2)) i (remap[i]) := by
  intro o ho
  subst ho
  have hl : o.length = n := hlen o rfl
  have hio : i < o.length := by omega
  refine ⟨_, o[i], rfl, List.getElem?_eq_getElem hio, ?_⟩
  have key := scatter_getElem o remap (alloc n2) n
    (by
      intro a ha
      have ha2 : a < remap.length := by omega
      rw [rd_eq_getElem remap a ha2]
      simpa [alloc] using hrange a ha2)
    (by
      intro a b ha hb h
      have ha2 : a < remap.length := by omega
      have hb2 : b < remap.length := by omega
      rw [rd_eq_getElem remap a ha2, rd_eq_getElem remap b hb2] at h
      exact hinj a b ha2 hb2 h)
    i (by omega)
  rw [rd_eq_getElem remap i hi, rd_eq_getElem o i hio] at key
  simpa [UVAtlasApplyRemap] using key

/-- C2 (as amended).  With `UVAtlasApplyRemap` behaving as section 4.6 describes and every
allocation succeeding: for every mesh satisfying I1 with `oldCount > 0` vertices and positions
present, and every remap table of length `oldCount` whose entries lie in `[0, newCount)` and
in which every destination below `newCount` occurs exactly once, `VertexRemap` returns `S_OK`,
the vertex count becomes `newCount`, and for every new index `j`, with `i` the old index such
that `remap[i] = j`, every per-vertex array that was present is present and its entry `j`
equals the entry `i` it had before the call. -/
theorem VertexRemap_coverage {F : Type} [Inhabited F] (E : Env) (m : Mesh F)
    (remap : List Nat) (newCount : Nat) (pos : List (XMFLOAT3 F))
    (hlib : @E.UVAtlasApplyRemap = @UVAtlas.UVAtlasApplyRemap)
    (halloc : ∀ k, E.oom k = false)
    (hI1 : m.I1) (hpos : m.mPositions = some pos) (hold : 0 < m.mnVerts)
    (hlen : remap.length = m.mnVerts)
    (htotal : ∀ x ∈ remap, x < newCount)
    (honce : ∀ j, j < newCount → remap.count j = 1) :
    (VertexRemap E m (some remap) newCount).1 = S_OK ∧
    (VertexRemap E m (some remap) newCount).2.mnVerts = newCount ∧
    ∀ j i (h : i < remap.length), remap[i] = j →
      CopiedEntry m.mPositions (VertexRemap E m (some remap) newCount).2.mPositions i j ∧
      CopiedEntry m.mNormals (VertexRemap E m (some remap) newCount).2.mNormals i j ∧
      CopiedEntry m.mTangents (VertexRemap E m (some remap) newCount).2.mTangents i j ∧
      CopiedEntry m.mBiTangents (VertexRemap E m (some remap) newCount).2.mBiTangents i j ∧
      CopiedEntry m.mTexCoords (VertexRemap E m (some remap) newCount).2.mTexCoords i j ∧
      CopiedEntry m.mColors (VertexRemap E m (some remap) newCount).2.mColors i j ∧
      CopiedEntry m.mBlendIndices (VertexRemap E m (some remap) newCount).2.mBlendIndices i j ∧
      CopiedEntry m.mBlendWeights (VertexRemap E m (some remap) newCount).2.mBlendWeights i j := by
  have hnodup : remap.Nodup := by
    rw [List.nodup_iff_count_le_one]
    intro a
    by_cases ha : a ∈ remap
    · rw [honce a (htotal a ha)]
    · rw [List.count_eq_zero_of_not_mem ha]
      omega
  have hrange : ∀ i (h : i < remap.length), remap[i] < newCount :=
    fun i h => htotal _ (List.getElem_mem _)
  have hinj : ∀ i i2 (h : i < remap.length) (h2 : i2 < remap.length),
      remap[i] = remap[i2] → i = i2 := by
    intro i i2 h h2 he
    exact (List.Nodup.getElem_inj_iff hnodup).mp he
  have hsub : remap ⊆ List.range newCount := fun x hx => List.mem_range.mpr (htotal x hx)
  have hge : m.mnVerts ≤ newCount := by
    have := (List.subperm_of_subset hnodup hsub).length_le
    simpa [hlen] using this
  have hnew : newCount ≠ 0 := by omega
  have hold2 : m.mnVerts ≠ 0 := by omega
  have hlt : ¬ newCount < m.mnVerts := by omega
  have hform : VertexRemap E m (some remap) newCount =
      (S_OK, { m with
        mPositions := m.mPositions.map (fun s =>
          (UVAtlasApplyRemap s 12 m.mnVerts newCount remap (alloc newCount)).2),
        mNormals := m.mNormals.map (fun s =>
          (UVAtlasApplyRemap s 12 m.mnVerts newCount remap (alloc newCount)).2),
        mTangents := m.mTangents.map (fun s =>
          (UVAtlasApplyRemap s 16 m.mnVerts newCount remap (alloc newCount)).2),
        mBiTangents := m.mBiTangents.map (fun s =>
          (UVAtlasApplyRemap s 12 m.mnVerts newCount remap (alloc newCount)).2),
        mTexCoords := m.mTexCoords.map (fun s =>
          (UVAtlasApplyRemap s 8 m.mnVerts newCount remap (alloc newCount)).2),
        mColors := m.mColors.map (fun s =>
          (UVAtlasApplyRemap s 16 m.mnVerts newCount remap (alloc newCount)).2),
        mBlendIndices := m.mBlendIndices.map (fun s =>
          (UVAtlasApplyRemap s 16 m.mnVerts newCount remap (alloc newCount)).2),
        mBlendWeights := m.mBlendWeights.map (fun s =>
          (UVAtlasApplyRemap s 16 m.mnVerts newCount remap (alloc newCount)).2),
        mnVerts := newCount }) := by
    simp only [VertexRemap, hnew, hpos, hold2, hlt, if_false, remapAll,
      remapCopy_ideal E _ _ _ _ _ _ hlib halloc, bind, Except.bind, pure, Except.pure]
  rw [hform]
  obtain ⟨h1, h2, h3, h4, h5, h6, h7, h8⟩ := hI1
  refine ⟨rfl, rfl, ?_⟩
  intro j i h hj
  subst hj
  exact ⟨copiedEntry_scatter _ _ _ _ remap h1 hlen hrange hinj i h,
    copiedEntry_scatter _ _ _ _ remap h2 hlen hrange hinj i h,
    copiedEntry_scatter _ _ _ _ remap h3 hlen hrange hinj i h,
    copiedEntry_scatter _ _ _ _ remap h4 hlen hrange hinj i h,
    copiedEntry_scatter _ _ _ _ remap h5 hlen hrange hinj i h,
    copiedEntry_scatter _ _ _ _ remap h6 hlen hrange hinj i h,
    copiedEntry_scatter _ _ _ _ remap h7 hlen hrange hinj i h,
    copiedEntry_scatter _ _ _ _ remap h8 hlen hrange hinj i h⟩

theorem VertexRemap_coverage_witness :
    (VertexRemap Env.ideal sampleQuad (some [1, 2, 3, 0]) 4).1 = S_OK ∧
    (VertexRemap Env.ideal sampleQuad (some [1, 2, 3, 0]) 4).2.mnVerts = 4 ∧
    ∀ j i (h : i < [1, 2, 3, 0].length), [1, 2, 3, 0][i] = j →
      CopiedEntry sampleQuad.mPositions
        (VertexRemap Env.ideal sampleQuad (some [1, 2, 3, 0]) 4).2.mPositions i j ∧
      CopiedEntry sampleQuad.mNormals
        (VertexRemap Env.ideal sampleQuad (some [1, 2, 3, 0]) 4).2.mNormals i j ∧
      CopiedEntry sampleQuad.mTangents
        (VertexRemap Env.ideal sampleQuad (some [1, 2, 3, 0]) 4).2.mTangents i j ∧
      CopiedEntry sampleQuad.mBiTangents
        (VertexRemap Env.ideal sampleQuad (some [1, 2, 3, 0]) 4).2.mBiTangents i j ∧
      CopiedEntry sampleQuad.mTexCoords
        (VertexRemap Env.ideal sampleQuad (some [1, 2, 3, 0]) 4).2.mTexCoords i j ∧
      CopiedEntry sampleQuad.mColors
        (VertexRemap Env.ideal sampleQuad (some [1, 2, 3, 0]) 4).2.mColors i j ∧
      CopiedEntry sampleQuad.mBlendIndices
        (VertexRemap Env.ideal sampleQuad (some [1, 2, 3, 0]) 4).2.mBlendIndices i j ∧
      CopiedEntry sampleQuad.mBlendWeights
        (VertexRemap Env.ideal sampleQuad (some [1, 2, 3, 0]) 4).2.mBlendWeights i j :=
  VertexRemap_coverage Env.ideal sampleQuad [1, 2, 3, 0] 4
    [⟨0, 0, 0⟩, ⟨1, 0, 0⟩, ⟨1, 1, 0⟩, ⟨0, 1, 0⟩] rfl (fun _ => rfl) sampleQuad_I1 rfl
    (by decide) (by decide) (by decide) (by decide)

/-- C2 (counterexample).  The table `[1, 2, 3, 0]` maps the four vertices of the sample mesh
onto `[0, 4)`, every destination exactly once, but when the allocations fail `VertexRemap`
returns `E_OUTOFMEMORY`; and for the mesh without vertices the empty table covers the empty
range `[0, 0)`, but `VertexRemap` returns `E_INVALIDARG`. -/
theorem VertexRemap_not_always_successful :
    ([1, 2, 3, 0] : List Nat).length = sampleQuad.mnVerts ∧
    (∀ x ∈ ([1, 2, 3, 0] : List Nat), x < 4) ∧
    (∀ j, j < 4 → ([1, 2, 3, 0] : List Nat).count j = 1) ∧
    VertexRemap Env.exhausted sampleQuad (some [1, 2, 3, 0]) 4 = (E_OUTOFMEMORY, sampleQuad) ∧
    ([] : List Nat).length = (Mesh.empty Int).mnVerts ∧
    VertexRemap Env.ideal (Mesh.empty Int) (some []) 0 = (E_INVALIDARG, Mesh.empty Int) ∧
    E_OUTOFMEMORY ≠ S_OK ∧ E_INVALIDARG ≠ S_OK := by
  refine ⟨by decide, by decide, by decide, by decide, by decide, by decide, by decide,
    by decide⟩

/-! ## UpdateAttributes -/

theorem orderedInsert_lex (a : Nat × Nat) :
    ∀ t : List (Nat × Nat), t.Pairwise lexLT → (∀ x ∈ t, a.2 < x.2) →
      (t.orderedInsert attrLE a).Pairwise lexLT := by
  intro t
  induction t with
  | nil => intro _ _; simp
  | cons b t ih =>
    intro hp hlt
    rw [List.pairwise_cons] at hp
    obtain ⟨hb, ht⟩ := hp
    by_cases hab : attrLE a b
    · rw [List.orderedInsert, if_pos hab]
      have hab2 : a.1 ≤ b.1 := hab
      refine List.Pairwise.cons ?_ (List.Pairwise.cons hb ht)
      intro x hx
      rcases List.mem_cons.mp hx with rfl | hx
      · have := hlt x (List.mem_cons_self _ _)
        unfold lexLT
        omega
      · have h1 := hlt x (List.mem_cons_of_mem _ hx)
        have h2 := hb x hx
        unfold lexLT at h2 ⊢
        omega
    · rw [List.orderedInsert, if_neg hab]
      have hab2 : ¬ a.1 ≤ b.1 := hab
      refine List.Pairwise.cons ?_ (ih ht (fun x hx => hlt x (List.mem_cons_of_mem _ hx)))
      intro x hx
      rcases (List.mem_orderedInsert attrLE).mp hx with rfl | hx
      · unfold lexLT
        omega
      · exact hb x hx

theorem insertionSort_lex :
    ∀ l : List (Nat × Nat), l.Pairwise (fun p q => p.2 < q.2) →
      (l.insertionSort attrLE).Pairwise lexLT := by
  intro l
  induction l with
  | nil => intro _; simp
  | cons a t ih =>
    intro hp
    rw [List.pairwise_cons] at hp
    rw [List.insertionSort]
    refine orderedInsert_lex a _ (ih hp.2) ?_
    intro x hx
    exact hp.1 x ((List.mem_insertionSort attrLE).mp hx)

theorem facePairs_sorted_lex (nFaces : Nat) (attributes : List Nat) :
    ((facePairs nFaces attributes).insertionSort attrLE).Pairwise lexLT := by
  apply insertionSort_lex
  unfold facePairs
  rw [List.pairwise_map]
  exact List.pairwise_lt_range nFaces

theorem faceRemap_perm (nFaces : Nat) (attributes : List Nat) :
    (AttributeSort nFaces attributes).faceRemap.Perm (List.range nFaces) := by
  have h := (List.perm_insertionSort attrLE (facePairs nFaces attributes)).map Prod.snd
  have h2 : (facePairs nFaces attributes).map Prod.snd = List.range nFaces := by
    simp [facePairs, Function.comp_def]
  rw [h2] at h
  exact h

theorem sorted_fst_eq (nFaces : Nat) (attributes : List Nat) :
    ((facePairs nFaces attributes).insertionSort attrLE).map Prod.fst =
      (AttributeSort nFaces attributes).faceRemap.map (rd attributes) := by
  show _ = (((facePairs nFaces attributes).insertionSort attrLE).map Prod.snd).map _
  rw [List.map_map]
  apply List.map_congr_left
  intro p hp
  have hp2 := (List.mem_insertionSort attrLE).mp hp
  simp only [facePairs, List.mem_map, List.mem_range] at hp2
  obtain ⟨j, _, rfl⟩ := hp2
  rfl

theorem faceRemap_pairwise (nFaces : Nat) (attributes : List Nat) :
    (AttributeSort nFaces attributes).faceRemap.Pairwise
      (fun a b => rd attributes a < rd attributes b ∨
        (rd attributes a = rd attributes b ∧ a < b)) := by
  show (((facePairs nFaces attributes).insertionSort attrLE).map Prod.snd).Pairwise _
  rw [List.pairwise_map]
  refine List.Pairwise.imp_of_mem ?_ (facePairs_sorted_lex nFaces attributes)
  intro p q hp hq h
  have hp2 := (List.mem_insertionSort attrLE).mp hp
  have hq2 := (List.mem_insertionSort attrLE).mp hq
  simp only [facePairs, List.mem_map, List.mem_range] at hp2 hq2
  obtain ⟨j, _, rfl⟩ := hp2
  obtain ⟨k, _, rfl⟩ := hq2
  exact h

theorem faceRemap_sorted (nFaces : Nat) (attributes : List Nat) :
    ((AttributeSort nFaces attributes).faceRemap.map (rd attributes)).Pairwise (· ≤ ·) := by
  rw [List.pairwise_map]
  refine (faceRemap_pairwise nFaces attributes).imp ?_
  intro a b h
  omega

theorem faceRemap_stable (nFaces : Nat) (attributes : List Nat) (i j : Nat) (hij : i < j)
    (hj : j < (AttributeSort nFaces attributes).faceRemap.length)
    (heq : rd attributes ((AttributeSort nFaces attributes).faceRemap[i]) =
      rd attributes ((AttributeSort nFaces attributes).faceRemap[j])) :
    (AttributeSort nFaces attributes).faceRemap[i] <
      (AttributeSort nFaces attributes).faceRemap[j] := by
  have h := List.pairwise_iff_getElem.mp (faceRemap_pairwise nFaces attributes) i j
    (by omega) hj hij
  omega

theorem faceRemap_length (nFaces : Nat) (attributes : List Nat) :
    (AttributeSort nFaces attributes).faceRemap.length = nFaces := by
  simpa using (faceRemap_perm nFaces attributes).length_eq

theorem faceRemap_lt (nFaces : Nat) (attributes : List Nat) (j : Nat)
    (hj : j < (AttributeSort nFaces attributes).faceRemap.length) :
    (AttributeSort nFaces attributes).faceRemap[j] < nFaces := by
  have := (faceRemap_perm nFaces attributes).mem_iff.mp (List.getElem_mem hj)
  exact List.mem_range.mp this

theorem reorderFaces_length (buf : List Nat) (nFaces : Nat) (faceRemap : List Nat) :
    (reorderFaces buf nFaces faceRemap).length = 3 * nFaces := by
  simp [reorderFaces]

theorem reorderFaces_getElem (buf : List Nat) (nFaces : Nat) (faceRemap : List Nat)
    (hlen : buf.length = 3 * nFaces) (hfl : faceRemap.length = nFaces)
    (hlt : ∀ x ∈ faceRemap, x < nFaces)
    (j : Nat) (hj : j < faceRemap.length) (c : Nat) (hc : c < 3) :
    (reorderFaces buf nFaces faceRemap)[3 * j + c]? = buf[3 * faceRemap[j] + c]? ∧
    3 * faceRemap[j] + c < buf.length := by
  have hx := hlt _ (List.getElem_mem hj)
  have hb : 3 * faceRemap[j] + c < buf.length := by omega
  have hk : 3 * j + c < 3 * nFaces := by omega
  refine ⟨?_, hb⟩
  have h1 : (3 * j + c) / 3 = j := by omega
  have h2 : (3 * j + c) % 3 = c := by omega
  simp only [reorderFaces, List.getElem?_map, List.getElem?_range hk, Option.map_some', h1, h2]
  rw [rd_eq_getElem faceRemap j hj, rd_eq_getElem buf _ hb, List.getElem?_eq_getElem hb]

theorem memcpy_eq_src {α : Type} [Inhabited α] (dst src : List α) (n : Nat)
    (hs : src.length = n) (hd : dst.length = n) : memcpy dst src n = src := by
  simp [memcpy, readN_eq_self src n hs, List.drop_eq_nil_of_le (le_of_eq hd)]

/-- The mesh a successful `UpdateAttributes` leaves behind when the library routines behave
as the specification describes them. -/
theorem UpdateAttributes_ok_form {F : Type} (E : Env) (m : Mesh F) (nFaces : Nat)
    (attributes ib : List Nat)
    (hsort : E.AttributeSort = UVAtlas.AttributeSort)
    (hre : E.ReorderIB = UVAtlas.ReorderIB)
    (hrea : E.ReorderIBAndAdjacency = UVAtlas.ReorderIBAndAdjacency)
    (hib : m.mIndices = some ib) (hiblen : ib.length = 3 * m.mnFaces)
    (hI3a : lengthIs m.mAttributes m.mnFaces) (hI3b : lengthIs m.mAdjacency (3 * m.mnFaces))
    (hattr : attributes.length = nFaces)
    (hsucc : FAILED (UpdateAttributes E m nFaces (some attributes)).1 = false) :
    m.mnFaces = nFaces ∧
    (UpdateAttributes E m nFaces (some attributes)).2 =
      { m with
        mAttributes := some
          (((facePairs nFaces attributes).insertionSort attrLE).map Prod.fst),
        mIndices := some (reorderFaces ib nFaces (AttributeSort nFaces attributes).faceRemap),
        mAdjacency := m.mAdjacency.map (fun adj =>
          (reorderFaces adj nFaces (AttributeSort nFaces attributes).faceRemap).map
            (fun a => if a = UINT32_MAX then UINT32_MAX
              else newFaceId (AttributeSort nFaces attributes).faceRemap a)) } := by
  unfold UpdateAttributes at hsucc ⊢
  by_cases hn : nFaces = 0
  · simp [hn, FAILED, E_INVALIDARG] at hsucc
  rw [hib] at hsucc ⊢
  cases hP : m.mPositions with
  | none => simp [hP, hn, FAILED, E_UNEXPECTED] at hsucc
  | some pos =>
    by_cases hg : m.mnFaces = 0 ∨ m.mnVerts = 0
    · simp [hP, hn, hg, FAILED, E_UNEXPECTED] at hsucc
    have hf0 : m.mnFaces ≠ 0 := fun h => hg (Or.inl h)
    have hv0 : m.mnVerts ≠ 0 := fun h => hg (Or.inr h)
    by_cases hne : m.mnFaces = nFaces
    swap
    · simp [hP, hn, hf0, hv0, hne, FAILED, E_FAIL] at hsucc
    have hA0 : m.mAttributes = none → E.oom 0 = false := by
      intro hA
      by_contra h
      have h0 : E.oom 0 = true := by simpa using h
      simp [hP, hn, hf0, hv0, hne, hA, h0, storeAttributes, FAILED, E_OUTOFMEMORY] at hsucc
    have hdrop : attributes.drop nFaces = [] := List.drop_eq_nil_of_le (le_of_eq hattr)
    have hdropib : ib.drop (3 * nFaces) = [] :=
      List.drop_eq_nil_of_le (by rw [hiblen, hne])
    have hstored : storeAttributes E m.mAttributes attributes nFaces = Except.ok attributes := by
      cases hA : m.mAttributes with
      | none => simp [storeAttributes, hA0 hA, readN_eq_self attributes nFaces hattr]
      | some old =>
        have := hI3a old hA
        simp [storeAttributes, memcpy_eq_src old attributes nFaces hattr (by rw [this, hne])]
    have ho1 : E.oom 1 = false := by
      by_contra h
      have h1 : E.oom 1 = true := by simpa using h
      simp [hP, hn, hf0, hv0, hne, hstored, h1, FAILED, E_OUTOFMEMORY] at hsucc
    refine ⟨hne, ?_⟩
    simp only [hP, hn, hf0, hv0, hne, false_or, if_false, not_true_eq_false, hstored, ho1,
      hsort, hre, hrea, Bool.false_eq_true]
    cases hAdj : m.mAdjacency with
    | none => simp [AttributeSort, ReorderIB, FAILED, S_OK, hdropib, hdrop]
    | some adj =>
      have hadjlen : adj.drop (3 * nFaces) = [] :=
        List.drop_eq_nil_of_le (by rw [hI3b adj hAdj, hne])
      simp [AttributeSort, ReorderIBAndAdjacency, FAILED, S_OK, hdropib, hadjlen, hdrop]

theorem adjacency_rewritten (adj faceRemap : List Nat) (nFaces : Nat)
    (hlen : adj.length = 3 * nFaces) (hperm : faceRemap.Perm (List.range nFaces))
    (j : Nat) (hj : j < faceRemap.length) (c : Nat) (hc : c < 3) (a : Nat)
    (ha : adj[3 * faceRemap[j] + c]? = some a) :
    (a = 4294967295 →
      ((reorderFaces adj nFaces faceRemap).map
        (fun a => if a = UINT32_MAX then UINT32_MAX else newFaceId faceRemap a))[3 * j + c]?
        = some 4294967295) ∧
    (a ≠ 4294967295 → a < nFaces →
      ∃ p, ((reorderFaces adj nFaces faceRemap).map
          (fun a => if a = UINT32_MAX then UINT32_MAX else newFaceId faceRemap a))[3 * j + c]?
          = some p ∧ faceRemap[p]? = some a) := by
  have hfl : faceRemap.length = nFaces := by simpa using hperm.length_eq
  have hlt : ∀ x ∈ faceRemap, x < nFaces := fun x hx => List.mem_range.mp (hperm.mem_iff.mp hx)
  have hget := (reorderFaces_getElem adj nFaces faceRemap hlen hfl hlt j hj c hc).1
  rw [ha] at hget
  constructor
  · intro hs
    simp [List.getElem?_map, hget, hs, UINT32_MAX]
  · intro hs hr
    refine ⟨newFaceId faceRemap a, ?_, ?_⟩
    · simp [List.getElem?_map, hget, hs, UINT32_MAX]
    · have hmem : a ∈ faceRemap := hperm.mem_iff.mpr (List.mem_range.mpr hr)
      exact List.getElem?_indexOf hmem

/-- C3.  With `AttributeSort`, `ReorderIB` and `ReorderIBAndAdjacency` behaving as section
4.5 describes: after a successful `UpdateAttributes(nFaces, attributes)` on a mesh whose index
buffer, attribute array and adjacency have their I3 lengths, there is a permutation
`faceRemap` of the face ids (`faceRemap[j]` = old id of the face now at `j`) such that
* the stored attributes are the input attributes carried along that permutation and are
  non-decreasing (equal ids are contiguous),
* faces with equal attribute keep their original relative order,
* the index triple of each face moves with the face,
* when adjacency is present, every entry moves with its face, the sentinel stays the
  sentinel, and every other entry `a` (a valid face id) becomes the new position `p` of the
  face it referred to (`faceRemap[p] = a`); absent adjacency stays absent. -/
theorem UpdateAttributes_stable_sort {F : Type} (E : Env) (m : Mesh F) (nFaces : Nat)
    (attributes ib : List Nat)
    (hsort : E.AttributeSort = UVAtlas.AttributeSort)
    (hre : E.ReorderIB = UVAtlas.ReorderIB)
    (hrea : E.ReorderIBAndAdjacency = UVAtlas.ReorderIBAndAdjacency)
    (hib : m.mIndices = some ib) (hiblen : ib.length = 3 * m.mnFaces)
    (hI3a : lengthIs m.mAttributes m.mnFaces) (hI3b : lengthIs m.mAdjacency (3 * m.mnFaces))
    (hattr : attributes.length = nFaces)
    (hsucc : FAILED (UpdateAttributes E m nFaces (some attributes)).1 = false) :
    ∃ faceRemap : List Nat,
      faceRemap.Perm (List.range nFaces) ∧
      (UpdateAttributes E m nFaces (some attributes)).2.mAttributes
        = some (faceRemap.map (rd attributes)) ∧
      (faceRemap.map (rd attributes)).Pairwise (· ≤ ·) ∧
      (∀ i j (hij : i < j) (hj : j < faceRemap.length),
        rd attributes (faceRemap[i]) = rd attributes (faceRemap[j]) →
          faceRemap[i] < faceRemap[j]) ∧
      (∃ ib2, (UpdateAttributes E m nFaces (some attributes)).2.mIndices = some ib2 ∧
        ib2.length = 3 * nFaces ∧
        ∀ j (hj : j < faceRemap.length) c, c < 3 →
          ib2[3 * j + c]? = ib[3 * faceRemap[j] + c]?) ∧
      (∀ adj, m.mAdjacency = some adj →
        ∃ adj2, (UpdateAttributes E m nFaces (some attributes)).2.mAdjacency = some adj2 ∧
          adj2.length = 3 * nFaces ∧
          ∀ j (hj : j < faceRemap.length) c, c < 3 → ∀ a,
            adj[3 * faceRemap[j] + c]? = some a →
              (a = 4294967295 → adj2[3 * j + c]? = some 4294967295) ∧
              (a ≠ 4294967295 → a < nFaces →
                ∃ p, adj2[3 * j + c]? = some p ∧ faceRemap[p]? = some a)) ∧
      (m.mAdjacency = none →
        (UpdateAttributes E m nFaces (some attributes)).2.mAdjacency = none) := by
  obtain ⟨hfaces, hform⟩ := UpdateAttributes_ok_form E m nFaces attributes ib hsort hre hrea
    hib hiblen hI3a hI3b hattr hsucc
  rw [hform]
  have hperm := faceRemap_perm nFaces attributes
  have hfl := faceRemap_length nFaces attributes
  have hlt : ∀ x ∈ (AttributeSort nFaces attributes).faceRemap, x < nFaces :=
    fun x hx => List.mem_range.mp (hperm.mem_iff.mp hx)
  refine ⟨(AttributeSort nFaces attributes).faceRemap, hperm, ?_, faceRemap_sorted _ _,
    faceRemap_stable _ _, ?_, ?_, ?_⟩
  · simp only [sorted_fst_eq]
  · refine ⟨_, rfl, reorderFaces_length _ _ _, ?_⟩
    intro j hj c hc
    exact (reorderFaces_getElem ib nFaces _ (by rw [hiblen, hfaces]) hfl hlt j hj c hc).1
  · intro adj hadj
    have hadjlen : adj.length = 3 * nFaces := by rw [hI3b adj hadj, hfaces]
    refine ⟨_, by simp only [hadj, Option.map_some']; rfl,
      by simp [reorderFaces_length], ?_⟩
    intro j hj c hc a ha
    exact adjacency_rewritten adj _ nFaces hadjlen hperm j hj c hc a ha
  · intro hnone
    simp only [hnone, Option.map_none']

theorem UpdateAttributes_stable_sort_witness :
    ∃ faceRemap : List Nat,
      faceRemap.Perm (List.range 3) ∧
      (UpdateAttributes Env.ideal sampleFan 3 (some [5, 3, 5])).2.mAttributes
        = some (faceRemap.map (rd [5, 3, 5])) ∧
      (faceRemap.map (rd [5, 3, 5])).Pairwise (· ≤ ·) ∧
      (∀ i j (hij : i < j) (hj : j < faceRemap.length),
        rd [5, 3, 5] (faceRemap[i]) = rd [5, 3, 5] (faceRemap[j]) →
          faceRemap[i] < faceRemap[j]) ∧
      (∃ ib2, (UpdateAttributes Env.ideal sampleFan 3 (some [5, 3, 5])).2.mIndices = some ib2 ∧
        ib2.length = 3 * 3 ∧
        ∀ j (hj : j < faceRemap.length) c, c < 3 →
          ib2[3 * j + c]? = ([0, 1, 2, 0, 2, 3, 0, 3, 4] : List Nat)[3 * faceRemap[j] + c]?) ∧
      (∀ adj, sampleFan.mAdjacency = some adj →
        ∃ adj2, (UpdateAttributes Env.ideal sampleFan 3 (some [5, 3, 5])).2.mAdjacency
            = some adj2 ∧
          adj2.length = 3 * 3 ∧
          ∀ j (hj : j < faceRemap.length) c, c < 3 → ∀ a,
            adj[3 * faceRemap[j] + c]? = some a →
              (a = 4294967295 → adj2[3 * j + c]? = some 4294967295) ∧
              (a ≠ 4294967295 → a < 3 →
                ∃ p, adj2[3 * j + c]? = some p ∧ faceRemap[p]? = some a)) ∧
      (sampleFan.mAdjacency = none →
        (UpdateAttributes Env.ideal sampleFan 3 (some [5, 3, 5])).2.mAdjacency = none) :=
  UpdateAttributes_stable_sort Env.ideal sampleFan 3 [5, 3, 5] [0, 1, 2, 0, 2, 3, 0, 3, 4]
    rfl rfl rfl rfl (by decide) (by simp [lengthIs, sampleFan, Mesh.empty])
    (by simp [lengthIs, sampleFan, Mesh.empty]) (by decide) (by decide)

/-- C4 (failing input).  On the two-face sample mesh, which has no attribute array, the call
`UpdateAttributes(2, [5, 3])` fails when the reorder step fails, and also when the attribute
sort fails; in both cases `mAttributes` is present after the failed call (sorted in the first
case, while the index buffer is still in the old face order), so the mesh is not what it was
before the call. -/
theorem UpdateAttributes_failure_keeps_new_attributes :
    sampleQuad.mAttributes = none ∧
    UpdateAttributes Env.reorderFails sampleQuad 2 (some [5, 3]) =
      (E_OUTOFMEMORY, { sampleQuad with mAttributes := some [3, 5] }) ∧
    UpdateAttributes Env.sortFails sampleQuad 2 (some [5, 3]) =
      (E_FAIL, { sampleQuad with mAttributes := some [5, 3] }) ∧
    FAILED E_OUTOFMEMORY = true ∧ FAILED E_FAIL = true ∧
    (UpdateAttributes Env.reorderFails sampleQuad 2 (some [5, 3])).2 ≠ sampleQuad ∧
    (UpdateAttributes Env.sortFails sampleQuad 2 (some [5, 3])).2 ≠ sampleQuad := by
  refine ⟨by decide, by decide, by decide, by decide, by decide, by decide, by decide⟩

/-! ## SetIndexData: the overflow boundary and the 32-bit overload -/

theorem SetIndexData_not_overflow {F : Type} (E : Env) (m : Mesh F) (nFaces : Nat)
    (indices : List Nat) (attributes : Option (List Nat))
    (hrange : 3 * nFaces < UINT32_MAX) :
    (SetIndexData16 E m nFaces (some indices) attributes).1 ≠ ERROR_ARITHMETIC_OVERFLOW ∧
    (SetIndexData32 E m nFaces (some indices) attributes).1 ≠ ERROR_ARITHMETIC_OVERFLOW := by
  have h3 : mul3 nFaces = 3 * nFaces :=
    mul3_eq_of_lt (by unfold UINT32_MAX at hrange; unfold SIZE_MOD; omega)
  have hg : ¬ (3 * nFaces ≥ UINT32_MAX) := by omega
  constructor
  · unfold SetIndexData16
    by_cases hn : nFaces = 0
    · simp [hn, E_INVALIDARG, ERROR_ARITHMETIC_OVERFLOW]
    · by_cases h0 : E.oom 0 = true
      · simp [hn, h3, hg, h0, E_OUTOFMEMORY, ERROR_ARITHMETIC_OVERFLOW]
      · cases attributes with
        | none => simp [hn, h3, hg, h0, S_OK, ERROR_ARITHMETIC_OVERFLOW]
        | some a =>
          by_cases h1 : E.oom 1 = true
          · simp [hn, h3, hg, h0, h1, E_OUTOFMEMORY, ERROR_ARITHMETIC_OVERFLOW]
          · simp [hn, h3, hg, h0, h1, S_OK, ERROR_ARITHMETIC_OVERFLOW]
  · unfold SetIndexData32
    by_cases hn : nFaces = 0
    · simp [hn, E_INVALIDARG, ERROR_ARITHMETIC_OVERFLOW]
    · by_cases h0 : E.oom 0 = true
      · simp [hn, h3, hg, h0, E_OUTOFMEMORY, ERROR_ARITHMETIC_OVERFLOW]
      · cases attributes with
        | none => simp [hn, h3, hg, h0, S_OK, ERROR_ARITHMETIC_OVERFLOW]
        | some a =>
          by_cases h1 : E.oom 1 = true
          · simp [hn, h3, hg, h0, h1, E_OUTOFMEMORY, ERROR_ARITHMETIC_OVERFLOW]
          · simp [hn, h3, hg, h0, h1, S_OK, ERROR_ARITHMETIC_OVERFLOW]

theorem SetIndexData32_ok {F : Type} (E : Env) (m : Mesh F) (nFaces : Nat)
    (indices : List Nat) (attributes : Option (List Nat))
    (hpos : 0 < nFaces) (hrange : 3 * nFaces < UINT32_MAX)
    (halloc : ∀ k, E.oom k = false) :
    SetIndexData32 E m nFaces (some indices) attributes =
      (S_OK, { m with
        mnFaces := nFaces,
        mIndices := some (readN indices (3 * nFaces)),
        mAttributes := attributes.map (fun a => readN a nFaces) }) := by
  have h3 : mul3 nFaces = 3 * nFaces :=
    mul3_eq_of_lt (by unfold UINT32_MAX at hrange; unfold SIZE_MOD; omega)
  have hn : nFaces ≠ 0 := by omega
  have hg : ¬ (3 * nFaces ≥ UINT32_MAX) := by omega
  cases attributes <;> simp [SetIndexData32, hn, h3, hg, halloc]

/-- C16 (as amended).  For `faces > 0` with `3 * faces` below `2 ^ 64` and a non-null index
stream, each `SetIndexData` overload fails with the overflow error if and only if
`3 * faces >= 0xFFFFFFFF`; every `faces` with `3 * faces < 0xFFFFFFFF` is accepted when the
allocations succeed, and the call then yields `mnFaces = faces`. -/
theorem SetIndexData_overflow_iff {F : Type} (E : Env) (m : Mesh F) (faces : Nat)
    (indices : List Nat) (attributes : Option (List Nat))
    (hpos : 0 < faces) (hhi : 3 * faces < SIZE_MOD) :
    ((SetIndexData16 E m faces (some indices) attributes).1 = ERROR_ARITHMETIC_OVERFLOW ↔
      4294967295 ≤ 3 * faces) ∧
    ((SetIndexData32 E m faces (some indices) attributes).1 = ERROR_ARITHMETIC_OVERFLOW ↔
      4294967295 ≤ 3 * faces) ∧
    (3 * faces < 4294967295 → (∀ k, E.oom k = false) →
      (SetIndexData16 E m faces (some indices) attributes).1 = S_OK ∧
      (SetIndexData16 E m faces (some indices) attributes).2.mnFaces = faces ∧
      (SetIndexData32 E m faces (some indices) attributes).1 = S_OK ∧
      (SetIndexData32 E m faces (some indices) attributes).2.mnFaces = faces) := by
  refine ⟨?_, ?_, ?_⟩
  · constructor
    · intro h
      by_contra hlt
      exact (SetIndexData_not_overflow E m faces indices attributes
        (by unfold UINT32_MAX; omega)).1 h
    · intro h
      rw [(SetIndexData_overflow E m faces indices attributes h hhi).1]
  · constructor
    · intro h
      by_contra hlt
      exact (SetIndexData_not_overflow E m faces indices attributes
        (by unfold UINT32_MAX; omega)).2 h
    · intro h
      rw [(SetIndexData_overflow E m faces indices attributes h hhi).2]
  · intro hlt halloc
    rw [SetIndexData16_ok E m faces indices attributes hpos hlt halloc,
      SetIndexData32_ok E m faces indices attributes hpos hlt halloc]
    exact ⟨rfl, rfl, rfl, rfl⟩

theorem SetIndexData_overflow_iff_witness :
    ((SetIndexData16 Env.ideal sampleQuad 1431655764 (some [0]) none).1
        = ERROR_ARITHMETIC_OVERFLOW ↔ 4294967295 ≤ 3 * 1431655764) ∧
    ((SetIndexData32 Env.ideal sampleQuad 1431655764 (some [0]) none).1
        = ERROR_ARITHMETIC_OVERFLOW ↔ 4294967295 ≤ 3 * 1431655764) ∧
    (3 * 1431655764 < 4294967295 → (∀ k, Env.ideal.oom k = false) →
      (SetIndexData16 Env.ideal sampleQuad 1431655764 (some [0]) none).1 = S_OK ∧
      (SetIndexData16 Env.ideal sampleQuad 1431655764 (some [0]) none).2.mnFaces
        = 1431655764 ∧
      (SetIndexData32 Env.ideal sampleQuad 1431655764 (some [0]) none).1 = S_OK ∧
      (SetIndexData32 Env.ideal sampleQuad 1431655764 (some [0]) none).2.mnFaces
        = 1431655764) :=
  SetIndexData_overflow_iff Env.ideal sampleQuad 1431655764 [0] none (by decide) (by decide)

/-- C16 (counterexample).  For `faces = 1431655765` the product `3 * faces` is exactly
`0xFFFFFFFF`, which fits the 32-bit unsigned range, yet both `SetIndexData` overloads return
the overflow error instead of accepting the call. -/
theorem SetIndexData_rejects_exact_fit :
    0 < 1431655765 ∧ 3 * 1431655765 = 4294967295 ∧ ¬ (3 * 1431655765 > 4294967295) ∧
    SetIndexData16 Env.ideal (Mesh.empty Int) 1431655765 (some [0]) none =
      (ERROR_ARITHMETIC_OVERFLOW, Mesh.empty Int) ∧
    SetIndexData32 Env.ideal (Mesh.empty Int) 1431655765 (some [0]) none =
      (ERROR_ARITHMETIC_OVERFLOW, Mesh.empty Int) := by
  refine ⟨by decide, by decide, by decide, by decide, by decide⟩

/-- C17 (as amended).  For every `nFaces > 0` with `3 * nFaces < 0xFFFFFFFF`, every index
array of length `3 * nFaces` and every attribute array of length `nFaces` (or none), when the
allocations succeed the 32-bit `SetIndexData` returns `S_OK` and the mesh afterwards is the
mesh before with `mnFaces = nFaces`, the index buffer equal to the supplied array and
`mAttributes` equal to the supplied attribute array (absent when none is given); the vertex
data is unchanged.  (The equation also shows that the call does not touch `mAdjacency`; that
an adjacency of the old topology survives is the defect of C13, not part of this claim.) -/
theorem SetIndexData32_verbatim {F : Type} (E : Env) (m : Mesh F) (nFaces : Nat)
    (indices : List Nat) (attributes : Option (List Nat))
    (hpos : 0 < nFaces) (hrange : 3 * nFaces < UINT32_MAX)
    (hlen : indices.length = 3 * nFaces) (hattr : lengthIs attributes nFaces)
    (halloc : ∀ k, E.oom k = false) :
    SetIndexData32 E m nFaces (some indices) attributes =
      (S_OK, { m with mnFaces := nFaces, mIndices := some indices,
                      mAttributes := attributes }) := by
  rw [SetIndexData32_ok E m nFaces indices attributes hpos hrange halloc,
    readN_eq_self indices _ hlen]
  cases attributes with
  | none => rfl
  | some a => simp [readN_eq_self a nFaces (hattr a rfl)]

theorem SetIndexData32_verbatim_witness :
    SetIndexData32 Env.ideal sampleQuad 1 (some [3, 4294967295, 0]) (some [7]) =
      (S_OK, { sampleQuad with mnFaces := 1, mIndices := some [3, 4294967295, 0],
                               mAttributes := some [7] }) :=
  SetIndexData32_verbatim Env.ideal sampleQuad 1 [3, 4294967295, 0] (some [7]) (by decide)
    (by decide) (by decide) (by simp [lengthIs]) (fun _ => rfl)

/-- C17 (counterexample).  With `nFaces = 1431655765` the product `3 * nFaces = 0xFFFFFFFF`
is in the 32-bit range, but the 32-bit `SetIndexData` returns the overflow error for an index
array of that length; and for one face it returns `E_OUTOFMEMORY` when the allocation fails.
In neither case are the indices stored. -/
theorem SetIndexData32_not_always_successful :
    3 * 1431655765 ≤ 4294967295 ∧
    (List.replicate (3 * 1431655765) 0).length = 3 * 1431655765 ∧
    SetIndexData32 Env.ideal (Mesh.empty Int) 1431655765
      (some (List.replicate (3 * 1431655765) 0)) none =
      (ERROR_ARITHMETIC_OVERFLOW, Mesh.empty Int) ∧
    SetIndexData32 Env.exhausted (Mesh.empty Int) 1 (some [0, 1, 2]) none =
      (E_OUTOFMEMORY, Mesh.empty Int) ∧
    ERROR_ARITHMETIC_OVERFLOW ≠ S_OK ∧ E_OUTOFMEMORY ≠ S_OK := by
  refine ⟨by decide, List.length_replicate _ _, by decide, by decide, by decide, by decide⟩

/-! ## Clean and VertexRemap: frame and rejection -/

theorem keptPrefix_append {α : Type} (old : Option (List α)) (extra : List α → List α)
    (n : Nat) (hlen : lengthIs old n) :
    KeptPrefix old (old.map (fun s => s ++ extra s)) n := by
  constructor
  · intro h
    simp [h]
  · intro o ho
    subst ho
    refine ⟨_, rfl, ?_⟩
    rw [← hlen o rfl]
    simp

/-- C18.  For every successful `Clean` on a mesh satisfying I1 for which the external cleaner
returned a non-empty duplicate list: each of the eight per-vertex arrays that was absent is
absent afterwards, each that was present is present afterwards, and its first `oldCount`
entries are the entries it had before the call. -/
theorem Clean_frame {F : Type} [Inhabited F] (E : Env) (m : Mesh F)
    (breakBowties : Bool) (ib : List Nat) (hI1 : m.I1) (hib : m.mIndices = some ib)
    (hne : (E.Clean ib m.mnFaces m.mnVerts m.mAdjacency m.mAttributes breakBowties).dups ≠ [])
    (hsucc : FAILED (Clean E m breakBowties).1 = false) :
    KeptPrefix m.mPositions (Clean E m breakBowties).2.mPositions m.mnVerts ∧
    KeptPrefix m.mNormals (Clean E m breakBowties).2.mNormals m.mnVerts ∧
    KeptPrefix m.mTangents (Clean E m breakBowties).2.mTangents m.mnVerts ∧
    KeptPrefix m.mBiTangents (Clean E m breakBowties).2.mBiTangents m.mnVerts ∧
    KeptPrefix m.mTexCoords (Clean E m breakBowties).2.mTexCoords m.mnVerts ∧
    KeptPrefix m.mColors (Clean E m breakBowties).2.mColors m.mnVerts ∧
    KeptPrefix m.mBlendIndices (Clean E m breakBowties).2.mBlendIndices m.mnVerts ∧
    KeptPrefix m.mBlendWeights (Clean E m breakBowties).2.mBlendWeights m.mnVerts := by
  rw [Clean_ok_form E m breakBowties ib hI1 hib hsucc hne]
  obtain ⟨h1, h2, h3, h4, h5, h6, h7, h8⟩ := hI1
  exact ⟨keptPrefix_append _ _ _ h1, keptPrefix_append _ _ _ h2, keptPrefix_append _ _ _ h3,
    keptPrefix_append _ _ _ h4, keptPrefix_append _ _ _ h5, keptPrefix_append _ _ _ h6,
    keptPrefix_append _ _ _ h7, keptPrefix_append _ _ _ h8⟩

theorem Clean_frame_witness :
    KeptPrefix sampleQuad.mPositions
      (Clean { Env.ideal with Clean := cleanerWith [2, 0] } sampleQuad true).2.mPositions
      sampleQuad.mnVerts ∧
    KeptPrefix sampleQuad.mNormals
      (Clean { Env.ideal with Clean := cleanerWith [2, 0] } sampleQuad true).2.mNormals
      sampleQuad.mnVerts ∧
    KeptPrefix sampleQuad.mTangents
      (Clean { Env.ideal with Clean := cleanerWith [2, 0] } sampleQuad true).2.mTangents
      sampleQuad.mnVerts ∧
    KeptPrefix sampleQuad.mBiTangents
      (Clean { Env.ideal with Clean := cleanerWith [2, 0] } sampleQuad true).2.mBiTangents
      sampleQuad.mnVerts ∧
    KeptPrefix sampleQuad.mTexCoords
      (Clean { Env.ideal with Clean := cleanerWith [2, 0] } sampleQuad true).2.mTexCoords
      sampleQuad.mnVerts ∧
    KeptPrefix sampleQuad.mColors
      (Clean { Env.ideal with Clean := cleanerWith [2, 0] } sampleQuad true).2.mColors
      sampleQuad.mnVerts ∧
    KeptPrefix sampleQuad.mBlendIndices
      (Clean { Env.ideal with Clean := cleanerWith [2, 0] } sampleQuad true).2.mBlendIndices
      sampleQuad.mnVerts ∧
    KeptPrefix sampleQuad.mBlendWeights
      (Clean { Env.ideal with Clean := cleanerWith [2, 0] } sampleQuad true).2.mBlendWeights
      sampleQuad.mnVerts :=
  Clean_frame { Env.ideal with Clean := cleanerWith [2, 0] } sampleQuad true
    [0, 1, 2, 0, 2, 3] sampleQuad_I1 rfl (by decide) (by decide)

/-- C19.  When the guards of `Clean` pass (topology and positions loaded), the external
cleaner succeeds and its duplicate list is empty, `Clean` returns `S_OK`, and `mnVerts` and
all eight per-vertex arrays are exactly what they were. -/
theorem Clean_no_duplicates {F : Type} [Inhabited F] (E : Env) (m : Mesh F)
    (breakBowties : Bool) (ib : List Nat) (pos : List (XMFLOAT3 F))
    (hib : m.mIndices = some ib) (hpos : m.mPositions = some pos)
    (hf : m.mnFaces ≠ 0) (hv : m.mnVerts ≠ 0)
    (hok : FAILED (E.Clean ib m.mnFaces m.mnVerts m.mAdjacency m.mAttributes breakBowties).hr
      = false)
    (hnone : (E.Clean ib m.mnFaces m.mnVerts m.mAdjacency m.mAttributes breakBowties).dups = []) :
    (Clean E m breakBowties).1 = S_OK ∧
    (Clean E m breakBowties).2.mnVerts = m.mnVerts ∧
    (Clean E m breakBowties).2.mPositions = m.mPositions ∧
    (Clean E m breakBowties).2.mNormals = m.mNormals ∧
    (Clean E m breakBowties).2.mTangents = m.mTangents ∧
    (Clean E m breakBowties).2.mBiTangents = m.mBiTangents ∧
    (Clean E m breakBowties).2.mTexCoords = m.mTexCoords ∧
    (Clean E m breakBowties).2.mColors = m.mColors ∧
    (Clean E m breakBowties).2.mBlendIndices = m.mBlendIndices ∧
    (Clean E m breakBowties).2.mBlendWeights = m.mBlendWeights := by
  unfold Clean
  rw [hib, hpos]
  simp [hf, hv, hok, hnone]

theorem Clean_no_duplicates_witness :
    (Clean Env.ideal sampleQuad true).1 = S_OK ∧
    (Clean Env.ideal sampleQuad true).2.mnVerts = sampleQuad.mnVerts ∧
    (Clean Env.ideal sampleQuad true).2.mPositions = sampleQuad.mPositions ∧
    (Clean Env.ideal sampleQuad true).2.mNormals = sampleQuad.mNormals ∧
    (Clean Env.ideal sampleQuad true).2.mTangents = sampleQuad.mTangents ∧
    (Clean Env.ideal sampleQuad true).2.mBiTangents = sampleQuad.mBiTangents ∧
    (Clean Env.ideal sampleQuad true).2.mTexCoords = sampleQuad.mTexCoords ∧
    (Clean Env.ideal sampleQuad true).2.mColors = sampleQuad.mColors ∧
    (Clean Env.ideal sampleQuad true).2.mBlendIndices = sampleQuad.mBlendIndices ∧
    (Clean Env.ideal sampleQuad true).2.mBlendWeights = sampleQuad.mBlendWeights :=
  Clean_no_duplicates Env.ideal sampleQuad true [0, 1, 2, 0, 2, 3]
    [⟨0, 0, 0⟩, ⟨1, 0, 0⟩, ⟨1, 1, 0⟩, ⟨0, 1, 0⟩] rfl rfl (by decide) (by decide) (by decide)
    (by decide)

/-- C20.  For every mesh with vertex data (`mnVerts > 0`, positions present) and every remap
table: `VertexRemap` with `0 < newVertexCount < mnVerts` returns `E_FAIL`, and with
`newVertexCount = 0` it returns `E_INVALIDARG` (with or without a table); in both cases the
mesh is unchanged. -/
theorem VertexRemap_rejects_shrinking {F : Type} [Inhabited F] (E : Env) (m : Mesh F)
    (remap : List Nat) (table : Option (List Nat)) (newVertexCount : Nat)
    (pos : List (XMFLOAT3 F)) (hpos : m.mPositions = some pos) (hv : 0 < m.mnVerts) :
    (0 < newVertexCount → newVertexCount < m.mnVerts →
      VertexRemap E m (some remap) newVertexCount = (E_FAIL, m)) ∧
    VertexRemap E m table 0 = (E_INVALIDARG, m) := by
  constructor
  · intro h0 hlt
    have hn : newVertexCount ≠ 0 := by omega
    have hv2 : m.mnVerts ≠ 0 := by omega
    simp [VertexRemap, hn, hpos, hv2, hlt]
  · cases table <;> simp [VertexRemap]

theorem VertexRemap_rejects_shrinking_witness :
    (0 < 3 → 3 < sampleQuad.mnVerts →
      VertexRemap Env.ideal sampleQuad (some [0, 1, 2]) 3 = (E_FAIL, sampleQuad)) ∧
    VertexRemap Env.ideal sampleQuad (some [0, 1, 2]) 0 = (E_INVALIDARG, sampleQuad) :=
  VertexRemap_rejects_shrinking Env.ideal sampleQuad [0, 1, 2] (some [0, 1, 2]) 3
    [⟨0, 0, 0⟩, ⟨1, 0, 0⟩, ⟨1, 1, 0⟩, ⟨0, 1, 0⟩] rfl (by decide)

/-! ## Reachable states and the invariants -/

theorem sampleQuad_reachable : Reachable sampleQuad :=
  Reachable.call Env.ideal (.setVertexData sampleReader 4) _
    (Reachable.call Env.ideal (.setIndexData32 2 (some [0, 1, 2, 0, 2, 3]) none) _
      Reachable.empty (by decide)) (by decide)

/-- C13 (failing input).  Starting from the empty mesh, the successful calls
`SetIndexData(2, [0,1,2,0,2,3])`, `SetVertexData` (four vertices), `GenerateAdjacency` and
`SetIndexData(1, [0,1,2])` lead to a mesh with `mnFaces = 1` whose adjacency still has the six
entries computed for the two old faces: I3 does not hold in this reachable state. -/
theorem SetIndexData_keeps_stale_adjacency :
    Reachable reloadedMesh ∧
    reloadedMesh.mnFaces = 1 ∧
    reloadedMesh.mAdjacency =
      some [4294967295, 4294967295, 1, 0, 4294967295, 4294967295] ∧
    ¬ reloadedMesh.I3 := by
  refine ⟨?_, by decide, by decide, ?_⟩
  · exact Reachable.call Env.ideal (.setIndexData32 1 (some [0, 1, 2]) none) _
      (Reachable.call Env.ideal (.generateAdjacency 0) _ sampleQuad_reachable (by decide))
      (by decide)
  · intro h
    have h2 := h.2 [4294967295, 4294967295, 1, 0, 4294967295, 4294967295] (by decide)
    have h3 : reloadedMesh.mnFaces = 1 := by decide
    rw [h3] at h2
    simp at h2

theorem lengthIs_none {α : Type} (n : Nat) : lengthIs (none : Option (List α)) n := by
  intro l h
  cases h

theorem lengthIs_some {α : Type} (l : List α) (n : Nat) (h : l.length = n) :
    lengthIs (some l) n := by
  intro l2 h2
  cases h2
  exact h

theorem lengthIs_map {α : Type} (a : Option (List α)) (f : List α → List α) (n : Nat)
    (h : ∀ l, a = some l → (f l).length = n) : lengthIs (a.map f) n := by
  cases a with
  | none => exact lengthIs_none n
  | some l => exact lengthIs_some _ _ (h l rfl)

theorem SameVerts.I1 {F : Type} {m m2 : Mesh F} (h : SameVerts m m2) (hI1 : m.I1) : m2.I1 := by
  obtain ⟨e0, e1, e2, e3, e4, e5, e6, e7, e8⟩ := h
  unfold Mesh.I1
  rw [e0, e1, e2, e3, e4, e5, e6, e7, e8]
  exact hI1

theorem SameVerts.refl {F : Type} (m : Mesh F) : SameVerts m m :=
  ⟨rfl, rfl, rfl, rfl, rfl, rfl, rfl, rfl, rfl⟩

theorem SetIndexData16_sameVerts {F : Type} (E : Env) (m : Mesh F) (nFaces : Nat)
    (indices attributes : Option (List Nat)) :
    SameVerts m (SetIndexData16 E m nFaces indices attributes).2 := by
  unfold SetIndexData16
  repeat' split
  all_goals exact ⟨rfl, rfl, rfl, rfl, rfl, rfl, rfl, rfl, rfl⟩

theorem SetIndexData32_sameVerts {F : Type} (E : Env) (m : Mesh F) (nFaces : Nat)
    (indices attributes : Option (List Nat)) :
    SameVerts m (SetIndexData32 E m nFaces indices attributes).2 := by
  unfold SetIndexData32
  repeat' split
  all_goals exact ⟨rfl, rfl, rfl, rfl, rfl, rfl, rfl, rfl, rfl⟩

theorem UpdateFaces_sameVerts {F : Type} (m : Mesh F) (nFaces : Nat)
    (indices : Option (List Nat)) : SameVerts m (UpdateFaces m nFaces indices).2 := by
  unfold UpdateFaces
  repeat' split
  all_goals exact ⟨rfl, rfl, rfl, rfl, rfl, rfl, rfl, rfl, rfl⟩

theorem UpdateAttributes_sameVerts {F : Type} (E : Env) (m : Mesh F) (nFaces : Nat)
    (attributes : Option (List Nat)) :
    SameVerts m (UpdateAttributes E m nFaces attributes).2 := by
  unfold UpdateAttributes
  repeat' (first | split | dsimp only)
  all_goals exact ⟨rfl, rfl, rfl, rfl, rfl, rfl, rfl, rfl, rfl⟩

theorem GenerateAdjacency_sameVerts {F : Type} [Inhabited F] (E : Env) (m : Mesh F)
    (epsilon : F) : SameVerts m (GenerateAdjacency E m epsilon).2 := by
  unfold GenerateAdjacency
  repeat' split
  all_goals exact ⟨rfl, rfl, rfl, rfl, rfl, rfl, rfl, rfl, rfl⟩

theorem ReverseWinding_sameVerts {F : Type} (m : Mesh F) :
    SameVerts m (ReverseWinding m).2 := by
  unfold ReverseWinding
  repeat' split
  all_goals exact ⟨rfl, rfl, rfl, rfl, rfl, rfl, rfl, rfl, rfl⟩

theorem length_mapFirst {α : Type} (n : Nat) (f : α → α) (l : List α) :
    (mapFirst n f l).length = l.length := by
  simp only [mapFirst, List.length_append, List.length_map, List.length_take, List.length_drop]
  omega

theorem length_uvLoop {F : Type} [Zero F] :
    ∀ (n : Nat) (tex : List (XMFLOAT2 F)) (pos : List (XMFLOAT3 F)),
      (uvLoop n tex pos).length = pos.length := by
  intro n
  induction n with
  | zero => intro tex pos; simp [uvLoop]
  | succ n ih =>
    intro tex pos
    cases tex with
    | nil => simp [uvLoop]
    | cons t ts =>
      cases pos with
      | nil => simp [uvLoop]
      | cons p ps => simp [uvLoop, ih ts ps]

theorem length_memcpy {α : Type} [Inhabited α] (dst src : List α) (n : Nat)
    (h : dst.length = n) : (memcpy dst src n).length = n := by
  simp [memcpy, length_readN, h]

theorem Mesh.I1_of_lengths {F : Type} {m : Mesh F}
    (h1 : lengthIs m.mPositions m.mnVerts) (h2 : lengthIs m.mNormals m.mnVerts)
    (h3 : lengthIs m.mTangents m.mnVerts) (h4 : lengthIs m.mBiTangents m.mnVerts)
    (h5 : lengthIs m.mTexCoords m.mnVerts) (h6 : lengthIs m.mColors m.mnVerts)
    (h7 : lengthIs m.mBlendIndices m.mnVerts) (h8 : lengthIs m.mBlendWeights m.mnVerts) :
    m.I1 := ⟨h1, h2, h3, h4, h5, h6, h7, h8⟩

theorem InvertUTexCoord_I1 {F : Type} [One F] [Sub F] (m : Mesh F) (hI1 : m.I1) :
    (InvertUTexCoord m).2.I1 := by
  obtain ⟨h1, h2, h3, h4, h5, h6, h7, h8⟩ := hI1
  unfold InvertUTexCoord
  split
  · exact ⟨h1, h2, h3, h4, h5, h6, h7, h8⟩
  · next tex htex =>
    exact ⟨h1, h2, h3, h4, lengthIs_some _ _ (by rw [length_mapFirst]; exact h5 tex htex),
      h6, h7, h8⟩

theorem InvertVTexCoord_I1 {F : Type} [One F] [Sub F] (m : Mesh F) (hI1 : m.I1) :
    (InvertVTexCoord m).2.I1 := by
  obtain ⟨h1, h2, h3, h4, h5, h6, h7, h8⟩ := hI1
  unfold InvertVTexCoord
  split
  · exact ⟨h1, h2, h3, h4, h5, h6, h7, h8⟩
  · next tex htex =>
    exact ⟨h1, h2, h3, h4, lengthIs_some _ _ (by rw [length_mapFirst]; exact h5 tex htex),
      h6, h7, h8⟩

theorem ReverseHandedness_I1 {F : Type} [Neg F] (m : Mesh F) (hI1 : m.I1) :
    (ReverseHandedness m).2.I1 := by
  obtain ⟨h1, h2, h3, h4, h5, h6, h7, h8⟩ := hI1
  unfold ReverseHandedness
  split
  · exact ⟨h1, h2, h3, h4, h5, h6, h7, h8⟩
  · next pos hpos =>
    exact ⟨lengthIs_some _ _ (by rw [length_mapFirst]; exact h1 pos hpos),
      lengthIs_map _ _ _ (fun l hl => by rw [length_mapFirst]; exact h2 l hl),
      h3, h4, h5, h6, h7, h8⟩

theorem VisualizeUVs_I1 {F : Type} [Zero F] [One F] (m : Mesh F) (hI1 : m.I1) :
    (VisualizeUVs m).2.I1 := by
  obtain ⟨h1, h2, h3, h4, h5, h6, h7, h8⟩ := hI1
  unfold VisualizeUVs
  split
  · next pos tex hpos htex =>
    split
    · exact ⟨h1, h2, h3, h4, h5, h6, h7, h8⟩
    · exact ⟨lengthIs_some _ _ (by rw [length_uvLoop]; exact h1 pos hpos),
        lengthIs_map _ _ _ (fun l hl => by rw [length_mapFirst]; exact h2 l hl),
        h3, h4, h5, h6, h7, h8⟩
  · exact ⟨h1, h2, h3, h4, h5, h6, h7, h8⟩

theorem Mesh.empty_I1 (F : Type) : (Mesh.empty F).I1 :=
  ⟨lengthIs_none _, lengthIs_none _, lengthIs_none _, lengthIs_none _, lengthIs_none _,
    lengthIs_none _, lengthIs_none _, lengthIs_none _⟩

theorem UpdateUVs_I1 {F : Type} [Inhabited F] (E : Env) (m : Mesh F) (nVerts : Nat)
    (uvs : Option (List (XMFLOAT2 F))) (hI1 : m.I1) : (UpdateUVs E m nVerts uvs).2.I1 := by
  obtain ⟨h1, h2, h3, h4, h5, h6, h7, h8⟩ := hI1
  unfold UpdateUVs
  repeat' split
  all_goals first
    | exact ⟨h1, h2, h3, h4, h5, h6, h7, h8⟩
    | skip
  · exact ⟨h1, h2, h3, h4, lengthIs_some _ _ (length_memcpy _ _ _ (by simp [alloc])),
      h6, h7, h8⟩
  · next old hold =>
    exact ⟨h1, h2, h3, h4, lengthIs_some _ _ (length_memcpy _ _ _ (h5 old hold)), h6, h7, h8⟩

theorem ComputeNormals_I1 {F : Type} [Inhabited F] (E : Env) (m : Mesh F) (flags : Nat)
    (hI1 : m.I1) : (ComputeNormals E m flags).2.I1 := by
  obtain ⟨h1, h2, h3, h4, h5, h6, h7, h8⟩ := hI1
  unfold ComputeNormals
  repeat' split
  all_goals first
    | exact ⟨h1, h2, h3, h4, h5, h6, h7, h8⟩
    | exact ⟨h1, lengthIs_none _, h3, h4, h5, h6, h7, h8⟩
    | exact ⟨h1, lengthIs_some _ _ (length_readN _ _), h3, h4, h5, h6, h7, h8⟩

theorem ComputeTangentFrame_I1 {F : Type} [Inhabited F] (E : Env) (m : Mesh F)
    (bitangents : Bool) (hI1 : m.I1) : (ComputeTangentFrame E m bitangents).2.I1 := by
  obtain ⟨h1, h2, h3, h4, h5, h6, h7, h8⟩ := hI1
  unfold ComputeTangentFrame
  repeat' (first | split | dsimp only)
  all_goals first
    | exact ⟨h1, h2, h3, h4, h5, h6, h7, h8⟩
    | exact ⟨h1, h2, lengthIs_none _, lengthIs_none _, h5, h6, h7, h8⟩
    | exact ⟨h1, h2, lengthIs_some _ _ (length_readN _ _), lengthIs_none _, h5, h6, h7, h8⟩
    | exact ⟨h1, h2, lengthIs_some _ _ (length_readN _ _),
        lengthIs_some _ _ (length_readN _ _), h5, h6, h7, h8⟩

theorem readStream_ok {α : Type} [Inhabited α] {E : Env} {site : Nat} {declared : Bool}
    {result : HRESULT × List α} {n : Nat} {x : Option (List α)}
    (h : readStream E site declared result n = Except.ok x) : lengthIs x n := by
  unfold readStream at h
  split at h
  · split at h
    · cases h
    · split at h
      · cases h
      · cases h
        exact lengthIs_some _ _ (length_readN _ _)
  · cases h
    exact lengthIs_none _

theorem loadStreams_I1 {F : Type} [Inhabited F] {E : Env} {m0 m2 : Mesh F}
    {reader : VBReader F} {n : Nat} (h : loadStreams E m0 reader n = Except.ok m2) :
    m2.I1 := by
  simp only [loadStreams, except_bind_ok, pure, Except.pure, Except.ok.injEq] at h
  obtain ⟨a1, e1, a2, e2, a3, e3, a4, e4, a5, e5, a6, e6, a7, e7, a8, e8, hm⟩ := h
  subst hm
  exact ⟨readStream_ok e1, readStream_ok e2, readStream_ok e3, readStream_ok e4,
    readStream_ok e5, readStream_ok e6, readStream_ok e7, readStream_ok e8⟩

theorem SetVertexData_I1 {F : Type} [Inhabited F] (E : Env) (m : Mesh F)
    (reader : VBReader F) (nVerts : Nat) (hI1 : m.I1) :
    (SetVertexData E m reader nVerts).2.I1 := by
  unfold SetVertexData
  split
  · exact hI1
  · dsimp only
    split
    · exact ⟨lengthIs_none _, lengthIs_none _, lengthIs_none _, lengthIs_none _,
        lengthIs_none _, lengthIs_none _, lengthIs_none _, lengthIs_none _⟩
    · next m2 hm2 => exact loadStreams_I1 hm2

theorem lengthIs_grown {α : Type} [Inhabited α] (a : Option (List α)) (dups : List Nat)
    (n : Nat) (h : lengthIs a n) :
    lengthIs (a.map (fun s => s ++ dups.map (rd s))) (n + dups.length) :=
  lengthIs_map _ _ _ (fun l hl => by simp [h l hl])

theorem Clean_I1 {F : Type} [Inhabited F] (E : Env) (m : Mesh F) (breakBowties : Bool)
    (hI1 : m.I1) : (Clean E m breakBowties).2.I1 := by
  unfold Clean
  split
  · dsimp only
    split
    · exact hI1
    · split
      · exact hI1
      · split
        · exact hI1
        · split
          · exact hI1
          · next m2 hm2 =>
            rw [cleanGrow_ok hI1 hm2]
            obtain ⟨h1, h2, h3, h4, h5, h6, h7, h8⟩ := hI1
            exact ⟨lengthIs_grown _ _ _ h1, lengthIs_grown _ _ _ h2, lengthIs_grown _ _ _ h3,
              lengthIs_grown _ _ _ h4, lengthIs_grown _ _ _ h5, lengthIs_grown _ _ _ h6,
              lengthIs_grown _ _ _ h7, lengthIs_grown _ _ _ h8⟩
  · exact hI1

theorem remapCopy_ok {α : Type} [Inhabited α] {E : Env} (hE : E.remapKeepsSize) {site : Nat}
    {src : Option (List α)} {stride n n2 : Nat} {remap : List Nat} {x : Option (List α)}
    (h : remapCopy E site src stride n n2 remap = Except.ok x) : lengthIs x n2 := by
  unfold remapCopy at h
  split at h
  · cases h
    exact lengthIs_none _
  · split at h
    · cases h
    · dsimp only at h
      split at h
      · cases h
      · cases h
        refine lengthIs_some _ _ ?_
        rw [hE]
        simp [alloc]

theorem VertexRemap_I1 {F : Type} [Inhabited F] (E : Env) (hE : E.remapKeepsSize)
    (m : Mesh F) (remap : Option (List Nat)) (nNewVerts : Nat) (hI1 : m.I1) :
    (VertexRemap E m remap nNewVerts).2.I1 := by
  unfold VertexRemap
  repeat' split
  all_goals first
    | exact hI1
    | skip
  next m2 hm2 =>
    simp only [remapAll, except_bind_ok, pure, Except.pure, Except.ok.injEq] at hm2
    obtain ⟨a1, e1, a2, e2, a3, e3, a4, e4, a5, e5, a6, e6, a7, e7, a8, e8, hm⟩ := hm2
    subst hm
    exact ⟨remapCopy_ok hE e1, remapCopy_ok hE e2, remapCopy_ok hE e3, remapCopy_ok hE e4,
      remapCopy_ok hE e5, remapCopy_ok hE e6, remapCopy_ok hE e7, remapCopy_ok hE e8⟩

theorem Env.ideal_remapKeepsSize : Env.ideal.remapKeepsSize := by
  intro α _ vbin stride n n2 remap vbout
  exact scatter_length vbin remap n vbout

/-- C15.  I1 is preserved by every mutating member function of `Mesh`, whether the call
succeeds or fails: if every per-vertex array of the mesh is absent or has exactly `mnVerts`
entries before the call, the same holds for the mesh after the call.  (The library routine
`UVAtlasApplyRemap` is assumed not to resize the buffer it writes into.) -/
theorem I1_preserved {F : Type} [Inhabited F] [Zero F] [One F] [Neg F] [Sub F] (E : Env)
    (op : Op F) (m : Mesh F) (hE : E.remapKeepsSize) (hI1 : m.I1) : (step E op m).2.I1 := by
  cases op with
  | setIndexData16 n i a => exact (SetIndexData16_sameVerts E m n i a).I1 hI1
  | setIndexData32 n i a => exact (SetIndexData32_sameVerts E m n i a).I1 hI1
  | setVertexData r n => exact SetVertexData_I1 E m r n hI1
  | clean b => exact Clean_I1 E m b hI1
  | generateAdjacency e => exact (GenerateAdjacency_sameVerts E m e).I1 hI1
  | computeNormals f => exact ComputeNormals_I1 E m f hI1
  | computeTangentFrame b => exact ComputeTangentFrame_I1 E m b hI1
  | updateFaces n i => exact (UpdateFaces_sameVerts m n i).I1 hI1
  | updateAttributes n a => exact (UpdateAttributes_sameVerts E m n a).I1 hI1
  | updateUVs n u => exact UpdateUVs_I1 E m n u hI1
  | vertexRemap r n => exact VertexRemap_I1 E hE m r n hI1
  | reverseWinding => exact (ReverseWinding_sameVerts m).I1 hI1
  | invertUTexCoord => exact InvertUTexCoord_I1 m hI1
  | invertVTexCoord => exact InvertVTexCoord_I1 m hI1
  | reverseHandedness => exact ReverseHandedness_I1 m hI1
  | visualizeUVs => exact VisualizeUVs_I1 m hI1
  | clear => exact Mesh.empty_I1 F

theorem I1_preserved_witness :
    (step Env.ideal (.vertexRemap (some [1, 2, 3, 0]) 5) sampleQuad).2.I1 ∧
    (step Env.exhausted (.vertexRemap (some [1, 2, 3, 0]) 5) sampleQuad).2.I1 :=
  ⟨I1_preserved Env.ideal (.vertexRemap (some [1, 2, 3, 0]) 5) sampleQuad
      Env.ideal_remapKeepsSize sampleQuad_I1,
    I1_preserved Env.exhausted (.vertexRemap (some [1, 2, 3, 0]) 5) sampleQuad
      Env.ideal_remapKeepsSize sampleQuad_I1⟩

/-! ## PLY files -/

set_option maxRecDepth 100000

theorem takeLine_line (l rest : List Char) (hl : LF ∉ l) :
    takeLine (l ++ LF :: rest) = (l, some rest) := by
  induction l with
  | nil => simp [takeLine]
  | cons c cs ih =>
    have hc : c ≠ LF := fun h => hl (by simp [h])
    have hcs : LF ∉ cs := fun h => hl (by simp [h])
    simp [takeLine, hc, ih hcs]

theorem getline_line (l rest line : List Char) (hl : LF ∉ l) :
    getline { rest := l ++ LF :: rest, good := true } line = ({ rest := rest, good := true }, l) := by
  simp [getline, takeLine_line l rest hl]

theorem splitSpaces_ne_nil (l : List Char) : splitSpaces l ≠ [] := by
  cases l with
  | nil => simp [splitSpaces]
  | cons c cs =>
    unfold splitSpaces
    split
    · simp
    · split <;> simp

theorem splitSpaces_single (t : List Char) (ht : SP ∉ t) : splitSpaces t = [t] := by
  induction t with
  | nil => simp [splitSpaces]
  | cons c cs ih =>
    have hc : c ≠ SP := fun h => ht (by simp [h])
    have hcs : SP ∉ cs := fun h => ht (by simp [h])
    simp [splitSpaces, hc, ih hcs]

theorem splitSpaces_field (t rest : List Char) (ht : SP ∉ t) :
    splitSpaces (t ++ SP :: rest) = t :: splitSpaces rest := by
  induction t with
  | nil => simp [splitSpaces]
  | cons c cs ih =>
    have hc : c ≠ SP := fun h => ht (by simp [h])
    have hcs : SP ∉ cs := fun h => ht (by simp [h])
    simp [splitSpaces, hc, ih hcs]

theorem getline_vertexText {F : Type} {stof : List Char → Option F} {a b c : List Char}
    {x y z : F} (ha : FieldOf stof a x) (hb : FieldOf stof b y) (hc : FieldOf stof c z)
    (rest line : List Char) :
    getline { rest := vertexText a b c ++ LF :: rest, good := true } line
      = ({ rest := rest, good := true }, vertexText a b c) := by
  have hne : LF ≠ SP := by decide
  apply getline_line
  simp [vertexText, ha.2.1, hb.2.1, hc.2.1, hne]

theorem parseVertex_vertexText {F : Type} [Inhabited F] {stof : List Char → Option F}
    {a b c : List Char} {x y z : F} (ha : FieldOf stof a x) (hb : FieldOf stof b y)
    (hc : FieldOf stof c z) (old : PlyVertex F) :
    parseVertex stof false false old (splitSpaces (vertexText a b c))
      = some { old with position := { x := x, y := y, z := z } } := by
  rw [vertexText, splitSpaces_field _ _ ha.1, splitSpaces_field _ _ hb.1,
    splitSpaces_single _ hc.1]
  simp [parseVertex, parse3, ha.2.2, hb.2.2, hc.2.2]


theorem headerLoop_directive {F : Type} [Inhabited F] (fuel : Nat) (l rest line : List Char)
    (r r2 : PlyReader F) (hl : LF ∉ l)
    (hne : ((splitSpaces l).map trim).head? ≠ some "end_header".data)
    (hd : applyDirective r ((splitSpaces l).map trim) = some r2) :
    headerLoop (fuel + 1) { rest := l ++ LF :: rest, good := true } line r
      = headerLoop fuel { rest := rest, good := true } l r2 := by
  simp only [headerLoop, getline_line l rest line hl, hd, if_true]
  rw [if_neg hne]

theorem headerLoop_end {F : Type} [Inhabited F] (fuel : Nat) (l rest line : List Char)
    (r : PlyReader F) (hl : LF ∉ l)
    (he : ((splitSpaces l).map trim).head? = some "end_header".data) :
    headerLoop (fuel + 1) { rest := l ++ LF :: rest, good := true } line r
      = some ({ rest := rest, good := true }, l, r) := by
  simp only [headerLoop, getline_line l rest line hl, if_true]
  rw [if_pos he]

theorem takeLine_rest_lt (l rest : List Char) (h : (takeLine l).2 = some rest) :
    rest.length < l.length := by
  induction l with
  | nil => simp [takeLine] at h
  | cons c cs ih =>
    unfold takeLine at h
    split at h
    · simp only [Option.some.injEq] at h
      subst h
      simp
    · have := ih h
      simp only [List.length_cons]
      omega

theorem getline_progress (s : IStream) (line : List Char) (hg : s.good = true) :
    (getline s line).1.good = false ∨ (getline s line).1.rest.length < s.rest.length := by
  unfold getline
  rw [if_pos hg]
  split
  · next rest h => exact Or.inr (takeLine_rest_lt _ _ h)
  · exact Or.inl rfl

theorem headerLoop_not_good {F : Type} [Inhabited F] (fuel : Nat) (s : IStream)
    (line : List Char) (r : PlyReader F) (hs : s.good = false) :
    headerLoop fuel s line r = some (s, line, r) := by
  cases fuel <;> simp [headerLoop, hs]

theorem headerLoop_fuel {F : Type} [Inhabited F] (fuel fuel2 : Nat) (s : IStream)
    (line : List Char) (r : PlyReader F) (h1 : s.rest.length < fuel)
    (h2 : s.rest.length < fuel2) :
    headerLoop fuel s line r = headerLoop fuel2 s line r := by
  induction fuel generalizing fuel2 s line r with
  | zero => omega
  | succ k ih =>
    cases fuel2 with
    | zero => omega
    | succ k2 =>
      by_cases hg : s.good = true
      · simp only [headerLoop, hg, if_true]
        split
        · rfl
        · split
          · rfl
          · rcases getline_progress s line hg with hb | hlt
            · rw [headerLoop_not_good k _ _ _ hb, headerLoop_not_good k2 _ _ _ hb]
            · exact ih k2 _ _ _ (by omega) (by omega)
      · have hb : s.good = false := by simpa using hg
        rw [headerLoop_not_good _ _ _ _ hb, headerLoop_not_good _ _ _ _ hb]

theorem headerLoop_square {F : Type} [Inhabited F] (fuel : Nat) (hfuel : 7 ≤ fuel)
    (tail line : List Char) :
    headerLoop fuel { rest := plyText (squareHeader.drop 2) ++ tail, good := true } line
        (PlyReader.cleared F)
      = some ({ rest := tail, good := true }, "end_header".data, squareReader F) := by
  obtain ⟨k, rfl⟩ : ∃ k, fuel = k + 7 := ⟨fuel - 7, by omega⟩
  have htext : plyText (squareHeader.drop 2) ++ tail
      = "element vertex 4".data ++ LF :: ("property float x".data ++ LF ::
        ("property float y".data ++ LF :: ("property float z".data ++ LF ::
        ("element face 2".data ++ LF :: ("property list uchar int vertex_indices".data ++ LF ::
        ("end_header".data ++ LF :: tail)))))) := rfl
  rw [htext]
  rw [headerLoop_directive _ _ _ _ _
    { PlyReader.cleared F with vertices := [default, default, default, default] }
    (by decide) (by decide) (by rfl)]
  rw [headerLoop_directive _ _ _ _ _
    { PlyReader.cleared F with vertices := [default, default, default, default] }
    (by decide) (by decide) (by rfl)]
  rw [headerLoop_directive _ _ _ _ _
    { PlyReader.cleared F with vertices := [default, default, default, default] }
    (by decide) (by decide) (by rfl)]
  rw [headerLoop_directive _ _ _ _ _
    { PlyReader.cleared F with vertices := [default, default, default, default] }
    (by decide) (by decide) (by rfl)]
  rw [headerLoop_directive _ _ _ _ _ (squareReader F) (by decide) (by decide) (by rfl)]
  rw [headerLoop_directive _ _ _ _ _ (squareReader F) (by decide) (by decide) (by rfl)]
  rw [headerLoop_end _ _ _ _ _ (by decide) (by decide)]


theorem getline_vertexLine {F : Type} {stof : List Char → Option F} {l : List Char}
    {p : XMFLOAT3 F} (h : VertexLine stof l p) (rest line : List Char) :
    getline { rest := l ++ LF :: rest, good := true } line
      = ({ rest := rest, good := true }, l) := by
  obtain ⟨a, b, c, rfl, ha, hb, hc⟩ := h
  exact getline_vertexText ha hb hc rest line

theorem parseVertex_vertexLine {F : Type} [Inhabited F] {stof : List Char → Option F}
    {l : List Char} {p : XMFLOAT3 F} (h : VertexLine stof l p) (old : PlyVertex F) :
    parseVertex stof false false old (splitSpaces l) = some { old with position := p } := by
  obtain ⟨a, b, c, rfl, ha, hb, hc⟩ := h
  exact parseVertex_vertexText ha hb hc old

theorem Load_square {F : Type} [Inhabited F] (stof : List Char → Option F)
    (floatOfBytes : List Nat → F) (l0 l1 l2 l3 : List Char) (p0 p1 p2 p3 : XMFLOAT3 F)
    (h0 : VertexLine stof l0 p0) (h1 : VertexLine stof l1 p1) (h2 : VertexLine stof l2 p2)
    (h3 : VertexLine stof l3 p3) :
    PlyReader.Load stof floatOfBytes (some (squareFile l0 l1 l2 l3)) true
      = .ok { squareReader F with
          vertices := [{ (default : PlyVertex F) with position := p0 },
            { (default : PlyVertex F) with position := p1 },
            { (default : PlyVertex F) with position := p2 },
            { (default : PlyVertex F) with position := p3 }],
          indices := [0, 1, 2, 0, 2, 3] } := by
  have htext : squareFile l0 l1 l2 l3
      = "ply".data ++ LF :: ("format ascii 1.0".data ++ LF :: (plyText (squareHeader.drop 2)
        ++ (l0 ++ LF :: (l1 ++ LF :: (l2 ++ LF :: (l3 ++ LF :: ("3 0 1 2".data ++ LF ::
          ("3 0 2 3".data ++ LF :: [])))))))) := rfl
  have hfuel : ∀ tail : List Char, 7 ≤ (plyText (squareHeader.drop 2) ++ tail).length + 1 := by
    intro tail
    have : 7 ≤ (plyText (squareHeader.drop 2)).length := by decide
    rw [List.length_append]
    omega
  have hfmt : formatOf "format ascii 1.0".data = some (true, true) := by decide
  unfold PlyReader.Load
  simp only [htext, getline_line _ _ _ (show LF ∉ "ply".data by decide),
    getline_line _ _ _ (show LF ∉ "format ascii 1.0".data by decide), hfmt,
    headerLoop_square _ (hfuel _)]
  simp only [squareReader, asciiVertices, getline_vertexLine h0, getline_vertexLine h1,
    getline_vertexLine h2, getline_vertexLine h3, parseVertex_vertexLine h0,
    parseVertex_vertexLine h1, parseVertex_vertexLine h2, parseVertex_vertexLine h3]
  rfl


/-- C11 (as amended).  Loading the ascii file with the header `ply`, `format ascii 1.0`,
`element vertex 4`, `property float x`, `y`, `z`, `element face 2`,
`property list uchar int vertex_indices`, `end_header`, four vertex lines of three fields each
that `std::stof` accepts, and the face lines `3 0 1 2` and `3 0 2 3`, with the ccw flag set,
succeeds when the allocations succeed, and yields the mesh with `mnVerts = 4`, `mnFaces = 2`,
indices `[0,1,2,0,2,3]`, the four positions read, no normals, no texture coordinates and a
16-bit index buffer.  (The vertex reader is the one the specification describes.) -/
theorem LoadFromPLY_square {F : Type} [Inhabited F] (E Ei Ev : Env)
    (stof : List Char → Option F) (floatOfBytes : List Nat → F) (l0 l1 l2 l3 : List Char)
    (p0 p1 p2 p3 : XMFLOAT3 F) (inMesh : Option (Mesh F))
    (h0 : VertexLine stof l0 p0) (h1 : VertexLine stof l1 p1) (h2 : VertexLine stof l2 p2)
    (h3 : VertexLine stof l3 p3)
    (hE : ∀ k, E.oom k = false) (hEi : ∀ k, Ei.oom k = false) (hEv : ∀ k, Ev.oom k = false)
    (hR : @E.MakeVBReader = @UVAtlas.MakeVBReader) :
    LoadFromPLY E Ei Ev stof floatOfBytes (some (squareFile l0 l1 l2 l3)) inMesh true
      = (S_OK, some (squareMesh p0 p1 p2 p3)) ∧
    (squareMesh p0 p1 p2 p3).mnVerts = 4 ∧ (squareMesh p0 p1 p2 p3).mnFaces = 2 ∧
    (squareMesh p0 p1 p2 p3).mIndices = some [0, 1, 2, 0, 2, 3] ∧
    (squareMesh p0 p1 p2 p3).mNormals = none ∧ (squareMesh p0 p1 p2 p3).mTexCoords = none ∧
    Is16BitIndexBuffer (squareMesh p0 p1 p2 p3) = true := by
  refine ⟨?_, rfl, rfl, rfl, rfl, rfl, rfl⟩
  unfold LoadFromPLY
  rw [Load_square stof floatOfBytes l0 l1 l2 l3 p0 p1 p2 p3 h0 h1 h2 h3]
  have hidx : SetIndexData32 Ei (Mesh.empty F) 2 (some [0, 1, 2, 0, 2, 3]) none
      = (S_OK, { Mesh.empty F with mnFaces := 2, mIndices := some [0, 1, 2, 0, 2, 3] }) := by
    rw [SetIndexData32_ok Ei _ 2 _ none (by decide) (by decide) hEi]
    rfl
  simp only [hE, squareReader, List.isEmpty, List.length, Bool.false_eq_true, if_false,
    Bool.or_self, Nat.reduceAdd, Nat.reduceDiv, if_true, hidx, hR, MakeVBReader, FAILED, S_OK,
    plyLayout, Bool.not_false, Bool.and_self, lt_self_iff_false, decide_False]
  simp [SetVertexData, loadStreams, readStream, hEv, VBReader.ofStream, findElement,
    Semantic.same, streamFloat, PlyVertex.floats, rd, readN, squareMesh, Mesh.empty, bind,
    Except.bind, pure, Except.pure, FAILED, S_OK, List.range, List.range.loop]


theorem LoadFromPLY_square_witness :
    LoadFromPLY Env.ideal Env.ideal Env.ideal stoi (fun _ => 0)
        (some (squareFile "0 0 0".data "1 0 0".data "1 1 0".data "0 1 0".data)) none true
      = (S_OK, some (squareMesh ⟨0, 0, 0⟩ ⟨1, 0, 0⟩ ⟨1, 1, 0⟩ ⟨0, 1, 0⟩)) ∧
    (squareMesh (⟨0, 0, 0⟩ : XMFLOAT3 Int) ⟨1, 0, 0⟩ ⟨1, 1, 0⟩ ⟨0, 1, 0⟩).mnVerts = 4 ∧
    (squareMesh (⟨0, 0, 0⟩ : XMFLOAT3 Int) ⟨1, 0, 0⟩ ⟨1, 1, 0⟩ ⟨0, 1, 0⟩).mnFaces = 2 ∧
    (squareMesh (⟨0, 0, 0⟩ : XMFLOAT3 Int) ⟨1, 0, 0⟩ ⟨1, 1, 0⟩ ⟨0, 1, 0⟩).mIndices
      = some [0, 1, 2, 0, 2, 3] ∧
    (squareMesh (⟨0, 0, 0⟩ : XMFLOAT3 Int) ⟨1, 0, 0⟩ ⟨1, 1, 0⟩ ⟨0, 1, 0⟩).mNormals = none ∧
    (squareMesh (⟨0, 0, 0⟩ : XMFLOAT3 Int) ⟨1, 0, 0⟩ ⟨1, 1, 0⟩ ⟨0, 1, 0⟩).mTexCoords = none ∧
    Is16BitIndexBuffer (squareMesh (⟨0, 0, 0⟩ : XMFLOAT3 Int) ⟨1, 0, 0⟩ ⟨1, 1, 0⟩ ⟨0, 1, 0⟩)
      = true :=
  LoadFromPLY_square Env.ideal Env.ideal Env.ideal stoi (fun _ => 0) _ _ _ _ _ _ _ _ none
    ⟨"0".data, "0".data, "0".data, rfl, ⟨by decide, by decide, rfl⟩, ⟨by decide, by decide, rfl⟩,
      ⟨by decide, by decide, rfl⟩⟩
    ⟨"1".data, "0".data, "0".data, rfl, ⟨by decide, by decide, rfl⟩, ⟨by decide, by decide, rfl⟩,
      ⟨by decide, by decide, rfl⟩⟩
    ⟨"1".data, "1".data, "0".data, rfl, ⟨by decide, by decide, rfl⟩, ⟨by decide, by decide, rfl⟩,
      ⟨by decide, by decide, rfl⟩⟩
    ⟨"0".data, "1".data, "0".data, rfl, ⟨by decide, by decide, rfl⟩, ⟨by decide, by decide, rfl⟩,
      ⟨by decide, by decide, rfl⟩⟩
    (fun _ => rfl) (fun _ => rfl) (fun _ => rfl) rfl

/-- C11 (counterexample).  The example file does not load when an allocation fails: when
`new (std::nothrow) Mesh` fails `LoadFromPLY` returns `E_OUTOFMEMORY` and no mesh, and when
the index buffer of `SetIndexData` cannot be allocated it returns `E_OUTOFMEMORY` and leaves
an empty mesh. -/
theorem LoadFromPLY_square_not_always_successful :
    LoadFromPLY Env.exhausted Env.ideal Env.ideal stoi (fun _ => 0)
        (some (squareFile "0 0 0".data "1 0 0".data "1 1 0".data "0 1 0".data)) none true
      = (E_OUTOFMEMORY, none) ∧
    LoadFromPLY Env.ideal Env.exhausted Env.ideal stoi (fun _ => 0)
        (some (squareFile "0 0 0".data "1 0 0".data "1 1 0".data "0 1 0".data)) none true
      = (E_OUTOFMEMORY, some (Mesh.empty Int)) ∧
    E_OUTOFMEMORY ≠ S_OK := by
  decide

/-- C12 (failing input).  The mesh `holedMesh` has positions, normals and texture coordinates
and satisfies I1 and I2; its second face is unused (three sentinel indices).  `ExportToPLY`
succeeds and writes the sentinel as `4294967295` under a header that declares `int` indices;
`std::stoi` rejects that text as out of range, so `PlyReader::Load` and `LoadFromPLY` answer
`E_FAIL` for the file just written and no mesh comes back.  The same reader does accept the
sentinel written as `-1`. -/
theorem ExportToPLY_sentinel_not_reloaded :
    holedMesh.I1 ∧ holedMesh.I2 ∧
    holedMesh.mNormals.isSome = true ∧ holedMesh.mTexCoords.isSome = true ∧
    ExportToPLY sampleFmt true true true holedMesh = (S_OK, some holedText) ∧
    stoi "4294967295".data = none ∧
    parseFace true (splitSpaces "3 -1 -1 -1".data)
      = some [4294967295, 4294967295, 4294967295] ∧
    PlyReader.Load (stoi : List Char → Option Int) (fun _ => 0) (some holedText) true
      = .error E_FAIL ∧
    LoadFromPLY Env.ideal Env.ideal Env.ideal stoi (fun _ => 0) (some holedText) none true
      = (E_FAIL, none) := by
  refine ⟨?_, ?_, by decide, by decide, by decide, by decide, by decide, by rfl, by decide⟩
  · simp [Mesh.I1, lengthIs, holedMesh, Mesh.empty]
  · intro ib pos hib hpos x hx hne
    simp only [holedMesh, Mesh.empty, Option.some.injEq] at hib
    subst hib
    simp [UINT32_MAX] at hx hne
    rcases hx with rfl | rfl | rfl | rfl <;> simp_all [holedMesh]

/-! ## Invariant I2 -/

theorem Mesh.I2_iff {F : Type} (m : Mesh F) :
    m.I2 ↔ ∀ ib, m.mIndices = some ib → m.mPositions.isSome → InRange ib m.mnVerts := by
  unfold Mesh.I2 InRange
  constructor
  · intro h ib hib hp
    obtain ⟨pos, hpos⟩ := Option.isSome_iff_exists.mp hp
    exact h ib pos hib hpos
  · intro h ib pos hib hpos
    exact h ib hib (by simp [hpos])

theorem Mesh.I2_congr {F : Type} {m m2 : Mesh F} (hib : m2.mIndices = m.mIndices)
    (hn : m.mnVerts ≤ m2.mnVerts) (hp : m2.mPositions.isSome → m.mPositions.isSome)
    (h : m.I2) : m2.I2 := by
  rw [Mesh.I2_iff] at h ⊢
  intro ib hib2 hp2 x hx hne
  exact lt_of_lt_of_le (h ib (hib ▸ hib2) (hp hp2) x hx hne) hn

theorem SameVerts.I2 {F : Type} {m m2 : Mesh F} (h : SameVerts m m2)
    (hib : m2.mIndices = m.mIndices) (hI2 : m.I2) : m2.I2 :=
  Mesh.I2_congr hib (le_of_eq h.1.symm) (by rw [h.2.1]; exact id) hI2

theorem mem_swapLoop (n : Nat) (l : List Nat) (x : Nat) (hx : x ∈ swapLoop n l) : x ∈ l := by
  induction n generalizing l with
  | zero => simpa [swapLoop] using hx
  | succ k ih =>
    match l with
    | [] => simp [swapLoop] at hx
    | [_] => simpa [swapLoop] using hx
    | [_, _] => simpa [swapLoop] using hx
    | a :: b :: c :: rest =>
      simp only [swapLoop, List.mem_cons] at hx ⊢
      rcases hx with h | h | h | h
      · exact Or.inr (Or.inr (Or.inl h))
      · exact Or.inr (Or.inl h)
      · exact Or.inl h
      · exact Or.inr (Or.inr (Or.inr (ih rest h)))

theorem InRange.memcpy {ib indices : List Nat} {k n : Nat} (hold : InRange ib n)
    (hnew : InRange (readN indices k) n) : InRange (memcpy ib indices k) n := by
  intro x hx hne
  simp only [UVAtlas.memcpy, List.mem_append] at hx
  rcases hx with h | h
  · exact hnew x h hne
  · exact hold x (List.mem_of_mem_drop h) hne


theorem Mesh.I2_of_no_indices {F : Type} {m : Mesh F} (h : m.mIndices = none) : m.I2 := by
  intro ib pos hib
  rw [h] at hib
  cases hib

theorem Mesh.I2_of_no_positions {F : Type} {m : Mesh F} (h : m.mPositions = none) : m.I2 := by
  intro ib pos _ hpos
  rw [h] at hpos
  cases hpos

theorem Mesh.I2_of_inRange {F : Type} {m : Mesh F} {ib : List Nat} (hib : m.mIndices = some ib)
    (h : m.mPositions.isSome → InRange ib m.mnVerts) : m.I2 := by
  rw [Mesh.I2_iff]
  intro ib2 hib2 hp
  rw [hib] at hib2
  cases hib2
  exact h hp

theorem SetIndexData16_I2 {F : Type} (E : Env) (m : Mesh F) (nFaces : Nat)
    (indices attributes : Option (List Nat)) (hI2 : m.I2)
    (hin : Op.loadsInRange (.setIndexData16 nFaces indices attributes) m) :
    (SetIndexData16 E m nFaces indices attributes).2.I2 := by
  unfold SetIndexData16
  repeat' (first | split | dsimp only)
  all_goals first
    | exact hI2
    | exact Mesh.I2_of_no_indices rfl
    | exact Mesh.I2_of_inRange rfl hin

theorem SetIndexData32_I2 {F : Type} (E : Env) (m : Mesh F) (nFaces : Nat)
    (indices attributes : Option (List Nat)) (hI2 : m.I2)
    (hin : Op.loadsInRange (.setIndexData32 nFaces indices attributes) m) :
    (SetIndexData32 E m nFaces indices attributes).2.I2 := by
  unfold SetIndexData32
  repeat' (first | split | dsimp only)
  all_goals first
    | exact hI2
    | exact Mesh.I2_of_no_indices rfl
    | exact Mesh.I2_of_inRange rfl hin

theorem UpdateFaces_I2 {F : Type} (m : Mesh F) (nFaces : Nat) (indices : Option (List Nat))
    (hI2 : m.I2) (hin : Op.loadsInRange (.updateFaces nFaces indices) m) :
    (UpdateFaces m nFaces indices).2.I2 := by
  unfold UpdateFaces
  repeat' (first | split | dsimp only)
  all_goals first
    | exact hI2
    | skip
  next ib hib _ _ _ =>
    refine Mesh.I2_of_inRange rfl (fun hp => InRange.memcpy ?_ (hin hp))
    exact (Mesh.I2_iff m).mp hI2 ib hib hp


theorem loadStreams_topology {F : Type} [Inhabited F] {E : Env} {m0 m2 : Mesh F}
    {reader : VBReader F} {n : Nat} (h : loadStreams E m0 reader n = Except.ok m2) :
    m2.mIndices = m0.mIndices ∧ m2.mnVerts = n := by
  simp only [loadStreams, except_bind_ok, pure, Except.pure, Except.ok.injEq] at h
  obtain ⟨a1, e1, a2, e2, a3, e3, a4, e4, a5, e5, a6, e6, a7, e7, a8, e8, hm⟩ := h
  subst hm
  exact ⟨rfl, rfl⟩

theorem SetVertexData_I2 {F : Type} [Inhabited F] (E : Env) (m : Mesh F)
    (reader : VBReader F) (nVerts : Nat) (hI2 : m.I2)
    (hin : Op.loadsInRange (.setVertexData reader nVerts) m) :
    (SetVertexData E m reader nVerts).2.I2 := by
  unfold SetVertexData
  split
  · exact hI2
  · dsimp only
    split
    · exact Mesh.I2_of_no_positions rfl
    · next m2 hm2 =>
      obtain ⟨hib, hn⟩ := loadStreams_topology hm2
      rw [Mesh.I2_iff]
      intro ib hib2 _
      rw [hn]
      exact hin ib (by rw [← hib2, hib])

theorem cleanGrow_topology {F : Type} [Inhabited F] {E : Env} {m m1 m2 : Mesh F}
    {dups : List Nat} (h : cleanGrow E m m1 dups = Except.ok m2) :
    m2.mIndices = m1.mIndices ∧ m2.mnVerts = m.mnVerts + dups.length := by
  simp only [cleanGrow, except_bind_ok, pure, Except.pure, Except.ok.injEq] at h
  obtain ⟨a1, e1, a2, e2, a3, e3, a4, e4, a5, e5, a6, e6, a7, e7, a8, e8, hm⟩ := h
  subst hm
  exact ⟨rfl, rfl⟩

theorem Clean_ok_topology {F : Type} [Inhabited F] (E : Env) (m : Mesh F)
    (breakBowties : Bool) (hok : FAILED (Clean E m breakBowties).1 = false) :
    ∃ ib pos, m.mIndices = some ib ∧ m.mPositions = some pos ∧
      FAILED (E.Clean ib m.mnFaces m.mnVerts m.mAdjacency m.mAttributes breakBowties).hr
        = false ∧
      (Clean E m breakBowties).2.mIndices = some
        (E.Clean ib m.mnFaces m.mnVerts m.mAdjacency m.mAttributes breakBowties).indices ∧
      (Clean E m breakBowties).2.mnVerts = m.mnVerts +
        (E.Clean ib m.mnFaces m.mnVerts m.mAdjacency m.mAttributes breakBowties).dups.length := by
  unfold Clean at hok ⊢
  rcases hib : m.mIndices with _ | ib
  · rw [hib] at hok
    simp [FAILED, E_UNEXPECTED] at hok
  rcases hP : m.mPositions with _ | pos
  · rw [hib, hP] at hok
    simp [FAILED, E_UNEXPECTED] at hok
  refine ⟨ib, pos, rfl, rfl, ?_⟩
  rw [hib, hP] at hok
  dsimp only at hok ⊢
  generalize E.Clean ib m.mnFaces m.mnVerts m.mAdjacency m.mAttributes breakBowties = r
    at hok ⊢
  by_cases hg : m.mnFaces = 0 ∨ m.mnVerts = 0
  · rw [if_pos hg] at hok
    simp [FAILED, E_UNEXPECTED] at hok
  rw [if_neg hg] at hok ⊢
  by_cases hf : FAILED r.hr = true
  · rw [if_pos hf] at hok
    simp only at hok
    rw [hf] at hok
    cases hok
  rw [if_neg hf] at hok ⊢
  have hf2 : FAILED r.hr = false := by simpa using hf
  by_cases hd : r.dups.isEmpty = true
  · rw [if_pos hd]
    exact ⟨hf2, rfl, by simp [List.isEmpty_iff.mp hd]⟩
  rw [if_neg hd] at hok ⊢
  generalize hb : cleanGrow E m _ r.dups = b at hok ⊢
  cases b with
  | error e =>
    have he := cleanGrow_error hb
    subst he
    simp [FAILED, E_OUTOFMEMORY] at hok
  | ok m2 =>
    obtain ⟨hib2, hn2⟩ := cleanGrow_topology hb
    exact ⟨hf2, hib2, hn2⟩

theorem Clean_I2 {F : Type} [Inhabited F] (E : Env) (m : Mesh F) (breakBowties : Bool)
    (hE : E.keepsIndexRange) (hI2 : m.I2) (hok : FAILED (Clean E m breakBowties).1 = false) :
    (Clean E m breakBowties).2.I2 := by
  obtain ⟨ib, pos, hib, hP, hf, hib2, hn2⟩ := Clean_ok_topology E m breakBowties hok
  refine Mesh.I2_of_inRange hib2 (fun _ => ?_)
  rw [hn2]
  exact hE.1 ib _ _ _ _ _ (hI2 ib pos hib hP) hf

theorem remapAll_topology {F : Type} [Inhabited F] {E : Env} {m m2 : Mesh F}
    {remap : List Nat} {n : Nat} (h : remapAll E m remap n = Except.ok m2) :
    m2.mIndices = m.mIndices ∧ m2.mnVerts = n := by
  simp only [remapAll, except_bind_ok, pure, Except.pure, Except.ok.injEq] at h
  obtain ⟨a1, e1, a2, e2, a3, e3, a4, e4, a5, e5, a6, e6, a7, e7, a8, e8, hm⟩ := h
  subst hm
  exact ⟨rfl, rfl⟩

theorem VertexRemap_I2 {F : Type} [Inhabited F] (E : Env) (m : Mesh F)
    (remap : Option (List Nat)) (nNewVerts : Nat) (hI2 : m.I2) :
    (VertexRemap E m remap nNewVerts).2.I2 := by
  unfold VertexRemap
  repeat' (first | split | dsimp only)
  all_goals first
    | exact hI2
    | skip
  next hlt m2 hm2 =>
    obtain ⟨hib, hn⟩ := remapAll_topology hm2
    exact Mesh.I2_congr hib (by rw [hn]; omega) (fun _ => by simp [*]) hI2


theorem UpdateAttributes_I2 {F : Type} (E : Env) (m : Mesh F) (nFaces : Nat)
    (attributes : Option (List Nat)) (hE : E.keepsIndexRange) (hI2 : m.I2)
    (hok : FAILED (UpdateAttributes E m nFaces attributes).1 = false) :
    (UpdateAttributes E m nFaces attributes).2.I2 := by
  generalize hp : UpdateAttributes E m nFaces attributes = p at hok ⊢
  unfold UpdateAttributes at hp
  repeat' (first | split at hp | dsimp only at hp)
  all_goals subst hp
  all_goals first
    | exact hI2
    | skip
  · rename_i h
    simp only at hok
    rw [h] at hok
    cases hok
  · rename_i ib pos hib hpos hg _ _ _ _ _ _ _ _ _ h
    have hf := Bool.eq_false_iff.mpr h
    exact Mesh.I2_of_inRange rfl
      (fun _ => hE.2.2 _ _ _ _ _ (Nat.pos_of_ne_zero (fun h0 => hg (Or.inr h0)))
        (hI2 ib pos hib hpos) hf)
  · rename_i h
    simp only at hok
    rw [h] at hok
    cases hok
  · rename_i ib pos hib hpos hg _ _ _ _ _ _ _ _ h
    have hf := Bool.eq_false_iff.mpr h
    exact Mesh.I2_of_inRange rfl
      (fun _ => hE.2.1 _ _ _ _ (Nat.pos_of_ne_zero (fun h0 => hg (Or.inr h0)))
        (hI2 ib pos hib hpos) hf)


theorem GenerateAdjacency_I2 {F : Type} [Inhabited F] (E : Env) (m : Mesh F) (epsilon : F)
    (hI2 : m.I2) : (GenerateAdjacency E m epsilon).2.I2 := by
  unfold GenerateAdjacency
  repeat' (first | split | dsimp only)
  all_goals exact hI2

theorem ComputeNormals_I2 {F : Type} [Inhabited F] (E : Env) (m : Mesh F) (flags : Nat)
    (hI2 : m.I2) : (ComputeNormals E m flags).2.I2 := by
  unfold ComputeNormals
  repeat' (first | split | dsimp only)
  all_goals exact hI2

theorem ComputeTangentFrame_I2 {F : Type} [Inhabited F] (E : Env) (m : Mesh F)
    (bitangents : Bool) (hI2 : m.I2) : (ComputeTangentFrame E m bitangents).2.I2 := by
  unfold ComputeTangentFrame
  repeat' (first | split | dsimp only)
  all_goals exact hI2

theorem UpdateUVs_I2 {F : Type} [Inhabited F] (E : Env) (m : Mesh F) (nVerts : Nat)
    (uvs : Option (List (XMFLOAT2 F))) (hI2 : m.I2) : (UpdateUVs E m nVerts uvs).2.I2 := by
  unfold UpdateUVs
  repeat' (first | split | dsimp only)
  all_goals exact hI2

theorem ReverseWinding_I2 {F : Type} (m : Mesh F) (hI2 : m.I2) : (ReverseWinding m).2.I2 := by
  unfold ReverseWinding
  repeat' (first | split | dsimp only)
  all_goals first
    | exact hI2
    | skip
  next ib hib _ =>
    refine Mesh.I2_of_inRange rfl (fun hp x hx hne => ?_)
    exact (Mesh.I2_iff m).mp hI2 ib hib hp x (mem_swapLoop _ _ _ hx) hne

theorem InvertUTexCoord_I2 {F : Type} [One F] [Sub F] (m : Mesh F) (hI2 : m.I2) :
    (InvertUTexCoord m).2.I2 := by
  unfold InvertUTexCoord
  split <;> exact hI2

theorem InvertVTexCoord_I2 {F : Type} [One F] [Sub F] (m : Mesh F) (hI2 : m.I2) :
    (InvertVTexCoord m).2.I2 := by
  unfold InvertVTexCoord
  split <;> exact hI2

theorem ReverseHandedness_I2 {F : Type} [Neg F] (m : Mesh F) (hI2 : m.I2) :
    (ReverseHandedness m).2.I2 := by
  unfold ReverseHandedness
  split
  · exact hI2
  · next pos hpos => exact @Mesh.I2_congr F m _ rfl (le_refl _) (fun _ => by simp [hpos]) hI2

theorem VisualizeUVs_I2 {F : Type} [Zero F] [One F] (m : Mesh F) (hI2 : m.I2) :
    (VisualizeUVs m).2.I2 := by
  unfold VisualizeUVs
  repeat' (first | split | dsimp only)
  all_goals first
    | exact hI2
    | skip
  next pos _ hpos _ _ =>
    exact @Mesh.I2_congr F m _ rfl (le_refl _) (fun _ => by simp [hpos]) hI2

/-- C14 (as amended).  I2 is not established by the mesh itself but it is kept: if I2 holds
before a successful operation, the caller loads only in-range data (index data given to
`SetIndexData` or `UpdateFaces` while vertex data is loaded is in range for `mnVerts`, and
`SetVertexData` is given a vertex count for which the loaded indices are in range), and the
external cleaner and reorder routines keep indices in range, then I2 holds after the
operation. -/
theorem I2_preserved {F : Type} [Inhabited F] [Zero F] [One F] [Neg F] [Sub F] (E : Env)
    (op : Op F) (m : Mesh F) (hE : E.keepsIndexRange) (hin : op.loadsInRange m) (hI2 : m.I2)
    (hok : FAILED (step E op m).1 = false) : (step E op m).2.I2 := by
  cases op with
  | setIndexData16 nFaces indices attributes => exact SetIndexData16_I2 E m _ _ _ hI2 hin
  | setIndexData32 nFaces indices attributes => exact SetIndexData32_I2 E m _ _ _ hI2 hin
  | setVertexData reader nVerts => exact SetVertexData_I2 E m _ _ hI2 hin
  | clean breakBowties => exact Clean_I2 E m _ hE hI2 hok
  | generateAdjacency epsilon => exact GenerateAdjacency_I2 E m _ hI2
  | computeNormals flags => exact ComputeNormals_I2 E m _ hI2
  | computeTangentFrame bitangents => exact ComputeTangentFrame_I2 E m _ hI2
  | updateFaces nFaces indices => exact UpdateFaces_I2 m _ _ hI2 hin
  | updateAttributes nFaces attributes => exact UpdateAttributes_I2 E m _ _ hE hI2 hok
  | updateUVs nVerts uvs => exact UpdateUVs_I2 E m _ _ hI2
  | vertexRemap remap nNewVerts => exact VertexRemap_I2 E m _ _ hI2
  | reverseWinding => exact ReverseWinding_I2 m hI2
  | invertUTexCoord => exact InvertUTexCoord_I2 m hI2
  | invertVTexCoord => exact InvertVTexCoord_I2 m hI2
  | reverseHandedness => exact ReverseHandedness_I2 m hI2
  | visualizeUVs => exact VisualizeUVs_I2 m hI2
  | clear => exact Mesh.I2_of_no_indices rfl


theorem rd_mem_or_zero (buf : List Nat) (j : Nat) : rd buf j ∈ buf ∨ rd buf j = 0 := by
  unfold rd
  by_cases h : j < buf.length
  · left
    rw [List.getD_eq_getElem _ _ h]
    exact List.getElem_mem h
  · right
    exact List.getD_eq_default _ _ (by omega)

theorem InRange.reorderFaces {buf : List Nat} {n : Nat} (hn : 0 < n) (h : InRange buf n)
    (nFaces : Nat) (faceRemap : List Nat) :
    InRange (UVAtlas.reorderFaces buf nFaces faceRemap ++ buf.drop (3 * nFaces)) n := by
  intro x hx hne
  rw [List.mem_append] at hx
  rcases hx with hx | hx
  · simp only [UVAtlas.reorderFaces, List.mem_map] at hx
    obtain ⟨k, _, rfl⟩ := hx
    rcases rd_mem_or_zero buf (3 * rd faceRemap (k / 3) + k % 3) with hm | hz
    · exact h _ hm hne
    · rw [hz]
      exact hn
  · exact h x (List.mem_of_mem_drop hx) hne

theorem Env.ideal_keepsIndexRange : Env.ideal.keepsIndexRange := by
  refine ⟨?_, ?_, ?_⟩
  · intro ib nFaces nVerts adjacency attributes breakBowties h _
    simpa [Env.ideal, cleanerWith] using h
  · intro ib nFaces faceRemap n hn h _
    exact InRange.reorderFaces hn h nFaces faceRemap
  · intro ib nFaces adjacency faceRemap n hn h _
    exact InRange.reorderFaces hn h nFaces faceRemap

theorem sampleQuad_I2 : sampleQuad.I2 := by
  rw [Mesh.I2_iff]
  intro ib hib _
  cases hib
  unfold InRange
  decide

theorem I2_preserved_witness :
    (step Env.ideal (.updateFaces 2 (some [0, 2, 1, 0, 3, 2])) sampleQuad).2.I2 :=
  I2_preserved Env.ideal (.updateFaces 2 (some [0, 2, 1, 0, 3, 2])) sampleQuad
    Env.ideal_keepsIndexRange (fun _ => by unfold InRange; decide) sampleQuad_I2 (by decide)

/-- C14 (counterexample).  I2 fails in states reached by successful operations with both
topology and vertex data loaded.  `UpdateFaces` on the sample square (four vertices) accepts
the faces `0 1 2` and `0 2 4` and stores the index 4; and `LoadFromPLY` accepts a file that
declares four vertices and has the face `0 2 7`, and yields a mesh with the index 7. -/
theorem I2_not_invariant :
    Reachable strayMesh ∧ strayMesh.mIndices = some [0, 1, 2, 0, 2, 4] ∧
    strayMesh.mPositions.isSome = true ∧ strayMesh.mnVerts = 4 ∧ ¬ strayMesh.I2 ∧
    LoadFromPLY Env.ideal Env.ideal Env.ideal stoi (fun _ => 0) (some strayFile) none true
      = (S_OK, some strayLoaded) ∧
    strayLoaded.mnVerts = 4 ∧ ¬ strayLoaded.I2 := by
  refine ⟨?_, by decide, by decide, by decide, ?_, by decide, by decide, ?_⟩
  · exact Reachable.call Env.ideal (.updateFaces 2 (some [0, 1, 2, 0, 2, 4])) _
      sampleQuad_reachable (by decide)
  · intro h
    have := h [0, 1, 2, 0, 2, 4] _ (by decide) rfl 4 (by decide) (by decide)
    exact absurd this (by decide)
  · intro h
    have := h [0, 1, 2, 0, 2, 7] _ (by decide) rfl 7 (by decide) (by decide)
    exact absurd this (by decide)

/-! ## VertexRemap: atomicity -/

theorem remapCopy_error {α : Type} [Inhabited α] {E : Env} {site : Nat}
    {src : Option (List α)} {stride n n2 : Nat} {remap : List Nat} {e : HRESULT}
    (h : remapCopy E site src stride n n2 remap = Except.error e) :
    (E.oom site = true ∧ e = E_OUTOFMEMORY) ∨ RemapFailure E src stride n n2 remap e := by
  unfold remapCopy at h
  split at h
  · cases h
  · next s =>
    split at h
    · next ho =>
      cases h
      exact Or.inl ⟨ho, rfl⟩
    · dsimp only at h
      split at h
      · next hf =>
        cases h
        exact Or.inr ⟨s, rfl, rfl, hf⟩
      · cases h

theorem remapCopy_ok_not_failed {α : Type} [Inhabited α] {E : Env} {site : Nat}
    {src : Option (List α)} {stride n n2 : Nat} {remap : List Nat} {x : Option (List α)}
    (h : remapCopy E site src stride n n2 remap = Except.ok x) (hr : HRESULT) :
    ¬ RemapFailure E src stride n n2 remap hr := by
  rintro ⟨s, rfl, rfl, hf⟩
  unfold remapCopy at h
  dsimp only at h
  split at h <;> cases h

theorem remapAll_error {F : Type} [Inhabited F] {E : Env} {m : Mesh F} {remap : List Nat}
    {n : Nat} {e : HRESULT} (h : remapAll E m remap n = Except.error e) :
    ((∃ k, E.oom k = true) ∧ e = E_OUTOFMEMORY) ∨ RemapFails E m remap n e := by
  simp only [remapAll, except_bind_error, except_bind_ok, pure, Except.pure] at h
  unfold RemapFails
  rcases h with h | ⟨_, _, h⟩
  · rcases remapCopy_error h with ⟨ho, he⟩ | hf
    · exact Or.inl ⟨⟨_, ho⟩, he⟩
    · exact Or.inr (Or.inl hf)
  rcases h with h | ⟨_, _, h⟩
  · rcases remapCopy_error h with ⟨ho, he⟩ | hf
    · exact Or.inl ⟨⟨_, ho⟩, he⟩
    · exact Or.inr (Or.inr (Or.inl hf))
  rcases h with h | ⟨_, _, h⟩
  · rcases remapCopy_error h with ⟨ho, he⟩ | hf
    · exact Or.inl ⟨⟨_, ho⟩, he⟩
    · exact Or.inr (Or.inr (Or.inr (Or.inl hf)))
  rcases h with h | ⟨_, _, h⟩
  · rcases remapCopy_error h with ⟨ho, he⟩ | hf
    · exact Or.inl ⟨⟨_, ho⟩, he⟩
    · exact Or.inr (Or.inr (Or.inr (Or.inr (Or.inl hf))))
  rcases h with h | ⟨_, _, h⟩
  · rcases remapCopy_error h with ⟨ho, he⟩ | hf
    · exact Or.inl ⟨⟨_, ho⟩, he⟩
    · exact Or.inr (Or.inr (Or.inr (Or.inr (Or.inr (Or.inl hf)))))
  rcases h with h | ⟨_, _, h⟩
  · rcases remapCopy_error h with ⟨ho, he⟩ | hf
    · exact Or.inl ⟨⟨_, ho⟩, he⟩
    · exact Or.inr (Or.inr (Or.inr (Or.inr (Or.inr (Or.inr (Or.inl hf))))))
  rcases h with h | ⟨_, _, h⟩
  · rcases remapCopy_error h with ⟨ho, he⟩ | hf
    · exact Or.inl ⟨⟨_, ho⟩, he⟩
    · exact Or.inr (Or.inr (Or.inr (Or.inr (Or.inr (Or.inr (Or.inr (Or.inl hf)))))))
  rcases h with h | ⟨_, _, h⟩
  · rcases remapCopy_error h with ⟨ho, he⟩ | hf
    · exact Or.inl ⟨⟨_, ho⟩, he⟩
    · exact Or.inr (Or.inr (Or.inr (Or.inr (Or.inr (Or.inr (Or.inr (Or.inr hf)))))))
  · cases h

theorem remapAll_ok_not_failed {F : Type} [Inhabited F] {E : Env} {m m2 : Mesh F}
    {remap : List Nat} {n : Nat} (h : remapAll E m remap n = Except.ok m2) (hr : HRESULT) :
    ¬ RemapFails E m remap n hr := by
  simp only [remapAll, except_bind_ok, pure, Except.pure, Except.ok.injEq] at h
  obtain ⟨a1, e1, a2, e2, a3, e3, a4, e4, a5, e5, a6, e6, a7, e7, a8, e8, _⟩ := h
  unfold RemapFails
  rintro (h | h | h | h | h | h | h | h)
  · exact remapCopy_ok_not_failed e1 hr h
  · exact remapCopy_ok_not_failed e2 hr h
  · exact remapCopy_ok_not_failed e3 hr h
  · exact remapCopy_ok_not_failed e4 hr h
  · exact remapCopy_ok_not_failed e5 hr h
  · exact remapCopy_ok_not_failed e6 hr h
  · exact remapCopy_ok_not_failed e7 hr h
  · exact remapCopy_ok_not_failed e8 hr h

theorem VertexRemap_failed_unchanged {F : Type} [Inhabited F] (E : Env) (m : Mesh F)
    (remap : Option (List Nat)) (nNewVerts : Nat)
    (hfail : FAILED (VertexRemap E m remap nNewVerts).1 = true) :
    (VertexRemap E m remap nNewVerts).2 = m := by
  generalize hp : VertexRemap E m remap nNewVerts = p at hfail ⊢
  unfold VertexRemap at hp
  repeat' (first | split at hp | dsimp only at hp)
  all_goals subst hp
  all_goals first
    | rfl
    | simp [FAILED, S_OK] at hfail

/-- C21.  `VertexRemap` is atomic.  Whenever it fails the mesh is exactly as before the call.
When the guards pass and the remap application fails for any of the per-vertex arrays that
are present, `VertexRemap` fails and the mesh is unchanged; the code it returns is
`E_OUTOFMEMORY` from a failed allocation or the failure of one of the remap applications, and
it is the failure of the first array (positions) when that one fails and its buffer was
allocated. -/
theorem VertexRemap_atomic {F : Type} [Inhabited F] (E : Env) (m : Mesh F)
    (remap : Option (List Nat)) (nNewVerts : Nat) :
    (FAILED (VertexRemap E m remap nNewVerts).1 = true →
      (VertexRemap E m remap nNewVerts).2 = m) ∧
    (∀ table hr, remap = some table → nNewVerts ≠ 0 → m.mPositions ≠ none → m.mnVerts ≠ 0 →
      m.mnVerts ≤ nNewVerts → RemapFails E m table nNewVerts hr →
      FAILED (VertexRemap E m remap nNewVerts).1 = true ∧
      (VertexRemap E m remap nNewVerts).2 = m ∧
      (((∃ k, E.oom k = true) ∧ (VertexRemap E m remap nNewVerts).1 = E_OUTOFMEMORY) ∨
        RemapFails E m table nNewVerts (VertexRemap E m remap nNewVerts).1) ∧
      (E.oom 0 = false → RemapFailure E m.mPositions 12 m.mnVerts nNewVerts table hr →
        (VertexRemap E m remap nNewVerts).1 = hr)) := by
  refine ⟨VertexRemap_failed_unchanged E m remap nNewVerts, ?_⟩
  intro table hr htab hn hpos hv hle hfails
  subst htab
  obtain ⟨pos, hpos⟩ := Option.ne_none_iff_exists'.mp hpos
  rcases hall : remapAll E m table nNewVerts with e | m2
  · have hform : VertexRemap E m (some table) nNewVerts = (e, m) := by
      simp [VertexRemap, hn, hpos, hv, Nat.not_lt.mpr hle, hall]
    rw [hform]
    have hcode := remapAll_error hall
    have hfailed : FAILED e = true := by
      rcases hcode with ⟨_, he⟩ | hc
      · rw [he]
        decide
      · unfold RemapFails RemapFailure at hc
        rcases hc with ⟨_, _, _, h⟩ | ⟨_, _, _, h⟩ | ⟨_, _, _, h⟩ | ⟨_, _, _, h⟩ |
          ⟨_, _, _, h⟩ | ⟨_, _, _, h⟩ | ⟨_, _, _, h⟩ | ⟨_, _, _, h⟩ <;> exact h
    refine ⟨hfailed, rfl, hcode, ?_⟩
    intro ho ⟨s, hs, hcode1, hf1⟩
    rw [hpos] at hs
    cases hs
    simp only [remapAll, remapCopy, hpos, ho, hcode1, hf1, Bool.false_eq_true, if_false,
      if_true, bind, Except.bind] at hall
    cases hall
    rfl
  · exact absurd hfails (remapAll_ok_not_failed hall hr)


theorem VertexRemap_atomic_witness :
    FAILED (VertexRemap Env.remapFailsOnTexCoords sampleQuad (some [1, 2, 3, 0]) 5).1 = true ∧
    (VertexRemap Env.remapFailsOnTexCoords sampleQuad (some [1, 2, 3, 0]) 5).2 = sampleQuad ∧
    (((∃ k, Env.remapFailsOnTexCoords.oom k = true) ∧
        (VertexRemap Env.remapFailsOnTexCoords sampleQuad (some [1, 2, 3, 0]) 5).1
          = E_OUTOFMEMORY) ∨
      RemapFails Env.remapFailsOnTexCoords sampleQuad [1, 2, 3, 0] 5
        (VertexRemap Env.remapFailsOnTexCoords sampleQuad (some [1, 2, 3, 0]) 5).1) ∧
    (Env.remapFailsOnTexCoords.oom 0 = false →
      RemapFailure Env.remapFailsOnTexCoords sampleQuad.mPositions 12 sampleQuad.mnVerts 5
        [1, 2, 3, 0] E_INVALIDARG →
      (VertexRemap Env.remapFailsOnTexCoords sampleQuad (some [1, 2, 3, 0]) 5).1
        = E_INVALIDARG) :=
  (VertexRemap_atomic Env.remapFailsOnTexCoords sampleQuad (some [1, 2, 3, 0]) 5).2
    [1, 2, 3, 0] E_INVALIDARG rfl (by decide) (by decide) (by decide) (by decide)
    (Or.inr (Or.inr (Or.inr (Or.inr (Or.inl
      ⟨[⟨0, 0⟩, ⟨1, 0⟩, ⟨1, 1⟩, ⟨0, 1⟩], rfl, rfl, by decide⟩)))))

/-! ## UpdateFaces, UpdateAttributes and UpdateUVs: frame and size mismatch -/

/-- C23.  On a mesh with topology and vertex data loaded, `UpdateFaces` and
`UpdateAttributes` with a non-zero `nFaces` different from `mnFaces`, and `UpdateUVs` with a
non-zero `nVerts` different from `mnVerts`, return `E_FAIL` and leave the mesh as it is. -/
theorem size_mismatch_changes_nothing {F : Type} [Inhabited F] (E : Env) (m : Mesh F)
    (ib : List Nat) (pos : List (XMFLOAT3 F)) (hib : m.mIndices = some ib)
    (hpos : m.mPositions = some pos) (hf : m.mnFaces ≠ 0) (hv : m.mnVerts ≠ 0) :
    (∀ nFaces indices, nFaces ≠ 0 → nFaces ≠ m.mnFaces →
      UpdateFaces m nFaces (some indices) = (E_FAIL, m)) ∧
    (∀ nFaces attributes, nFaces ≠ 0 → nFaces ≠ m.mnFaces →
      UpdateAttributes E m nFaces (some attributes) = (E_FAIL, m)) ∧
    (∀ nVerts uvs, nVerts ≠ 0 → nVerts ≠ m.mnVerts →
      UpdateUVs E m nVerts (some uvs) = (E_FAIL, m)) := by
  refine ⟨?_, ?_, ?_⟩
  · intro nFaces indices h0 hne
    simp [UpdateFaces, h0, hib, hf, Ne.symm hne]
  · intro nFaces attributes h0 hne
    simp [UpdateAttributes, h0, hib, hpos, hf, hv, Ne.symm hne]
  · intro nVerts uvs h0 hne
    simp [UpdateUVs, h0, hpos, hv, hne]

theorem size_mismatch_changes_nothing_witness :
    (∀ nFaces indices, nFaces ≠ 0 → nFaces ≠ sampleQuad.mnFaces →
      UpdateFaces sampleQuad nFaces (some indices) = (E_FAIL, sampleQuad)) ∧
    (∀ nFaces attributes, nFaces ≠ 0 → nFaces ≠ sampleQuad.mnFaces →
      UpdateAttributes Env.ideal sampleQuad nFaces (some attributes) = (E_FAIL, sampleQuad)) ∧
    (∀ nVerts uvs, nVerts ≠ 0 → nVerts ≠ sampleQuad.mnVerts →
      UpdateUVs Env.ideal sampleQuad nVerts (some uvs) = (E_FAIL, sampleQuad)) :=
  size_mismatch_changes_nothing Env.ideal sampleQuad [0, 1, 2, 0, 2, 3]
    [⟨0, 0, 0⟩, ⟨1, 0, 0⟩, ⟨1, 1, 0⟩, ⟨0, 1, 0⟩] rfl rfl (by decide) (by decide)

theorem memcpy_eq_src_of_le {α : Type} [Inhabited α] (dst src : List α) (n : Nat)
    (hs : src.length = n) (hd : dst.length ≤ n) : memcpy dst src n = src := by
  unfold memcpy
  rw [readN_eq_self src n hs, List.drop_eq_nil_of_le hd, List.append_nil]

/-- C22.  A successful `UpdateFaces(nFaces, indices)` with an index array of `3 * nFaces`
entries makes the index buffer equal to the supplied array and changes nothing else; a
successful `UpdateUVs(nVerts, uvs)` with `nVerts` texture coordinates makes `mTexCoords`
present and equal to the supplied array, whether or not it was present before, and changes
nothing else.  (The index buffer has `3 * mnFaces` entries, I1 holds, and `3 * nFaces` is
below `2 ^ 64`.) -/
theorem Update_frame {F : Type} [Inhabited F] (E : Env) (m : Mesh F) :
    (∀ nFaces indices ib, m.mIndices = some ib → ib.length = 3 * m.mnFaces →
      indices.length = 3 * nFaces → 3 * nFaces < SIZE_MOD →
      FAILED (UpdateFaces m nFaces (some indices)).1 = false →
      UpdateFaces m nFaces (some indices) = (S_OK, { m with mIndices := some indices })) ∧
    (∀ nVerts uvs, m.I1 → uvs.length = nVerts →
      FAILED (UpdateUVs E m nVerts (some uvs)).1 = false →
      UpdateUVs E m nVerts (some uvs) = (S_OK, { m with mTexCoords := some uvs })) := by
  constructor
  · intro nFaces indices ib hib hlen hin hsize hok
    have h3 : mul3 nFaces = 3 * nFaces := mul3_eq_of_lt hsize
    unfold UpdateFaces at hok ⊢
    rw [hib] at hok ⊢
    dsimp only at hok ⊢
    by_cases h0 : nFaces = 0
    · simp [h0, FAILED, E_INVALIDARG] at hok
    by_cases hf : m.mnFaces = 0
    · simp [h0, hf, FAILED, E_UNEXPECTED] at hok
    by_cases hne : m.mnFaces = nFaces
    · by_cases hg : mul3 nFaces ≥ UINT32_MAX
      · simp [h0, hf, hne, hg, FAILED, ERROR_ARITHMETIC_OVERFLOW] at hok
      · rw [if_neg h0, if_neg hf, if_neg (by simpa using hne), if_neg hg, h3,
          memcpy_eq_src_of_le ib indices (3 * nFaces) hin (by omega)]
    · simp [h0, hf, hne, FAILED, E_FAIL] at hok
  · intro nVerts uvs hI1 hlen hok
    unfold UpdateUVs at hok ⊢
    dsimp only at hok ⊢
    by_cases h0 : nVerts = 0
    · simp [h0, FAILED, E_INVALIDARG] at hok
    rcases hpos : m.mPositions with _ | pos
    · simp [h0, hpos, FAILED, E_UNEXPECTED] at hok
    by_cases hv : m.mnVerts = 0
    · simp [h0, hpos, hv, FAILED, E_UNEXPECTED] at hok
    by_cases hne : nVerts = m.mnVerts
    · rcases htex : m.mTexCoords with _ | old
      · by_cases hoom : E.oom 0 = true
        · simp [h0, hpos, hv, hne, htex, hoom, FAILED, E_OUTOFMEMORY] at hok
        · simp only [htex]
          rw [if_neg h0, if_neg hv, if_neg (by simpa using hne), if_neg hoom,
            memcpy_eq_src_of_le _ uvs m.mnVerts (by omega) (by simp [alloc])]
      · have hold : old.length = m.mnVerts := hI1.2.2.2.2.1 old htex
        simp only [htex]
        rw [if_neg h0, if_neg hv, if_neg (by simpa using hne),
          memcpy_eq_src_of_le old uvs m.mnVerts (by omega) (by omega)]
    · simp [h0, hpos, hv, hne, FAILED, E_FAIL] at hok

theorem sampleFan_I1 : sampleFan.I1 := by
  simp [Mesh.I1, lengthIs, sampleFan, Mesh.empty]

theorem Update_frame_witness :
    UpdateFaces sampleQuad 2 (some [0, 2, 1, 0, 3, 2])
      = (S_OK, { sampleQuad with mIndices := some [0, 2, 1, 0, 3, 2] }) ∧
    UpdateUVs Env.ideal sampleQuad 4 (some [⟨1, 1⟩, ⟨0, 1⟩, ⟨0, 0⟩, ⟨1, 0⟩])
      = (S_OK, { sampleQuad with mTexCoords := some [⟨1, 1⟩, ⟨0, 1⟩, ⟨0, 0⟩, ⟨1, 0⟩] }) ∧
    sampleFan.mTexCoords = none ∧
    UpdateUVs Env.ideal sampleFan 5 (some [⟨0, 0⟩, ⟨1, 0⟩, ⟨1, 1⟩, ⟨0, 1⟩, ⟨0, 0⟩])
      = (S_OK, { sampleFan with
          mTexCoords := some [⟨0, 0⟩, ⟨1, 0⟩, ⟨1, 1⟩, ⟨0, 1⟩, ⟨0, 0⟩] }) :=
  ⟨(Update_frame Env.ideal sampleQuad).1 2 [0, 2, 1, 0, 3, 2] [0, 1, 2, 0, 2, 3] rfl
      (by decide) (by decide) (by decide) (by decide),
   (Update_frame Env.ideal sampleQuad).2 4 [⟨1, 1⟩, ⟨0, 1⟩, ⟨0, 0⟩, ⟨1, 0⟩] sampleQuad_I1
      (by decide) (by decide),
   rfl,
   (Update_frame Env.ideal sampleFan).2 5 [⟨0, 0⟩, ⟨1, 0⟩, ⟨1, 1⟩, ⟨0, 1⟩, ⟨0, 0⟩] sampleFan_I1
      (by decide) (by decide)⟩

/-! ## SetVertexData -/

theorem readStream_error {α : Type} [Inhabited α] {E : Env} {site : Nat} {declared : Bool}
    {result : HRESULT × List α} {n : Nat} {e : HRESULT}
    (h : readStream E site declared result n = Except.error e) :
    (E.oom site = true ∧ e = E_OUTOFMEMORY) ∨ ReadFailure declared result e := by
  unfold readStream at h
  split at h
  · next hd =>
    split at h
    · next ho =>
      cases h
      exact Or.inl ⟨ho, rfl⟩
    · split at h
      · next hf =>
        cases h
        exact Or.inr ⟨hd, rfl, hf⟩
      · cases h
  · cases h

theorem readStream_ok_not_failed {α : Type} [Inhabited α] {E : Env} {site : Nat}
    {declared : Bool} {result : HRESULT × List α} {n : Nat} {x : Option (List α)}
    (h : readStream E site declared result n = Except.ok x) (hr : HRESULT) :
    ¬ ReadFailure declared result hr := by
  rintro ⟨hd, rfl, hf⟩
  unfold readStream at h
  rw [if_pos hd] at h
  split at h <;> cases h

theorem readStream_loaded {α : Type} [Inhabited α] (E : Env) (site : Nat) (declared : Bool)
    (result : HRESULT × List α) (n : Nat) (halloc : ∀ k, E.oom k = false)
    (hread : declared = true → FAILED result.1 = false) :
    readStream E site declared result n = Except.ok (loadedStream declared result n) := by
  unfold readStream loadedStream
  cases declared with
  | false => rfl
  | true => simp [halloc, hread rfl]

theorem loadStreams_error {F : Type} [Inhabited F] {E : Env} {m0 : Mesh F}
    {reader : VBReader F} {n : Nat} {e : HRESULT}
    (h : loadStreams E m0 reader n = Except.error e) :
    ((∃ k, E.oom k = true) ∧ e = E_OUTOFMEMORY) ∨ ReadFails reader n e := by
  simp only [loadStreams, except_bind_error, except_bind_ok, pure, Except.pure] at h
  unfold ReadFails
  rcases h with h | ⟨_, _, h⟩
  · rcases readStream_error h with ⟨ho, he⟩ | hf
    · exact Or.inl ⟨⟨_, ho⟩, he⟩
    · exact Or.inr (Or.inl hf)
  rcases h with h | ⟨_, _, h⟩
  · rcases readStream_error h with ⟨ho, he⟩ | hf
    · exact Or.inl ⟨⟨_, ho⟩, he⟩
    · exact Or.inr (Or.inr (Or.inl hf))
  rcases h with h | ⟨_, _, h⟩
  · rcases readStream_error h with ⟨ho, he⟩ | hf
    · exact Or.inl ⟨⟨_, ho⟩, he⟩
    · exact Or.inr (Or.inr (Or.inr (Or.inl hf)))
  rcases h with h | ⟨_, _, h⟩
  · rcases readStream_error h with ⟨ho, he⟩ | hf
    · exact Or.inl ⟨⟨_, ho⟩, he⟩
    · exact Or.inr (Or.inr (Or.inr (Or.inr (Or.inl hf))))
  rcases h with h | ⟨_, _, h⟩
  · rcases readStream_error h with ⟨ho, he⟩ | hf
    · exact Or.inl ⟨⟨_, ho⟩, he⟩
    · exact Or.inr (Or.inr (Or.inr (Or.inr (Or.inr (Or.inl hf)))))
  rcases h with h | ⟨_, _, h⟩
  · rcases readStream_error h with ⟨ho, he⟩ | hf
    · exact Or.inl ⟨⟨_, ho⟩, he⟩
    · exact Or.inr (Or.inr (Or.inr (Or.inr (Or.inr (Or.inr (Or.inl hf))))))
  rcases h with h | ⟨_, _, h⟩
  · rcases readStream_error h with ⟨ho, he⟩ | hf
    · exact Or.inl ⟨⟨_, ho⟩, he⟩
    · exact Or.inr (Or.inr (Or.inr (Or.inr (Or.inr (Or.inr (Or.inr (Or.inl hf)))))))
  rcases h with h | ⟨_, _, h⟩
  · rcases readStream_error h with ⟨ho, he⟩ | hf
    · exact Or.inl ⟨⟨_, ho⟩, he⟩
    · exact Or.inr (Or.inr (Or.inr (Or.inr (Or.inr (Or.inr (Or.inr (Or.inr hf)))))))
  · cases h

theorem loadStreams_ok_not_failed {F : Type} [Inhabited F] {E : Env} {m0 m2 : Mesh F}
    {reader : VBReader F} {n : Nat} (h : loadStreams E m0 reader n = Except.ok m2)
    (hr : HRESULT) : ¬ ReadFails reader n hr := by
  simp only [loadStreams, except_bind_ok, pure, Except.pure, Except.ok.injEq] at h
  obtain ⟨a1, e1, a2, e2, a3, e3, a4, e4, a5, e5, a6, e6, a7, e7, a8, e8, _⟩ := h
  unfold ReadFails
  rintro (h | h | h | h | h | h | h | h)
  · exact readStream_ok_not_failed e1 hr h
  · exact readStream_ok_not_failed e2 hr h
  · exact readStream_ok_not_failed e3 hr h
  · exact readStream_ok_not_failed e4 hr h
  · exact readStream_ok_not_failed e5 hr h
  · exact readStream_ok_not_failed e6 hr h
  · exact readStream_ok_not_failed e7 hr h
  · exact readStream_ok_not_failed e8 hr h

theorem ReadFails.failed {F : Type} {reader : VBReader F} {n : Nat} {hr : HRESULT}
    (h : ReadFails reader n hr) : FAILED hr = true := by
  unfold ReadFails ReadFailure at h
  rcases h with ⟨_, _, h⟩ | ⟨_, _, h⟩ | ⟨_, _, h⟩ | ⟨_, _, h⟩ | ⟨_, _, h⟩ | ⟨_, _, h⟩ |
    ⟨_, _, h⟩ | ⟨_, _, h⟩ <;> exact h

/-- C25.  `SetVertexData` keeps no partial vertex state on failure.  With `nVerts = 0` it
returns `E_INVALIDARG` and the mesh is unchanged.  With `nVerts > 0`, whenever it fails
`mnVerts` is 0 and all eight per-vertex arrays are absent (the topology is unchanged); and
when the read of the position stream or of any declared optional stream fails, it does fail,
with `E_OUTOFMEMORY` from a failed allocation or with the failure of one of the reads, which
is the failure of the position read when that one fails and its buffer was allocated. -/
theorem SetVertexData_failure_state {F : Type} [Inhabited F] (E : Env) (m : Mesh F)
    (reader : VBReader F) (nVerts : Nat) :
    SetVertexData E m reader 0 = (E_INVALIDARG, m) ∧
    (nVerts ≠ 0 → FAILED (SetVertexData E m reader nVerts).1 = true →
      (SetVertexData E m reader nVerts).2 = releasedVerts m) ∧
    (∀ hr, nVerts ≠ 0 → ReadFails reader nVerts hr →
      FAILED (SetVertexData E m reader nVerts).1 = true ∧
      (SetVertexData E m reader nVerts).2 = releasedVerts m ∧
      (((∃ k, E.oom k = true) ∧ (SetVertexData E m reader nVerts).1 = E_OUTOFMEMORY) ∨
        ReadFails reader nVerts (SetVertexData E m reader nVerts).1) ∧
      (E.oom 0 = false → ReadFailure true (reader.Read3 .SV_Position nVerts) hr →
        (SetVertexData E m reader nVerts).1 = hr)) := by
  refine ⟨by simp [SetVertexData], ?_, ?_⟩
  · intro hn hfail
    rcases hall : loadStreams E (releasedVerts m) reader nVerts with e | m2
    · simp [SetVertexData, hn, releasedVerts] at hall ⊢
      simp [hall]
    · have hform : SetVertexData E m reader nVerts = (S_OK, m2) := by
        simp [SetVertexData, hn, releasedVerts] at hall ⊢
        simp [hall]
      rw [hform] at hfail
      simp [FAILED, S_OK] at hfail
  · intro hr hn hfails
    rcases hall : loadStreams E (releasedVerts m) reader nVerts with e | m2
    · have hform : SetVertexData E m reader nVerts = (e, releasedVerts m) := by
        simp [SetVertexData, hn, releasedVerts] at hall ⊢
        simp [hall]
      rw [hform]
      have hcode := loadStreams_error hall
      have hfailed : FAILED e = true := by
        rcases hcode with ⟨_, he⟩ | hc
        · rw [he]
          decide
        · exact hc.failed
      refine ⟨hfailed, rfl, hcode, ?_⟩
      intro ho ⟨_, hcode1, hf1⟩
      simp only [loadStreams, readStream, ho, hcode1, hf1, Bool.false_eq_true, if_false,
        if_true, bind, Except.bind] at hall
      cases hall
      rfl
    · exact absurd hfails (loadStreams_ok_not_failed hall hr)


theorem SetVertexData_failure_state_witness :
    FAILED (SetVertexData Env.ideal sampleQuad brokenReader 4).1 = true ∧
    (SetVertexData Env.ideal sampleQuad brokenReader 4).2 = releasedVerts sampleQuad ∧
    (((∃ k, Env.ideal.oom k = true) ∧
        (SetVertexData Env.ideal sampleQuad brokenReader 4).1 = E_OUTOFMEMORY) ∨
      ReadFails brokenReader 4 (SetVertexData Env.ideal sampleQuad brokenReader 4).1) ∧
    (Env.ideal.oom 0 = false →
      ReadFailure true (brokenReader.Read3 .SV_Position 4) ERROR_INVALID_NAME →
      (SetVertexData Env.ideal sampleQuad brokenReader 4).1 = ERROR_INVALID_NAME) :=
  (SetVertexData_failure_state Env.ideal sampleQuad brokenReader 4).2.2 ERROR_INVALID_NAME
    (by decide) (Or.inr (Or.inl ⟨rfl, rfl, by decide⟩))

theorem loadedStream_isSome {α : Type} [Inhabited α] (declared : Bool)
    (result : HRESULT × List α) (n : Nat) :
    (loadedStream declared result n).isSome = declared := by
  cases declared <;> rfl

/-- C24 (as amended).  For `nVerts > 0`, when the allocations succeed and the position
stream and every optional stream the reader declares can be read, `SetVertexData` succeeds,
sets `mnVerts = nVerts`, makes the positions present and makes each optional stream present
exactly when the reader declares it; the face topology is unchanged. -/
theorem SetVertexData_loads {F : Type} [Inhabited F] (E : Env) (m : Mesh F)
    (reader : VBReader F) (nVerts : Nat) (hn : nVerts ≠ 0) (halloc : ∀ k, E.oom k = false)
    (hread : Readable reader nVerts) :
    SetVertexData E m reader nVerts = (S_OK, { m with
      mnVerts := nVerts,
      mPositions := some (readN (reader.Read3 .SV_Position nVerts).2 nVerts),
      mNormals := loadedStream (reader.GetElement11 .NORMAL) (reader.Read3 .NORMAL nVerts) nVerts,
      mTangents :=
        loadedStream (reader.GetElement11 .TANGENT) (reader.Read4 .TANGENT nVerts) nVerts,
      mBiTangents :=
        loadedStream (reader.GetElement11 .BINORMAL) (reader.Read3 .BINORMAL nVerts) nVerts,
      mTexCoords :=
        loadedStream (reader.GetElement11 .TEXCOORD) (reader.Read2 .TEXCOORD nVerts) nVerts,
      mColors := loadedStream (reader.GetElement11 .COLOR) (reader.Read4 .COLOR nVerts) nVerts,
      mBlendIndices := loadedStream (reader.GetElement11 .BLENDINDICES)
        (reader.Read4 .BLENDINDICES nVerts) nVerts,
      mBlendWeights := loadedStream (reader.GetElement11 .BLENDWEIGHT)
        (reader.Read4 .BLENDWEIGHT nVerts) nVerts }) ∧
    (SetVertexData E m reader nVerts).2.mPositions.isSome = true ∧
    (SetVertexData E m reader nVerts).2.mNormals.isSome = reader.GetElement11 .NORMAL ∧
    (SetVertexData E m reader nVerts).2.mTangents.isSome = reader.GetElement11 .TANGENT ∧
    (SetVertexData E m reader nVerts).2.mBiTangents.isSome = reader.GetElement11 .BINORMAL ∧
    (SetVertexData E m reader nVerts).2.mTexCoords.isSome = reader.GetElement11 .TEXCOORD ∧
    (SetVertexData E m reader nVerts).2.mColors.isSome = reader.GetElement11 .COLOR ∧
    (SetVertexData E m reader nVerts).2.mBlendIndices.isSome
      = reader.GetElement11 .BLENDINDICES ∧
    (SetVertexData E m reader nVerts).2.mBlendWeights.isSome
      = reader.GetElement11 .BLENDWEIGHT := by
  obtain ⟨r0, r1, r2, r3, r4, r5, r6, r7⟩ := hread
  have h : SetVertexData E m reader nVerts = (S_OK, { m with
      mnVerts := nVerts,
      mPositions := some (readN (reader.Read3 .SV_Position nVerts).2 nVerts),
      mNormals := loadedStream (reader.GetElement11 .NORMAL) (reader.Read3 .NORMAL nVerts) nVerts,
      mTangents :=
        loadedStream (reader.GetElement11 .TANGENT) (reader.Read4 .TANGENT nVerts) nVerts,
      mBiTangents :=
        loadedStream (reader.GetElement11 .BINORMAL) (reader.Read3 .BINORMAL nVerts) nVerts,
      mTexCoords :=
        loadedStream (reader.GetElement11 .TEXCOORD) (reader.Read2 .TEXCOORD nVerts) nVerts,
      mColors := loadedStream (reader.GetElement11 .COLOR) (reader.Read4 .COLOR nVerts) nVerts,
      mBlendIndices := loadedStream (reader.GetElement11 .BLENDINDICES)
        (reader.Read4 .BLENDINDICES nVerts) nVerts,
      mBlendWeights := loadedStream (reader.GetElement11 .BLENDWEIGHT)
        (reader.Read4 .BLENDWEIGHT nVerts) nVerts }) := by
    unfold SetVertexData
    rw [if_neg hn]
    simp only [loadStreams, readStream_loaded E _ _ _ _ halloc (fun _ => r0),
      readStream_loaded E _ _ _ _ halloc r1, readStream_loaded E _ _ _ _ halloc r2,
      readStream_loaded E _ _ _ _ halloc r3, readStream_loaded E _ _ _ _ halloc r4,
      readStream_loaded E _ _ _ _ halloc r5, readStream_loaded E _ _ _ _ halloc r6,
      readStream_loaded E _ _ _ _ halloc r7, bind, Except.bind, pure, Except.pure]
    rfl
  rw [h]
  exact ⟨rfl, rfl, loadedStream_isSome _ _ _, loadedStream_isSome _ _ _,
    loadedStream_isSome _ _ _, loadedStream_isSome _ _ _, loadedStream_isSome _ _ _,
    loadedStream_isSome _ _ _, loadedStream_isSome _ _ _⟩

theorem sampleReader_readable : Readable sampleReader 4 := by
  unfold Readable
  decide

theorem SetVertexData_loads_witness :
    (SetVertexData Env.ideal reloadedMesh sampleReader 4).1 = S_OK ∧
    (SetVertexData Env.ideal reloadedMesh sampleReader 4).2.mnVerts = 4 ∧
    (SetVertexData Env.ideal reloadedMesh sampleReader 4).2.mNormals.isSome = false ∧
    (SetVertexData Env.ideal reloadedMesh sampleReader 4).2.mTexCoords.isSome = true ∧
    (SetVertexData Env.ideal reloadedMesh sampleReader 4).2.mIndices = reloadedMesh.mIndices :=
  have h := SetVertexData_loads Env.ideal reloadedMesh sampleReader 4 (by decide)
    (fun _ => rfl) sampleReader_readable
  ⟨by rw [h.1], by rw [h.1], h.2.2.1, h.2.2.2.2.2.1, by rw [h.1]⟩

/-- C24 (counterexample).  A reader with a readable position stream does not make
`SetVertexData` succeed: the call returns `E_OUTOFMEMORY` when the position array cannot be
allocated, and it returns the reader's error when the reader declares a normal stream that
cannot be read. -/
theorem SetVertexData_not_always_successful :
    Readable sampleReader 4 ∧
    SetVertexData Env.exhausted (Mesh.empty Int) sampleReader 4
      = (E_OUTOFMEMORY, Mesh.empty Int) ∧
    FAILED (brokenReader.Read3 .SV_Position 4).1 = false ∧
    brokenReader.GetElement11 .NORMAL = true ∧
    SetVertexData Env.ideal (Mesh.empty Int) brokenReader 4
      = (ERROR_INVALID_NAME, Mesh.empty Int) ∧
    E_OUTOFMEMORY ≠ S_OK ∧ ERROR_INVALID_NAME ≠ S_OK := by
  refine ⟨sampleReader_readable, by decide, by decide, by decide, by decide, by decide,
    by decide⟩

/-! ## ReverseWinding -/

theorem length_swapLoop (n : Nat) (l : List Nat) : (swapLoop n l).length = l.length := by
  induction n generalizing l with
  | zero => rfl
  | succ k ih =>
    match l with
    | [] => rfl
    | [_] => rfl
    | [_, _] => rfl
    | a :: b :: c :: rest => simp [swapLoop, ih rest]

theorem swapLoop_swapLoop (n : Nat) (l : List Nat) : swapLoop n (swapLoop n l) = l := by
  induction n generalizing l with
  | zero => rfl
  | succ k ih =>
    match l with
    | [] => rfl
    | [_] => rfl
    | [_, _] => rfl
    | a :: b :: c :: rest => simp [swapLoop, ih rest]

theorem swapLoop_face (n : Nat) (l : List Nat) (f : Nat) (hf : f < n)
    (hlen : 3 * n ≤ l.length) :
    (swapLoop n l)[3 * f]? = l[3 * f + 2]? ∧ (swapLoop n l)[3 * f + 1]? = l[3 * f + 1]? ∧
    (swapLoop n l)[3 * f + 2]? = l[3 * f]? := by
  induction n generalizing l f with
  | zero => omega
  | succ k ih =>
    match l with
    | [] => simp at hlen
    | [_] => simp only [List.length_cons, List.length_nil] at hlen; omega
    | [_, _] => simp only [List.length_cons, List.length_nil] at hlen; omega
    | a :: b :: c :: rest =>
      cases f with
      | zero => simp [swapLoop]
      | succ g =>
        have hrest : 3 * k ≤ rest.length := by
          simp only [List.length_cons] at hlen
          omega
        have := ih rest g (by omega) hrest
        have e0 : 3 * (g + 1) = (3 * g) + 1 + 1 + 1 := by omega
        have e1 : 3 * (g + 1) + 1 = (3 * g + 1) + 1 + 1 + 1 := by omega
        have e2 : 3 * (g + 1) + 2 = (3 * g + 2) + 1 + 1 + 1 := by omega
        simp only [swapLoop, e0, e1, e2, List.getElem?_cons_succ]
        exact this

/-- C26.  On a mesh with topology (index buffer of `3 * mnFaces` entries, `mnFaces > 0`)
`ReverseWinding` succeeds, changes only the index buffer, and for every face `f` the new
entries `3f`, `3f+1`, `3f+2` are the old entries `3f+2`, `3f+1`, `3f`; applying it twice
gives back the mesh. -/
theorem ReverseWinding_swaps {F : Type} (m : Mesh F) (ib : List Nat)
    (hib : m.mIndices = some ib) (hf : m.mnFaces ≠ 0) (hlen : ib.length = 3 * m.mnFaces) :
    ReverseWinding m = (S_OK, { m with mIndices := some (swapLoop m.mnFaces ib) }) ∧
    (swapLoop m.mnFaces ib).length = ib.length ∧
    (∀ f, f < m.mnFaces →
      (swapLoop m.mnFaces ib)[3 * f]? = ib[3 * f + 2]? ∧
      (swapLoop m.mnFaces ib)[3 * f + 1]? = ib[3 * f + 1]? ∧
      (swapLoop m.mnFaces ib)[3 * f + 2]? = ib[3 * f]?) ∧
    ReverseWinding (ReverseWinding m).2 = (S_OK, m) := by
  have h1 : ReverseWinding m = (S_OK, { m with mIndices := some (swapLoop m.mnFaces ib) }) := by
    simp [ReverseWinding, hib, hf]
  refine ⟨h1, length_swapLoop _ _, fun f hlt => swapLoop_face _ _ f hlt (by omega), ?_⟩
  rw [h1]
  simp only [ReverseWinding, if_neg hf, swapLoop_swapLoop]
  rw [← hib]

theorem ReverseWinding_swaps_witness :
    ReverseWinding sampleQuad
      = (S_OK, { sampleQuad with mIndices := some (swapLoop sampleQuad.mnFaces [0, 1, 2, 0, 2, 3]) }) ∧
    (swapLoop sampleQuad.mnFaces [0, 1, 2, 0, 2, 3]).length = [0, 1, 2, 0, 2, 3].length ∧
    (∀ f, f < sampleQuad.mnFaces →
      (swapLoop sampleQuad.mnFaces [0, 1, 2, 0, 2, 3])[3 * f]? = [0, 1, 2, 0, 2, 3][3 * f + 2]? ∧
      (swapLoop sampleQuad.mnFaces [0, 1, 2, 0, 2, 3])[3 * f + 1]?
        = [0, 1, 2, 0, 2, 3][3 * f + 1]? ∧
      (swapLoop sampleQuad.mnFaces [0, 1, 2, 0, 2, 3])[3 * f + 2]? = [0, 1, 2, 0, 2, 3][3 * f]?) ∧
    ReverseWinding (ReverseWinding sampleQuad).2 = (S_OK, sampleQuad) :=
  ReverseWinding_swaps sampleQuad [0, 1, 2, 0, 2, 3] rfl (by decide) (by decide)

/-! ## ReverseHandedness, texture-coordinate inversion and VisualizeUVs -/

theorem mapFirst_eq_map {α : Type} (n : Nat) (f : α → α) (l : List α) (h : l.length ≤ n) :
    mapFirst n f l = l.map f := by
  unfold mapFirst
  rw [List.take_of_length_le h, List.drop_eq_nil_of_le h, List.append_nil]

theorem uvLoop_eq_map {F : Type} [Zero F] (n : Nat) (tex : List (XMFLOAT2 F))
    (pos : List (XMFLOAT3 F)) (ht : tex.length = n) (hp : pos.length = n) :
    uvLoop n tex pos = tex.map (fun t => { x := t.x, y := t.y, z := 0 }) := by
  induction n generalizing tex pos with
  | zero =>
    have h1 : tex = [] := List.length_eq_zero.mp ht
    have h2 : pos = [] := List.length_eq_zero.mp hp
    subst h1 h2
    rfl
  | succ k ih =>
    match tex, pos with
    | [], _ => simp at ht
    | _ :: _, [] => simp at hp
    | t :: ts, p :: ps =>
      simp only [List.length_cons, Nat.add_right_cancel_iff] at ht hp
      simp [uvLoop, ih ts ps ht hp]

theorem ReverseHandedness_eq {F : Type} [Neg F] (m : Mesh F) (pos : List (XMFLOAT3 F))
    (hpos : m.mPositions = some pos) (hI1 : m.I1) :
    ReverseHandedness m = (S_OK, { m with
      mPositions := some (pos.map (fun p => { p with z := -p.z })),
      mNormals := m.mNormals.map (List.map (fun p => { p with z := -p.z })) }) := by
  have hpl : pos.length ≤ m.mnVerts := le_of_eq (hI1.1 pos hpos)
  unfold ReverseHandedness
  rw [hpos]
  dsimp only
  rw [mapFirst_eq_map _ _ _ hpl]
  rcases hn : m.mNormals with _ | ns
  · rfl
  · have hnl : ns.length ≤ m.mnVerts := le_of_eq (hI1.2.1 ns hn)
    simp only [Option.map_some', mapFirst_eq_map _ _ _ hnl]

/-- C27.  On a mesh with positions that satisfies I1, `ReverseHandedness` succeeds and
replaces each position `(x, y, z)` by `(x, y, -z)` and, when normals are present, each normal
likewise; nothing else changes.  When negation is an involution (as it is for `float`),
applying it twice gives back the mesh. -/
theorem ReverseHandedness_negates_z {F : Type} [Neg F] (m : Mesh F)
    (pos : List (XMFLOAT3 F)) (hpos : m.mPositions = some pos) (hI1 : m.I1) :
    ReverseHandedness m = (S_OK, { m with
      mPositions := some (pos.map (fun p => { p with z := -p.z })),
      mNormals := m.mNormals.map (List.map (fun p => { p with z := -p.z })) }) ∧
    ((∀ z : F, - -z = z) → ReverseHandedness (ReverseHandedness m).2 = (S_OK, m)) := by
  refine ⟨ReverseHandedness_eq m pos hpos hI1, fun hneg => ?_⟩
  have hI1b : (ReverseHandedness m).2.I1 := ReverseHandedness_I1 m hI1
  rw [ReverseHandedness_eq m pos hpos hI1] at hI1b ⊢
  rw [ReverseHandedness_eq _ _ rfl hI1b]
  have hff : ((fun p : XMFLOAT3 F => { p with z := -p.z }) ∘
      (fun p : XMFLOAT3 F => { p with z := -p.z })) = id := by
    funext p
    simp [hneg]
  obtain ⟨nf, nv, ib, at_, adj, ps, ns, t1, t2, tc, cl, bi, bw⟩ := m
  simp only at hpos
  subst hpos
  cases ns <;> simp [hff]


theorem holedMesh_I1 : holedMesh.I1 := by
  simp [Mesh.I1, lengthIs, holedMesh, Mesh.empty]

theorem ReverseHandedness_negates_z_witness :
    ReverseHandedness holedMesh = (S_OK, { holedMesh with
      mPositions := some (([⟨0, 0, 0⟩, ⟨1, 0, 0⟩, ⟨0, 1, 0⟩] : List (XMFLOAT3 Int)).map
        (fun p => { p with z := -p.z })),
      mNormals := holedMesh.mNormals.map (List.map (fun p => { p with z := -p.z })) }) ∧
    ((∀ z : Int, - -z = z) →
      ReverseHandedness (ReverseHandedness holedMesh).2 = (S_OK, holedMesh)) :=
  ReverseHandedness_negates_z holedMesh [⟨0, 0, 0⟩, ⟨1, 0, 0⟩, ⟨0, 1, 0⟩] rfl holedMesh_I1

/-- C30.  On a mesh with texture coordinates present (with `mnVerts` entries),
`InvertUTexCoord` replaces each `(u, v)` by `(1 - u, v)` and `InvertVTexCoord` replaces each
`(u, v)` by `(u, 1 - v)`; nothing else changes, and the two operations commute. -/
theorem InvertTexCoord_spec {F : Type} [One F] [Sub F] (m : Mesh F) (tex : List (XMFLOAT2 F))
    (htex : m.mTexCoords = some tex) (hlen : tex.length = m.mnVerts) :
    InvertUTexCoord m
      = (S_OK, { m with mTexCoords := some (tex.map (fun t => { t with x := 1 - t.x })) }) ∧
    InvertVTexCoord m
      = (S_OK, { m with mTexCoords := some (tex.map (fun t => { t with y := 1 - t.y })) }) ∧
    InvertVTexCoord (InvertUTexCoord m).2 = InvertUTexCoord (InvertVTexCoord m).2 := by
  have hU : InvertUTexCoord m
      = (S_OK, { m with mTexCoords := some (tex.map (fun t => { t with x := 1 - t.x })) }) := by
    simp [InvertUTexCoord, htex, mapFirst_eq_map _ _ _ (le_of_eq hlen)]
  have hV : InvertVTexCoord m
      = (S_OK, { m with mTexCoords := some (tex.map (fun t => { t with y := 1 - t.y })) }) := by
    simp [InvertVTexCoord, htex, mapFirst_eq_map _ _ _ (le_of_eq hlen)]
  refine ⟨hU, hV, ?_⟩
  rw [hU, hV]
  simp only [InvertUTexCoord, InvertVTexCoord]
  rw [mapFirst_eq_map _ _ _ (by simp [hlen]), mapFirst_eq_map _ _ _ (by simp [hlen])]
  simp

theorem InvertTexCoord_spec_witness :
    InvertUTexCoord sampleQuad = (S_OK, { sampleQuad with
      mTexCoords := some (([⟨0, 0⟩, ⟨1, 0⟩, ⟨1, 1⟩, ⟨0, 1⟩] : List (XMFLOAT2 Int)).map
        (fun t => { t with x := 1 - t.x })) }) ∧
    InvertVTexCoord sampleQuad = (S_OK, { sampleQuad with
      mTexCoords := some (([⟨0, 0⟩, ⟨1, 0⟩, ⟨1, 1⟩, ⟨0, 1⟩] : List (XMFLOAT2 Int)).map
        (fun t => { t with y := 1 - t.y })) }) ∧
    InvertVTexCoord (InvertUTexCoord sampleQuad).2
      = InvertUTexCoord (InvertVTexCoord sampleQuad).2 :=
  InvertTexCoord_spec sampleQuad [⟨0, 0⟩, ⟨1, 0⟩, ⟨1, 1⟩, ⟨0, 1⟩] rfl (by decide)

/-- C29.  On a mesh with `mnVerts > 0`, positions and texture coordinates present (each with
`mnVerts` entries), `VisualizeUVs` succeeds and sets position `j` to `(u_j, v_j, 0)` for every
`j < mnVerts`; texture coordinates, indices and `mnVerts` are unchanged, and absent normals
stay absent. -/
theorem VisualizeUVs_positions {F : Type} [Zero F] [One F] (m : Mesh F)
    (pos : List (XMFLOAT3 F)) (tex : List (XMFLOAT2 F)) (hpos : m.mPositions = some pos)
    (htex : m.mTexCoords = some tex) (hv : m.mnVerts ≠ 0) (hpl : pos.length = m.mnVerts)
    (htl : tex.length = m.mnVerts) :
    VisualizeUVs m = (S_OK, { m with
      mPositions := some (tex.map (fun t => { x := t.x, y := t.y, z := 0 })),
      mNormals := m.mNormals.map (mapFirst m.mnVerts (fun _ => g_XMIdentityR2)) }) ∧
    (∀ j, j < m.mnVerts → ∃ t, tex[j]? = some t ∧
      (tex.map (fun t => ({ x := t.x, y := t.y, z := 0 } : XMFLOAT3 F)))[j]?
        = some { x := t.x, y := t.y, z := 0 }) ∧
    (m.mNormals = none → (VisualizeUVs m).2.mNormals = none) := by
  have h1 : VisualizeUVs m = (S_OK, { m with
      mPositions := some (tex.map (fun t => { x := t.x, y := t.y, z := 0 })),
      mNormals := m.mNormals.map (mapFirst m.mnVerts (fun _ => g_XMIdentityR2)) }) := by
    simp [VisualizeUVs, hpos, htex, hv, uvLoop_eq_map _ _ _ htl hpl]
  refine ⟨h1, ?_, ?_⟩
  · intro j hj
    have hj2 : j < tex.length := by omega
    exact ⟨tex[j], List.getElem?_eq_getElem hj2, by simp [List.getElem?_eq_getElem hj2]⟩
  · intro hn
    rw [h1]
    simp [hn]

theorem VisualizeUVs_positions_witness :
    VisualizeUVs sampleQuad = (S_OK, { sampleQuad with
      mPositions := some (([⟨0, 0⟩, ⟨1, 0⟩, ⟨1, 1⟩, ⟨0, 1⟩] : List (XMFLOAT2 Int)).map
        (fun t => { x := t.x, y := t.y, z := 0 })),
      mNormals := sampleQuad.mNormals.map
        (mapFirst sampleQuad.mnVerts (fun _ => g_XMIdentityR2)) }) ∧
    (∀ j, j < sampleQuad.mnVerts → ∃ t,
      ([⟨0, 0⟩, ⟨1, 0⟩, ⟨1, 1⟩, ⟨0, 1⟩] : List (XMFLOAT2 Int))[j]? = some t ∧
      (([⟨0, 0⟩, ⟨1, 0⟩, ⟨1, 1⟩, ⟨0, 1⟩] : List (XMFLOAT2 Int)).map
        (fun t => ({ x := t.x, y := t.y, z := 0 } : XMFLOAT3 Int)))[j]?
        = some { x := t.x, y := t.y, z := 0 }) ∧
    (sampleQuad.mNormals = none → (VisualizeUVs sampleQuad).2.mNormals = none) :=
  VisualizeUVs_positions sampleQuad [⟨0, 0, 0⟩, ⟨1, 0, 0⟩, ⟨1, 1, 0⟩, ⟨0, 1, 0⟩]
    [⟨0, 0⟩, ⟨1, 0⟩, ⟨1, 1⟩, ⟨0, 1⟩] rfl rfl (by decide) (by decide) (by decide)

/-- C28 (as amended).  On a mesh with `mnVerts > 0` and positions, texture coordinates and
normals present, `VisualizeUVs` succeeds and sets every normal to `g_XMIdentityR2`, the vector
`(0, 0, 1)`. -/
theorem VisualizeUVs_normals {F : Type} [Zero F] [One F] (m : Mesh F)
    (pos ns : List (XMFLOAT3 F)) (tex : List (XMFLOAT2 F)) (hpos : m.mPositions = some pos)
    (htex : m.mTexCoords = some tex) (hns : m.mNormals = some ns) (hv : m.mnVerts ≠ 0)
    (hnl : ns.length = m.mnVerts) :
    (VisualizeUVs m).1 = S_OK ∧
    (VisualizeUVs m).2.mNormals
      = some (List.replicate m.mnVerts { x := 0, y := 0, z := 1 }) := by
  simp [VisualizeUVs, hpos, htex, hns, hv, mapFirst_eq_map _ _ _ (le_of_eq hnl),
    g_XMIdentityR2, List.map_const', hnl]

theorem VisualizeUVs_normals_witness :
    (VisualizeUVs holedMesh).1 = S_OK ∧
    (VisualizeUVs holedMesh).2.mNormals
      = some (List.replicate holedMesh.mnVerts { x := 0, y := 0, z := 1 }) :=
  VisualizeUVs_normals holedMesh [⟨0, 0, 0⟩, ⟨1, 0, 0⟩, ⟨0, 1, 0⟩]
    [⟨0, 0, 1⟩, ⟨0, 0, 1⟩, ⟨0, 0, 1⟩] [⟨0, 0⟩, ⟨1, 0⟩, ⟨0, 1⟩] rfl rfl rfl (by decide)
    (by decide)

/-- C28 (counterexample).  On the sample mesh with three vertices and normals, `VisualizeUVs`
succeeds and leaves the normals `(0, 0, 1)`, which is not the vector `(0, 1, 0)`. -/
theorem VisualizeUVs_normals_not_plus_Y :
    (VisualizeUVs holedMesh).1 = S_OK ∧
    (VisualizeUVs holedMesh).2.mNormals = some [⟨0, 0, 1⟩, ⟨0, 0, 1⟩, ⟨0, 0, 1⟩] ∧
    (⟨0, 0, 1⟩ : XMFLOAT3 Int) ≠ ⟨0, 1, 0⟩ := by
  decide

/-! ## Missing inputs, index width and the first two lines of a PLY file -/

/-- C31.  Each simple transform answers `E_UNEXPECTED` and leaves the mesh unchanged when its
input array is missing: `ReverseWinding` without an index buffer, `InvertUTexCoord` and
`InvertVTexCoord` without texture coordinates, `ReverseHandedness` without positions,
`VisualizeUVs` without positions or without texture coordinates. -/
theorem transforms_need_input {F : Type} [Zero F] [One F] [Neg F] [Sub F] (m : Mesh F) :
    (m.mIndices = none → ReverseWinding m = (E_UNEXPECTED, m)) ∧
    (m.mTexCoords = none → InvertUTexCoord m = (E_UNEXPECTED, m)) ∧
    (m.mTexCoords = none → InvertVTexCoord m = (E_UNEXPECTED, m)) ∧
    (m.mPositions = none → ReverseHandedness m = (E_UNEXPECTED, m)) ∧
    (m.mPositions = none ∨ m.mTexCoords = none → VisualizeUVs m = (E_UNEXPECTED, m)) := by
  refine ⟨fun h => ?_, fun h => ?_, fun h => ?_, fun h => ?_, fun h => ?_⟩
  · simp [ReverseWinding, h]
  · simp [InvertUTexCoord, h]
  · simp [InvertVTexCoord, h]
  · simp [ReverseHandedness, h]
  · unfold VisualizeUVs
    rcases h with h | h
    · simp [h]
    · rw [h]
      cases m.mPositions <;> rfl

theorem transforms_need_input_witness :
    ReverseWinding (Mesh.empty Int) = (E_UNEXPECTED, Mesh.empty Int) ∧
    InvertUTexCoord (Mesh.empty Int) = (E_UNEXPECTED, Mesh.empty Int) ∧
    InvertVTexCoord (Mesh.empty Int) = (E_UNEXPECTED, Mesh.empty Int) ∧
    ReverseHandedness (Mesh.empty Int) = (E_UNEXPECTED, Mesh.empty Int) ∧
    VisualizeUVs (Mesh.empty Int) = (E_UNEXPECTED, Mesh.empty Int) ∧
    VisualizeUVs sampleFan = (E_UNEXPECTED, sampleFan) :=
  ⟨(transforms_need_input (Mesh.empty Int)).1 rfl,
   (transforms_need_input (Mesh.empty Int)).2.1 rfl,
   (transforms_need_input (Mesh.empty Int)).2.2.1 rfl,
   (transforms_need_input (Mesh.empty Int)).2.2.2.1 rfl,
   (transforms_need_input (Mesh.empty Int)).2.2.2.2 (Or.inl rfl),
   (transforms_need_input sampleFan).2.2.2.2 (Or.inr rfl)⟩

theorem narrowLoop_isSome (l : List Nat) :
    (narrowLoop l).isSome = l.all (fun x => !tooWide x) := by
  induction l with
  | nil => rfl
  | cons a t ih =>
    simp only [narrowLoop, List.all_cons, ← ih]
    cases narrowLoop t <;> by_cases hs : a = UINT32_MAX <;> by_cases hw : a ≥ UINT16_MAX <;>
      simp [narrow16, tooWide, hs, hw]

/-- C40.  For every mesh, with or without topology, when the allocation of the 16-bit buffer
succeeds `GetIndexBuffer16` returns a buffer if and only if `Is16BitIndexBuffer` returns
true. -/
theorem GetIndexBuffer16_agrees {F : Type} (E : Env) (m : Mesh F) (halloc : E.oom 0 = false) :
    (GetIndexBuffer16 E m).isSome = Is16BitIndexBuffer m := by
  unfold GetIndexBuffer16 Is16BitIndexBuffer
  split
  · rfl
  · split
    · rfl
    · split
      · rfl
      · rw [halloc]
        simp only [Bool.false_eq_true, if_false, narrowLoop_isSome, readN, List.all_map]
        rfl

theorem GetIndexBuffer16_agrees_witness :
    (GetIndexBuffer16 Env.ideal sampleQuad).isSome = Is16BitIndexBuffer sampleQuad ∧
    (GetIndexBuffer16 Env.ideal strayLoaded).isSome = Is16BitIndexBuffer strayLoaded ∧
    (GetIndexBuffer16 Env.ideal (Mesh.empty Int)).isSome
      = Is16BitIndexBuffer (Mesh.empty Int) :=
  ⟨GetIndexBuffer16_agrees Env.ideal sampleQuad rfl,
   GetIndexBuffer16_agrees Env.ideal strayLoaded rfl,
   GetIndexBuffer16_agrees Env.ideal (Mesh.empty Int) rfl⟩

theorem range_map_rd {α : Type} [Inhabited α] (a : List α) (n : Nat) (f : α → α)
    (hlen : a.length = n) : (List.range n).map (fun j => f (rd a j)) = a.map f := by
  have h := readN_eq_self a n hlen
  unfold readN at h
  conv_rhs => rw [← h]
  rw [List.map_map]
  rfl

/-- C39 (as amended).  For `nFaces > 0` with `3 * nFaces < 0xFFFFFFFF`, a 16-bit index array
`a` of `3 * nFaces` entries (entries `0xFFFF` included) and allocations that succeed,
`SetIndexData(nFaces, a)` succeeds, the mesh then satisfies `Is16BitIndexBuffer`, and
`GetIndexBuffer16` returns `a` element for element. -/
theorem index16_round_trip {F : Type} (E E2 : Env) (m : Mesh F) (nFaces : Nat)
    (a : List Nat) (attributes : Option (List Nat)) (hpos : 0 < nFaces)
    (hrange : 3 * nFaces < UINT32_MAX) (hlen : a.length = 3 * nFaces)
    (h16 : ∀ x ∈ a, x ≤ 65535) (halloc : ∀ k, E.oom k = false)
    (halloc2 : E2.oom 0 = false) :
    (SetIndexData16 E m nFaces (some a) attributes).1 = S_OK ∧
    Is16BitIndexBuffer (SetIndexData16 E m nFaces (some a) attributes).2 = true ∧
    GetIndexBuffer16 E2 (SetIndexData16 E m nFaces (some a) attributes).2 = some a := by
  have h3 : mul3 nFaces = 3 * nFaces :=
    mul3_eq_of_lt (by unfold UINT32_MAX at hrange; unfold SIZE_MOD; omega)
  have hn : nFaces ≠ 0 := by omega
  have hg : ¬ (3 * nFaces ≥ UINT32_MAX) := by omega
  have hget : GetIndexBuffer16 E2 (SetIndexData16 E m nFaces (some a) attributes).2
      = some a := by
    rw [SetIndexData16_ok E m nFaces a attributes hpos hrange halloc,
      range_map_rd a (3 * nFaces) widen16 hlen]
    simp only [GetIndexBuffer16, hn, h3, hg, halloc2, if_false, Bool.false_eq_true]
    rw [readN_eq_self _ _ (by simp [hlen])]
    rw [narrowLoop_eq_some]
    · congr 1
      rw [List.map_map]
      conv_rhs => rw [← List.map_id a]
      apply List.map_congr_left
      intro x hx
      have := h16 x hx
      by_cases h : x = 65535
      · simp [widen16, h, UINT16_MAX, UINT32_MAX]
      · simp [widen16, h, UINT16_MAX, UINT32_MAX]
        omega
    · intro x hx hne
      simp only [List.mem_map] at hx
      obtain ⟨y, hy, rfl⟩ := hx
      have := h16 y hy
      by_cases h : y = 65535
      · simp [widen16, h, UINT16_MAX] at hne
      · simp only [widen16, UINT16_MAX, h, if_false]
        omega
  refine ⟨by rw [SetIndexData16_ok E m nFaces a attributes hpos hrange halloc], ?_, hget⟩
  rw [← GetIndexBuffer16_agrees E2 _ halloc2, hget]
  rfl

theorem index16_round_trip_witness :
    (SetIndexData16 Env.ideal (Mesh.empty Int) 2 (some [0, 1, 65535, 65534, 2, 65535]) none).1
      = S_OK ∧
    Is16BitIndexBuffer
      (SetIndexData16 Env.ideal (Mesh.empty Int) 2 (some [0, 1, 65535, 65534, 2, 65535]) none).2
      = true ∧
    GetIndexBuffer16 Env.ideal
      (SetIndexData16 Env.ideal (Mesh.empty Int) 2 (some [0, 1, 65535, 65534, 2, 65535]) none).2
      = some [0, 1, 65535, 65534, 2, 65535] :=
  index16_round_trip Env.ideal Env.ideal (Mesh.empty Int) 2 [0, 1, 65535, 65534, 2, 65535] none
    (by decide) (by decide) (by decide) (by decide) (fun _ => rfl) rfl

/-- C39 (counterexample).  The round trip is not available for every `nFaces > 0`: with
`nFaces = 1431655765` (`3 * nFaces = 0xFFFFFFFF`) `SetIndexData` answers the overflow error
and the mesh has no index buffer, so `Is16BitIndexBuffer` is false and `GetIndexBuffer16`
returns nothing; and when an allocation fails `SetIndexData` answers `E_OUTOFMEMORY`, or
`GetIndexBuffer16` returns nothing for a mesh that was loaded. -/
theorem index16_round_trip_not_always :
    (List.replicate (3 * 1431655765) 0).length = 3 * 1431655765 ∧
    SetIndexData16 Env.ideal (Mesh.empty Int) 1431655765
      (some (List.replicate (3 * 1431655765) 0)) none
      = (ERROR_ARITHMETIC_OVERFLOW, Mesh.empty Int) ∧
    Is16BitIndexBuffer (Mesh.empty Int) = false ∧
    GetIndexBuffer16 Env.ideal (Mesh.empty Int) = none ∧
    SetIndexData16 Env.exhausted (Mesh.empty Int) 1 (some [0, 1, 2]) none
      = (E_OUTOFMEMORY, Mesh.empty Int) ∧
    (SetIndexData16 Env.ideal (Mesh.empty Int) 1 (some [0, 1, 2]) none).1 = S_OK ∧
    GetIndexBuffer16 Env.exhausted
      (SetIndexData16 Env.ideal (Mesh.empty Int) 1 (some [0, 1, 2]) none).2 = none := by
  refine ⟨List.length_replicate _ _, by decide, by decide, by decide, by decide, by decide,
    by decide⟩

/-- C33.  When the first line of the file is not exactly `ply`, `PlyReader::Load` answers
`E_FAIL`, and `LoadFromPLY` returns that failure and leaves the caller's mesh pointer as it
was: no mesh is produced. -/
theorem Load_rejects_bad_magic {F : Type} [Inhabited F] (stof : List Char → Option F)
    (floatOfBytes : List Nat → F) (bytes : List Char) (ccw : Bool)
    (hmagic : firstLine bytes ≠ "ply".data) :
    PlyReader.Load stof floatOfBytes (some bytes) ccw = .error E_FAIL ∧
    ∀ (E Ei Ev : Env) (inMesh : Option (Mesh F)),
      LoadFromPLY E Ei Ev stof floatOfBytes (some bytes) inMesh ccw = (E_FAIL, inMesh) := by
  have h : PlyReader.Load stof floatOfBytes (some bytes) ccw = .error E_FAIL := by
    unfold firstLine at hmagic
    unfold PlyReader.Load
    simp [hmagic]
  refine ⟨h, fun E Ei Ev inMesh => ?_⟩
  unfold LoadFromPLY
  rw [h]

theorem Load_rejects_bad_magic_witness :
    PlyReader.Load (stoi : List Char → Option Int) (fun _ => 0)
      (some (plyText ("PLY".data :: squareHeader.drop 1))) true = .error E_FAIL ∧
    ∀ (E Ei Ev : Env) (inMesh : Option (Mesh Int)),
      LoadFromPLY E Ei Ev stoi (fun _ => 0) (some (plyText ("PLY".data :: squareHeader.drop 1)))
        inMesh true = (E_FAIL, inMesh) :=
  Load_rejects_bad_magic stoi (fun _ => 0) (plyText ("PLY".data :: squareHeader.drop 1)) true
    (by decide)

/-- C32 (as amended).  For a file whose first line is `ply`: loading fails when the format
line has fewer than two tokens and when its encoding token is `binary_big_endian`; every
encoding token other than `binary_little_endian` and `binary_big_endian` is read as ascii. -/
theorem Load_rejects_format {F : Type} [Inhabited F] (stof : List Char → Option F)
    (floatOfBytes : List Nat → F) (bytes : List Char) (ccw : Bool)
    (hmagic : firstLine bytes = "ply".data) :
    ((splitSpaces (formatLine bytes)).length < 2 →
      PlyReader.Load stof floatOfBytes (some bytes) ccw = .error E_FAIL) ∧
    ((splitSpaces (formatLine bytes))[1]? = some "binary_big_endian".data →
      PlyReader.Load stof floatOfBytes (some bytes) ccw = .error E_FAIL) ∧
    (∀ t, (splitSpaces (formatLine bytes))[1]? = some t →
      t ≠ "binary_little_endian".data → t ≠ "binary_big_endian".data →
      formatOf (formatLine bytes) = some (true, true)) := by
  unfold firstLine at hmagic
  unfold formatLine
  refine ⟨?_, ?_, ?_⟩
  · intro hlt
    have hf : formatOf (getline (getline { rest := bytes, good := true } []).1
        (getline { rest := bytes, good := true } []).2).2 = none := by
      unfold formatOf
      split
      · next heq =>
        rw [heq] at hlt
        simp only [List.length_cons] at hlt
        omega
      · rfl
    rw [hmagic] at hf
    unfold PlyReader.Load
    simp only [hmagic, ne_eq, not_true_eq_false, if_false, hf]
  · intro hbig
    have hf : formatOf (getline (getline { rest := bytes, good := true } []).1
        (getline { rest := bytes, good := true } []).2).2 = some (false, false) := by
      unfold formatOf
      split
      · next heq =>
        rw [heq] at hbig
        simp only [List.getElem?_cons_succ, List.getElem?_cons_zero, Option.some.injEq] at hbig
        subst hbig
        decide
      · next hne =>
        rcases hs : splitSpaces (getline (getline { rest := bytes, good := true } []).1
            (getline { rest := bytes, good := true } []).2).2 with _ | ⟨t, _ | ⟨u, us⟩⟩
        · rw [hs] at hbig
          simp at hbig
        · rw [hs] at hbig
          simp at hbig
        · exact absurd hs (hne t u us)
    rw [hmagic] at hf
    unfold PlyReader.Load
    simp only [hmagic, ne_eq, not_true_eq_false, if_false, hf]
    rfl
  · intro t ht h1 h2
    unfold formatOf
    rcases hs : splitSpaces (getline (getline { rest := bytes, good := true } []).1
        (getline { rest := bytes, good := true } []).2).2 with _ | ⟨a, _ | ⟨u, us⟩⟩
    · rw [hs] at ht
      cases ht
    · rw [hs] at ht
      cases ht
    · rw [hs] at ht
      simp only [List.getElem?_cons_succ, List.getElem?_cons_zero, Option.some.injEq] at ht
      have hu : u = t := ht
      subst hu
      dsimp only
      rw [if_neg h1, if_neg h2]

theorem Load_rejects_format_witness :
    PlyReader.Load (stoi : List Char → Option Int) (fun _ => 0)
      (some (plyText ["ply".data, "format".data])) true = .error E_FAIL ∧
    PlyReader.Load (stoi : List Char → Option Int) (fun _ => 0)
      (some (plyText ("ply".data :: "format binary_big_endian 1.0".data :: squareHeader.drop 2)))
      true = .error E_FAIL ∧
    formatOf (formatLine oddFormatFile) = some (true, true) :=
  ⟨(Load_rejects_format stoi (fun _ => 0) (plyText ["ply".data, "format".data]) true
      (by decide)).1 (by decide),
   (Load_rejects_format stoi (fun _ => 0)
      (plyText ("ply".data :: "format binary_big_endian 1.0".data :: squareHeader.drop 2)) true
      (by decide)).2.1 (by decide),
   (Load_rejects_format stoi (fun _ => 0) oddFormatFile true (by decide)).2.2 "utf8".data
      (by decide) (by decide) (by decide)⟩

/-- C32 (counterexample).  A file whose first line is `ply` and whose format line carries the
encoding token `utf8`, which is neither `ascii` nor `binary_little_endian`, loads: the reader
takes every token other than the two binary names for ascii. -/
theorem Load_accepts_unknown_encoding :
    firstLine oddFormatFile = "ply".data ∧
    (splitSpaces (formatLine oddFormatFile))[1]? = some "utf8".data ∧
    "utf8".data ≠ "ascii".data ∧ "utf8".data ≠ "binary_little_endian".data ∧
    LoadFromPLY Env.ideal Env.ideal Env.ideal stoi (fun _ => 0) (some oddFormatFile) none true
      = (S_OK, some (squareMesh ⟨0, 0, 0⟩ ⟨1, 0, 0⟩ ⟨1, 1, 0⟩ ⟨0, 1, 0⟩)) := by
  decide

/-! ## Face records -/

theorem Load_header_error {F : Type} [Inhabited F] (stof : List Char → Option F)
    (floatOfBytes : List Nat → F) (file : Option (List Char)) (ccw : Bool) (e : HRESULT)
    (h : PlyReader.readHeader F file = .error e) :
    PlyReader.Load stof floatOfBytes file ccw = .error e := by
  unfold PlyReader.readHeader at h
  unfold PlyReader.Load
  repeat' (first | split at h | dsimp only at h)
  all_goals first
    | (cases h; done)
    | simp_all

theorem Load_header_ok {F : Type} [Inhabited F] (stof : List Char → Option F)
    (floatOfBytes : List Nat → F) (file : Option (List Char)) (ccw : Bool) (isAscii : Bool)
    (s3 : IStream) (line3 : List Char) (r : PlyReader F)
    (h : PlyReader.readHeader F file = .ok (isAscii, s3, line3, r)) :
    PlyReader.Load stof floatOfBytes file ccw
      = PlyReader.readBody stof floatOfBytes ccw isAscii s3 line3 r := by
  unfold PlyReader.readHeader at h
  unfold PlyReader.Load PlyReader.readBody PlyReader.readVertices
  repeat' (first | split at h | dsimp only at h)
  all_goals first
    | (cases h; done)
    | skip
  rename_i hmagic _ _ _ hfmt hend _ _ _ _ hloop hempty
  cases h
  simp only [hmagic, if_false, hfmt, hend, hloop, hempty]
  rfl

theorem parseFace_prefix (ccw : Bool) (tokens : List (List Char))
    (h : (stoi (tokens.getD 0 [])).map toSizeT ≠ some 3) : parseFace ccw tokens = none := by
  unfold parseFace
  rcases hs : stoi (tokens.getD 0 []) with _ | k
  · rfl
  · rw [hs] at h
    have : toSizeT k ≠ 3 := fun h3 => h (by simp [h3])
    simp [this]

theorem readFaces_rejects (isAscii ccw : Bool) (n k : Nat) (s : IStream) (line : List Char)
    (hk : k < n)
    (hbad : facePrefix isAscii (faceState isAscii k s line).1 (faceState isAscii k s line).2
      ≠ some 3) :
    readFaces isAscii ccw n s line = none := by
  induction n generalizing k s line with
  | zero => omega
  | succ n ih =>
    cases isAscii with
    | true =>
      cases k with
      | zero =>
        simp only [faceState, facePrefix, if_true] at hbad
        simp [readFaces, parseFace_prefix ccw _ hbad]
      | succ j =>
        have hrec := ih j (getline s line).1 (getline s line).2 (by omega)
          (by simpa [faceState, afterFace] using hbad)
        simp only [readFaces, if_true, hrec]
        cases parseFace ccw (splitSpaces (getline s line).2) <;> rfl
    | false =>
      cases k with
      | zero =>
        simp only [faceState, facePrefix, Bool.false_eq_true, if_false, ne_eq,
          Option.some.injEq] at hbad
        simp only [readFaces, Bool.false_eq_true, if_false, ne_eq]
        rw [if_pos hbad]
      | succ j =>
        have hrec := ih j _ line (by omega) (by simpa [faceState, afterFace] using hbad)
        simp only [readFaces, Bool.false_eq_true, if_false, hrec]
        split <;> rfl

/-- C34.  Only triangles are accepted, in ascii and in binary files: when the header and the
vertex section have been read (`readHeader` and `readVertices` succeed) and one of the
declared face records, record `k`, has a vertex-count prefix other than 3 (or, in an ascii
file, a prefix `std::stoi` cannot read), `PlyReader::Load` answers `E_FAIL` and `LoadFromPLY`
returns that failure without a mesh; no polygon is triangulated. -/
theorem Load_only_triangles {F : Type} [Inhabited F] (stof : List Char → Option F)
    (floatOfBytes : List Nat → F) (file : Option (List Char)) (ccw isAscii : Bool)
    (s3 s4 : IStream) (line3 line4 : List Char) (r : PlyReader F)
    (vertices : List (PlyVertex F)) (k : Nat)
    (hhead : PlyReader.readHeader F file = .ok (isAscii, s3, line3, r))
    (hverts : PlyReader.readVertices stof floatOfBytes isAscii s3 line3 r
      = some (s4, line4, vertices))
    (hk : k < r.indices.length / 3)
    (hbad : facePrefix isAscii (faceState isAscii k s4 line4).1
      (faceState isAscii k s4 line4).2 ≠ some 3) :
    PlyReader.Load stof floatOfBytes file ccw = .error E_FAIL ∧
    ∀ (E Ei Ev : Env) (inMesh : Option (Mesh F)),
      LoadFromPLY E Ei Ev stof floatOfBytes file inMesh ccw = (E_FAIL, inMesh) := by
  have h : PlyReader.Load stof floatOfBytes file ccw = .error E_FAIL := by
    rw [Load_header_ok stof floatOfBytes file ccw isAscii s3 line3 r hhead]
    unfold PlyReader.readBody
    rw [hverts]
    simp only [readFaces_rejects isAscii ccw _ k s4 line4 hk hbad]
  refine ⟨h, fun E Ei Ev inMesh => ?_⟩
  unfold LoadFromPLY
  rw [h]

theorem parseFace_shape (tokens : List (List Char)) :
    (parseFace true tokens = none ∧ parseFace false tokens = none) ∨
    ∃ a b c, parseFace true tokens = some [a, b, c] ∧ parseFace false tokens = some [c, b, a] := by
  unfold parseFace
  rcases stoi (tokens.getD 0 []) with _ | k
  · exact Or.inl ⟨rfl, rfl⟩
  · dsimp only
    split
    · exact Or.inl ⟨rfl, rfl⟩
    · rcases stoi (tokens.getD 1 []) with _ | a
      · exact Or.inl ⟨rfl, rfl⟩
      rcases stoi (tokens.getD 2 []) with _ | b
      · exact Or.inl ⟨rfl, rfl⟩
      rcases stoi (tokens.getD 3 []) with _ | c
      · exact Or.inl ⟨rfl, rfl⟩
      exact Or.inr ⟨_, _, _, rfl, rfl⟩

theorem readFaces_length (isAscii ccw : Bool) (n : Nat) (s : IStream) (line : List Char)
    (faces : List Nat) (h : readFaces isAscii ccw n s line = some faces) :
    faces.length = 3 * n := by
  induction n generalizing s line faces with
  | zero =>
    simp only [readFaces, Option.some.injEq] at h
    subst h
    rfl
  | succ n ih =>
    cases isAscii with
    | true =>
      simp only [readFaces, if_true] at h
      rcases parseFace_shape (splitSpaces (getline s line).2) with ⟨h1, h2⟩ | ⟨a, b, c, h1, h2⟩
      · cases ccw
        · rw [h2] at h
          cases h
        · rw [h1] at h
          cases h
      · rcases hm : readFaces true ccw n (getline s line).1 (getline s line).2 with _ | more
        · rw [hm] at h
          cases ccw
          · rw [h2] at h
            cases h
          · rw [h1] at h
            cases h
        · have hl := ih _ _ more hm
          rw [hm] at h
          cases ccw
          · rw [h2] at h
            cases h
            simp only [List.length_append, List.length_cons, List.length_nil, hl]
            omega
          · rw [h1] at h
            cases h
            simp only [List.length_append, List.length_cons, List.length_nil, hl]
            omega
    | false =>
      simp only [readFaces, Bool.false_eq_true, if_false] at h
      split at h
      · cases h
      · rcases hm : readFaces false ccw n
          (readBytes (readBytes (readBytes (readBytes s 1).1 4).1 4).1 4).1 line with _ | more
        · rw [hm] at h
          cases h
        · have hl := ih _ _ more hm
          rw [hm] at h
          cases h
          cases ccw <;> simp only [windFace, List.length_append, List.length_cons,
            List.length_nil, hl, if_true, if_false, Bool.false_eq_true] <;> omega

theorem Load_only_triangles_witness :
    PlyReader.readHeader Int (some quadFaceFile)
      = .ok (true, quadFaceBody, "end_header".data, squareReader Int) ∧
    PlyReader.readVertices stoi (fun _ => (0 : Int)) true quadFaceBody "end_header".data
        (squareReader Int) = some (quadFaceTail, "0 1 0".data, squareVertices) ∧
    facePrefix true (faceState true 1 quadFaceTail "0 1 0".data).1
        (faceState true 1 quadFaceTail "0 1 0".data).2 = some 4 ∧
    PlyReader.Load stoi (fun _ => (0 : Int)) (some quadFaceFile) true = .error E_FAIL ∧
    ∀ (E Ei Ev : Env) (inMesh : Option (Mesh Int)),
      LoadFromPLY E Ei Ev stoi (fun _ => (0 : Int)) (some quadFaceFile) inMesh true
        = (E_FAIL, inMesh) :=
  ⟨by rfl, by decide, by decide,
    Load_only_triangles stoi (fun _ => (0 : Int)) (some quadFaceFile) true true
      quadFaceBody quadFaceTail "end_header".data "0 1 0".data (squareReader Int)
      squareVertices 1 (by rfl) (by decide) (by decide) (by decide)⟩

theorem SetVertexData_mIndices {F : Type} [Inhabited F] (E : Env) (m : Mesh F)
    (reader : VBReader F) (nVerts : Nat) :
    (SetVertexData E m reader nVerts).2.mIndices = m.mIndices := by
  unfold SetVertexData
  split
  · rfl
  · dsimp only
    split
    · rfl
    · next m2 hm2 => exact (loadStreams_topology hm2).1

theorem SetVertexData_mnFaces {F : Type} [Inhabited F] (E : Env) (m : Mesh F)
    (reader : VBReader F) (nVerts : Nat) :
    (SetVertexData E m reader nVerts).2.mnFaces = m.mnFaces := by
  unfold SetVertexData
  split
  · rfl
  · dsimp only
    split
    · rfl
    · next m2 hm2 =>
      simp only [loadStreams, except_bind_ok, pure, Except.pure, Except.ok.injEq] at hm2
      obtain ⟨a1, e1, a2, e2, a3, e3, a4, e4, a5, e5, a6, e6, a7, e7, a8, e8, hm⟩ := hm2
      subst hm
      rfl

theorem readHeader_error_failed {F : Type} [Inhabited F] (file : Option (List Char))
    (e : HRESULT) (h : PlyReader.readHeader F file = .error e) : e < 0 := by
  unfold PlyReader.readHeader at h
  repeat' (first | split at h | dsimp only at h)
  all_goals first
    | (cases h; decide)
    | (cases h)

theorem Load_error_failed {F : Type} [Inhabited F] (stof : List Char → Option F)
    (floatOfBytes : List Nat → F) (file : Option (List Char)) (ccw : Bool) (e : HRESULT)
    (h : PlyReader.Load stof floatOfBytes file ccw = .error e) : e < 0 := by
  rcases hh : PlyReader.readHeader F file with e0 | ⟨isAscii, s3, line3, r0⟩
  · rw [Load_header_error stof floatOfBytes file ccw e0 hh] at h
    cases h
    exact readHeader_error_failed file _ hh
  · rw [Load_header_ok stof floatOfBytes file ccw isAscii s3 line3 r0 hh] at h
    unfold PlyReader.readBody at h
    repeat' (first | split at h | dsimp only at h)
    all_goals first
      | (cases h; decide)
      | (cases h)

theorem SetIndexData32_loaded {F : Type} (E : Env) (m : Mesh F) (n : Nat) (idx : List Nat)
    (attrs : Option (List Nat))
    (h : FAILED (SetIndexData32 E m n (some idx) attrs).1 = false) :
    n ≠ 0 ∧ mul3 n < UINT32_MAX ∧
    (SetIndexData32 E m n (some idx) attrs).2.mnFaces = n ∧
    (SetIndexData32 E m n (some idx) attrs).2.mIndices = some (readN idx (mul3 n)) := by
  unfold SetIndexData32 at h ⊢
  dsimp only at h ⊢
  by_cases hn : n = 0
  · simp [hn, FAILED, E_INVALIDARG] at h
  · rw [if_neg hn] at h ⊢
    by_cases hg : mul3 n ≥ UINT32_MAX
    · simp [hg, FAILED, ERROR_ARITHMETIC_OVERFLOW] at h
    · rw [if_neg hg] at h ⊢
      by_cases h0 : E.oom 0 = true
      · simp [h0, FAILED, E_OUTOFMEMORY] at h
      · simp only [h0, Bool.false_eq_true, if_false] at h ⊢
        cases attrs with
        | none => exact ⟨hn, by omega, rfl, rfl⟩
        | some a =>
          dsimp only at h ⊢
          by_cases h1 : E.oom 1 = true
          · simp [h1, FAILED, E_OUTOFMEMORY] at h
          · rw [if_neg h1]
            exact ⟨hn, by omega, rfl, rfl⟩

theorem LoadFromPLY_ok_parts {F : Type} [Inhabited F] (E Ei Ev : Env)
    (stof : List Char → Option F) (floatOfBytes : List Nat → F) (file : Option (List Char))
    (inMesh : Option (Mesh F)) (ccw : Bool) (m : Mesh F)
    (h : LoadFromPLY E Ei Ev stof floatOfBytes file inMesh ccw = (S_OK, some m)) :
    ∃ r, PlyReader.Load stof floatOfBytes file ccw = .ok r ∧
      r.indices.length / 3 ≠ 0 ∧ mul3 (r.indices.length / 3) < UINT32_MAX ∧
      m.mnFaces = r.indices.length / 3 ∧
      m.mIndices = some (readN r.indices (mul3 (r.indices.length / 3))) ∧
      E.oom 0 = false ∧
      FAILED (E.MakeVBReader (plyLayout r.hasNormals r.hasTexcoords) r.vertices).hrInit = false ∧
      FAILED (E.MakeVBReader (plyLayout r.hasNormals r.hasTexcoords) r.vertices).hrAdd = false ∧
      ∃ m1, m1.mIndices = m.mIndices ∧ m1.mnFaces = m.mnFaces ∧
        FAILED (SetVertexData Ev m1
          (E.MakeVBReader (plyLayout r.hasNormals r.hasTexcoords) r.vertices).reader
          r.vertices.length).1 = false ∧
        (SetVertexData Ev m1
          (E.MakeVBReader (plyLayout r.hasNormals r.hasTexcoords) r.vertices).reader
          r.vertices.length).2 = m := by
  unfold LoadFromPLY at h
  rcases hl : PlyReader.Load stof floatOfBytes file ccw with e | r
  · rw [hl] at h
    have := Load_error_failed stof floatOfBytes file ccw e hl
    simp only [Prod.mk.injEq] at h
    rw [h.1] at this
    exact absurd this (by decide)
  · rw [hl] at h
    dsimp only at h
    by_cases h0 : E.oom 0 = true
    · simp [h0, E_OUTOFMEMORY, S_OK] at h
    · simp only [h0, Bool.false_eq_true, if_false] at h
      by_cases he : (r.indices.isEmpty || r.vertices.isEmpty) = true
      · simp [he, E_FAIL, S_OK] at h
      · simp only [he, Bool.false_eq_true, if_false] at h
        generalize hattrs : (if r.attributes.isEmpty = true then none else some r.attributes)
          = attrs at h
        by_cases hf1 : FAILED (SetIndexData32 Ei (Mesh.empty F) (r.indices.length / 3)
            (some r.indices) attrs).1 = true
        · simp only [hf1, if_true, Prod.mk.injEq] at h
          rw [h.1] at hf1
          exact absurd hf1 (by decide)
        · simp only [hf1, Bool.false_eq_true, if_false] at h
          obtain ⟨hn, hg, hfaces, hib⟩ := SetIndexData32_loaded Ei (Mesh.empty F) _ r.indices
            attrs (Bool.eq_false_iff.mpr hf1)
          by_cases hf2 : FAILED (E.MakeVBReader (plyLayout r.hasNormals r.hasTexcoords)
              r.vertices).hrInit = true
          · simp only [hf2, if_true, Prod.mk.injEq] at h
            rw [h.1] at hf2
            exact absurd hf2 (by decide)
          · simp only [hf2, Bool.false_eq_true, if_false] at h
            by_cases hf3 : FAILED (E.MakeVBReader (plyLayout r.hasNormals r.hasTexcoords)
                r.vertices).hrAdd = true
            · simp only [hf3, if_true, Prod.mk.injEq] at h
              rw [h.1] at hf3
              exact absurd hf3 (by decide)
            · simp only [hf3, Bool.false_eq_true, if_false] at h
              have hib2 := SetVertexData_mIndices Ev (SetIndexData32 Ei (Mesh.empty F)
                (r.indices.length / 3) (some r.indices) attrs).2
                (E.MakeVBReader (plyLayout r.hasNormals r.hasTexcoords) r.vertices).reader
                r.vertices.length
              have hnf2 := SetVertexData_mnFaces Ev (SetIndexData32 Ei (Mesh.empty F)
                (r.indices.length / 3) (some r.indices) attrs).2
                (E.MakeVBReader (plyLayout r.hasNormals r.hasTexcoords) r.vertices).reader
                r.vertices.length
              by_cases hf4 : FAILED (SetVertexData Ev (SetIndexData32 Ei (Mesh.empty F)
                (r.indices.length / 3) (some r.indices) attrs).2
                (E.MakeVBReader (plyLayout r.hasNormals r.hasTexcoords) r.vertices).reader
                r.vertices.length).1 = true
              · simp only [hf4, if_true, Prod.mk.injEq] at h
                rw [h.1] at hf4
                exact absurd hf4 (by decide)
              · simp only [hf4, Bool.false_eq_true, if_false, Prod.mk.injEq,
                  Option.some.injEq, true_and] at h
                refine ⟨r, rfl, hn, hg, ?_, ?_, Bool.eq_false_iff.mpr h0,
                  Bool.eq_false_iff.mpr hf2, Bool.eq_false_iff.mpr hf3, _, ?_, ?_,
                  Bool.eq_false_iff.mpr hf4, h⟩
                · rw [← h, hnf2, hfaces]
                · rw [← h, hib2, hib]
                · rw [← h, hib2]
                · rw [← h, hnf2]

theorem plyText_append (a b : List (List Char)) : plyText (a ++ b) = plyText a ++ plyText b := by
  induction a with
  | nil => rfl
  | cons l ls ih => simp [plyText, ih]

theorem headerLoop_directive_none {F : Type} [Inhabited F] (fuel : Nat)
    (l rest line : List Char) (r : PlyReader F) (hl : LF ∉ l)
    (hne : ((splitSpaces l).map trim).head? ≠ some "end_header".data)
    (hd : applyDirective r ((splitSpaces l).map trim) = none) :
    headerLoop (fuel + 1) { rest := l ++ LF :: rest, good := true } line r = none := by
  simp only [headerLoop, getline_line l rest line hl, hd, if_true]
  rw [if_neg hne]

theorem headerLoop_header {F : Type} [Inhabited F] (hs : List (List Char))
    (e rest line : List Char) (r : PlyReader F) (fuel : Nat)
    (hhs : ∀ l ∈ hs, HeaderLine l) (he : EndLine e) :
    headerLoop (hs.length + 1 + fuel) { rest := plyText (hs ++ [e]) ++ rest, good := true }
        line r
      = (applyLines r hs).map (fun r2 => ({ rest := rest, good := true }, e, r2)) := by
  induction hs generalizing line r with
  | nil =>
    have : plyText ([] ++ [e]) ++ rest = e ++ LF :: rest := by simp [plyText]
    rw [this, show ([] : List (List Char)).length + 1 + fuel = fuel + 1 by simp; omega,
      headerLoop_end fuel e rest line r he.1 he.2]
    rfl
  | cons l ls ih =>
    have hl := hhs l (List.mem_cons_self _ _)
    have hls : ∀ x ∈ ls, HeaderLine x := fun x hx => hhs x (List.mem_cons_of_mem _ hx)
    have : plyText (l :: ls ++ [e]) ++ rest = l ++ LF :: (plyText (ls ++ [e]) ++ rest) := by
      simp [plyText]
    rw [this, show (l :: ls).length + 1 + fuel = (ls.length + 1 + fuel) + 1 by
      simp only [List.length_cons]; omega]
    rcases hd : applyDirective r (headerTokens l) with _ | r2
    · rw [headerLoop_directive_none _ l _ line r hl.1 hl.2 hd]
      simp [applyLines, hd]
    · rw [headerLoop_directive _ l _ line r r2 hl.1 hl.2 hd, ih l r2 hls]
      simp [applyLines, hd]

theorem readHeader_lines (F : Type) [Inhabited F] (fmt : List Char) (hs : List (List Char))
    (e body : List Char) (hfmt : LF ∉ fmt) (hhs : ∀ l ∈ hs, HeaderLine l) (he : EndLine e) :
    PlyReader.readHeader F (some (plyText ("ply".data :: fmt :: hs ++ [e]) ++ body))
      = match formatOf fmt with
        | none => .error E_FAIL
        | some (isAscii, isLittleEndian) =>
          if !isAscii && !isLittleEndian then .error E_FAIL
          else
            match applyLines (PlyReader.cleared F) hs with
            | none => .error E_FAIL
            | some r =>
              if r.vertices.isEmpty then .error E_FAIL
              else .ok (isAscii, { rest := body, good := true }, e, r) := by
  have htext : plyText ("ply".data :: fmt :: hs ++ [e]) ++ body
      = "ply".data ++ LF :: (fmt ++ LF :: (plyText (hs ++ [e]) ++ body)) := by
    simp [plyText]
  have hply : LF ∉ "ply".data := by decide
  unfold PlyReader.readHeader
  simp only [htext, getline_line _ _ _ hply, getline_line _ _ _ hfmt, ne_eq, not_true_eq_false,
    if_false]
  rcases formatOf fmt with _ | ⟨isAscii, isLittleEndian⟩
  · rfl
  · dsimp only
    split
    · rfl
    · rw [headerLoop_fuel _ (hs.length + 1 + (plyText (hs ++ [e]) ++ body).length) _ _ _
        (by simp) (by simp only []; omega),
        headerLoop_header hs e body fmt (PlyReader.cleared F) _ hhs he]
      rcases applyLines (PlyReader.cleared F) hs with _ | r
      · rfl
      · rfl

theorem stoi_range (s : List Char) (v : Int) (h : stoi s = some v) :
    -2147483648 ≤ v ∧ v ≤ 2147483647 := by
  unfold stoi at h
  dsimp only at h
  split_ifs at h with h1 h2 h3 h4
  all_goals
    simp only [Option.some.injEq] at h
    subst h
    omega

theorem toSizeT_of_nonneg (v : Int) (h : 0 ≤ v) (hhi : v ≤ 2147483647) :
    toSizeT v = v.toNat := by
  unfold toSizeT SIZE_MOD
  rw [Int.emod_eq_of_lt h (by push_cast; omega)]

theorem toSizeT_of_neg (v : Int) (hlo : -2147483648 ≤ v) (h : v < 0) :
    toSizeT v = (v + 18446744073709551616).toNat := by
  unfold toSizeT SIZE_MOD
  have : v % ((18446744073709551616 : Nat) : Int) = v + 18446744073709551616 := by
    rw [← Int.add_mul_emod_self (a := v) (b := 1) (c := ((18446744073709551616 : Nat) : Int))]
    push_cast
    rw [Int.emod_eq_of_lt (by omega) (by omega)]
  rw [this]

theorem toSizeT_nonneg (v : Int) (hlo : -2147483648 ≤ v) (hhi : v ≤ 2147483647)
    (h : resizeThrows (toSizeT v) = false) : 0 ≤ v ∧ toSizeT v = v.toNat := by
  by_cases hv : 0 ≤ v
  · exact ⟨hv, toSizeT_of_nonneg v hv hhi⟩
  · rw [toSizeT_of_neg v hlo (by omega)] at h
    unfold resizeThrows at h
    simp only [decide_eq_false_iff_not, not_le] at h
    omega

theorem toSizeT3_nonneg (v : Int) (hlo : -2147483648 ≤ v) (hhi : v ≤ 2147483647)
    (h : resizeThrows ((toSizeT v * 3) % SIZE_MOD) = false) :
    0 ≤ v ∧ (toSizeT v * 3) % SIZE_MOD = 3 * v.toNat := by
  by_cases hv : 0 ≤ v
  · refine ⟨hv, ?_⟩
    rw [toSizeT_of_nonneg v hv hhi]
    unfold SIZE_MOD
    omega
  · rw [toSizeT_of_neg v hlo (by omega)] at h
    unfold resizeThrows SIZE_MOD at h
    simp only [decide_eq_false_iff_not, not_le] at h
    have hw : (v + 18446744073709551616).toNat * 3
        = (18446744073709551616 - 3 * (-v).toNat) + 18446744073709551616 * 2 := by omega
    rw [hw, Nat.add_mul_mod_self_left, Nat.mod_eq_of_lt (by omega)] at h
    omega

theorem applyDirective_tokens {F : Type} [Inhabited F] (r r1 : PlyReader F)
    (tokens : List (List Char)) (h : applyDirective r tokens = some r1) :
    r1.hasNormals = (r.hasNormals || (decide (tokens.head? = some "property".data) &&
      decide (tokens.getLast? = some "nz".data))) ∧
    r1.hasTexcoords = (r.hasTexcoords || (decide (tokens.head? = some "property".data) &&
      decide (tokens.getLast? = some "v".data))) ∧
    (∀ c, countToken "vertex".data tokens = some c →
      ∃ v, stoi c = some v ∧ 0 ≤ v ∧ r1.vertices.length = v.toNat) ∧
    (countToken "vertex".data tokens = none → r1.vertices.length = r.vertices.length) ∧
    (∀ c, countToken "face".data tokens = some c →
      ∃ v, stoi c = some v ∧ 0 ≤ v ∧ r1.indices.length = 3 * v.toNat) ∧
    (countToken "face".data tokens = none → r1.indices.length = r.indices.length) := by
  have hep : "element".data ≠ "property".data := by decide
  have hvf : "vertex".data ≠ "face".data := by decide
  have hnv : "nz".data ≠ "v".data := by decide
  unfold applyDirective at h
  by_cases he : tokens.head? = some "element".data
  · rw [if_pos he] at h
    have hp : tokens.head? ≠ some "property".data := by
      rw [he]
      exact fun hh => hep (Option.some.inj hh)
    rw [decide_eq_false hp, Bool.false_and, Bool.false_and, Bool.or_false, Bool.or_false]
    match tokens, he, h with
    | [], he, _ => cases he
    | [a], _, h =>
      cases h
      exact ⟨rfl, rfl, (fun c hc => by cases hc), fun _ => rfl, (fun c hc => by cases hc),
        fun _ => rfl⟩
    | [a, b], _, h =>
      cases h
      exact ⟨rfl, rfl, (fun c hc => by cases hc), fun _ => rfl, (fun c hc => by cases hc),
        fun _ => rfl⟩
    | a :: kind :: count :: rest, he, h =>
      have ha : a = "element".data := Option.some.inj he
      have hv : countToken "vertex".data (a :: kind :: count :: rest)
          = if a = "element".data ∧ kind = "vertex".data then some count else none := rfl
      have hf : countToken "face".data (a :: kind :: count :: rest)
          = if a = "element".data ∧ kind = "face".data then some count else none := rfl
      dsimp only at h
      by_cases hkv : kind = "vertex".data
      · have hkf : kind ≠ "face".data := fun hh => hvf (hkv.symm.trans hh)
        rw [if_pos ⟨ha, hkv⟩] at hv
        rw [if_neg (fun hh => hkf hh.2)] at hf
        rw [if_pos hkv] at h
        rcases hs : stoi count with _ | v
        · rw [hs] at h
          cases h
        · rw [hs] at h
          dsimp only at h
          by_cases ht : resizeThrows (toSizeT v) = true
          · rw [if_pos ht] at h
            cases h
          · rw [if_neg ht] at h
            cases h
            obtain ⟨hlo, hhi⟩ := stoi_range count v hs
            obtain ⟨h0, hsz⟩ := toSizeT_nonneg v hlo hhi (Bool.eq_false_iff.mpr ht)
            rw [hv, hf]
            refine ⟨rfl, rfl, fun c hc => ?_, (fun hc => by cases hc), (fun c hc => by cases hc),
              fun _ => rfl⟩
            cases hc
            exact ⟨v, hs, h0, by simp [hsz]⟩
      · rw [if_neg (fun hh => hkv hh.2)] at hv
        rw [if_neg hkv] at h
        by_cases hkf : kind = "face".data
        · rw [if_pos ⟨ha, hkf⟩] at hf
          rw [if_pos hkf] at h
          rcases hs : stoi count with _ | v
          · rw [hs] at h
            cases h
          · rw [hs] at h
            dsimp only at h
            by_cases ht : resizeThrows ((toSizeT v * 3) % SIZE_MOD) = true
            · rw [if_pos ht] at h
              cases h
            · rw [if_neg ht] at h
              cases h
              obtain ⟨hlo, hhi⟩ := stoi_range count v hs
              obtain ⟨h0, hsz⟩ := toSizeT3_nonneg v hlo hhi (Bool.eq_false_iff.mpr ht)
              rw [hv, hf]
              refine ⟨rfl, rfl, (fun c hc => by cases hc), fun _ => rfl, fun c hc => ?_,
                (fun hc => by cases hc)⟩
              cases hc
              exact ⟨v, hs, h0, by simp [hsz]⟩
        · rw [if_neg (fun hh => hkf hh.2)] at hf
          rw [if_neg hkf] at h
          cases h
          rw [hv, hf]
          exact ⟨rfl, rfl, (fun c hc => by cases hc), fun _ => rfl, (fun c hc => by cases hc),
            fun _ => rfl⟩
  · rw [if_neg he] at h
    have hnone : ∀ kind : List Char, countToken kind tokens = none := by
      intro kind
      unfold countToken
      split
      · rename_i head k count rest
        have : head ≠ "element".data := fun hh => he (by rw [hh]; rfl)
        rw [if_neg (fun hh => this hh.1)]
      · rfl
    rw [hnone, hnone]
    by_cases hp : tokens.head? = some "property".data
    · rw [if_pos hp] at h
      rw [decide_eq_true hp, Bool.true_and, Bool.true_and]
      by_cases hn : tokens.getLast? = some "nz".data
      · rw [if_pos hn] at h
        cases h
        have hv : tokens.getLast? ≠ some "v".data := by
          rw [hn]
          exact fun hh => hnv (Option.some.inj hh)
        rw [decide_eq_true hn, decide_eq_false hv, Bool.or_true, Bool.or_false]
        exact ⟨rfl, rfl, (fun c hc => by cases hc), fun _ => rfl, (fun c hc => by cases hc),
          fun _ => rfl⟩
      · rw [if_neg hn] at h
        rw [decide_eq_false hn, Bool.or_false]
        by_cases ht : tokens.getLast? = some "v".data
        · rw [if_pos ht] at h
          cases h
          rw [decide_eq_true ht, Bool.or_true]
          exact ⟨rfl, rfl, (fun c hc => by cases hc), fun _ => rfl, (fun c hc => by cases hc),
            fun _ => rfl⟩
        · rw [if_neg ht] at h
          cases h
          rw [decide_eq_false ht, Bool.or_false]
          exact ⟨rfl, rfl, (fun c hc => by cases hc), fun _ => rfl, (fun c hc => by cases hc),
            fun _ => rfl⟩
    · rw [if_neg hp] at h
      cases h
      rw [decide_eq_false hp, Bool.false_and, Bool.false_and, Bool.or_false, Bool.or_false]
      exact ⟨rfl, rfl, (fun c hc => by cases hc), fun _ => rfl, (fun c hc => by cases hc),
        fun _ => rfl⟩

theorem lastDeclared_cons_none (kind l : List Char) (ls : List (List Char))
    (h : lastDeclared kind ls = none) :
    lastDeclared kind (l :: ls) = declaredCount kind l := by
  simp only [lastDeclared, h]

theorem lastDeclared_cons_some (kind l c : List Char) (ls : List (List Char))
    (h : lastDeclared kind ls = some c) :
    lastDeclared kind (l :: ls) = some c := by
  simp only [lastDeclared, h]

theorem applyLines_spec {F : Type} [Inhabited F] (hs : List (List Char)) (r r2 : PlyReader F)
    (h : applyLines r hs = some r2) :
    r2.hasNormals = (r.hasNormals || hs.any (propertyEndsIn "nz".data)) ∧
    r2.hasTexcoords = (r.hasTexcoords || hs.any (propertyEndsIn "v".data)) ∧
    (∀ c, lastDeclared "vertex".data hs = some c →
      ∃ v, stoi c = some v ∧ 0 ≤ v ∧ r2.vertices.length = v.toNat) ∧
    (lastDeclared "vertex".data hs = none → r2.vertices.length = r.vertices.length) ∧
    (∀ c, lastDeclared "face".data hs = some c →
      ∃ v, stoi c = some v ∧ 0 ≤ v ∧ r2.indices.length = 3 * v.toNat) ∧
    (lastDeclared "face".data hs = none → r2.indices.length = r.indices.length) := by
  induction hs generalizing r with
  | nil =>
    simp only [applyLines, Option.some.injEq] at h
    subst h
    exact ⟨by simp, by simp, (fun c hc => by cases hc), (fun _ => rfl),
      (fun c hc => by cases hc), (fun _ => rfl)⟩
  | cons l ls ih =>
    rcases hd : applyDirective r (headerTokens l) with _ | r1
    · simp only [applyLines, hd] at h
      cases h
    · simp only [applyLines, hd] at h
      obtain ⟨i1, i2, i3, i4, i5, i6⟩ := ih r1 h
      obtain ⟨s1, s2, s3, s4, s5, s6⟩ := applyDirective_tokens r r1 (headerTokens l) hd
      refine ⟨?_, ?_, ?_, ?_, ?_, ?_⟩
      · rw [i1, s1, List.any_cons, Bool.or_assoc]
        rfl
      · rw [i2, s2, List.any_cons, Bool.or_assoc]
        rfl
      · intro c hc
        rcases hl : lastDeclared "vertex".data ls with _ | c2
        · rw [lastDeclared_cons_none _ _ _ hl] at hc
          obtain ⟨v, hv, h0, hlen⟩ := s3 c hc
          exact ⟨v, hv, h0, by rw [i4 hl, hlen]⟩
        · rw [lastDeclared_cons_some _ _ _ _ hl] at hc
          cases hc
          exact i3 c hl
      · intro hc
        rcases hl : lastDeclared "vertex".data ls with _ | c2
        · rw [lastDeclared_cons_none _ _ _ hl] at hc
          rw [i4 hl, s4 hc]
        · rw [lastDeclared_cons_some _ _ _ _ hl] at hc
          cases hc
      · intro c hc
        rcases hl : lastDeclared "face".data ls with _ | c2
        · rw [lastDeclared_cons_none _ _ _ hl] at hc
          obtain ⟨v, hv, h0, hlen⟩ := s5 c hc
          exact ⟨v, hv, h0, by rw [i6 hl, hlen]⟩
        · rw [lastDeclared_cons_some _ _ _ _ hl] at hc
          cases hc
          exact i5 c hl
      · intro hc
        rcases hl : lastDeclared "face".data ls with _ | c2
        · rw [lastDeclared_cons_none _ _ _ hl] at hc
          rw [i6 hl, s6 hc]
        · rw [lastDeclared_cons_some _ _ _ _ hl] at hc
          cases hc

theorem applyLines_append {F : Type} [Inhabited F] (a b : List (List Char))
    (r : PlyReader F) :
    applyLines r (a ++ b) = (applyLines r a).bind (fun r2 => applyLines r2 b) := by
  induction a generalizing r with
  | nil => rfl
  | cons l ls ih =>
    simp only [List.cons_append, applyLines]
    rcases applyDirective r (headerTokens l) with _ | r1
    · rfl
    · exact ih r1

theorem applyDirective_unrecognised {F : Type} [Inhabited F] (r : PlyReader F)
    (l : List Char) (h : Unrecognised l) : applyDirective r (headerTokens l) = some r := by
  unfold applyDirective
  rw [if_neg h.2.2.2.1, if_neg h.2.2.2.2]

theorem applyLines_insert {F : Type} [Inhabited F] (a b : List (List Char)) (l : List Char)
    (r : PlyReader F) (h : Unrecognised l) :
    applyLines r (a ++ l :: b) = applyLines r (a ++ b) := by
  rw [applyLines_append, applyLines_append]
  congr 1
  funext r2
  simp only [applyLines, applyDirective_unrecognised r2 l h]

theorem Load_eq_of_readHeader {F : Type} [Inhabited F] (stof : List Char → Option F)
    (floatOfBytes : List Nat → F) (f1 f2 : Option (List Char)) (ccw : Bool)
    (h : PlyReader.readHeader F f1 = PlyReader.readHeader F f2) :
    PlyReader.Load stof floatOfBytes f1 ccw = PlyReader.Load stof floatOfBytes f2 ccw := by
  rcases h2 : PlyReader.readHeader F f2 with e | ⟨isAscii, s3, line3, r⟩
  · rw [h2] at h
    rw [Load_header_error stof floatOfBytes f1 ccw e h,
      Load_header_error stof floatOfBytes f2 ccw e h2]
  · rw [h2] at h
    rw [Load_header_ok stof floatOfBytes f1 ccw isAscii s3 line3 r h,
      Load_header_ok stof floatOfBytes f2 ccw isAscii s3 line3 r h2]

theorem asciiVertices_length {F : Type} [Inhabited F] (stof : List Char → Option F)
    (hasNormals hasTexcoords : Bool) (olds : List (PlyVertex F)) (s : IStream)
    (line : List Char) (out : IStream × List Char × List (PlyVertex F))
    (h : asciiVertices stof hasNormals hasTexcoords olds s line = some out) :
    out.2.2.length = olds.length := by
  induction olds generalizing s line out with
  | nil =>
    simp only [asciiVertices, Option.some.injEq] at h
    subst h
    rfl
  | cons old more ih =>
    unfold asciiVertices at h
    split at h
    · cases h
    · split at h
      · cases h
      · next s2 line2 vs hrec =>
        cases h
        have := ih _ _ _ hrec
        simp only [List.length_cons]
        simp only at this
        omega

theorem readVertices_length {F : Type} [Inhabited F] (stof : List Char → Option F)
    (floatOfBytes : List Nat → F) (isAscii : Bool) (s3 : IStream) (line3 : List Char)
    (r : PlyReader F) (out : IStream × List Char × List (PlyVertex F))
    (h : PlyReader.readVertices stof floatOfBytes isAscii s3 line3 r = some out) :
    out.2.2.length = r.vertices.length := by
  unfold PlyReader.readVertices at h
  split at h
  · exact asciiVertices_length stof _ _ _ _ _ _ h
  · cases h
    simp [binaryVertices]

theorem Declares_of_applyLines {F : Type} [Inhabited F] (hs : List (List Char))
    (r : PlyReader F) (h : applyLines (PlyReader.cleared F) hs = some r) : Declares hs r := by
  obtain ⟨h1, h2, h3, h4, h5, h6⟩ := applyLines_spec hs (PlyReader.cleared F) r h
  refine ⟨?_, ?_, ?_, ?_, ?_, ?_⟩
  · intro c hc
    obtain ⟨v, hv, h0, hlen⟩ := h3 c hc
    exact ⟨v, hv, h0, by rw [hlen]; exact Int.toNat_of_nonneg h0⟩
  · intro hc
    rw [h4 hc]
    rfl
  · intro c hc
    obtain ⟨v, hv, h0, hlen⟩ := h5 c hc
    refine ⟨v, hv, h0, ?_, ?_⟩
    · rw [hlen, Nat.mul_div_cancel_left _ (by decide)]
      exact Int.toNat_of_nonneg h0
    · rw [hlen]
      exact Nat.mul_mod_right 3 _
  · intro hc
    rw [h6 hc]
    rfl
  · rw [h1]
    simp [PlyReader.cleared]
  · rw [h2]
    simp [PlyReader.cleared]

theorem Declares_congr {F : Type} (hs : List (List Char)) (r r2 : PlyReader F)
    (hv : r2.vertices.length = r.vertices.length) (hi : r2.indices.length = r.indices.length)
    (hn : r2.hasNormals = r.hasNormals) (ht : r2.hasTexcoords = r.hasTexcoords)
    (h : Declares hs r) : Declares hs r2 := by
  unfold Declares at h ⊢
  rw [hv, hi, hn, ht]
  exact h

theorem readHeader_header {F : Type} [Inhabited F] (fmt : List Char) (hs : List (List Char))
    (e body : List Char) (hfmt : LF ∉ fmt) (hhs : ∀ l ∈ hs, HeaderLine l) (he : EndLine e)
    (isAscii : Bool) (s3 : IStream) (line3 : List Char) (r : PlyReader F)
    (h : PlyReader.readHeader F (some (plyText ("ply".data :: fmt :: hs ++ [e]) ++ body))
      = .ok (isAscii, s3, line3, r)) :
    s3 = { rest := body, good := true } ∧ line3 = e ∧
      applyLines (PlyReader.cleared F) hs = some r := by
  rw [readHeader_lines F fmt hs e body hfmt hhs he] at h
  split at h
  · cases h
  · split at h
    · cases h
    · split at h
      · cases h
      · split at h
        · cases h
        · next r0 hr0 _ =>
          cases h
          exact ⟨rfl, rfl, hr0⟩

theorem Load_declares {F : Type} [Inhabited F] (fmt : List Char) (hs : List (List Char))
    (e body : List Char) (hfmt : LF ∉ fmt) (hhs : ∀ l ∈ hs, HeaderLine l) (he : EndLine e)
    (stof : List Char → Option F) (floatOfBytes : List Nat → F) (ccw : Bool)
    (r : PlyReader F)
    (h : PlyReader.Load stof floatOfBytes
      (some (plyText ("ply".data :: fmt :: hs ++ [e]) ++ body)) ccw = .ok r) :
    Declares hs r := by
  rcases hh : PlyReader.readHeader F
    (some (plyText ("ply".data :: fmt :: hs ++ [e]) ++ body)) with e0 | ⟨isAscii, s3, line3, r0⟩
  · rw [Load_header_error stof floatOfBytes _ ccw e0 hh] at h
    cases h
  · obtain ⟨-, -, h3⟩ := readHeader_header fmt hs e body hfmt hhs he isAscii s3 line3 r0 hh
    have hd := Declares_of_applyLines hs r0 h3
    rw [Load_header_ok stof floatOfBytes _ ccw isAscii s3 line3 r0 hh] at h
    unfold PlyReader.readBody at h
    rcases hv : PlyReader.readVertices stof floatOfBytes isAscii s3 line3 r0
      with _ | ⟨s4, line4, vertices⟩
    · rw [hv] at h
      cases h
    · rw [hv] at h
      dsimp only at h
      rcases hf : readFaces isAscii ccw (r0.indices.length / 3) s4 line4 with _ | faces
      · rw [hf] at h
        cases h
      · rw [hf] at h
        cases h
        refine Declares_congr hs r0 _ ?_ ?_ rfl rfl hd
        · exact readVertices_length stof floatOfBytes isAscii s3 line3 r0 _ hv
        · have hl := readFaces_length isAscii ccw _ s4 line4 faces hf
          simp only [List.length_append, List.length_drop, hl]
          have := Nat.mul_div_le r0.indices.length 3
          omega

theorem Load_insert {F : Type} [Inhabited F] (fmt : List Char) (a b : List (List Char))
    (l e body : List Char) (hfmt : LF ∉ fmt) (hhs : ∀ x ∈ a ++ b, HeaderLine x)
    (he : EndLine e) (hl : Unrecognised l)
    (stof : List Char → Option F) (floatOfBytes : List Nat → F) (ccw : Bool) :
    PlyReader.Load stof floatOfBytes
        (some (plyText ("ply".data :: fmt :: (a ++ l :: b) ++ [e]) ++ body)) ccw
      = PlyReader.Load stof floatOfBytes
        (some (plyText ("ply".data :: fmt :: (a ++ b) ++ [e]) ++ body)) ccw := by
  have hins : ∀ x ∈ a ++ l :: b, HeaderLine x := by
    intro x hx
    rcases List.mem_append.mp hx with hx | hx
    · exact hhs x (List.mem_append_left _ hx)
    · rcases List.mem_cons.mp hx with hx | hx
      · rw [hx]
        exact ⟨hl.1, hl.2.1⟩
      · exact hhs x (List.mem_append_right _ hx)
  apply Load_eq_of_readHeader
  rw [readHeader_lines F fmt (a ++ l :: b) e body hfmt hins he,
    readHeader_lines F fmt (a ++ b) e body hfmt hhs he, applyLines_insert a b l _ hl]

/-- C37.  Header parsing.  For a file that starts with `ply`, a format line, header lines `hs`
none of which has `end_header` as its first token, and the `end_header` line: after the header
(and after a load that succeeds) the reader's vertex count and face count are the values of
the last `element vertex N` and `element face N` lines, normals are parsed iff some `property`
line ends in the token `nz` and texture coordinates iff some `property` line ends in the token
`v` (`Declares`); and a line whose first token is none of `end_header`, `comment`, `element`,
`property` can be inserted into or removed from the header without changing the result of
`PlyReader::Load` and of `LoadFromPLY`. -/
theorem header_directives {F : Type} [Inhabited F] (fmt : List Char) (hs : List (List Char))
    (e body : List Char) (hfmt : LF ∉ fmt) (hhs : ∀ l ∈ hs, HeaderLine l) (he : EndLine e) :
    (∀ isAscii s3 line3 (r : PlyReader F),
      PlyReader.readHeader F (some (plyText ("ply".data :: fmt :: hs ++ [e]) ++ body))
        = .ok (isAscii, s3, line3, r) →
      s3 = { rest := body, good := true } ∧ line3 = e ∧ Declares hs r) ∧
    (∀ (stof : List Char → Option F) (floatOfBytes : List Nat → F) (ccw : Bool)
      (r : PlyReader F),
      PlyReader.Load stof floatOfBytes
        (some (plyText ("ply".data :: fmt :: hs ++ [e]) ++ body)) ccw = .ok r →
      Declares hs r) ∧
    (∀ (a b : List (List Char)) (l : List Char), hs = a ++ b → Unrecognised l →
      ∀ (stof : List Char → Option F) (floatOfBytes : List Nat → F) (ccw : Bool),
        PlyReader.Load stof floatOfBytes
            (some (plyText ("ply".data :: fmt :: (a ++ l :: b) ++ [e]) ++ body)) ccw
          = PlyReader.Load stof floatOfBytes
            (some (plyText ("ply".data :: fmt :: hs ++ [e]) ++ body)) ccw ∧
        ∀ (E Ei Ev : Env) (inMesh : Option (Mesh F)),
          LoadFromPLY E Ei Ev stof floatOfBytes
              (some (plyText ("ply".data :: fmt :: (a ++ l :: b) ++ [e]) ++ body)) inMesh ccw
            = LoadFromPLY E Ei Ev stof floatOfBytes
              (some (plyText ("ply".data :: fmt :: hs ++ [e]) ++ body)) inMesh ccw) := by
  refine ⟨?_, ?_, ?_⟩
  · intro isAscii s3 line3 r h
    obtain ⟨h1, h2, h3⟩ := readHeader_header fmt hs e body hfmt hhs he isAscii s3 line3 r h
    exact ⟨h1, h2, Declares_of_applyLines hs r h3⟩
  · intro stof floatOfBytes ccw r h
    exact Load_declares fmt hs e body hfmt hhs he stof floatOfBytes ccw r h
  · intro a b l hab hl stof floatOfBytes ccw
    subst hab
    have hload := Load_insert fmt a b l e body hfmt hhs he hl stof floatOfBytes ccw
    refine ⟨hload, fun E Ei Ev inMesh => ?_⟩
    unfold LoadFromPLY
    rw [hload]

theorem header_directives_witness :
    PlyReader.readHeader Int (some (plyText ("ply".data :: "format ascii 1.0".data ::
        sampleHeader ++ ["end_header".data]) ++ sampleBody))
      = .ok (true, { rest := sampleBody, good := true }, "end_header".data,
          sampleHeaderReader) ∧
    lastDeclared "vertex".data sampleHeader = some "3".data ∧
    lastDeclared "face".data sampleHeader = some "1".data ∧
    ({ rest := sampleBody, good := true } = ({ rest := sampleBody, good := true } : IStream) ∧
      "end_header".data = "end_header".data ∧ Declares sampleHeader sampleHeaderReader) ∧
    (PlyReader.Load stoi (fun _ => (0 : Int))
        (some (plyText ("ply".data :: "format ascii 1.0".data ::
          (sampleHeader.take 9 ++ "obj_info scanned".data :: sampleHeader.drop 9)
          ++ ["end_header".data]) ++ sampleBody)) true
      = PlyReader.Load stoi (fun _ => (0 : Int))
        (some (plyText ("ply".data :: "format ascii 1.0".data :: sampleHeader
          ++ ["end_header".data]) ++ sampleBody)) true ∧
     ∀ (E Ei Ev : Env) (inMesh : Option (Mesh Int)),
       LoadFromPLY E Ei Ev stoi (fun _ => (0 : Int))
          (some (plyText ("ply".data :: "format ascii 1.0".data ::
            (sampleHeader.take 9 ++ "obj_info scanned".data :: sampleHeader.drop 9)
            ++ ["end_header".data]) ++ sampleBody)) inMesh true
        = LoadFromPLY E Ei Ev stoi (fun _ => (0 : Int))
          (some (plyText ("ply".data :: "format ascii 1.0".data :: sampleHeader
            ++ ["end_header".data]) ++ sampleBody)) inMesh true) :=
  ⟨by rfl, by decide, by decide,
    (@header_directives Int _ "format ascii 1.0".data sampleHeader "end_header".data sampleBody
      (by decide) (by decide) (by decide)).1 true { rest := sampleBody, good := true }
      "end_header".data sampleHeaderReader (by rfl),
    (@header_directives Int _ "format ascii 1.0".data sampleHeader "end_header".data sampleBody
      (by decide) (by decide) (by decide)).2.2 (sampleHeader.take 9) (sampleHeader.drop 9)
      "obj_info scanned".data (by decide) (by decide) stoi (fun _ => (0 : Int)) true⟩

/-! ## The header ExportToPLY writes -/

theorem digitChar_digit (k : Nat) (h : k < 10) :
    48 ≤ (Nat.digitChar k).toNat ∧ (Nat.digitChar k).toNat ≤ 57 := by
  interval_cases k <;> decide

theorem toDigitsCore_digit (fuel n : Nat) (acc : List Char)
    (hacc : ∀ c ∈ acc, 48 ≤ c.toNat ∧ c.toNat ≤ 57) :
    ∀ c ∈ Nat.toDigitsCore 10 fuel n acc, 48 ≤ c.toNat ∧ c.toNat ≤ 57 := by
  induction fuel generalizing n acc with
  | zero => exact hacc
  | succ k ih =>
    have hcons : ∀ c ∈ Nat.digitChar (n % 10) :: acc, 48 ≤ c.toNat ∧ c.toNat ≤ 57 := by
      intro c hc
      rcases List.mem_cons.mp hc with hc | hc
      · rw [hc]
        exact digitChar_digit _ (Nat.mod_lt _ (by decide))
      · exact hacc c hc
    unfold Nat.toDigitsCore
    dsimp only
    split
    · exact hcons
    · exact ih _ _ hcons

theorem decimal_digit (n : Nat) : ∀ c ∈ decimal n, 48 ≤ c.toNat ∧ c.toNat ≤ 57 := by
  unfold decimal Nat.toDigits
  exact toDigitsCore_digit _ _ [] (fun c hc => by cases hc)

theorem decimal_no_LF (n : Nat) : LF ∉ decimal n := by
  intro h
  have := decimal_digit n LF h
  revert this
  decide

theorem decimal_no_SP (n : Nat) : SP ∉ decimal n := by
  intro h
  have := decimal_digit n SP h
  revert this
  decide

theorem ExportToPLY_text {F : Type} [Inhabited F] (fmt : F → List Char) (m : Mesh F)
    (ib : List Nat) (pos : List (XMFLOAT3 F)) (hib : m.mIndices = some ib)
    (hpos : m.mPositions = some pos) (hf : m.mnFaces ≠ 0) (hv : m.mnVerts ≠ 0) :
    ExportToPLY fmt true true true m
      = (S_OK, some (plyText ("ply".data :: "format ascii 1.0".data :: exportHeader m
          ++ ["end_header".data]) ++ exportBody fmt m ib)) := by
  unfold ExportToPLY
  rw [hib, hpos]
  dsimp only
  rw [if_neg (by decide), if_neg (fun h => h.elim hf hv), if_neg (by decide),
    if_neg (by decide)]
  unfold exportHeader exportBody
  cases m.mNormals.isSome <;> cases m.mTexCoords.isSome <;>
    simp only [plyText, List.append_assoc, List.cons_append, List.nil_append, if_true,
      if_false, Bool.false_eq_true, List.singleton_append]

theorem mem_exportHeader {F : Type} (m : Mesh F) (l : List Char) :
    l ∈ exportHeader m ↔
      l = "element vertex ".data ++ decimal m.mnVerts ∨ l = "property float x".data ∨
      l = "property float y".data ∨ l = "property float z".data ∨
      (m.mNormals.isSome = true ∧ (l = "property float nx".data ∨
        l = "property float ny".data ∨ l = "property float nz".data)) ∨
      (m.mTexCoords.isSome = true ∧ (l = "property float u".data ∨
        l = "property float v".data)) ∨
      l = "element face ".data ++ decimal m.mnFaces ∨
      l = "property list uchar int vertex_indices".data := by
  unfold exportHeader
  cases m.mNormals.isSome <;> cases m.mTexCoords.isSome <;>
    simp only [List.mem_append, List.mem_cons, List.mem_singleton, List.not_mem_nil, if_true,
      if_false, Bool.false_eq_true, false_and, true_and, or_false, false_or, or_assoc]

theorem headerTokens_element (rest : List Char) :
    (headerTokens ("element".data ++ SP :: rest)).head? = some "element".data := by
  unfold headerTokens
  rw [splitSpaces_field _ _ (by decide)]
  rfl

theorem HeaderLine_element (rest : List Char) (h : LF ∉ rest) :
    HeaderLine ("element".data ++ SP :: rest) := by
  refine ⟨?_, ?_⟩
  · intro hm
    rcases List.mem_append.mp hm with hm | hm
    · revert hm
      decide
    · rcases List.mem_cons.mp hm with hm | hm
      · revert hm
        decide
      · exact h hm
  · rw [headerTokens_element]
    decide

theorem propertyEndsIn_element (name rest : List Char) :
    propertyEndsIn name ("element".data ++ SP :: rest) = false := by
  unfold propertyEndsIn
  rw [headerTokens_element]
  rfl

theorem exportHeader_lines {F : Type} (m : Mesh F) : ∀ l ∈ exportHeader m, HeaderLine l := by
  intro l hl
  have hv : LF ∉ "vertex ".data ++ decimal m.mnVerts := by
    intro hm
    rcases List.mem_append.mp hm with hm | hm
    · revert hm
      decide
    · exact decimal_no_LF _ hm
  have hf : LF ∉ "face ".data ++ decimal m.mnFaces := by
    intro hm
    rcases List.mem_append.mp hm with hm | hm
    · revert hm
      decide
    · exact decimal_no_LF _ hm
  rcases (mem_exportHeader m l).mp hl with h | h | h | h | ⟨_, h | h | h⟩ | ⟨_, h | h⟩ | h | h
  · rw [h]
    exact HeaderLine_element _ hv
  all_goals first
    | (rw [h]; exact HeaderLine_element _ hf)
    | (rw [h]; decide)

theorem exportHeader_normals {F : Type} (m : Mesh F) :
    (∃ l ∈ exportHeader m, propertyEndsIn "nz".data l = true) ↔ m.mNormals.isSome = true := by
  constructor
  · rintro ⟨l, hl, hp⟩
    rcases (mem_exportHeader m l).mp hl with h | h | h | h | ⟨hn, _⟩ | ⟨_, h | h⟩ | h | h
    · rw [h] at hp
      have := propertyEndsIn_element "nz".data ("vertex ".data ++ decimal m.mnVerts)
      rw [show "element vertex ".data ++ decimal m.mnVerts
        = "element".data ++ SP :: ("vertex ".data ++ decimal m.mnVerts) from rfl, this] at hp
      cases hp
    · rw [h] at hp; exact absurd hp (by decide)
    · rw [h] at hp; exact absurd hp (by decide)
    · rw [h] at hp; exact absurd hp (by decide)
    · exact hn
    · rw [h] at hp; exact absurd hp (by decide)
    · rw [h] at hp; exact absurd hp (by decide)
    · rw [h] at hp
      have := propertyEndsIn_element "nz".data ("face ".data ++ decimal m.mnFaces)
      rw [show "element face ".data ++ decimal m.mnFaces
        = "element".data ++ SP :: ("face ".data ++ decimal m.mnFaces) from rfl, this] at hp
      cases hp
    · rw [h] at hp; exact absurd hp (by decide)
  · intro hn
    exact ⟨"property float nz".data,
      (mem_exportHeader m _).mpr (Or.inr (Or.inr (Or.inr (Or.inr (Or.inl
        ⟨hn, Or.inr (Or.inr rfl)⟩))))), by decide⟩

theorem exportHeader_texcoords {F : Type} (m : Mesh F) :
    (∃ l ∈ exportHeader m, propertyEndsIn "v".data l = true) ↔ m.mTexCoords.isSome = true := by
  constructor
  · rintro ⟨l, hl, hp⟩
    rcases (mem_exportHeader m l).mp hl with h | h | h | h | ⟨_, h | h | h⟩ | ⟨ht, _⟩ | h | h
    · rw [h] at hp
      have := propertyEndsIn_element "v".data ("vertex ".data ++ decimal m.mnVerts)
      rw [show "element vertex ".data ++ decimal m.mnVerts
        = "element".data ++ SP :: ("vertex ".data ++ decimal m.mnVerts) from rfl, this] at hp
      cases hp
    · rw [h] at hp; exact absurd hp (by decide)
    · rw [h] at hp; exact absurd hp (by decide)
    · rw [h] at hp; exact absurd hp (by decide)
    · rw [h] at hp; exact absurd hp (by decide)
    · rw [h] at hp; exact absurd hp (by decide)
    · rw [h] at hp; exact absurd hp (by decide)
    · exact ht
    · rw [h] at hp
      have := propertyEndsIn_element "v".data ("face ".data ++ decimal m.mnFaces)
      rw [show "element face ".data ++ decimal m.mnFaces
        = "element".data ++ SP :: ("face ".data ++ decimal m.mnFaces) from rfl, this] at hp
      cases hp
    · rw [h] at hp; exact absurd hp (by decide)
  · intro ht
    exact ⟨"property float v".data,
      (mem_exportHeader m _).mpr (Or.inr (Or.inr (Or.inr (Or.inr (Or.inr (Or.inl
        ⟨ht, Or.inr rfl⟩)))))), by decide⟩

theorem readStream_isSome {α : Type} [Inhabited α] {E : Env} {site : Nat} {declared : Bool}
    {result : HRESULT × List α} {n : Nat} {x : Option (List α)}
    (h : readStream E site declared result n = Except.ok x) : x.isSome = declared := by
  unfold readStream at h
  split at h
  · next hd =>
    split at h
    · cases h
    · split at h
      · cases h
      · cases h
        rw [hd]
        rfl
  · next hd =>
    cases h
    simp only [Bool.not_eq_true] at hd
    rw [hd]
    rfl

theorem SetVertexData_presence {F : Type} [Inhabited F] (E : Env) (m : Mesh F)
    (reader : VBReader F) (nVerts : Nat)
    (h : FAILED (SetVertexData E m reader nVerts).1 = false) :
    (SetVertexData E m reader nVerts).2.mNormals.isSome = reader.GetElement11 .NORMAL ∧
    (SetVertexData E m reader nVerts).2.mTexCoords.isSome = reader.GetElement11 .TEXCOORD := by
  unfold SetVertexData at h ⊢
  split
  · rename_i hn
    rw [if_pos hn] at h
    have hinv : FAILED E_INVALIDARG = true := by decide
    dsimp only at h
    rw [hinv] at h
    cases h
  · rename_i hn
    rw [if_neg hn] at h
    dsimp only at h ⊢
    split
    · next e he =>
      rw [he] at h
      dsimp only at h
      rcases loadStreams_error he with ⟨_, hoom⟩ | hread
      · rw [hoom] at h
        exact absurd h (by decide)
      · rw [hread.failed] at h
        cases h
    · next m2 hm2 =>
      simp only [loadStreams, except_bind_ok, pure, Except.pure, Except.ok.injEq] at hm2
      obtain ⟨a1, e1, a2, e2, a3, e3, a4, e4, a5, e5, a6, e6, a7, e7, a8, e8, hm⟩ := hm2
      subst hm
      exact ⟨readStream_isSome e2, readStream_isSome e5⟩

theorem MakeVBReader_declares {F : Type} [Inhabited F] (hasNormals hasTexcoords : Bool)
    (verts : List (PlyVertex F)) :
    (MakeVBReader (plyLayout hasNormals hasTexcoords) verts).reader.GetElement11 .NORMAL
      = hasNormals ∧
    (MakeVBReader (plyLayout hasNormals hasTexcoords) verts).reader.GetElement11 .TEXCOORD
      = hasTexcoords := by
  cases hasNormals <;> cases hasTexcoords <;> exact ⟨rfl, rfl⟩

theorem dropWhile_of_all {α : Type} (p : α → Bool) (s : List α) (h : ∀ c ∈ s, p c = false) :
    s.dropWhile p = s := by
  cases s with
  | nil => rfl
  | cons c t => simp [List.dropWhile, h c (List.mem_cons_self _ _)]

theorem trim_of_all (s : List Char) (h : ∀ c ∈ s, isspace c = false) : trim s = s := by
  unfold trim
  rw [dropWhile_of_all _ s h, dropWhile_of_all _ s.reverse (fun c hc => h c (by simpa using hc)),
    List.reverse_reverse]

theorem trim_decimal (n : Nat) : trim (decimal n) = decimal n := by
  apply trim_of_all
  intro c hc
  have := decimal_digit n c hc
  unfold isspace
  simp only [Bool.or_eq_false_iff, beq_eq_false_iff_ne, Bool.and_eq_false_imp, decide_eq_true_eq,
    decide_eq_false_iff_not]
  omega

theorem headerTokens_count (kind : List Char) (n : Nat) (hk : SP ∉ kind)
    (ht : trim kind = kind) :
    headerTokens ("element".data ++ SP :: (kind ++ SP :: decimal n))
      = ["element".data, kind, decimal n] := by
  unfold headerTokens
  rw [splitSpaces_field _ _ (by decide), splitSpaces_field _ _ hk,
    splitSpaces_single _ (decimal_no_SP n)]
  simp only [List.map_cons, List.map_nil, trim_decimal, ht]
  rfl

theorem declaredCount_vertex_line (n : Nat) :
    declaredCount "vertex".data ("element vertex ".data ++ decimal n) = some (decimal n) ∧
    declaredCount "face".data ("element vertex ".data ++ decimal n) = none := by
  have := headerTokens_count "vertex".data n (by decide) (by decide)
  have hl : "element vertex ".data ++ decimal n
      = "element".data ++ SP :: ("vertex".data ++ SP :: decimal n) := rfl
  unfold declaredCount
  rw [hl, this]
  exact ⟨by unfold countToken; exact if_pos ⟨rfl, rfl⟩,
    by unfold countToken; exact if_neg (fun h => absurd h.2 (by decide))⟩

theorem declaredCount_face_line (n : Nat) :
    declaredCount "face".data ("element face ".data ++ decimal n) = some (decimal n) ∧
    declaredCount "vertex".data ("element face ".data ++ decimal n) = none := by
  have := headerTokens_count "face".data n (by decide) (by decide)
  have hl : "element face ".data ++ decimal n
      = "element".data ++ SP :: ("face".data ++ SP :: decimal n) := rfl
  unfold declaredCount
  rw [hl, this]
  exact ⟨by unfold countToken; exact if_pos ⟨rfl, rfl⟩,
    by unfold countToken; exact if_neg (fun h => absurd h.2 (by decide))⟩

theorem lastDeclared_append (kind : List Char) (a b : List (List Char)) :
    lastDeclared kind (a ++ b)
      = match lastDeclared kind b with
        | some c => some c
        | none => lastDeclared kind a := by
  induction a with
  | nil =>
    simp only [List.nil_append, lastDeclared]
    cases lastDeclared kind b <;> rfl
  | cons l ls ih =>
    have hstep : lastDeclared kind (l :: ls ++ b)
        = match lastDeclared kind (ls ++ b) with
          | some c => some c
          | none => declaredCount kind l := rfl
    rw [hstep, ih]
    cases lastDeclared kind b with
    | none => rfl
    | some c => rfl

theorem exportHeader_counts {F : Type} (m : Mesh F) :
    lastDeclared "vertex".data (exportHeader m) = some (decimal m.mnVerts) ∧
    lastDeclared "face".data (exportHeader m) = some (decimal m.mnFaces) := by
  have hv := declaredCount_vertex_line m.mnVerts
  have hf := declaredCount_face_line m.mnFaces
  have hN : ∀ kind : List Char,
      lastDeclared kind (if m.mNormals.isSome = true then
        ["property float nx".data, "property float ny".data, "property float nz".data]
      else []) = none := by
    intro kind
    cases m.mNormals.isSome
    · rfl
    · simp only [if_true, lastDeclared, declaredCount]
      rfl
  have hT : ∀ kind : List Char,
      lastDeclared kind (if m.mTexCoords.isSome = true then
        ["property float u".data, "property float v".data] else []) = none := by
    intro kind
    cases m.mTexCoords.isSome
    · rfl
    · simp only [if_true, lastDeclared, declaredCount]
      rfl
  have hA : ∀ kind : List Char,
      lastDeclared kind ["property float x".data, "property float y".data,
        "property float z".data] = none := by
    intro kind
    simp only [lastDeclared, declaredCount]
    rfl
  have hB : ∀ kind : List Char,
      declaredCount kind "property list uchar int vertex_indices".data = none := by
    intro kind
    unfold declaredCount
    rfl
  have hBl : ∀ kind : List Char,
      lastDeclared kind ["property list uchar int vertex_indices".data] = none := by
    intro kind
    rw [lastDeclared_cons_none kind _ [] rfl]
    exact hB kind
  unfold exportHeader
  constructor
  · rw [lastDeclared_append, lastDeclared_append, lastDeclared_append,
      lastDeclared_cons_none _ _ _ (hBl _), hf.2, hT, hN]
    dsimp only
    rw [lastDeclared_cons_none _ _ _ (hA _), hv.1]
  · rw [lastDeclared_append, lastDeclared_cons_none _ _ _ (hBl _), hf.1]

/-- C38 (as amended).  For a mesh with topology and positions (`mnFaces` and `mnVerts` not
zero) and a stream that can be written, the header `ExportToPLY` writes declares `nx`, `ny`,
`nz` iff normals are present and `u`, `v` iff texture coordinates are present, and declares
the mesh's vertex and face counts; whenever `LoadFromPLY` of the written file succeeds, the
normal and texture-coordinate arrays of the loaded mesh are present exactly when they were
present in the exported mesh. -/
theorem ExportToPLY_declares {F : Type} [Inhabited F] (fmt : F → List Char) (m : Mesh F)
    (ib : List Nat) (pos : List (XMFLOAT3 F)) (hib : m.mIndices = some ib)
    (hpos : m.mPositions = some pos) (hf : m.mnFaces ≠ 0) (hv : m.mnVerts ≠ 0) :
    ExportToPLY fmt true true true m
      = (S_OK, some (plyText ("ply".data :: "format ascii 1.0".data :: exportHeader m
          ++ ["end_header".data]) ++ exportBody fmt m ib)) ∧
    (∀ l ∈ exportHeader m, HeaderLine l) ∧
    lastDeclared "vertex".data (exportHeader m) = some (decimal m.mnVerts) ∧
    lastDeclared "face".data (exportHeader m) = some (decimal m.mnFaces) ∧
    ("property float nx".data ∈ exportHeader m ↔ m.mNormals.isSome = true) ∧
    ("property float ny".data ∈ exportHeader m ↔ m.mNormals.isSome = true) ∧
    ("property float nz".data ∈ exportHeader m ↔ m.mNormals.isSome = true) ∧
    ("property float u".data ∈ exportHeader m ↔ m.mTexCoords.isSome = true) ∧
    ("property float v".data ∈ exportHeader m ↔ m.mTexCoords.isSome = true) ∧
    ((∃ l ∈ exportHeader m, propertyEndsIn "nz".data l = true) ↔ m.mNormals.isSome = true) ∧
    ((∃ l ∈ exportHeader m, propertyEndsIn "v".data l = true) ↔ m.mTexCoords.isSome = true) ∧
    ∀ (E Ei Ev : Env) (stof : List Char → Option F) (floatOfBytes : List Nat → F)
      (inMesh : Option (Mesh F)) (ccw : Bool) (m2 : Mesh F),
      @E.MakeVBReader = @UVAtlas.MakeVBReader →
      LoadFromPLY E Ei Ev stof floatOfBytes (ExportToPLY fmt true true true m).2 inMesh ccw
        = (S_OK, some m2) →
      m2.mNormals.isSome = m.mNormals.isSome ∧ m2.mTexCoords.isSome = m.mTexCoords.isSome := by
  have htext := ExportToPLY_text fmt m ib pos hib hpos hf hv
  have hev : ∀ (l : List Char) (n : Nat), l.head? = some (Char.ofNat 112) →
      l ≠ "element vertex ".data ++ decimal n ∧ l ≠ "element face ".data ++ decimal n := by
    intro l n hl
    have he1 : ("element vertex ".data ++ decimal n).head? = some (Char.ofNat 101) := rfl
    have he2 : ("element face ".data ++ decimal n).head? = some (Char.ofNat 101) := rfl
    constructor
    · intro h
      rw [h, he1] at hl
      exact absurd hl (by decide)
    · intro h
      rw [h, he2] at hl
      exact absurd hl (by decide)
  refine ⟨htext, exportHeader_lines m, (exportHeader_counts m).1, (exportHeader_counts m).2,
    ?_, ?_, ?_, ?_, ?_, exportHeader_normals m, exportHeader_texcoords m, ?_⟩
  · constructor
    · intro h
      rcases (mem_exportHeader m _).mp h with h | h | h | h | ⟨hn, _⟩ | ⟨_, h | h⟩ | h | h
      · exact absurd h (hev _ _ (by rfl)).1
      · exact absurd h (by decide)
      · exact absurd h (by decide)
      · exact absurd h (by decide)
      · exact hn
      · exact absurd h (by decide)
      · exact absurd h (by decide)
      · exact absurd h (hev _ _ (by rfl)).2
      · exact absurd h (by decide)
    · intro hn
      exact (mem_exportHeader m _).mpr (Or.inr (Or.inr (Or.inr (Or.inr (Or.inl
        ⟨hn, Or.inl rfl⟩)))))
  · constructor
    · intro h
      rcases (mem_exportHeader m _).mp h with h | h | h | h | ⟨hn, _⟩ | ⟨_, h | h⟩ | h | h
      · exact absurd h (hev _ _ (by rfl)).1
      · exact absurd h (by decide)
      · exact absurd h (by decide)
      · exact absurd h (by decide)
      · exact hn
      · exact absurd h (by decide)
      · exact absurd h (by decide)
      · exact absurd h (hev _ _ (by rfl)).2
      · exact absurd h (by decide)
    · intro hn
      exact (mem_exportHeader m _).mpr (Or.inr (Or.inr (Or.inr (Or.inr (Or.inl
        ⟨hn, Or.inr (Or.inl rfl)⟩)))))
  · constructor
    · intro h
      rcases (mem_exportHeader m _).mp h with h | h | h | h | ⟨hn, _⟩ | ⟨_, h | h⟩ | h | h
      · exact absurd h (hev _ _ (by rfl)).1
      · exact absurd h (by decide)
      · exact absurd h (by decide)
      · exact absurd h (by decide)
      · exact hn
      · exact absurd h (by decide)
      · exact absurd h (by decide)
      · exact absurd h (hev _ _ (by rfl)).2
      · exact absurd h (by decide)
    · intro hn
      exact (mem_exportHeader m _).mpr (Or.inr (Or.inr (Or.inr (Or.inr (Or.inl
        ⟨hn, Or.inr (Or.inr rfl)⟩)))))
  · constructor
    · intro h
      rcases (mem_exportHeader m _).mp h with h | h | h | h | ⟨_, h | h | h⟩ | ⟨ht, _⟩ | h | h
      · exact absurd h (hev _ _ (by rfl)).1
      · exact absurd h (by decide)
      · exact absurd h (by decide)
      · exact absurd h (by decide)
      · exact absurd h (by decide)
      · exact absurd h (by decide)
      · exact absurd h (by decide)
      · exact ht
      · exact absurd h (hev _ _ (by rfl)).2
      · exact absurd h (by decide)
    · intro ht
      exact (mem_exportHeader m _).mpr (Or.inr (Or.inr (Or.inr (Or.inr (Or.inr (Or.inl
        ⟨ht, Or.inl rfl⟩))))))
  · constructor
    · intro h
      rcases (mem_exportHeader m _).mp h with h | h | h | h | ⟨_, h | h | h⟩ | ⟨ht, _⟩ | h | h
      · exact absurd h (hev _ _ (by rfl)).1
      · exact absurd h (by decide)
      · exact absurd h (by decide)
      · exact absurd h (by decide)
      · exact absurd h (by decide)
      · exact absurd h (by decide)
      · exact absurd h (by decide)
      · exact ht
      · exact absurd h (hev _ _ (by rfl)).2
      · exact absurd h (by decide)
    · intro ht
      exact (mem_exportHeader m _).mpr (Or.inr (Or.inr (Or.inr (Or.inr (Or.inr (Or.inl
        ⟨ht, Or.inr rfl⟩))))))
  · intro E Ei Ev stof floatOfBytes inMesh ccw m2 hE hload
    rw [htext] at hload
    obtain ⟨r, hl, -, -, -, -, -, -, -, m1, -, -, hnf, hm2⟩ :=
      LoadFromPLY_ok_parts E Ei Ev stof floatOfBytes _ inMesh ccw m2 hload
    have hd := Load_declares "format ascii 1.0".data (exportHeader m) "end_header".data
      (exportBody fmt m ib) (by decide) (exportHeader_lines m) (by decide) stof floatOfBytes
      ccw r hl
    obtain ⟨-, -, -, -, hdn, hdt⟩ := hd
    rw [hE] at hnf hm2
    obtain ⟨hp1, hp2⟩ := SetVertexData_presence Ev m1 _ _ hnf
    rw [hm2] at hp1 hp2
    obtain ⟨hr1, hr2⟩ := @MakeVBReader_declares F _ r.hasNormals r.hasTexcoords r.vertices
    rw [hr1] at hp1
    rw [hr2] at hp2
    rw [hp1, hp2]
    exact ⟨Bool.eq_iff_iff.mpr (hdn.trans (exportHeader_normals m)),
      Bool.eq_iff_iff.mpr (hdt.trans (exportHeader_texcoords m))⟩

theorem ExportToPLY_declares_witness :
    ExportToPLY sampleFmt true true true ridgeMesh
      = (S_OK, some (plyText ("ply".data :: "format ascii 1.0".data :: exportHeader ridgeMesh
          ++ ["end_header".data]) ++ exportBody sampleFmt ridgeMesh [0, 1, 2])) ∧
    exportHeader ridgeMesh
      = ["element vertex 3".data, "property float x".data, "property float y".data,
         "property float z".data, "property float nx".data, "property float ny".data,
         "property float nz".data, "element face 1".data,
         "property list uchar int vertex_indices".data] ∧
    ("property float nz".data ∈ exportHeader ridgeMesh ↔ ridgeMesh.mNormals.isSome = true) ∧
    ("property float v".data ∈ exportHeader ridgeMesh ↔ ridgeMesh.mTexCoords.isSome = true) ∧
    LoadFromPLY Env.ideal Env.ideal Env.ideal stoi (fun _ => (0 : Int))
        (ExportToPLY sampleFmt true true true ridgeMesh).2 none true = (S_OK, some ridgeMesh) ∧
    (ridgeMesh.mNormals.isSome = ridgeMesh.mNormals.isSome ∧
      ridgeMesh.mTexCoords.isSome = ridgeMesh.mTexCoords.isSome) :=
  ⟨(ExportToPLY_declares sampleFmt ridgeMesh [0, 1, 2] [⟨0, 0, 0⟩, ⟨1, 0, 0⟩, ⟨0, 1, 0⟩] rfl rfl
      (by decide) (by decide)).1,
    by decide,
    (ExportToPLY_declares sampleFmt ridgeMesh [0, 1, 2] [⟨0, 0, 0⟩, ⟨1, 0, 0⟩, ⟨0, 1, 0⟩] rfl rfl
      (by decide) (by decide)).2.2.2.2.2.2.1,
    (ExportToPLY_declares sampleFmt ridgeMesh [0, 1, 2] [⟨0, 0, 0⟩, ⟨1, 0, 0⟩, ⟨0, 1, 0⟩] rfl rfl
      (by decide) (by decide)).2.2.2.2.2.2.2.2.1,
    by decide,
    (ExportToPLY_declares sampleFmt ridgeMesh [0, 1, 2] [⟨0, 0, 0⟩, ⟨1, 0, 0⟩, ⟨0, 1, 0⟩] rfl rfl
      (by decide) (by decide)).2.2.2.2.2.2.2.2.2.2.2 Env.ideal Env.ideal Env.ideal stoi
      (fun _ => (0 : Int)) none true ridgeMesh rfl (by decide)⟩

/-- C38 (counterexample).  Loading the written file does not always yield a mesh: the file
written for a triangle with normals is not loaded when `new (std::nothrow) Mesh` fails, and
the file written for the same triangle followed by an unused face is rejected by the reader,
which cannot read the index `4294967295`. -/
theorem ExportToPLY_not_always_reloaded :
    (ExportToPLY sampleFmt true true true ridgeMesh).1 = S_OK ∧
    LoadFromPLY Env.exhausted Env.ideal Env.ideal stoi (fun _ => (0 : Int))
        (ExportToPLY sampleFmt true true true ridgeMesh).2 none true
      = (E_OUTOFMEMORY, none) ∧
    (ExportToPLY sampleFmt true true true gapMesh).1 = S_OK ∧
    LoadFromPLY Env.ideal Env.ideal Env.ideal stoi (fun _ => (0 : Int))
        (ExportToPLY sampleFmt true true true gapMesh).2 none true
      = (E_FAIL, none) := by
  decide

end UVAtlas
